import Mathlib

/-!
# sfwbar configuration front end (src/config.c)

A shallow embedding of the configuration parser of sfwbar.  The GLib lexer
(`GScanner`) is an external library: the embedding starts from the token
stream it delivers and models the part of the scanner state that config.c
reads and writes (current token, one token of lookahead, the
`max_parse_errors` flag that config.c uses as its "statement failed" flag,
and the messages handed to `g_message`).
-/

namespace Sfwbar

/-! ## Token codes -/

/-- GLib `GTokenType`: end of input. -/
abbrev G_TOKEN_EOF : Int := 0
/-- GLib `GTokenType`: no token (value of `next_token` when nothing is peeked). -/
abbrev G_TOKEN_NONE : Int := 256
/-- GLib `GTokenType`: integer number. -/
abbrev G_TOKEN_INT : Int := 261
/-- GLib `GTokenType`: floating point number. -/
abbrev G_TOKEN_FLOAT : Int := 263
/-- GLib `GTokenType`: string literal. -/
abbrev G_TOKEN_STRING : Int := 264
/-- GLib `GTokenType`: identifier. -/
abbrev G_TOKEN_IDENTIFIER : Int := 266
/-- GLib `GTokenType`: first code after the built-in ones. -/
abbrev G_TOKEN_LAST : Int := 270

/-- Token code of a single-character token, as in the C literals `'('`, `'='`. -/
abbrev tk (c : Char) : Int := Int.ofNat c.toNat

/-- A token as delivered by the GLib lexer: `scanner->token` with the member of
`scanner->value` that config.c reads for it (`v_string` / `v_identifier` in
`str`, `v_float` in `num`). -/
structure Token where
  code : Int
  str : String
  num : Rat
deriving DecidableEq, Repr

/-- The token the lexer returns at (and after) the end of the text. -/
def eofToken : Token := ⟨G_TOKEN_EOF, "", 0⟩

/-- The current token of a fresh scanner. -/
def noneToken : Token := ⟨G_TOKEN_NONE, "", 0⟩

/-- The part of `GScanner` used by config.c.  `input` holds the tokens not yet
consumed; `peeked` tells whether `next_token` is filled in. -/
structure GScanner where
  input : List Token
  peeked : Bool
  token : Token
  max_parse_errors : Bool
  messages : List String
deriving DecidableEq, Repr

/-- The token a peek or a get would deliver. -/
def GScanner.head (s : GScanner) : Token := s.input.headD eofToken

/-- Field `scanner->next_token`. -/
def GScanner.next_token (s : GScanner) : Int :=
  if s.peeked then s.head.code else G_TOKEN_NONE

/-- `g_scanner_peek_next_token`: fills `next_token`; its return value is
`GScanner.next_token` of the result. -/
def g_scanner_peek_next_token (s : GScanner) : GScanner :=
  { s with peeked := true }

/-- `g_scanner_get_next_token`: the next token becomes the current one; its
return value is `token.code` of the result. -/
def g_scanner_get_next_token (s : GScanner) : GScanner :=
  { s with token := s.head, input := s.input.tail, peeked := false }

/-- A scanner freshly set up on a token stream (`g_scanner_input_text` after
`scanner->max_parse_errors = FALSE`). -/
def g_scanner_new (toks : List Token) : GScanner :=
  ⟨toks, false, noneToken, false, []⟩

/-- `config_log_error` (config.c:13): the message handler.  A message is
surfaced by appending it to `messages` (the `file:line:` prefix is left out). -/
def config_log_error (scanner : GScanner) (message : String) (error : Bool) : GScanner :=
  if error then
    let s1 := if !scanner.max_parse_errors then
        { scanner with messages := scanner.messages ++ [message] }
      else scanner
    { s1 with max_parse_errors := true }
  else
    { scanner with messages := scanner.messages ++ [message] }

/-- `g_scanner_error`: formats the message and calls the message handler with
`is_error = TRUE` (the `parse_errors` counter it also bumps is never read). -/
def g_scanner_error (scanner : GScanner) (message : String) : GScanner :=
  config_log_error scanner message true

/-- `config_expect_token` (config.c:25): the scanner afterwards and the result. -/
def config_expect_token (scanner : GScanner) (token : Int) (errmsg : String) :
    GScanner × Bool :=
  let s := g_scanner_peek_next_token scanner
  if s.next_token = token then (s, true) else (g_scanner_error s errmsg, false)

/-- `config_optional_semicolon` (config.c:42). -/
def config_optional_semicolon (scanner : GScanner) : GScanner :=
  let s := g_scanner_peek_next_token scanner
  if s.next_token = tk ';' then g_scanner_get_next_token s else s

/-! ## The sequence engine -/

/-- Obligation of a step (`SEQ_END` is the end of the list). -/
inductive Req where
  | SEQ_OPT
  | SEQ_CON
  | SEQ_REQ
deriving DecidableEq, Repr

/-- One `(req, type, dest, err)` group of the variadic argument list.  `dest`
is the caller's variable the pointer refers to (`none` for `NULL`). -/
structure Step where
  req : Req
  type : Int
  dest : Option Nat
  err : Option String
deriving DecidableEq, Repr

/-- What a step stores through its `dest` pointer. -/
inductive DestVal where
  | str (v : String)
  | ident (v : String)
  | float (v : Rat)
  | int (v : Int)
  | token (v : Int)
  | flag
deriving DecidableEq, Repr

/-- The C cast `(gint)v` of a double whose integer part lies in the range of
the 32-bit `gint`: the fractional part is dropped.  Beyond that range the cast
is undefined in C and the value given here is not the one the code delivers;
what is proved about a narrowed number is stated for numbers in the range
(`gint_in_range`). -/
def gint_of_gdouble (v : Rat) : Int := Int.tdiv v.num v.den

/-- Whether the integer part of `v` lies in the range of the 32-bit `gint`, so
that the cast `(gint)v` is defined. -/
def gint_in_range (v : Rat) : Bool :=
  decide (-2147483648 ≤ gint_of_gdouble v) && decide (gint_of_gdouble v ≤ 2147483647)

/-- The position of the leading binary digit of `n`, counted from 0: the
largest `k` with `2 ^ k ≤ n` (0 for `n < 2`); the first argument bounds the
number of halvings. -/
def log2_upto : Nat → Nat → Nat
  | 0, _ => 0
  | f + 1, n => if n < 2 then 0 else log2_upto f (n / 2) + 1

/-- The quotient `n / d` rounded to the nearest integer, a tie going to the
even neighbour. -/
def round_half_even (n d : Nat) : Nat :=
  if 2 * (n % d) < d then n / d
  else if d < 2 * (n % d) then n / d + 1
  else if (n / d) % 2 = 0 then n / d else n / d + 1

/-- The double nearest to the positive rational `n / d`: a significand of 53
binary digits, round to nearest, ties to even (IEEE 754 binary64; the bounds of
the exponent are left out, so neither overflow nor subnormal numbers occur). -/
def gdouble_nearest_pos (n d : Nat) : Rat :=
  let a := log2_upto n n
  let b := log2_upto d d
  let k : Int := if d * 2 ^ a ≤ n * 2 ^ b then (a : Int) - b else (a : Int) - b - 1
  let e : Int := k - 52
  if 0 ≤ e then ((round_half_even n (d * 2 ^ e.toNat) : Nat) : Rat) * 2 ^ e.toNat
  else ((round_half_even (n * 2 ^ (-e).toNat) d : Nat) : Rat) / 2 ^ (-e).toNat

/-- The double nearest to a rational: the result that an arithmetic operation
on doubles delivers for the exact result `q`. -/
def gdouble_nearest (q : Rat) : Rat :=
  if q.num = 0 then 0
  else if 0 < q.num then gdouble_nearest_pos q.num.toNat q.den
  else -gdouble_nearest_pos q.num.natAbs q.den

/-- The product `a * b` of two doubles (config.c:700). -/
def gdouble_mul (a b : Rat) : Rat := gdouble_nearest (a * b)

/-- The quotient `a / b` of two doubles (config.c:925). -/
def gdouble_div (a b : Rat) : Rat := gdouble_nearest (a / b)

/-- The `switch(type)` that writes the destination (config.c:79). -/
def seq_store (type : Int) (t : Token) : DestVal :=
  if type = G_TOKEN_STRING then .str t.str
  else if type = G_TOKEN_IDENTIFIER then .ident t.str
  else if type = G_TOKEN_FLOAT then .float t.num
  else if type = G_TOKEN_INT then .int (gint_of_gdouble t.num)
  else if type = -1 then .token t.code
  else .flag

/-- Text of `g_scanner_error(scanner,"%s",err)`. -/
def seq_errmsg (err : Option String) : String := err.getD "(null)"

/-- Loop state of `config_parse_sequence`: the local `matched`, the scanner and
the writes made through destinations so far (oldest first). -/
structure SeqState where
  matched : Bool
  scanner : GScanner
  dests : List (Nat × DestVal)
deriving DecidableEq, Repr

/-- First disjunct of the condition at config.c:72, which is evaluated before
any peek. -/
def seq_wild (st : Step) (matched : Bool) : Bool :=
  st.type == -1 && (matched || st.req != Req.SEQ_CON)

/-- The whole condition at config.c:72-74 (`s` is the scanner after the peek of
the second disjunct, when that disjunct is reached). -/
def seq_cond (st : Step) (matched : Bool) (s : GScanner) : Bool :=
  seq_wild st matched || s.next_token == st.type ||
    (s.next_token == G_TOKEN_FLOAT && st.type == G_TOKEN_INT)

/-- Whether the non-matching step is passed over silently (config.c:101). -/
def seq_skip (st : Step) (matched : Bool) : Bool :=
  st.req == Req.SEQ_OPT || (st.req == Req.SEQ_CON && !matched)

/-- One iteration of the `while(req!=SEQ_END)` loop (config.c:67-106). -/
def seq_step (σ : SeqState) (st : Step) : SeqState :=
  let s1 := if seq_wild st σ.matched then σ.scanner
    else g_scanner_peek_next_token σ.scanner
  if seq_cond st σ.matched s1 then
    let s2 := g_scanner_get_next_token s1
    { matched := true
      scanner := s2
      dests := match st.dest with
        | some d => σ.dests ++ [(d, seq_store st.type s2.token)]
        | none => σ.dests }
  else if seq_skip st σ.matched then
    { σ with matched := false, scanner := s1 }
  else
    { σ with scanner := g_scanner_error s1 (seq_errmsg st.err) }

/-- Whether the iteration takes the `g_scanner_error` branch (config.c:104). -/
def seq_raises (σ : SeqState) (st : Step) : Bool :=
  let s1 := if seq_wild st σ.matched then σ.scanner
    else g_scanner_peek_next_token σ.scanner
  !seq_cond st σ.matched s1 && !seq_skip st σ.matched

/-- The loop over the argument groups. -/
def seq_run (steps : List Step) (σ : SeqState) : SeqState :=
  steps.foldl seq_step σ

/-- State at the loop head of `config_parse_sequence`: `matched = TRUE` and the
error flag cleared (config.c:62-64). -/
def seq_init (scanner : GScanner) : SeqState :=
  { matched := true, scanner := { scanner with max_parse_errors := false }, dests := [] }

/-- `config_parse_sequence` (config.c:55): the scanner afterwards and the
destination writes. -/
def config_parse_sequence (scanner : GScanner) (steps : List Step) :
    GScanner × List (Nat × DestVal) :=
  let σ := seq_run steps (seq_init scanner)
  (σ.scanner, σ.dests)

/-- Value of a caller variable after the writes: the last write to the slot. -/
def dest_lookup (dests : List (Nat × DestVal)) (slot : Nat) : Option DestVal :=
  (dests.reverse.find? (fun p => p.1 == slot)).map Prod.snd

/-- A `gchar *` variable initialised to `init` and passed as destination. -/
def dest_string (dests : List (Nat × DestVal)) (slot : Nat) (init : Option String) :
    Option String :=
  match dest_lookup dests slot with
  | some (.str v) => some v
  | some (.ident v) => some v
  | _ => init

/-- A `gint` variable initialised to `init` and passed as destination. -/
def dest_int (dests : List (Nat × DestVal)) (slot : Nat) (init : Int) : Int :=
  match dest_lookup dests slot with
  | some (.int v) => v
  | some (.token v) => v
  | some .flag => 1
  | _ => init

/-- A `gboolean` variable initialised to `init` and passed as destination. -/
def dest_bool (dests : List (Nat × DestVal)) (slot : Nat) (init : Bool) : Bool :=
  match dest_lookup dests slot with
  | some .flag => true
  | some (.int v) => v != 0
  | some (.token v) => v != 0
  | _ => init

/-- Shorthand for an argument group. -/
def seq (req : Req) (type : Int) (dest : Option Nat) (err : Option String) : Step :=
  ⟨req, type, dest, err⟩

/-- A string token. -/
def tString (v : String) : Token := ⟨G_TOKEN_STRING, v, 0⟩
/-- An identifier token. -/
def tIdent (v : String) : Token := ⟨G_TOKEN_IDENTIFIER, v, 0⟩
/-- A number token (the lexer is configured to deliver every number as float). -/
def tNum (v : Rat) : Token := ⟨G_TOKEN_FLOAT, "", v⟩
/-- A single-character token. -/
def tChar (c : Char) : Token := ⟨tk c, "", 0⟩
/-- A reserved-word token (`symbol_2_token`: the code is the symbol's value). -/
def tSym (code : Int) : Token := ⟨code, "", 0⟩

/-- The rectangle of a widget (`struct rect`). -/
structure Rect where
  x : Int
  y : Int
  w : Int
  h : Int
deriving DecidableEq, Repr

/-- Argument groups of `config_get_loc` (config.c:351); slots 0..3 are
`rect.x`, `rect.y`, `rect.w`, `rect.h`. -/
def config_get_loc_steps : List Step :=
  [ seq .SEQ_REQ (tk '(') none (some "missing '(' afer loc"),
    seq .SEQ_REQ G_TOKEN_INT (some 0) (some "missing x value in loc"),
    seq .SEQ_REQ (tk ',') none (some "missing comma afer x value in loc"),
    seq .SEQ_REQ G_TOKEN_INT (some 1) (some "missing y value in loc"),
    seq .SEQ_OPT (tk ',') none none,
    seq .SEQ_CON G_TOKEN_INT (some 2) (some "missing w value in loc"),
    seq .SEQ_OPT (tk ',') none none,
    seq .SEQ_CON G_TOKEN_INT (some 3) (some "missing h value in loc"),
    seq .SEQ_REQ (tk ')') none (some "missing ')' in loc statement"),
    seq .SEQ_OPT (tk ';') none none ]

/-- `config_get_loc` (config.c:343). -/
def config_get_loc (scanner : GScanner) : GScanner × Rect :=
  let r := config_parse_sequence scanner config_get_loc_steps
  (r.1, ⟨dest_int r.2 0 0, dest_int r.2 1 0, dest_int r.2 2 1, dest_int r.2 3 1⟩)

/-! ## Reserved words

Modelled from the spec: config.h, which declares the token codes of the
reserved words, is not among the sources.  The spec places the reserved words
above the code range of the lexer's own tokens; they are numbered here
consecutively, in the order of the reserved-word table that
`config_parse_data` registers (config.c:1261-1384), from `G_TOKEN_LAST + 50`. -/

/-- Modelled from the spec: code of the reserved word `Scanner` (config.h is absent). -/
abbrev G_TOKEN_SCANNER : Int := 320
/-- Modelled from the spec: code of the reserved word `Layout` (config.h is absent). -/
abbrev G_TOKEN_LAYOUT : Int := 321
/-- Modelled from the spec: code of the reserved word `Placer` (config.h is absent). -/
abbrev G_TOKEN_PLACER : Int := 322
/-- Modelled from the spec: code of the reserved word `Switcher` (config.h is absent). -/
abbrev G_TOKEN_SWITCHER : Int := 323
/-- Modelled from the spec: code of the reserved word `Define` (config.h is absent). -/
abbrev G_TOKEN_DEFINE : Int := 324
/-- Modelled from the spec: code of the reserved word `TriggerAction` (config.h is absent). -/
abbrev G_TOKEN_TRIGGERACTION : Int := 325
/-- Modelled from the spec: code of the reserved word `End` (config.h is absent). -/
abbrev G_TOKEN_END : Int := 326
/-- Modelled from the spec: code of the reserved word `File` (config.h is absent). -/
abbrev G_TOKEN_FILE : Int := 327
/-- Modelled from the spec: code of the reserved word `Exec` (config.h is absent). -/
abbrev G_TOKEN_EXEC : Int := 328
/-- Modelled from the spec: code of the reserved word `MpdClient` (config.h is absent). -/
abbrev G_TOKEN_MPDCLIENT : Int := 329
/-- Modelled from the spec: code of the reserved word `SwayClient` (config.h is absent). -/
abbrev G_TOKEN_SWAYCLIENT : Int := 330
/-- Modelled from the spec: code of the reserved word `ExecClient` (config.h is absent). -/
abbrev G_TOKEN_EXECCLIENT : Int := 331
/-- Modelled from the spec: code of the reserved word `SOcketClient` (config.h is absent). -/
abbrev G_TOKEN_SOCKETCLIENT : Int := 332
/-- Modelled from the spec: code of the reserved word `Number` (config.h is absent). -/
abbrev G_TOKEN_NUMBERW : Int := 333
/-- Modelled from the spec: code of the reserved word `String` (config.h is absent). -/
abbrev G_TOKEN_STRINGW : Int := 334
/-- Modelled from the spec: code of the reserved word `NoGlob` (config.h is absent). -/
abbrev G_TOKEN_NOGLOB : Int := 335
/-- Modelled from the spec: code of the reserved word `CheckTime` (config.h is absent). -/
abbrev G_TOKEN_CHTIME : Int := 336
/-- Modelled from the spec: code of the reserved word `Sum` (config.h is absent). -/
abbrev G_TOKEN_SUM : Int := 337
/-- Modelled from the spec: code of the reserved word `Product` (config.h is absent). -/
abbrev G_TOKEN_PRODUCT : Int := 338
/-- Modelled from the spec: code of the reserved word `Last` (config.h is absent). -/
abbrev G_TOKEN_LASTW : Int := 339
/-- Modelled from the spec: code of the reserved word `First` (config.h is absent). -/
abbrev G_TOKEN_FIRST : Int := 340
/-- Modelled from the spec: code of the reserved word `Grid` (config.h is absent). -/
abbrev G_TOKEN_GRID : Int := 341
/-- Modelled from the spec: code of the reserved word `Scale` (config.h is absent). -/
abbrev G_TOKEN_SCALE : Int := 342
/-- Modelled from the spec: code of the reserved word `Label` (config.h is absent). -/
abbrev G_TOKEN_LABEL : Int := 343
/-- Modelled from the spec: code of the reserved word `Button` (config.h is absent). -/
abbrev G_TOKEN_BUTTON : Int := 344
/-- Modelled from the spec: code of the reserved word `Image` (config.h is absent). -/
abbrev G_TOKEN_IMAGE : Int := 345
/-- Modelled from the spec: code of the reserved word `Include` (config.h is absent). -/
abbrev G_TOKEN_INCLUDE : Int := 346
/-- Modelled from the spec: code of the reserved word `TaskBar` (config.h is absent). -/
abbrev G_TOKEN_TASKBAR : Int := 347
/-- Modelled from the spec: code of the reserved word `Pager` (config.h is absent). -/
abbrev G_TOKEN_PAGER : Int := 348
/-- Modelled from the spec: code of the reserved word `Tray` (config.h is absent). -/
abbrev G_TOKEN_TRAY : Int := 349
/-- Modelled from the spec: code of the reserved word `Style` (config.h is absent). -/
abbrev G_TOKEN_STYLE : Int := 350
/-- Modelled from the spec: code of the reserved word `Css` (config.h is absent). -/
abbrev G_TOKEN_CSS : Int := 351
/-- Modelled from the spec: code of the reserved word `Interval` (config.h is absent). -/
abbrev G_TOKEN_INTERVAL : Int := 352
/-- Modelled from the spec: code of the reserved word `Value` (config.h is absent). -/
abbrev G_TOKEN_VALUE : Int := 353
/-- Modelled from the spec: code of the reserved word `Pins` (config.h is absent). -/
abbrev G_TOKEN_PINS : Int := 354
/-- Modelled from the spec: code of the reserved word `Preview` (config.h is absent). -/
abbrev G_TOKEN_PREVIEW : Int := 355
/-- Modelled from the spec: code of the reserved word `Cols` (config.h is absent). -/
abbrev G_TOKEN_COLS : Int := 356
/-- Modelled from the spec: code of the reserved word `Rows` (config.h is absent). -/
abbrev G_TOKEN_ROWS : Int := 357
/-- Modelled from the spec: code of the reserved word `Action` (config.h is absent). -/
abbrev G_TOKEN_ACTION : Int := 358
/-- Modelled from the spec: code of the reserved word `Display` (config.h is absent). -/
abbrev G_TOKEN_DISPLAY : Int := 359
/-- Modelled from the spec: code of the reserved word `Icons` (config.h is absent). -/
abbrev G_TOKEN_ICONS : Int := 360
/-- Modelled from the spec: code of the reserved word `Labels` (config.h is absent). -/
abbrev G_TOKEN_LABELS : Int := 361
/-- Modelled from the spec: code of the reserved word `Loc` (config.h is absent). -/
abbrev G_TOKEN_LOC : Int := 362
/-- Modelled from the spec: code of the reserved word `Numeric` (config.h is absent). -/
abbrev G_TOKEN_NUMERIC : Int := 363
/-- Modelled from the spec: code of the reserved word `Filter_output` (config.h is absent). -/
abbrev G_TOKEN_PEROUTPUT : Int := 364
/-- Modelled from the spec: code of the reserved word `Title_width` (config.h is absent). -/
abbrev G_TOKEN_TITLEWIDTH : Int := 365
/-- Modelled from the spec: code of the reserved word `Tooltip` (config.h is absent). -/
abbrev G_TOKEN_TOOLTIP : Int := 366
/-- Modelled from the spec: code of the reserved word `Trigger` (config.h is absent). -/
abbrev G_TOKEN_TRIGGER : Int := 367
/-- Modelled from the spec: code of the reserved word `XStep` (config.h is absent). -/
abbrev G_TOKEN_XSTEP : Int := 368
/-- Modelled from the spec: code of the reserved word `YStep` (config.h is absent). -/
abbrev G_TOKEN_YSTEP : Int := 369
/-- Modelled from the spec: code of the reserved word `XOrigin` (config.h is absent). -/
abbrev G_TOKEN_XORIGIN : Int := 370
/-- Modelled from the spec: code of the reserved word `YOrigin` (config.h is absent). -/
abbrev G_TOKEN_YORIGIN : Int := 371
/-- Modelled from the spec: code of the reserved word `Children` (config.h is absent). -/
abbrev G_TOKEN_CHILDREN : Int := 372
/-- Modelled from the spec: code of the reserved word `True` (config.h is absent). -/
abbrev G_TOKEN_TRUE : Int := 373
/-- Modelled from the spec: code of the reserved word `False` (config.h is absent). -/
abbrev G_TOKEN_FALSE : Int := 374
/-- Modelled from the spec: code of the reserved word `Menu` (config.h is absent). -/
abbrev G_TOKEN_MENU : Int := 375
/-- Modelled from the spec: code of the reserved word `MenuClear` (config.h is absent). -/
abbrev G_TOKEN_MENUCLEAR : Int := 376
/-- Modelled from the spec: code of the reserved word `PipeRead` (config.h is absent). -/
abbrev G_TOKEN_PIPEREAD : Int := 377
/-- Modelled from the spec: code of the reserved word `Config` (config.h is absent). -/
abbrev G_TOKEN_CONFIG : Int := 378
/-- Modelled from the spec: code of the reserved word `SwayCmd` (config.h is absent). -/
abbrev G_TOKEN_SWAYCMD : Int := 379
/-- Modelled from the spec: code of the reserved word `SwayWinCmd` (config.h is absent). -/
abbrev G_TOKEN_SWAYWIN : Int := 380
/-- Modelled from the spec: code of the reserved word `MpdCmd` (config.h is absent). -/
abbrev G_TOKEN_MPDCMD : Int := 381
/-- Modelled from the spec: code of the reserved word `UserState` (config.h is absent). -/
abbrev G_TOKEN_USERSTATE : Int := 382
/-- Modelled from the spec: code of the reserved word `IdleInhibit` (config.h is absent). -/
abbrev G_TOKEN_IDLEINHIBIT : Int := 383
/-- Modelled from the spec: code of the reserved word `SetValue` (config.h is absent). -/
abbrev G_TOKEN_SETVALUE : Int := 384
/-- Modelled from the spec: code of the reserved word `SetStyle` (config.h is absent). -/
abbrev G_TOKEN_SETSTYLE : Int := 385
/-- Modelled from the spec: code of the reserved word `SetTooltip` (config.h is absent). -/
abbrev G_TOKEN_SETTOOLTIP : Int := 386
/-- Modelled from the spec: code of the reserved word `Function` (config.h is absent). -/
abbrev G_TOKEN_FUNCTION : Int := 387
/-- Modelled from the spec: code of the reserved word `Focus` (config.h is absent). -/
abbrev G_TOKEN_FOCUS : Int := 388
/-- Modelled from the spec: code of the reserved word `Close` (config.h is absent). -/
abbrev G_TOKEN_CLOSE : Int := 389
/-- Modelled from the spec: code of the reserved word `Minimize` (config.h is absent). -/
abbrev G_TOKEN_MINIMIZE : Int := 390
/-- Modelled from the spec: code of the reserved word `Maximize` (config.h is absent). -/
abbrev G_TOKEN_MAXIMIZE : Int := 391
/-- Modelled from the spec: code of the reserved word `UnMinimize` (config.h is absent). -/
abbrev G_TOKEN_UNMINIMIZE : Int := 392
/-- Modelled from the spec: code of the reserved word `UnMaximize` (config.h is absent). -/
abbrev G_TOKEN_UNMAXIMIZE : Int := 393
/-- Modelled from the spec: code of the reserved word `SetMonitor` (config.h is absent). -/
abbrev G_TOKEN_SETMONITOR : Int := 394
/-- Modelled from the spec: code of the reserved word `SetLayer` (config.h is absent). -/
abbrev G_TOKEN_SETLAYER : Int := 395
/-- Modelled from the spec: code of the reserved word `SetBarSize` (config.h is absent). -/
abbrev G_TOKEN_SETBARSIZE : Int := 396
/-- Modelled from the spec: code of the reserved word `SetExclusiveZone` (config.h is absent). -/
abbrev G_TOKEN_SETEXCLUSIVEZONE : Int := 397
/-- Modelled from the spec: code of the reserved word `SetBarID` (config.h is absent). -/
abbrev G_TOKEN_SETBARID : Int := 398
/-- Modelled from the spec: code of the reserved word `ClientSend` (config.h is absent). -/
abbrev G_TOKEN_CLIENTSEND : Int := 399
/-- Modelled from the spec: code of the reserved word `Item` (config.h is absent). -/
abbrev G_TOKEN_ITEM : Int := 400
/-- Modelled from the spec: code of the reserved word `Separator` (config.h is absent). -/
abbrev G_TOKEN_SEPARATOR : Int := 401
/-- Modelled from the spec: code of the reserved word `SubMenu` (config.h is absent). -/
abbrev G_TOKEN_SUBMENU : Int := 402
/-- Modelled from the spec: code of the reserved word `Minimized` (config.h is absent). -/
abbrev G_TOKEN_MINIMIZED : Int := 403
/-- Modelled from the spec: code of the reserved word `Maximized` (config.h is absent). -/
abbrev G_TOKEN_MAXIMIZED : Int := 404
/-- Modelled from the spec: code of the reserved word `FullScreen` (config.h is absent). -/
abbrev G_TOKEN_FULLSCREEN : Int := 405
/-- Modelled from the spec: code of the reserved word `Focused` (config.h is absent). -/
abbrev G_TOKEN_FOCUSED : Int := 406
/-- Modelled from the spec: code of the reserved word `RegEx` (config.h is absent). -/
abbrev G_TOKEN_REGEX : Int := 407
/-- Modelled from the spec: code of the reserved word `Json` (config.h is absent). -/
abbrev G_TOKEN_JSON : Int := 408
/-- Modelled from the spec: code of the reserved word `Grab` (config.h is absent). -/
abbrev G_TOKEN_GRAB : Int := 409

/-- The reserved-word table registered by `config_parse_data`
(config.c:1261-1384), in registration order. -/
def reserved_words : List (String × Int) :=
  [("Scanner", G_TOKEN_SCANNER), ("Layout", G_TOKEN_LAYOUT), ("Placer", G_TOKEN_PLACER),
   ("Switcher", G_TOKEN_SWITCHER), ("Define", G_TOKEN_DEFINE),
   ("TriggerAction", G_TOKEN_TRIGGERACTION), ("End", G_TOKEN_END), ("File", G_TOKEN_FILE),
   ("Exec", G_TOKEN_EXEC), ("MpdClient", G_TOKEN_MPDCLIENT),
   ("SwayClient", G_TOKEN_SWAYCLIENT), ("ExecClient", G_TOKEN_EXECCLIENT),
   ("SOcketClient", G_TOKEN_SOCKETCLIENT), ("Number", G_TOKEN_NUMBERW),
   ("String", G_TOKEN_STRINGW), ("NoGlob", G_TOKEN_NOGLOB), ("CheckTime", G_TOKEN_CHTIME),
   ("Sum", G_TOKEN_SUM), ("Product", G_TOKEN_PRODUCT), ("Last", G_TOKEN_LASTW),
   ("First", G_TOKEN_FIRST), ("Grid", G_TOKEN_GRID), ("Scale", G_TOKEN_SCALE),
   ("Label", G_TOKEN_LABEL), ("Button", G_TOKEN_BUTTON), ("Image", G_TOKEN_IMAGE),
   ("Include", G_TOKEN_INCLUDE), ("TaskBar", G_TOKEN_TASKBAR), ("Pager", G_TOKEN_PAGER),
   ("Tray", G_TOKEN_TRAY), ("Style", G_TOKEN_STYLE), ("Css", G_TOKEN_CSS),
   ("Interval", G_TOKEN_INTERVAL), ("Value", G_TOKEN_VALUE), ("Pins", G_TOKEN_PINS),
   ("Preview", G_TOKEN_PREVIEW), ("Cols", G_TOKEN_COLS), ("Rows", G_TOKEN_ROWS),
   ("Action", G_TOKEN_ACTION), ("Display", G_TOKEN_DISPLAY), ("Icons", G_TOKEN_ICONS),
   ("Labels", G_TOKEN_LABELS), ("Loc", G_TOKEN_LOC), ("Numeric", G_TOKEN_NUMERIC),
   ("Filter_output", G_TOKEN_PEROUTPUT), ("Title_width", G_TOKEN_TITLEWIDTH),
   ("Tooltip", G_TOKEN_TOOLTIP), ("Trigger", G_TOKEN_TRIGGER), ("XStep", G_TOKEN_XSTEP),
   ("YStep", G_TOKEN_YSTEP), ("XOrigin", G_TOKEN_XORIGIN), ("YOrigin", G_TOKEN_YORIGIN),
   ("Children", G_TOKEN_CHILDREN), ("True", G_TOKEN_TRUE), ("False", G_TOKEN_FALSE),
   ("Menu", G_TOKEN_MENU), ("MenuClear", G_TOKEN_MENUCLEAR), ("PipeRead", G_TOKEN_PIPEREAD),
   ("Config", G_TOKEN_CONFIG), ("SwayCmd", G_TOKEN_SWAYCMD), ("SwayWinCmd", G_TOKEN_SWAYWIN),
   ("MpdCmd", G_TOKEN_MPDCMD), ("UserState", G_TOKEN_USERSTATE),
   ("IdleInhibit", G_TOKEN_IDLEINHIBIT), ("SetValue", G_TOKEN_SETVALUE),
   ("SetStyle", G_TOKEN_SETSTYLE), ("SetTooltip", G_TOKEN_SETTOOLTIP),
   ("Function", G_TOKEN_FUNCTION), ("Focus", G_TOKEN_FOCUS), ("Close", G_TOKEN_CLOSE),
   ("Minimize", G_TOKEN_MINIMIZE), ("Maximize", G_TOKEN_MAXIMIZE),
   ("UnMinimize", G_TOKEN_UNMINIMIZE), ("UnMaximize", G_TOKEN_UNMAXIMIZE),
   ("SetMonitor", G_TOKEN_SETMONITOR), ("SetLayer", G_TOKEN_SETLAYER),
   ("SetBarSize", G_TOKEN_SETBARSIZE), ("SetExclusiveZone", G_TOKEN_SETEXCLUSIVEZONE),
   ("SetBarID", G_TOKEN_SETBARID), ("ClientSend", G_TOKEN_CLIENTSEND), ("Item", G_TOKEN_ITEM),
   ("Separator", G_TOKEN_SEPARATOR), ("SubMenu", G_TOKEN_SUBMENU),
   ("Minimized", G_TOKEN_MINIMIZED), ("Maximized", G_TOKEN_MAXIMIZED),
   ("FullScreen", G_TOKEN_FULLSCREEN), ("Focused", G_TOKEN_FOCUSED), ("RegEx", G_TOKEN_REGEX),
   ("Json", G_TOKEN_JSON), ("Grab", G_TOKEN_GRAB)]

/-! ## Strings and heap blocks

A `gchar *` is modelled by the characters before its terminating NUL. -/

/-- A block returned by `g_malloc`: a cell is `none` until it is written;
`fault` records a store outside the block. -/
structure Block where
  cells : List (Option Char)
  fault : Bool
deriving DecidableEq, Repr

/-- `g_malloc(n)`. -/
def g_malloc (n : Nat) : Block := ⟨List.replicate n none, false⟩

/-- The store `block[i] = c`. -/
def Block.store (b : Block) (i : Nat) (c : Char) : Block :=
  if i < b.cells.length then { b with cells := b.cells.set i (some c) }
  else { b with fault := true }

/-- The C string at the start of the block: the characters before the first
NUL (reading stops at a cell that was never written). -/
def Block.c_str (b : Block) : String :=
  String.mk ((b.cells.takeWhile (fun c => c != none && c != some (Char.ofNat 0))).filterMap id)

/-- `memcpy(block + k, src, strlen(src))`. -/
def memcpy_at : Block → Nat → List Char → Block
  | b, _, [] => b
  | b, k, c :: cs => memcpy_at (b.store k c) (k + 1) cs

/-- First loop of `config_value_string` (config.c:374): `i` counts the
characters and `j` the double quotes. -/
def count_quotes : List Char → Nat × Nat → Nat × Nat
  | [], ij => ij
  | c :: cs, (i, j) => count_quotes cs (i + 1, if c = '"' then j + 1 else j)

/-- Second loop of `config_value_string` (config.c:381): copies the characters
to `result[l++]`, with a backslash stored before each double quote. -/
def escape_loop : List Char → Nat × Block → Nat × Block
  | [], lb => lb
  | c :: cs, (l, b) =>
    if c = '"' then escape_loop cs (l + 2, (b.store l '\\').store (l + 1) c)
    else escape_loop cs (l + 1, b.store l c)

/-- The block that `config_value_string` allocates and fills (config.c:367). -/
def config_value_string_block (dest string : String) : Block :=
  let l := dest.length
  let ij := count_quotes string.data (0, 0)
  let result := g_malloc (l + ij.1 + ij.2 + 3)
  let result := memcpy_at result 0 dest.data
  let result := result.store l '"'
  let lb := escape_loop string.data (l + 1, result)
  let result := lb.2.store lb.1 '"'
  result.store (lb.1 + 1) (Char.ofNat 0)

/-- `config_value_string` (config.c:367): the returned string. -/
def config_value_string (dest string : String) : String :=
  (config_value_string_block dest string).c_str

/-- Octal digit test of the lexer's escape handling. -/
def is_octal (c : Char) : Bool := '0' ≤ c && c ≤ '7'

/-- The escape `\c` as GLib's lexer reads it inside a double-quoted literal
(`g_scanner_get_token_ll`): the escaped character and the rest of the text. -/
def lex_escape (c : Char) (rest : List Char) : Char × List Char :=
  if c = '\\' then ('\\', rest)
  else if c = 'n' then ('\n', rest)
  else if c = 't' then ('\t', rest)
  else if c = 'r' then ('\r', rest)
  else if c = 'b' then (Char.ofNat 8, rest)
  else if c = 'f' then (Char.ofNat 12, rest)
  else if is_octal c then
    match rest with
    | d1 :: rest1 =>
      if is_octal d1 then
        match rest1 with
        | d2 :: rest2 =>
          if is_octal d2 then
            (Char.ofNat ((((c.toNat - 48) * 8 + (d1.toNat - 48)) * 8 + (d2.toNat - 48)) % 256),
              rest2)
          else (Char.ofNat ((c.toNat - 48) * 8 + (d1.toNat - 48)), rest1)
        | [] => (Char.ofNat ((c.toNat - 48) * 8 + (d1.toNat - 48)), rest1)
      else (Char.ofNat (c.toNat - 48), rest)
    | [] => (Char.ofNat (c.toNat - 48), rest)
  else (c, rest)

/-- Body of a double-quoted literal as GLib's lexer reads it, after the opening
quote: the content collected up to the closing quote and the text after it;
`none` when the text ends before a closing quote. -/
def lex_string_body : Nat → List Char → List Char → Option (List Char × List Char)
  | 0, _, _ => none
  | _ + 1, [], _ => none
  | n + 1, c :: cs, acc =>
    if c = '"' then some (acc, cs)
    else if c = '\\' then
      match cs with
      | [] => none
      | e :: rest =>
        let r := lex_escape e rest
        lex_string_body n r.2 (acc ++ [r.1])
    else lex_string_body n cs (acc ++ [c])

/-- Re-lexing a text as exactly one double-quoted string literal: the content
of the literal, or `none` when the text is not one complete literal. -/
def relex_string_literal (text : String) : Option String :=
  match text.data with
  | '"' :: cs =>
    match lex_string_body (cs.length + 1) cs [] with
    | some (content, []) => some (String.mk content)
    | _ => none
  | _ => none

/-! ## Collaborators outside config.c -/

/-- Library and host services the parser calls and whose results it uses. -/
structure Host where
  /-- GLib `g_ascii_dtostr`: the decimal rendering of a number. -/
  g_ascii_dtostr : Rat → String
  /-- The text of a configuration file, `none` when it cannot be found or read
  (`get_xdg_config_file` and `g_file_get_contents`). -/
  read_file : String → Option String
  /-- The token stream GLib's lexer delivers for a text, with the settings and
  the reserved-word table that `config_parse_data` installs. -/
  lex : String → List Token

/-- Modelled from the spec: `str_nequal`, the key comparison of the macro table
(absent from the sources); the spec calls the table case-sensitive. -/
def str_nequal (a b : String) : Bool := a == b

/-- The macro table `defines`: `none` until the first `Define` creates it. -/
abbrev Defines := Option (List (String × String))

/-- `g_hash_table_lookup(defines, key)`. -/
def defines_lookup (defines : Defines) (key : String) : Option String :=
  match defines with
  | none => none
  | some tbl => (tbl.find? (fun p => str_nequal p.1 key)).map Prod.snd

/-- `g_hash_table_insert(defines, key, value)`: an existing entry for the key
has its value replaced, otherwise the pair is added. -/
def defines_insert (tbl : List (String × String)) (key value : String) :
    List (String × String) :=
  if tbl.any (fun p => str_nequal p.1 key) then
    tbl.map (fun p => if str_nequal p.1 key then (p.1, value) else p)
  else tbl ++ [(key, value)]

/-- Why a run of the parser does not come back: the fuel of the model is used
up, `exit(1)` is called, a NULL pointer is written through, or a pointer that
was never initialised is handed to `g_free`. -/
inductive Halt where
  | fuel
  | exit
  | null_deref
  | wild_free
deriving DecidableEq, Repr

deriving instance DecidableEq for Except

/-- The string `buf` built from `buf[0] = scanner->token; buf[1] = 0`
(config.c:454): the low byte of the token code. -/
def token_char_string (code : Int) : String :=
  if code % 256 = 0 then "" else String.singleton (Char.ofNat (code % 256).toNat)

/-- The `switch` in the loop of `config_get_value` (config.c:432): the value
after appending the fragment of the token just read. -/
def value_append (h : Host) (defines : Defines) (value : String) (t : Token) : String :=
  if t.code = G_TOKEN_STRING then config_value_string value t.str
  else if t.code = G_TOKEN_IDENTIFIER then
    match defines_lookup defines t.str with
    | some v => value ++ v
    | none => value ++ t.str
  else if t.code = G_TOKEN_FLOAT then value ++ h.g_ascii_dtostr t.num
  else value ++ token_char_string t.code

/-- The loop condition of `config_get_value` (config.c:426). -/
def value_continues (next_token : Int) : Bool :=
  decide (next_token ≤ G_TOKEN_SCANNER) && next_token != tk '}' && next_token != tk ';' &&
    next_token != tk '[' && next_token != G_TOKEN_EOF

/-- The `while` loop of `config_get_value` (config.c:426-461), entered after
the peek at line 425. -/
def value_loop (h : Host) (defines : Defines) :
    Nat → GScanner → String → Except Halt (GScanner × String)
  | 0, _, _ => .error .fuel
  | n + 1, s, value =>
    if value_continues s.next_token then
      let s1 := g_scanner_get_next_token s
      value_loop h defines n (g_scanner_peek_next_token s1) (value_append h defines value s1.token)
    else .ok (s, value)

/-- `config_get_value` (config.c:394).  `id` tells whether a key destination is
passed; the result is the scanner, the returned value (`none` for `NULL`) and
the string stored through `id`, if any. -/
def config_get_value (h : Host) (defines : Defines) (scanner : GScanner) (prop : String)
    (assign : Bool) (id : Bool) : Except Halt (GScanner × Option String × Option String) :=
  let s0 := { scanner with max_parse_errors := false }
  let r := if assign then config_expect_token s0 (tk '=') ("expecting " ++ prop ++ " = expression")
    else (s0, true)
  if !r.2 then .ok (r.1, none, none)
  else
    let s1 := if assign then g_scanner_get_next_token r.1 else r.1
    let s2 := if id then g_scanner_peek_next_token s1 else s1
    let start : GScanner × String × Option String :=
      if id && s2.next_token == G_TOKEN_STRING then
        let s3 := g_scanner_get_next_token s2
        let temp := s3.token.str
        let s4 := g_scanner_peek_next_token s3
        if s4.next_token = tk ',' then (g_scanner_get_next_token s4, "", some temp)
        else (s4, config_value_string "" temp, none)
      else (s2, "", none)
    let s5 := g_scanner_peek_next_token start.1
    match value_loop h defines (s5.input.length + 1) s5 start.2.1 with
    | .error e => .error e
    | .ok (s6, value) => .ok (config_optional_semicolon s6, some value, start.2.2)

/-- The text with a backslash put before each double quote: what
`escape_loop` is checked against. -/
def backslash_quotes : List Char → List Char
  | [] => []
  | c :: cs => if c = '"' then '\\' :: c :: backslash_quotes cs else c :: backslash_quotes cs

/-- A block whose first cells hold `pre` and whose remaining `n` cells were
never written. -/
def Block.written (pre : List Char) (n : Nat) : Block :=
  ⟨pre.map some ++ List.replicate n none, false⟩

/-! ## Data sources (`Scanner` block) -/

/-- Modelled from the spec: the source kinds `SO_FILE`, `SO_EXEC`, `SO_CLIENT`
of sfwbar.h (absent): file, exec and typed client sources. -/
inductive Source where
  | SO_FILE
  | SO_EXEC
  | SO_CLIENT
deriving DecidableEq, Repr

/-- Modelled from the spec: flag bit `VF_CHTIME` of sfwbar.h (absent),
watch-modification-time. -/
abbrev VF_CHTIME : Nat := 1
/-- Modelled from the spec: flag bit `VF_NOGLOB` of sfwbar.h (absent),
disable-glob-expansion. -/
abbrev VF_NOGLOB : Nat := 2

/-- An action descriptor (`action_t`). -/
structure Action where
  cond : Nat
  ncond : Nat
  type : Int
  addr : Option String
  command : Option String
deriving DecidableEq, Repr

/-- An entry of a menu under construction. -/
inductive MenuEntry where
  | item (label : Option String) (action : Action)
  | separator
  | submenu (name : Option String) (entries : List MenuEntry)
deriving Repr

mutual
/-- Equality of menu entries is decidable. -/
def MenuEntry.decEq : (a b : MenuEntry) → Decidable (a = b)
  | .item l a, .item l' a' =>
    if h : l = l' ∧ a = a' then isTrue (by rw [h.1, h.2])
    else isFalse (by intro e; injection e with e1 e2; exact h ⟨e1, e2⟩)
  | .separator, .separator => isTrue rfl
  | .submenu n es, .submenu n' es' =>
    match (inferInstance : Decidable (n = n')), MenuEntry.decEqList es es' with
    | isTrue h1, isTrue h2 => isTrue (by rw [h1, h2])
    | isFalse h1, _ => isFalse (by intro e; injection e with e1 e2; exact h1 e1)
    | _, isFalse h2 => isFalse (by intro e; injection e with e1 e2; exact h2 e2)
  | .item .., .separator => isFalse (by intro e; cases e)
  | .item .., .submenu .. => isFalse (by intro e; cases e)
  | .separator, .item .. => isFalse (by intro e; cases e)
  | .separator, .submenu .. => isFalse (by intro e; cases e)
  | .submenu .., .item .. => isFalse (by intro e; cases e)
  | .submenu .., .separator => isFalse (by intro e; cases e)
/-- Equality of lists of menu entries is decidable. -/
def MenuEntry.decEqList : (a b : List MenuEntry) → Decidable (a = b)
  | [], [] => isTrue rfl
  | [], _ :: _ => isFalse (by intro e; cases e)
  | _ :: _, [] => isFalse (by intro e; cases e)
  | a :: as, b :: bs =>
    match MenuEntry.decEq a b, MenuEntry.decEqList as bs with
    | isTrue h1, isTrue h2 => isTrue (by rw [h1, h2])
    | isFalse h1, _ => isFalse (by intro e; injection e with e1 e2; exact h1 e1)
    | _, isFalse h2 => isFalse (by intro e; injection e with e1 e2; exact h2 e2)
end

instance : DecidableEq MenuEntry := MenuEntry.decEq

/-- GTK class of a widget object created by the parser. -/
inductive GtkClass where
  | grid
  | label
  | button
  | progress_bar
  | scale_image
  | flow_grid
deriving DecidableEq, Repr

/-- A widget object: its class and the number that identifies it. -/
structure GtkWidget where
  cls : GtkClass
  handle : Nat
deriving DecidableEq, Repr

/-- A widget descriptor (`widget_t`), with the fields config.c uses. -/
structure Widget where
  wtype : Int
  widget : Option GtkWidget
  id : Option String
  style : Option String
  css : Option String
  value : Option String
  tooltip : Option String
  trigger : Option String
  interval : Int
  actions : List (Option Action)
  rect : Rect
deriving DecidableEq, Repr

/-- A call into another compilation unit, with its arguments. -/
inductive Event where
  | scanner_file_new (source : Source) (fname trigger : Option String) (flags : Nat)
  | scanner_var_attach (vname : Option String) (file : Option Nat) (pattern : Option String)
      (type flag : Int)
  | mpd_ipc_init (file : Option Nat)
  | sway_ipc_client_init (file : Option Nat)
  | client_exec (file : Option Nat)
  | client_socket (file : Option Nat)
  | pager_add_pin (pin : String)
  | pager_set_preview (v : Bool)
  | pager_set_numeric (v : Bool)
  | flow_grid_set_cols (w : Option GtkWidget) (n : Int)
  | flow_grid_set_rows (w : Option GtkWidget) (n : Int)
  | g_object_set_data (w : Option GtkWidget) (key : String) (v : Int)
  | layout_widget_config (lw : Widget) (parent : Option GtkWidget)
  | layout_widget_attach (lw : Widget)
  | layout_widget_free (lw : Widget)
  | bar_grid_by_name (name : Option String)
  | gtk_widget_set_name (w : Option GtkWidget) (name : String)
  | widget_set_css (w : Option GtkWidget)
  | switcher_config (cols : Int) (css : Option String) (interval : Int) (icons labels : Bool)
      (twidth : Int)
  | placer_config (wp_x wp_y wo_x wo_y : Int) (pid : Bool)
  | layout_menu_add (name : Option String) (entries : List MenuEntry)
  | action_function_add (name : Option String) (actions : List Action)
  | action_trigger_add (action : Action) (trigger : Option String)
  | css_provider_load (css : String)
deriving DecidableEq, Repr

/-- State outside the scanner: the macro table `defines`, the menu registry
behind `layout_menu_get` / `layout_menu_add`, the calls made into other
compilation units (oldest first) and the number of widget objects created. -/
structure Globals where
  defines : Defines
  menus : List (Option String × List MenuEntry)
  events : List Event
  widgets : Nat
deriving DecidableEq

/-- The state at program start. -/
def Globals.init : Globals := ⟨none, [], [], 0⟩

/-- Records a call into another compilation unit. -/
def Globals.emit (g : Globals) (e : Event) : Globals := { g with events := g.events ++ [e] }

/-- Number of `scanner_file_new` calls so far: the handle of the next source. -/
def Globals.files (g : Globals) : Nat :=
  (g.events.filter (fun e => match e with | .scanner_file_new .. => true | _ => false)).length

/-- Argument groups of the first call in `config_scanner_var` (config.c:188);
slot 0 is `vname`, slot 2 is `type`. -/
def scanner_var_steps1 : List Step :=
  [ seq .SEQ_REQ G_TOKEN_IDENTIFIER (some 0) none,
    seq .SEQ_REQ (tk '=') none (some "Missing '=' in variable declaration"),
    seq .SEQ_REQ (-1) (some 2) none,
    seq .SEQ_REQ (tk '(') none (some "Missing '(' after parser") ]

/-- Argument groups of the pattern call in `config_scanner_var` (config.c:202);
slot 1 is `pattern`, slot 3 is `flag`. -/
def scanner_var_steps2 : List Step :=
  [ seq .SEQ_REQ G_TOKEN_STRING (some 1) (some "Missing pattern in parser"),
    seq .SEQ_OPT (tk ',') none none,
    seq .SEQ_CON (-1) (some 3) none ]

/-- Argument groups of the closing call in `config_scanner_var` (config.c:224). -/
def scanner_var_steps3 : List Step :=
  [ seq .SEQ_REQ (tk ')') none (some "Missing ')' after parser"),
    seq .SEQ_OPT (tk ';') none none ]

/-- `config_scanner_var` (config.c:182). -/
def config_scanner_var (scanner : GScanner) (g : Globals) (file : Option Nat) :
    GScanner × Globals :=
  let r1 := config_parse_sequence scanner scanner_var_steps1
  let vname := dest_string r1.2 0 none
  let type := dest_int r1.2 2 0
  if r1.1.max_parse_errors then (r1.1, g)
  else
    let r2 : GScanner × Option String × Int :=
      if type = G_TOKEN_REGEX ∨ type = G_TOKEN_JSON then
        let r := config_parse_sequence r1.1 scanner_var_steps2
        (r.1, dest_string r.2 1 none, dest_int r.2 3 G_TOKEN_LASTW)
      else if type = G_TOKEN_GRAB then
        let s := g_scanner_peek_next_token r1.1
        if s.next_token ≥ G_TOKEN_SUM ∧ s.next_token ≤ G_TOKEN_FIRST then
          let s' := g_scanner_get_next_token s
          (s', none, s'.token.code)
        else (s, none, G_TOKEN_LASTW)
      else
        (g_scanner_error r1.1 ("invalid parser for variable " ++ vname.getD "(null)"),
          none, G_TOKEN_LASTW)
    if r2.1.max_parse_errors then (r2.1, g)
    else
      let r3 := config_parse_sequence r2.1 scanner_var_steps3
      (r3.1, g.emit (.scanner_var_attach vname file r2.2.1 type r2.2.2))

/-- Argument groups for a file source (config.c:241); slot 0 is `fname`,
slots 2 and 3 are `flag1` and `flag2`. -/
def scanner_source_steps_file : List Step :=
  [ seq .SEQ_REQ (tk '(') none (some "Missing '(' after source"),
    seq .SEQ_REQ G_TOKEN_STRING (some 0) (some "Missing file in a source"),
    seq .SEQ_OPT (tk ',') none none,
    seq .SEQ_CON (-1) (some 2) none,
    seq .SEQ_OPT (tk ',') none none,
    seq .SEQ_CON (-1) (some 3) none,
    seq .SEQ_REQ (tk ')') none (some "Missing ')' after source"),
    seq .SEQ_REQ (tk '{') none (some "Missing '\x7b' after source") ]

/-- Argument groups for a client source (config.c:253); slot 1 is `trigger`. -/
def scanner_source_steps_client : List Step :=
  [ seq .SEQ_REQ (tk '(') none (some "Missing '(' after source"),
    seq .SEQ_REQ G_TOKEN_STRING (some 0) (some "Missing file in a source"),
    seq .SEQ_OPT (tk ',') none none,
    seq .SEQ_CON G_TOKEN_STRING (some 1) none,
    seq .SEQ_REQ (tk ')') none (some "Missing ')' after source"),
    seq .SEQ_REQ (tk '{') none (some "Missing '\x7b' after source") ]

/-- Argument groups for the other sources (config.c:263). -/
def scanner_source_steps_default : List Step :=
  [ seq .SEQ_REQ (tk '(') none (some "Missing '(' after source"),
    seq .SEQ_REQ G_TOKEN_STRING (some 0) (some "Missing file in a source"),
    seq .SEQ_REQ (tk ')') none (some "Missing ')' after source"),
    seq .SEQ_REQ (tk '{') none (some "Missing '\x7b' after source") ]

/-- Argument groups of the closing call in `config_scanner_source`
(config.c:290). -/
def scanner_source_steps_close : List Step :=
  [ seq .SEQ_REQ (tk '}') none (some "Expecting a variable declaration or '\x7d'"),
    seq .SEQ_OPT (tk ';') none none ]

/-- The loop `while(peek == G_TOKEN_IDENTIFIER) config_scanner_var(...)`
(config.c:287). -/
def scanner_var_loop : Nat → GScanner → Globals → Option Nat → Except Halt (GScanner × Globals)
  | 0, _, _, _ => .error .fuel
  | n + 1, s, g, file =>
    let s1 := g_scanner_peek_next_token s
    if s1.next_token = G_TOKEN_IDENTIFIER then
      let r := config_scanner_var s1 g file
      scanner_var_loop n r.1 r.2 file
    else .ok (s1, g)

/-- `config_scanner_source` (config.c:232): the returned source handle is
`none` for `NULL`. -/
def config_scanner_source (scanner : GScanner) (g : Globals) (source : Source) :
    Except Halt (GScanner × Globals × Option Nat) :=
  let r := config_parse_sequence scanner
    (match source with
      | .SO_FILE => scanner_source_steps_file
      | .SO_CLIENT => scanner_source_steps_client
      | .SO_EXEC => scanner_source_steps_default)
  let fname := dest_string r.2 0 none
  let trigger := dest_string r.2 1 none
  let flag1 := dest_int r.2 2 0
  let flag2 := dest_int r.2 3 0
  if r.1.max_parse_errors then .ok (r.1, g, none)
  else
    let flags := (if flag1 = G_TOKEN_CHTIME ∨ flag2 = G_TOKEN_CHTIME then VF_CHTIME else 0) |||
      (if flag1 = G_TOKEN_NOGLOB ∨ flag2 = G_TOKEN_NOGLOB then VF_NOGLOB else 0)
    let file := g.files
    let g1 := g.emit (.scanner_file_new source fname trigger flags)
    match scanner_var_loop (r.1.input.length + 1) r.1 g1 (some file) with
    | .error e => .error e
    | .ok (s2, g2) =>
      let r3 := config_parse_sequence s2 scanner_source_steps_close
      .ok (r3.1, g2, some file)

/-- One pass of the `switch` in `config_scanner` (config.c:310), after the
token has been read. -/
def config_scanner_case (s : GScanner) (g : Globals) : Except Halt (GScanner × Globals) :=
  let c := s.token.code
  if c = G_TOKEN_FILE then
    (config_scanner_source s g .SO_FILE).map (fun r => (r.1, r.2.1))
  else if c = G_TOKEN_EXEC then
    (config_scanner_source s g .SO_EXEC).map (fun r => (r.1, r.2.1))
  else if c = G_TOKEN_MPDCLIENT then
    (config_scanner_source s g .SO_CLIENT).map (fun r => (r.1, r.2.1.emit (.mpd_ipc_init r.2.2)))
  else if c = G_TOKEN_SWAYCLIENT then
    (config_scanner_source s g .SO_CLIENT).map
      (fun r => (r.1, r.2.1.emit (.sway_ipc_client_init r.2.2)))
  else if c = G_TOKEN_EXECCLIENT then
    (config_scanner_source s g .SO_CLIENT).map (fun r => (r.1, r.2.1.emit (.client_exec r.2.2)))
  else if c = G_TOKEN_SOCKETCLIENT then
    (config_scanner_source s g .SO_CLIENT).map (fun r => (r.1, r.2.1.emit (.client_socket r.2.2)))
  else .ok (g_scanner_error s "Unexpected declaration in scanner", g)

/-- The `while` loop of `config_scanner` (config.c:307). -/
def config_scanner_loop : Nat → GScanner → Globals → Except Halt (GScanner × Globals)
  | 0, _, _ => .error .fuel
  | n + 1, s, g =>
    let s1 := g_scanner_peek_next_token s
    if s1.next_token ≠ tk '}' ∧ s1.next_token ≠ G_TOKEN_EOF then
      match config_scanner_case (g_scanner_get_next_token s1) g with
      | .error e => .error e
      | .ok (s2, g2) => config_scanner_loop n s2 g2
    else .ok (s1, g)

/-- `config_scanner` (config.c:298). -/
def config_scanner (scanner : GScanner) (g : Globals) : Except Halt (GScanner × Globals) :=
  let r := config_expect_token { scanner with max_parse_errors := false } (tk '{')
    "Missing '\x7b' after 'scanner'"
  if !r.2 then .ok (r.1, g)
  else
    let s1 := g_scanner_get_next_token r.1
    match config_scanner_loop (s1.input.length + 1) s1 g with
    | .error e => .error e
    | .ok (s2, g2) =>
      .ok (if s2.next_token = tk '}' then g_scanner_get_next_token s2 else s2, g2)

/-! ## Actions -/

/-- Modelled from the spec: window-state flag `WS_FOCUSED` of sfwbar.h (absent). -/
abbrev WS_FOCUSED : Nat := 1
/-- Modelled from the spec: window-state flag `WS_MINIMIZED` of sfwbar.h (absent). -/
abbrev WS_MINIMIZED : Nat := 2
/-- Modelled from the spec: window-state flag `WS_MAXIMIZED` of sfwbar.h (absent). -/
abbrev WS_MAXIMIZED : Nat := 4
/-- Modelled from the spec: window-state flag `WS_FULLSCREEN` of sfwbar.h (absent). -/
abbrev WS_FULLSCREEN : Nat := 8
/-- Modelled from the spec: window-state flag `WS_INHIBIT` of sfwbar.h (absent). -/
abbrev WS_INHIBIT : Nat := 16
/-- Modelled from the spec: window-state flag `WS_USERSTATE` of sfwbar.h (absent). -/
abbrev WS_USERSTATE : Nat := 32

/-- The flag a condition keyword stands for in `config_action_conditions`
(config.c:530), `none` for any other token. -/
def condition_flag (code : Int) : Option Nat :=
  if code = G_TOKEN_FOCUSED then some WS_FOCUSED
  else if code = G_TOKEN_MINIMIZED then some WS_MINIMIZED
  else if code = G_TOKEN_MAXIMIZED then some WS_MAXIMIZED
  else if code = G_TOKEN_FULLSCREEN then some WS_FULLSCREEN
  else if code = G_TOKEN_IDLEINHIBIT then some WS_INHIBIT
  else if code = G_TOKEN_USERSTATE then some WS_USERSTATE
  else none

/-- The `do ... while` loop of `config_action_conditions` (config.c:518-554);
`cond` and `ncond` are the two masks. -/
def conditions_loop : Nat → GScanner → Nat → Nat → Except Halt (GScanner × Nat × Nat)
  | 0, _, _, _ => .error .fuel
  | n + 1, s, cond, ncond =>
    let s1 := g_scanner_peek_next_token (g_scanner_get_next_token s)
    let negated := decide (s1.next_token = tk '!')
    let s2 := if negated then g_scanner_get_next_token s1 else s1
    let s3 := g_scanner_get_next_token s2
    let r : GScanner × Nat × Nat :=
      match condition_flag s3.token.code with
      | some f => if negated then (s3, cond, ncond ||| f) else (s3, cond ||| f, ncond)
      | none => (g_scanner_error s3 "invalid condition in action", cond, ncond)
    let s4 := g_scanner_peek_next_token r.1
    if s4.next_token = tk '|' then conditions_loop n s4 r.2.1 r.2.2
    else .ok (s4, r.2.1, r.2.2)

/-- `config_action_conditions` (config.c:510). -/
def config_action_conditions (scanner : GScanner) (cond ncond : Nat) :
    Except Halt (GScanner × Nat × Nat) :=
  let s := g_scanner_peek_next_token scanner
  if s.next_token ≠ tk '[' then .ok (s, cond, ncond)
  else
    match conditions_loop (s.input.length + 1) s cond ncond with
    | .error e => .error e
    | .ok (s1, c, nc) =>
      let s2 := g_scanner_get_next_token s1
      .ok (if s2.token.code ≠ tk ']' then
          g_scanner_error s2 "missing ']' in conditional action" else s2, c, nc)

/-- Action kinds that take no argument (config.c:574-580). -/
def action_kinds_plain : List Int :=
  [G_TOKEN_FOCUS, G_TOKEN_CLOSE, G_TOKEN_MINIMIZE, G_TOKEN_MAXIMIZE, G_TOKEN_UNMINIMIZE,
   G_TOKEN_UNMAXIMIZE]

/-- Action kinds that take one or two strings (config.c:581-596). -/
def action_kinds_string : List Int :=
  [G_TOKEN_EXEC, G_TOKEN_MENU, G_TOKEN_MENUCLEAR, G_TOKEN_PIPEREAD, G_TOKEN_SWAYCMD,
   G_TOKEN_SWAYWIN, G_TOKEN_MPDCMD, G_TOKEN_IDLEINHIBIT, G_TOKEN_USERSTATE, G_TOKEN_CONFIG,
   G_TOKEN_FUNCTION, G_TOKEN_SETBARID, G_TOKEN_SETMONITOR, G_TOKEN_SETLAYER,
   G_TOKEN_SETBARSIZE, G_TOKEN_SETEXCLUSIVEZONE]

/-- Argument groups of the string kinds (config.c:597); slot 0 is
`action->addr`, slot 1 is `action->command`. -/
def action_steps_string : List Step :=
  [ seq .SEQ_REQ G_TOKEN_STRING (some 0) (some "Missing argument in action"),
    seq .SEQ_OPT (tk ',') none none,
    seq .SEQ_CON G_TOKEN_STRING (some 1) (some "Missing argument after ','") ]

/-- Argument groups of `ClientSend` (config.c:609). -/
def action_steps_clientsend : List Step :=
  [ seq .SEQ_REQ G_TOKEN_STRING (some 0) (some "Missing address in action"),
    seq .SEQ_OPT (tk ',') none none,
    seq .SEQ_CON G_TOKEN_STRING (some 1) (some "Missing command in action") ]

/-- The `switch` of `config_action` (config.c:568-630), after the kind token
has been read into `scanner->token`. -/
def config_action_kind (h : Host) (defines : Defines) (s : GScanner) (a : Action) :
    Except Halt (GScanner × Action) :=
  let c := s.token.code
  if c = G_TOKEN_STRING then
    .ok (s, { a with command := some s.token.str, type := G_TOKEN_EXEC })
  else if c ∈ action_kinds_plain then .ok (s, a)
  else if c ∈ action_kinds_string then
    let r := config_parse_sequence s action_steps_string
    let addr := dest_string r.2 0 a.addr
    let command := dest_string r.2 1 a.command
    if command.isNone then .ok (r.1, { a with command := addr, addr := none })
    else .ok (r.1, { a with addr := addr, command := command })
  else if c = G_TOKEN_CLIENTSEND then
    let r := config_parse_sequence s action_steps_clientsend
    .ok (r.1, { a with addr := dest_string r.2 0 a.addr, command := dest_string r.2 1 a.command })
  else if c = G_TOKEN_SETVALUE ∨ c = G_TOKEN_SETSTYLE ∨ c = G_TOKEN_SETTOOLTIP then
    let prop := if c = G_TOKEN_SETVALUE then "action value"
      else if c = G_TOKEN_SETSTYLE then "action style" else "action tooltip"
    match config_get_value h defines s prop false true with
    | .error e => .error e
    | .ok (s1, value, id) =>
      .ok (s1, { a with command := value, addr := match id with | some k => some k | none => a.addr })
  else .ok (g_scanner_error s "invalid action", a)

/-- `config_action` (config.c:559): the returned descriptor is `none` for
`NULL`. -/
def config_action (h : Host) (defines : Defines) (scanner : GScanner) :
    Except Halt (GScanner × Option Action) :=
  match config_action_conditions scanner 0 0 with
  | .error e => .error e
  | .ok (s1, cond, ncond) =>
    let s2 := g_scanner_get_next_token s1
    let a : Action := ⟨cond, ncond, s2.token.code, none, none⟩
    match config_action_kind h defines s2 a with
    | .error e => .error e
    | .ok (s3, a3) => .ok (s3, if s3.max_parse_errors then none else some a3)

/-! ## Functions, macros and trigger bindings -/

/-- Argument groups of the header of `config_function` (config.c:1111); slot 0
is `name`. -/
def function_steps_head : List Step :=
  [ seq .SEQ_REQ (tk '(') none (some "missing '(' after 'function'"),
    seq .SEQ_REQ G_TOKEN_STRING (some 0) (some "missing function name"),
    seq .SEQ_REQ (tk ')') none (some "missing ')' afer 'function'"),
    seq .SEQ_REQ (tk '{') none (some "missing '\x7b' afer 'function'") ]

/-- Argument groups of the closing call of `config_function` (config.c:1131). -/
def function_steps_close : List Step :=
  [ seq .SEQ_REQ (tk '}') none (some "Expecting an action or '\x7d'"),
    seq .SEQ_OPT (tk ';') none none ]

/-- The `while` loop of `config_function` (config.c:1121-1129); `s` is the
scanner after the peek. -/
def function_loop (h : Host) (defines : Defines) :
    Nat → GScanner → List Action → Except Halt (GScanner × List Action)
  | 0, _, _ => .error .fuel
  | n + 1, s, actions =>
    if s.next_token ≠ G_TOKEN_EOF ∧ s.next_token ≠ tk '}' then
      match config_action h defines s with
      | .error e => .error e
      | .ok (s1, none) =>
        function_loop h defines n
          (g_scanner_peek_next_token (g_scanner_error s1 "invalid action")) actions
      | .ok (s1, some a) =>
        function_loop h defines n (g_scanner_peek_next_token s1) (actions ++ [a])
    else .ok (s, actions)

/-- `config_function` (config.c:1105). -/
def config_function (h : Host) (scanner : GScanner) (g : Globals) :
    Except Halt (GScanner × Globals) :=
  let r := config_parse_sequence scanner function_steps_head
  let name := dest_string r.2 0 none
  if r.1.max_parse_errors then .ok (r.1, g)
  else
    let s1 := g_scanner_peek_next_token r.1
    match function_loop h g.defines (s1.input.length + 1) s1 [] with
    | .error e => .error e
    | .ok (s2, actions) =>
      let r3 := config_parse_sequence s2 function_steps_close
      .ok (r3.1, g.emit (.action_function_add name actions))

/-- `config_define` (config.c:1139). -/
def config_define (h : Host) (scanner : GScanner) (g : Globals) :
    Except Halt (GScanner × Globals) :=
  let r := config_expect_token scanner G_TOKEN_IDENTIFIER "Missing identifier after 'define'"
  if !r.2 then .ok (r.1, g)
  else
    let s1 := g_scanner_get_next_token r.1
    let ident := s1.token.str
    match config_get_value h g.defines s1 "define" true false with
    | .error e => .error e
    | .ok (s2, none, _) => .ok (s2, g)
    | .ok (s2, some value, _) =>
      .ok (s2, { g with defines := some (defines_insert (g.defines.getD []) ident value) })

/-- Argument groups of `config_trigger_action` (config.c:1169); slot 0 is
`trigger`. -/
def trigger_action_steps : List Step :=
  [ seq .SEQ_REQ G_TOKEN_STRING (some 0) (some "missing trigger in TriggerAction"),
    seq .SEQ_REQ (tk ',') none (some "missing ',' in TriggerAction") ]

/-- `config_trigger_action` (config.c:1164).  The local `trigger` is declared
without a value (config.c:1166) and only the first step of the sequence writes
it: `trigger` is `none` while it is uninitialised.  The error return
`return g_free(trigger)` (config.c:1174) then frees a pointer that was never
set. -/
def config_trigger_action (h : Host) (scanner : GScanner) (g : Globals) :
    Except Halt (GScanner × Globals) :=
  let r := config_parse_sequence scanner trigger_action_steps
  let trigger := dest_string r.2 0 none
  if r.1.max_parse_errors then
    if trigger.isNone then .error .wild_free else .ok (r.1, g)
  else
    match config_action h g.defines r.1 with
    | .error e => .error e
    | .ok (s1, none) => .ok (s1, g)
    | .ok (s1, some a) =>
      .ok (config_optional_semicolon s1, g.emit (.action_trigger_add a trigger))

/-! ## Simple assignments -/

/-- `config_assign_boolean` (config.c:110). -/
def config_assign_boolean (scanner : GScanner) (default : Bool) (expr : String) :
    GScanner × Bool :=
  let r := config_expect_token { scanner with max_parse_errors := false } (tk '=')
    ("Missing '=' in " ++ expr ++ " = <boolean>")
  if !r.2 then (r.1, false)
  else
    let s1 := g_scanner_get_next_token (g_scanner_get_next_token r.1)
    let r2 : GScanner × Bool :=
      if s1.token.code = G_TOKEN_TRUE then (s1, true)
      else if s1.token.code = G_TOKEN_FALSE then (s1, false)
      else (g_scanner_error s1 ("Missing <boolean> in " ++ expr ++ " = <boolean>"), default)
    (config_optional_semicolon r2.1, r2.2)

/-- `config_assign_string` (config.c:137). -/
def config_assign_string (scanner : GScanner) (expr : String) : GScanner × Option String :=
  let r := config_expect_token { scanner with max_parse_errors := false } (tk '=')
    ("Missing '=' in " ++ expr ++ " = <string>")
  if !r.2 then (r.1, none)
  else
    let r2 := config_expect_token (g_scanner_get_next_token r.1) G_TOKEN_STRING
      ("Missing <string> in " ++ expr ++ " = <string>")
    if !r2.2 then (r2.1, none)
    else
      let s2 := g_scanner_get_next_token r2.1
      (config_optional_semicolon s2, some s2.token.str)

/-- `config_assign_number` (config.c:160). -/
def config_assign_number (scanner : GScanner) (expr : String) : GScanner × Rat :=
  let r := config_expect_token { scanner with max_parse_errors := false } (tk '=')
    ("Missing '=' in " ++ expr ++ " = <number>")
  if !r.2 then (r.1, 0)
  else
    let r2 := config_expect_token (g_scanner_get_next_token r.1) G_TOKEN_FLOAT
      ("Missing <number> in " ++ expr ++ " = <number>")
    if !r2.2 then (r2.1, 0)
    else
      let s2 := g_scanner_get_next_token r2.1
      (config_optional_semicolon s2, s2.token.num)

/-! ## Widgets -/

/-- The `GTK_IS_GRID` test.  For GTK's own classes the answer is fixed; for the
two classes defined elsewhere in sfwbar it is what the host says. -/
def GTK_IS_GRID (scale_image_is_grid flow_grid_is_grid : Bool) (w : Option GtkWidget) : Bool :=
  match w with
  | none => false
  | some ⟨.grid, _⟩ => true
  | some ⟨.scale_image, _⟩ => scale_image_is_grid
  | some ⟨.flow_grid, _⟩ => flow_grid_is_grid
  | some _ => false

/-- Compile-time and class facts that config.c takes from headers and from
other compilation units. -/
structure Build where
  /-- Size of the per-widget action table (`MAX_BUTTON`, sfwbar.h). -/
  MAX_BUTTON : Nat
  /-- Whether the scale image class derives from `GtkGrid`. -/
  scale_image_is_grid : Bool
  /-- Whether the flow grid class derives from `GtkGrid`. -/
  flow_grid_is_grid : Bool

/-- `layout_widget_new` (layout.c:11).  The fields `id`, `tooltip`, `trigger`
and `actions`, which that function does not mention, start out as `NULL`. -/
def layout_widget_new (b : Build) : Widget :=
  { wtype := 0, widget := none, id := none, style := none, css := none, value := none,
    tooltip := none, trigger := none, interval := 0,
    actions := List.replicate b.MAX_BUTTON none, rect := ⟨0, 0, 0, 0⟩ }

/-- Creation of a widget object of the given class (`gtk_grid_new`,
`gtk_label_new`, ...): the object and the updated state. -/
def Globals.new_widget (g : Globals) (cls : GtkClass) : GtkWidget × Globals :=
  (⟨cls, g.widgets⟩, { g with widgets := g.widgets + 1 })

/-- `config_get_pins`, the `do ... while` loop (config.c:476-484). -/
def pins_loop : Nat → GScanner → Globals → Except Halt (GScanner × Globals)
  | 0, _, _ => .error .fuel
  | n + 1, s, g =>
    let r := config_expect_token (g_scanner_get_next_token s) G_TOKEN_STRING
      "expecting a string in pins = string [,string]"
    if !r.2 then .ok (r.1, g)
    else
      let s1 := g_scanner_get_next_token r.1
      let g1 := g.emit (.pager_add_pin s1.token.str)
      let s2 := g_scanner_peek_next_token s1
      if s2.next_token = tk ',' then pins_loop n s2 g1 else .ok (s2, g1)

/-- `config_get_pins` (config.c:466). -/
def config_get_pins (scanner : GScanner) (g : Globals) (lw : Widget) :
    Except Halt (GScanner × Globals) :=
  let s0 := { scanner with max_parse_errors := false }
  if lw.wtype ≠ G_TOKEN_PAGER then
    .ok (g_scanner_error s0 "this widget has no property 'pins'", g)
  else
    let r := config_expect_token s0 (tk '=') "expecting pins = string [,string]"
    if !r.2 then .ok (r.1, g)
    else
      match pins_loop (r.1.input.length + 1) r.1 g with
      | .error e => .error e
      | .ok (s1, g1) => .ok (config_optional_semicolon s1, g1)

/-- `config_widget_cols` (config.c:488). -/
def config_widget_cols (scanner : GScanner) (g : Globals) (lw : Widget) : GScanner × Globals :=
  let s0 := { scanner with max_parse_errors := false }
  if lw.wtype ≠ G_TOKEN_TASKBAR ∧ lw.wtype ≠ G_TOKEN_PAGER ∧ lw.wtype ≠ G_TOKEN_TRAY then
    (g_scanner_error s0 "this widget has no property 'cols'", g)
  else
    let r := config_assign_number s0 "cols"
    (r.1, g.emit (.flow_grid_set_cols lw.widget (gint_of_gdouble r.2)))

/-- `config_widget_rows` (config.c:499). -/
def config_widget_rows (scanner : GScanner) (g : Globals) (lw : Widget) : GScanner × Globals :=
  let s0 := { scanner with max_parse_errors := false }
  if lw.wtype ≠ G_TOKEN_TASKBAR ∧ lw.wtype ≠ G_TOKEN_PAGER ∧ lw.wtype ≠ G_TOKEN_TRAY then
    (g_scanner_error s0 "this widget has no property 'rows'", g)
  else
    let r := config_assign_number s0 "rows"
    (r.1, g.emit (.flow_grid_set_rows lw.widget (gint_of_gdouble r.2)))

/-- Argument groups of `config_widget_action` (config.c:644); slot 0 is
`button`. -/
def widget_action_steps : List Step :=
  [ seq .SEQ_OPT (tk '[') none none,
    seq .SEQ_CON G_TOKEN_INT (some 0) (some "missing in action[<index>]"),
    seq .SEQ_CON (tk ']') none (some "missing closing ']' in action[<index>]"),
    seq .SEQ_REQ (tk '=') none (some "missing '=' after action") ]

/-- `config_widget_action` (config.c:640). -/
def config_widget_action (h : Host) (b : Build) (defines : Defines) (scanner : GScanner)
    (lw : Widget) : Except Halt (GScanner × Widget) :=
  let r := config_parse_sequence scanner widget_action_steps
  let button := dest_int r.2 0 1
  if r.1.max_parse_errors then .ok (r.1, lw)
  else if button < 0 ∨ button ≥ b.MAX_BUTTON then
    .ok (g_scanner_error r.1 ("invalid action index " ++ toString button), lw)
  else
    match config_action h defines r.1 with
    | .error e => .error e
    | .ok (s1, none) =>
      .ok (g_scanner_error s1 "invalid action",
        { lw with actions := lw.actions.set button.toNat none })
    | .ok (s1, some a) =>
      .ok (config_optional_semicolon s1,
        { lw with actions := lw.actions.set button.toNat (some a) })

/-- The `switch` in the loop of `config_widget_props` (config.c:684-776), after
the property token has been read. -/
def config_widget_prop (h : Host) (b : Build) (s : GScanner) (g : Globals) (lw : Widget) :
    Except Halt (GScanner × Globals × Widget) :=
  let c := s.token.code
  let is_grid := GTK_IS_GRID b.scale_image_is_grid b.flow_grid_is_grid lw.widget
  if c = G_TOKEN_STYLE then
    match config_get_value h g.defines s "style" true false with
    | .error e => .error e
    | .ok (s1, v, _) => .ok (s1, g, { lw with style := v })
  else if c = G_TOKEN_CSS then
    let r := config_assign_string s "css"
    .ok (r.1, g, { lw with css := r.2 })
  else if c = G_TOKEN_INTERVAL then
    if is_grid then .ok (g_scanner_error s "this widget has no property 'interval'", g, lw)
    else if lw.interval = 0 then
      .ok (g_scanner_error s "this widget already has a trigger", g, lw)
    else
      let r := config_assign_number s "interval"
      .ok (r.1, g, { lw with interval := gint_of_gdouble (gdouble_mul 1000 r.2) })
  else if c = G_TOKEN_TRIGGER then
    let r := config_assign_string s "trigger"
    .ok (r.1, g, { lw with interval := 0, trigger := r.2 })
  else if c = G_TOKEN_VALUE then
    if is_grid then .ok (g_scanner_error s "this widget has no property 'value'", g, lw)
    else
      match config_get_value h g.defines s "value" true false with
      | .error e => .error e
      | .ok (s1, v, _) => .ok (s1, g, { lw with value := v })
  else if c = G_TOKEN_TOOLTIP then
    if is_grid then .ok (g_scanner_error s "this widget has no property 'tooltip'", g, lw)
    else
      match config_get_value h g.defines s "tooltip" true false with
      | .error e => .error e
      | .ok (s1, v, _) => .ok (s1, g, { lw with tooltip := v })
  else if c = G_TOKEN_PINS then
    (config_get_pins s g lw).map (fun r => (r.1, r.2, lw))
  else if c = G_TOKEN_PREVIEW then
    if lw.wtype ≠ G_TOKEN_PAGER then
      .ok (g_scanner_error s "this widget has no property 'preview'", g, lw)
    else
      let r := config_assign_boolean s false "preview"
      .ok (r.1, g.emit (.pager_set_preview r.2), lw)
  else if c = G_TOKEN_NUMERIC then
    if lw.wtype ≠ G_TOKEN_PAGER then
      .ok (g_scanner_error s "this widget has no property 'numeric'", g, lw)
    else
      let r := config_assign_boolean s true "numeric"
      .ok (r.1, g.emit (.pager_set_numeric r.2), lw)
  else if c = G_TOKEN_PEROUTPUT then
    if lw.wtype = G_TOKEN_TASKBAR then
      let r := config_assign_boolean s false "filter_output"
      .ok (r.1, g.emit (.g_object_set_data lw.widget "filter_output" (if r.2 then 1 else 0)), lw)
    else .ok (g_scanner_error s "this widget has no property 'filter_output'", g, lw)
  else if c = G_TOKEN_TITLEWIDTH then
    if lw.wtype = G_TOKEN_TASKBAR then
      let r := config_assign_number s "title_width"
      .ok (r.1, g.emit (.g_object_set_data lw.widget "title_width" (gint_of_gdouble r.2)), lw)
    else .ok (g_scanner_error s "this widget has no property 'title_width'", g, lw)
  else if c = G_TOKEN_COLS then
    let r := config_widget_cols s g lw
    .ok (r.1, r.2, lw)
  else if c = G_TOKEN_ROWS then
    let r := config_widget_rows s g lw
    .ok (r.1, r.2, lw)
  else if c = G_TOKEN_ACTION then
    (config_widget_action h b g.defines s lw).map (fun r => (r.1, g, r.2))
  else if c = G_TOKEN_ICONS then
    let r := config_assign_boolean s false "icons"
    .ok (r.1, g.emit (.g_object_set_data lw.widget "icons" (if r.2 then 1 else 0)), lw)
  else if c = G_TOKEN_LABELS then
    let r := config_assign_boolean s false "labels"
    .ok (r.1, g.emit (.g_object_set_data lw.widget "labels" (if r.2 then 1 else 0)), lw)
  else if c = G_TOKEN_LOC then
    let r := config_get_loc s
    .ok (r.1, g, { lw with rect := r.2 })
  else .ok (g_scanner_error s "Unexpected token in widget definition", g, lw)

/-- The loop condition of `config_widget_props` (config.c:678-682). -/
def widget_props_continues (next_token : Int) (wtype : Int) : Bool :=
  !(decide (next_token ≥ G_TOKEN_GRID) && decide (next_token ≤ G_TOKEN_TRAY) &&
      decide (wtype = G_TOKEN_GRID)) &&
    next_token != tk '}' && next_token != G_TOKEN_EOF

/-- The `while` loop of `config_widget_props` (config.c:678-778); `s` is the
scanner after the peek. -/
def widget_props_loop (h : Host) (b : Build) :
    Nat → GScanner → Globals → Widget → Except Halt (GScanner × Globals × Widget)
  | 0, _, _, _ => .error .fuel
  | n + 1, s, g, lw =>
    if widget_props_continues s.next_token lw.wtype then
      match config_widget_prop h b (g_scanner_get_next_token s) g lw with
      | .error e => .error e
      | .ok (s1, g1, lw1) => widget_props_loop h b n (g_scanner_peek_next_token s1) g1 lw1
    else .ok (s, g, lw)

/-- Argument groups of the header of `config_widget_props` (config.c:669);
slot 0 is `lw->id`, slot 1 is `curly`. -/
def widget_props_steps : List Step :=
  [ seq .SEQ_OPT G_TOKEN_STRING (some 0) none,
    seq .SEQ_OPT (tk '{') (some 1) none ]

/-- `config_widget_props` (config.c:665): the last component is the returned
`gboolean`. -/
def config_widget_props (h : Host) (b : Build) (scanner : GScanner) (g : Globals)
    (lw : Widget) : Except Halt (GScanner × Globals × Widget × Bool) :=
  let r := config_parse_sequence scanner widget_props_steps
  let lw0 := { lw with id := dest_string r.2 0 lw.id }
  if !dest_bool r.2 1 false then .ok (r.1, g, lw0, false)
  else
    let s1 := g_scanner_peek_next_token r.1
    match widget_props_loop h b (s1.input.length + 1) s1 g lw0 with
    | .error e => .error e
    | .ok (s2, g2, lw2) =>
      let s3 := g_scanner_peek_next_token s2
      .ok (if s3.next_token = tk '}' ∧ lw2.wtype ≠ G_TOKEN_GRID
          then g_scanner_get_next_token s3 else s3, g2, lw2, true)

/-! ## Switcher and placer -/

/-- Local variables of `config_switcher`. -/
structure SwitcherVars where
  css : Option String
  interval : Int
  cols : Int
  twidth : Int
  icons : Bool
  labels : Bool
deriving DecidableEq, Repr

/-- The `while` loop of `config_switcher` (config.c:919-947). -/
def switcher_loop : Nat → GScanner → SwitcherVars → Except Halt (GScanner × SwitcherVars)
  | 0, _, _ => .error .fuel
  | n + 1, s, v =>
    let s1 := g_scanner_peek_next_token s
    if s1.next_token ≠ tk '}' ∧ s1.next_token ≠ G_TOKEN_EOF then
      let s2 := g_scanner_get_next_token s1
      let c := s2.token.code
      if c = G_TOKEN_INTERVAL then
        let r := config_assign_number s2 "interval"
        switcher_loop n r.1 { v with interval := gint_of_gdouble (gdouble_div r.2 100) }
      else if c = G_TOKEN_COLS then
        let r := config_assign_number s2 "cols"
        switcher_loop n r.1 { v with cols := gint_of_gdouble r.2 }
      else if c = G_TOKEN_CSS then
        let r := config_assign_string s2 "css"
        switcher_loop n r.1 { v with css := r.2 }
      else if c = G_TOKEN_ICONS then
        let r := config_assign_boolean s2 false "icons"
        switcher_loop n r.1 { v with icons := r.2 }
      else if c = G_TOKEN_LABELS then
        let r := config_assign_boolean s2 false "labels"
        switcher_loop n r.1 { v with labels := r.2 }
      else if c = G_TOKEN_TITLEWIDTH then
        let r := config_assign_number s2 "title_width"
        switcher_loop n r.1 { v with twidth := gint_of_gdouble r.2 }
      else switcher_loop n (g_scanner_error s2 "Unexpected token in 'switcher'") v
    else .ok (s1, v)

/-- `config_switcher` (config.c:908). -/
def config_switcher (scanner : GScanner) (g : Globals) : Except Halt (GScanner × Globals) :=
  let r := config_expect_token { scanner with max_parse_errors := false } (tk '{')
    "Missing '\x7b' after 'switcher'"
  if !r.2 then .ok (r.1, g)
  else
    let s1 := g_scanner_get_next_token r.1
    match switcher_loop (s1.input.length + 1) s1 ⟨none, 1, 1, -1, false, false⟩ with
    | .error e => .error e
    | .ok (s2, v) =>
      let s3 := if s2.next_token = tk '}' then g_scanner_get_next_token s2 else s2
      .ok (config_optional_semicolon s3,
        g.emit (.switcher_config v.cols v.css v.interval v.icons v.labels v.twidth))

/-- Local variables of `config_placer`. -/
structure PlacerVars where
  wp_x : Int
  wp_y : Int
  wo_x : Int
  wo_y : Int
  pid : Bool
deriving DecidableEq, Repr

/-- The `while` loop of `config_placer` (config.c:969-993). -/
def placer_loop : Nat → GScanner → PlacerVars → Except Halt (GScanner × PlacerVars)
  | 0, _, _ => .error .fuel
  | n + 1, s, v =>
    let s1 := g_scanner_peek_next_token s
    if s1.next_token ≠ tk '}' ∧ s1.next_token ≠ G_TOKEN_EOF then
      let s2 := g_scanner_get_next_token s1
      let c := s2.token.code
      if c = G_TOKEN_XSTEP then
        let r := config_assign_number s2 "xstep"
        placer_loop n r.1 { v with wp_x := gint_of_gdouble r.2 }
      else if c = G_TOKEN_YSTEP then
        let r := config_assign_number s2 "ystep"
        placer_loop n r.1 { v with wp_y := gint_of_gdouble r.2 }
      else if c = G_TOKEN_XORIGIN then
        let r := config_assign_number s2 "xorigin"
        placer_loop n r.1 { v with wo_x := gint_of_gdouble r.2 }
      else if c = G_TOKEN_YORIGIN then
        let r := config_assign_number s2 "yorigin"
        placer_loop n r.1 { v with wo_y := gint_of_gdouble r.2 }
      else if c = G_TOKEN_CHILDREN then
        let r := config_assign_boolean s2 false "children"
        placer_loop n r.1 { v with pid := r.2 }
      else placer_loop n (g_scanner_error s2 "Unexpected token in 'placer'") v
    else .ok (s1, v)

/-- `config_placer` (config.c:956). -/
def config_placer (scanner : GScanner) (g : Globals) : Except Halt (GScanner × Globals) :=
  let r := config_expect_token { scanner with max_parse_errors := false } (tk '{')
    "Missing '\x7b' after 'placer'"
  if !r.2 then .ok (r.1, g)
  else
    let s1 := g_scanner_get_next_token r.1
    match placer_loop (s1.input.length + 1) s1 ⟨10, 10, 0, 0, false⟩ with
    | .error e => .error e
    | .ok (s2, v) =>
      let s3 := if s2.next_token = tk '}' then g_scanner_get_next_token s2 else s2
      .ok (config_optional_semicolon s3,
        g.emit (.placer_config v.wp_x v.wp_y v.wo_x v.wo_y v.pid))

/-! ## Menus -/

/-- Argument groups of `config_menu_item` (config.c:1008); slot 0 is `label`. -/
def menu_item_steps : List Step :=
  [ seq .SEQ_REQ (tk '(') none (some "missing '(' after 'item'"),
    seq .SEQ_REQ G_TOKEN_STRING (some 0) (some "missing label in 'item'"),
    seq .SEQ_REQ (tk ',') none (some "missing ',' in 'item'") ]

/-- `config_menu_item` (config.c:1002): the returned item is `none` for `NULL`. -/
def config_menu_item (h : Host) (defines : Defines) (scanner : GScanner) :
    Except Halt (GScanner × Option MenuEntry) :=
  let r := config_parse_sequence scanner menu_item_steps
  let label := dest_string r.2 0 none
  if r.1.max_parse_errors then .ok (r.1, none)
  else
    match config_action h defines r.1 with
    | .error e => .error e
    | .ok (s1, none) => .ok (g_scanner_error s1 "menu item: invalid action", none)
    | .ok (s1, some a) =>
      let s2 := g_scanner_get_next_token s1
      if s2.token.code ≠ tk ')' then .ok (g_scanner_error s2 "missing ')' after 'item'", none)
      else .ok (config_optional_semicolon s2, some (.item label a))

/-- Argument groups of the header of `config_menu` (config.c:1050); slot 0 is
`name`. -/
def menu_steps : List Step :=
  [ seq .SEQ_REQ (tk '(') none (some "missing '(' after 'menu'"),
    seq .SEQ_REQ G_TOKEN_STRING (some 0) (some "missing menu name"),
    seq .SEQ_REQ (tk ')') none (some "missing ')' afer 'menu'"),
    seq .SEQ_REQ (tk '{') none (some "missing '\x7b' afer 'menu'") ]

/-- Modelled from the spec: `layout_menu_get` (absent): the menu registered
under the name, if any. -/
def layout_menu_get (g : Globals) (name : Option String) : Option (List MenuEntry) :=
  (g.menus.find? (fun p => p.1 == name)).map Prod.snd

/-- Modelled from the spec: `layout_menu_add` (absent): registers the menu
under its name, in place of an earlier menu of that name. -/
def layout_menu_add (g : Globals) (name : Option String) (menu : List MenuEntry) : Globals :=
  { g with
    menus := (g.menus.filter (fun p => p.1 != name)) ++ [(name, menu)]
    events := g.events ++ [.layout_menu_add name menu] }

/-- The menu that `config_menu` fills (config.c:1060-1062): the menu registered
under the name, or a new one when there is none or when a submenu is parsed. -/
def menu_start (existing parent : Option (List MenuEntry)) : List MenuEntry :=
  match existing, parent with
  | some m, none => m
  | _, _ => []

mutual
/-- `config_menu` (config.c:1045).  `parent` holds the entries of the parent
menu when the call parses a submenu; the result carries the parent's entries
afterwards. -/
def config_menu (h : Host) : Nat → GScanner → Globals → Option (List MenuEntry) →
    Except Halt (GScanner × Globals × Option (List MenuEntry))
  | 0, _, _, _ => .error .fuel
  | n + 1, scanner, g, parent =>
    let r := config_parse_sequence scanner menu_steps
    let name := dest_string r.2 0 none
    if r.1.max_parse_errors then .ok (r.1, g, parent)
    else
      let menu := menu_start (layout_menu_get g name) parent
      match config_menu_loop h n (g_scanner_peek_next_token r.1) g menu with
      | .error e => .error e
      | .ok (s2, g2, menu2) =>
        let s3 := if s2.next_token = tk '}' then g_scanner_get_next_token s2 else s2
        match parent with
        | none => .ok (config_optional_semicolon s3, layout_menu_add g2 name menu2, none)
        | some p => .ok (config_optional_semicolon s3, g2, some (p ++ [.submenu name menu2]))
/-- The `while` loop of `config_menu` (config.c:1065-1088); `s` is the scanner
after the peek. -/
def config_menu_loop (h : Host) : Nat → GScanner → Globals → List MenuEntry →
    Except Halt (GScanner × Globals × List MenuEntry)
  | 0, _, _, _ => .error .fuel
  | n + 1, s, g, menu =>
    if s.next_token ≠ G_TOKEN_EOF ∧ s.next_token ≠ tk '}' then
      let s1 := g_scanner_get_next_token s
      let c := s1.token.code
      if c = G_TOKEN_ITEM then
        match config_menu_item h g.defines s1 with
        | .error e => .error e
        | .ok (s2, none) => config_menu_loop h n (g_scanner_peek_next_token s2) g menu
        | .ok (s2, some item) =>
          config_menu_loop h n (g_scanner_peek_next_token s2) g (menu ++ [item])
      else if c = G_TOKEN_SEPARATOR then
        config_menu_loop h n (g_scanner_peek_next_token (config_optional_semicolon s1)) g
          (menu ++ [.separator])
      else if c = G_TOKEN_SUBMENU then
        match config_menu h n s1 g (some menu) with
        | .error e => .error e
        | .ok (s2, g2, menu2) =>
          config_menu_loop h n (g_scanner_peek_next_token s2) g2 (menu2.getD menu)
      else
        config_menu_loop h n (g_scanner_peek_next_token (g_scanner_error s1
          "Unexpected token in menu. Expecting an item or a separator")) g menu
    else .ok (s, g, menu)
end

/-! ## Layout, inclusion and the dispatcher -/

/-- Argument groups of `config_include` (config.c:791); slot 0 is `fname`. -/
def include_steps : List Step :=
  [ seq .SEQ_REQ (tk '(') none (some "Missing '(' after include"),
    seq .SEQ_REQ G_TOKEN_STRING (some 0) (some "Missing filename in include"),
    seq .SEQ_REQ (tk ')') none (some "Missing ')',after include"),
    seq .SEQ_OPT (tk ';') none none ]

/-- The GTK class of the object created for a widget keyword in
`config_widgets` (config.c:824-861), `none` for any other token. -/
def widget_class (wtype : Int) : Option GtkClass :=
  if wtype = G_TOKEN_GRID then some .grid
  else if wtype = G_TOKEN_LABEL then some .label
  else if wtype = G_TOKEN_IMAGE then some .scale_image
  else if wtype = G_TOKEN_BUTTON then some .button
  else if wtype = G_TOKEN_SCALE then some .progress_bar
  else if wtype = G_TOKEN_TASKBAR then some .flow_grid
  else if wtype = G_TOKEN_PAGER then some .flow_grid
  else if wtype = G_TOKEN_TRAY then some .flow_grid
  else none

/-- Modelled from the spec: `bar_grid_by_name` (absent): the grid descriptor of
the named, or default, output target of a top-level layout. -/
def bar_grid_by_name (b : Build) (g : Globals) (name : Option String) : Widget × Globals :=
  let r := (g.emit (.bar_grid_by_name name)).new_widget .grid
  ({ layout_widget_new b with wtype := G_TOKEN_GRID, widget := some r.1 }, r.2)

/-- Offset of the first occurrence of `needle` in `hay` (C `strstr`). -/
def strstr : List Char → List Char → Option Nat
  | [], needle => if needle.isEmpty then some 0 else none
  | c :: cs, needle =>
    if needle.isPrefixOf (c :: cs) then some 0 else (strstr cs needle).map (· + 1)

/-- The marker that starts the stylesheet part of a configuration text. -/
def css_marker : List Char := ['\n', '#', 'C', 'S', 'S']

mutual
/-- `config_widgets` (config.c:811): one call of the function is one pass of
its `while` loop followed by the rest of the loop.  The `sibling` handed from
one `layout_widget_config` call to the next is not inspected by config.c and is
left out. -/
def config_widgets (h : Host) (b : Build) :
    Nat → GScanner → Globals → Option GtkWidget → Except Halt (GScanner × Globals)
  | 0, _, _, _ => .error .fuel
  | n + 1, scanner, g, parent =>
    let s1 := g_scanner_peek_next_token scanner
    if s1.next_token ≠ tk '}' ∧ s1.next_token ≠ G_TOKEN_EOF then
      let s2 := g_scanner_get_next_token s1
      let lw := { layout_widget_new b with wtype := s2.token.code }
      let made : Except Halt (GScanner × Globals × Option Widget) :=
        if lw.wtype = G_TOKEN_INCLUDE then
          config_include h b n s2 (g.emit (.layout_widget_free lw))
        else
          match widget_class lw.wtype with
          | some cls =>
            let r := g.new_widget cls
            let g1 := if lw.wtype = G_TOKEN_PAGER then r.2.emit (.pager_set_numeric true) else r.2
            .ok ({ s2 with max_parse_errors := false }, g1, some { lw with widget := some r.1 })
          | none =>
            .ok (g_scanner_error s2 "Unexpected token in 'layout'",
              g.emit (.layout_widget_free lw), none)
      match made with
      | .error e => .error e
      | .ok (s3, g3, none) => config_widgets h b n s3 g3 parent
      | .ok (s3, g3, some lw3) =>
        if s3.max_parse_errors ∨ lw3.widget.isNone then
          config_widgets h b n s3 (g3.emit (.layout_widget_free lw3)) parent
        else
          match config_widget_props h b s3 g3 lw3 with
          | .error e => .error e
          | .ok (s4, g4, lw4, extra) =>
            let g5 := g4.emit (.layout_widget_config lw4 parent)
            let inner : Except Halt (GScanner × Globals) :=
              if lw4.wtype = G_TOKEN_GRID ∧ extra then config_widgets h b n s4 g5 lw4.widget
              else .ok (s4, g5)
            match inner with
            | .error e => .error e
            | .ok (s6, g6) => config_widgets h b n s6 (g6.emit (.layout_widget_attach lw4)) parent
    else .ok (if s1.next_token = tk '}' then g_scanner_get_next_token s1 else s1, g)
/-- `config_include` (config.c:786). -/
def config_include (h : Host) (b : Build) :
    Nat → GScanner → Globals → Except Halt (GScanner × Globals × Option Widget)
  | 0, _, _ => .error .fuel
  | n + 1, scanner, g =>
    let r := config_parse_sequence scanner include_steps
    let fname := dest_string r.2 0 none
    if !r.1.max_parse_errors then
      match config_parse h b n (fname.getD "") false r.1.messages g with
      | .error e => .error e
      | .ok (_, _, none) => .error .null_deref
      | .ok (log, g1, some lw) =>
        .ok ({ r.1 with messages := log }, g1, some { lw with wtype := G_TOKEN_INCLUDE })
    else .ok (r.1, g, none)
/-- `config_layout` (config.c:886). -/
def config_layout (h : Host) (b : Build) :
    Nat → GScanner → Globals → Option Widget → Except Halt (GScanner × Globals × Widget)
  | 0, _, _, _ => .error .fuel
  | n + 1, scanner, g, lw =>
    let s0 := { scanner with max_parse_errors := false }
    let start : Widget × Globals :=
      match lw with
      | some l => (l, g)
      | none =>
        let r := g.new_widget .grid
        ({ layout_widget_new b with wtype := G_TOKEN_GRID, widget := some r.1 },
          r.2.emit (.gtk_widget_set_name (some r.1) "layout"))
    match config_widget_props h b s0 start.2 start.1 with
    | .error e => .error e
    | .ok (s1, g1, lw1, extra) =>
      let g2 := g1.emit (.layout_widget_config lw1 none)
      if lw1.widget.isSome ∧ extra then
        match config_widgets h b n s1 g2 lw1.widget with
        | .error e => .error e
        | .ok (s2, g3) => .ok (s2, g3, lw1)
      else .ok (s1, g2, lw1)
/-- `config_parse_toplevel` (config.c:1184): one call is one pass of the
`while` loop followed by the rest of the loop; `w` is the local of that name. -/
def config_parse_toplevel (h : Host) (b : Build) :
    Nat → GScanner → Globals → Bool → Option Widget →
      Except Halt (GScanner × Globals × Option Widget)
  | 0, _, _, _, _ => .error .fuel
  | n + 1, scanner, g, toplevel, w =>
    let s1 := g_scanner_peek_next_token scanner
    if s1.next_token ≠ G_TOKEN_EOF then
      let s2 := g_scanner_get_next_token s1
      let c := s2.token.code
      let step : Except Halt (GScanner × Globals × Option Widget) :=
        if c = G_TOKEN_SCANNER then (config_scanner s2 g).map (fun r => (r.1, r.2, w))
        else if c = G_TOKEN_LAYOUT then
          if !toplevel then
            (config_layout h b n s2 g w).map (fun r => (r.1, r.2.1, some r.2.2))
          else
            let s3 := g_scanner_peek_next_token s2
            let named := decide (s3.next_token = G_TOKEN_STRING)
            let s4 := if named then g_scanner_get_next_token s3 else s3
            let d := bar_grid_by_name b g (if named then some s4.token.str else none)
            (config_layout h b n s4 d.2 (some d.1)).map
              (fun r => (r.1, r.2.1.emit (.widget_set_css d.1.widget), w))
        else if c = G_TOKEN_PLACER then (config_placer s2 g).map (fun r => (r.1, r.2, w))
        else if c = G_TOKEN_SWITCHER then (config_switcher s2 g).map (fun r => (r.1, r.2, w))
        else if c = G_TOKEN_MENU then
          (config_menu h (s2.input.length + 1) s2 g none).map (fun r => (r.1, r.2.1, w))
        else if c = G_TOKEN_DEFINE then (config_define h s2 g).map (fun r => (r.1, r.2, w))
        else if c = G_TOKEN_TRIGGERACTION then
          (config_trigger_action h s2 g).map (fun r => (r.1, r.2, w))
        else if c = G_TOKEN_FUNCTION then (config_function h s2 g).map (fun r => (r.1, r.2, w))
        else .ok (g_scanner_error s2 "Unexpected toplevel token", g, w)
      match step with
      | .error e => .error e
      | .ok (s5, g5, w5) => config_parse_toplevel h b n s5 g5 toplevel w5
    else .ok (s1, g, w)
/-- `config_parse_data` (config.c:1236).  `log` holds the messages written so
far; the result carries the messages afterwards. -/
def config_parse_data (h : Host) (b : Build) :
    Nat → Option String → Bool → List String → Globals →
      Except Halt (List String × Globals × Option Widget)
  | 0, _, _, _, _ => .error .fuel
  | _ + 1, none, _, log, g => .ok (log, g, none)
  | n + 1, some data, toplevel, log, g =>
    let split : String × Globals :=
      match strstr data.data css_marker with
      | some i =>
        (String.mk (data.data.take i),
          g.emit (.css_provider_load (String.mk (data.data.drop (i + 5)))))
      | none => (data, g)
    let scanner := { g_scanner_new (h.lex split.1) with messages := log }
    match config_parse_toplevel h b n scanner split.2 toplevel none with
    | .error e => .error e
    | .ok (s, g1, w) => .ok (s.messages, g1, w)
/-- `config_parse` (config.c:1445). -/
def config_parse (h : Host) (b : Build) :
    Nat → String → Bool → List String → Globals →
      Except Halt (List String × Globals × Option Widget)
  | 0, _, _, _, _ => .error .fuel
  | n + 1, file, toplevel, log, g =>
    match h.read_file file with
    | none => .error .exit
    | some conf => config_parse_data h b n (some conf) toplevel log g
end

/-- `config_string` (config.c:1408). -/
def config_string (h : Host) (b : Build) (fuel : Nat) (string : Option String)
    (log : List String) (g : Globals) : Except Halt (List String × Globals) :=
  match string with
  | none => .ok (log, g)
  | some conf => (config_parse_data h b fuel (some conf) true log g).map (fun r => (r.1, r.2.1))

/-! ## Sample inputs -/

/-- A host with no configuration files, whose lexer is never consulted. -/
def sample_host : Host := ⟨fun _ => "0", fun _ => none, fun _ => []⟩

/-- A build with eight action slots per widget. -/
def sample_build : Build := ⟨8, false, false⟩

/-- Tokens of the variable declaration `a = RegEx("foo"` followed by the `}` of
the source: the closing `)` is missing. -/
def var_missing_paren_tokens : List Token :=
  [tIdent "a", tChar '=', tSym G_TOKEN_REGEX, tChar '(', tString "foo", tChar '}']

/-- Tokens of `("f") { Exec Focus "cmd" Close }`, the text after the keyword
`Function`: `Exec` lacks its argument, the three actions after it are
well-formed. -/
def function_body_tokens : List Token :=
  [tChar '(', tString "f", tChar ')', tChar '{', tSym G_TOKEN_EXEC, tSym G_TOKEN_FOCUS,
   tString "cmd", tSym G_TOKEN_CLOSE, tChar '}']

/-- Tokens of the menu item `Item("label", Exec "command");`. -/
def menu_item_tokens (label command : String) : List Token :=
  [tSym G_TOKEN_ITEM, tChar '(', tString label, tChar ',', tSym G_TOKEN_EXEC, tString command,
   tChar ')', tChar ';']

/-- Tokens of a run of menu items `Item("label", Exec "command");`. -/
def menu_items_tokens : List (String × String) → List Token
  | [] => []
  | p :: ps => menu_item_tokens p.1 p.2 ++ menu_items_tokens ps

/-- The menu entry that `Item("label", Exec "command")` stands for. -/
def menu_item_entry (p : String × String) : MenuEntry :=
  .item (some p.1) ⟨0, 0, G_TOKEN_EXEC, none, some p.2⟩

/-- Tokens of `Menu("name") { items`, without a closing brace. -/
def unclosed_menu_tokens (name : String) (items : List (String × String)) : List Token :=
  tSym G_TOKEN_MENU :: tChar '(' :: tString name :: tChar ')' :: tChar '{' ::
    menu_items_tokens items

/-- Tokens of `Define ident = value`. -/
def define_tokens (ident : String) (value : List Token) : List Token :=
  tSym G_TOKEN_DEFINE :: tIdent ident :: tChar '=' :: value

/-- The message of the `default` branch of the menu loop (config.c:1081). -/
def menu_unexpected : String := "Unexpected token in menu. Expecting an item or a separator"

/-- Tokens of `Layout { Label { Style = "s" } }`, then `Menu("m") { Item("a",
Exec "b");` without its closing brace, then `Define X = 1`. -/
def unclosed_menu_sample : List Token :=
  tSym G_TOKEN_LAYOUT :: tChar '{' ::
    ([tSym G_TOKEN_LABEL, tChar '{', tSym G_TOKEN_STYLE, tChar '=', tString "s", tChar '}',
      tChar '}'] ++
    (unclosed_menu_tokens "m" [("a", "b")] ++ define_tokens "X" [tNum 1]))

/-- Tokens of `Label { Style = "s" } }`: the body of a layout block and its
closing brace. -/
def sample_layout_body : List Token :=
  [tSym G_TOKEN_LABEL, tChar '{', tSym G_TOKEN_STYLE, tChar '=', tString "s", tChar '}',
   tChar '}']

/-- The grid descriptor of the sample layout. -/
def sample_grid : Widget :=
  { wtype := G_TOKEN_GRID, widget := some ⟨.grid, 0⟩, id := none, style := none, css := none,
    value := none, tooltip := none, trigger := none, interval := 0,
    actions := List.replicate 8 none, rect := ⟨0, 0, 0, 0⟩ }

/-- The label descriptor of the sample layout. -/
def sample_label : Widget :=
  { wtype := G_TOKEN_LABEL, widget := some ⟨.label, 1⟩, id := none, style := some "\"s\"",
    css := none, value := none, tooltip := none, trigger := none, interval := 0,
    actions := List.replicate 8 none, rect := ⟨0, 0, 0, 0⟩ }

/-- State outside the scanner after the sample layout block. -/
def sample_layout_globals : Globals :=
  { defines := none, menus := [], widgets := 2,
    events := [.bar_grid_by_name none, .layout_widget_config sample_grid none,
      .layout_widget_config sample_label (some ⟨.grid, 0⟩), .layout_widget_attach sample_label] }

/-- The scanner after the loop of `config_get_value` has read the tokens `pre`
that stand before the terminator. -/
def value_loop_end (s : GScanner) (pre rest : List Token) : GScanner :=
  { s with input := rest, peeked := true, token := (pre.getLast?).getD s.token }

/-- The value that `config_get_value` assembles from the tokens `pre`, starting
from `start`. -/
def assemble (h : Host) (d : Defines) (start : String) (pre : List Token) : String :=
  pre.foldl (value_append h d) start

/-! ## Condition lists as token streams -/

/-- Tokens of one entry of a condition list: the keyword `e.2`, after a `!`
when `e.1` is set. -/
def condition_tokens (e : Bool × Int) : List Token :=
  (if e.1 then [tChar '!'] else []) ++ [tSym e.2]

/-- Tokens of the entries of a condition list, separated by `|`. -/
def conditions_tokens : List (Bool × Int) → List Token
  | [] => []
  | [e] => condition_tokens e
  | e :: es => condition_tokens e ++ tChar '|' :: conditions_tokens es

/-- Bitwise OR of the flags of the entries whose negation mark is `neg`. -/
def condition_mask (neg : Bool) : List (Bool × Int) → Nat
  | [] => 0
  | e :: es =>
    (if e.1 = neg then (condition_flag e.2).getD 0 else 0) ||| condition_mask neg es

/-- Tokens of the statements `Define q` for the numbers `q` of the list, each
malformed because a number stands where the macro name belongs. -/
def malformed_defines : List Rat → List Token
  | [] => []
  | q :: qs => tSym G_TOKEN_DEFINE :: tNum q :: malformed_defines qs

/-! ## Property blocks of a grid as token streams -/

/-- A property statement that `config_widget_props` accepts on a grid, written
with its closing `;`: `style = "v";`, `css = "v";`, `trigger = "v";`,
`loc(x, y, w, h);` and `action = Exec "cmd";`. -/
inductive GridProp where
  | style (v : String)
  | css (v : String)
  | trigger (v : String)
  | loc (x y w h : Rat)
  | action (cmd : String)
deriving DecidableEq, Repr

/-- Tokens of a property statement. -/
def GridProp.tokens : GridProp → List Token
  | .style v => [tSym G_TOKEN_STYLE, tChar '=', tString v, tChar ';']
  | .css v => [tSym G_TOKEN_CSS, tChar '=', tString v, tChar ';']
  | .trigger v => [tSym G_TOKEN_TRIGGER, tChar '=', tString v, tChar ';']
  | .loc x y w h =>
    [tSym G_TOKEN_LOC, tChar '(', tNum x, tChar ',', tNum y, tChar ',', tNum w, tChar ',',
      tNum h, tChar ')', tChar ';']
  | .action cmd => [tSym G_TOKEN_ACTION, tChar '=', tSym G_TOKEN_EXEC, tString cmd, tChar ';']

/-- Whether the numbers of a property statement can be narrowed to `gint`. -/
def GridProp.in_gint_range : GridProp → Bool
  | .loc x y w h => gint_in_range x && gint_in_range y && gint_in_range w && gint_in_range h
  | _ => true

/-- Tokens of a run of property statements. -/
def props_tokens : List GridProp → List Token
  | [] => []
  | p :: ps => p.tokens ++ props_tokens ps

/-- The descriptor with the value of a property statement in its field. -/
def GridProp.stored (lw : Widget) : GridProp → Widget
  | .style v => { lw with style := some (config_value_string "" v) }
  | .css v => { lw with css := some v }
  | .trigger v => { lw with interval := 0, trigger := some v }
  | .loc x y w h =>
    { lw with rect := ⟨gint_of_gdouble x, gint_of_gdouble y, gint_of_gdouble w,
        gint_of_gdouble h⟩ }
  | .action cmd =>
    { lw with actions := lw.actions.set 1 (some ⟨0, 0, G_TOKEN_EXEC, none, some cmd⟩) }

/-- The scanner behind a run of property statements that starts at `s` and is
followed by `rest`. -/
def after_props (s : GScanner) (ps : List GridProp) (rest : List Token) : GScanner :=
  if ps.isEmpty then s else ⟨rest, true, tChar ';', false, s.messages⟩

/-- The properties that `config_widget_props` refuses on a grid, each with the
message of its `g_scanner_error` call (config.c:693, 707, 713). -/
def grid_illegal : List (Int × String) :=
  [ (G_TOKEN_INTERVAL, "this widget has no property 'interval'"),
    (G_TOKEN_VALUE, "this widget has no property 'value'"),
    (G_TOKEN_TOOLTIP, "this widget has no property 'tooltip'") ]

/-- Kinds of the tokens an assignment `= <expression>` is written with: they
reach the `default` label of the `switch` in `config_widget_props`. -/
def assignment_filler : List Int :=
  [tk '=', tk ';', tk '+', tk '-', tk '*', tk '/', tk '(', tk ')', tk ',',
    G_TOKEN_FLOAT, G_TOKEN_STRING, G_TOKEN_IDENTIFIER]

/-- Tokens of a list of pins: string literals separated by commas. -/
def pins_tokens : List String → List Token
  | [] => []
  | [p] => [tString p]
  | p :: ps => tString p :: tChar ',' :: pins_tokens ps

/-- Token of a boolean literal. -/
def tBool (v : Bool) : Token := tSym (if v then G_TOKEN_TRUE else G_TOKEN_FALSE)

/-! ## Normal returns -/

/-- The call with result `r`, started on the scanner `s`, returns (it neither
runs out of fuel nor exits), and its scanner stands in the input of `s`: what
it has left to read is a final part of what `s` had. -/
def Lands {α : Type} (s : GScanner) (r : Except Halt (GScanner × α)) : Prop :=
  ∃ s2 a, r = .ok (s2, a) ∧ s2.input <:+ s.input

/-- Every `TriggerAction` keyword of the stream is directly followed by a
string literal, the name of the trigger. -/
def trigger_actions_named : List Token → Bool
  | [] => true
  | t :: rest =>
    (t.code != G_TOKEN_TRIGGERACTION || (rest.headD eofToken).code == G_TOKEN_STRING) &&
      trigger_actions_named rest

/-- The `switch` of `config_parse_toplevel` (config.c:1190-1230) on the token
just read: one statement; `n` is the fuel handed to `config_layout`. -/
def toplevel_pass (h : Host) (b : Build) (n : Nat) (s2 : GScanner) (g : Globals)
    (toplevel : Bool) (w : Option Widget) : Except Halt (GScanner × Globals × Option Widget) :=
  let c := s2.token.code
  if c = G_TOKEN_SCANNER then (config_scanner s2 g).map (fun r => (r.1, r.2, w))
  else if c = G_TOKEN_LAYOUT then
    if !toplevel then
      (config_layout h b n s2 g w).map (fun r => (r.1, r.2.1, some r.2.2))
    else
      let s3 := g_scanner_peek_next_token s2
      let named := decide (s3.next_token = G_TOKEN_STRING)
      let s4 := if named then g_scanner_get_next_token s3 else s3
      let d := bar_grid_by_name b g (if named then some s4.token.str else none)
      (config_layout h b n s4 d.2 (some d.1)).map
        (fun r => (r.1, r.2.1.emit (.widget_set_css d.1.widget), w))
  else if c = G_TOKEN_PLACER then (config_placer s2 g).map (fun r => (r.1, r.2, w))
  else if c = G_TOKEN_SWITCHER then (config_switcher s2 g).map (fun r => (r.1, r.2, w))
  else if c = G_TOKEN_MENU then
    (config_menu h (s2.input.length + 1) s2 g none).map (fun r => (r.1, r.2.1, w))
  else if c = G_TOKEN_DEFINE then (config_define h s2 g).map (fun r => (r.1, r.2, w))
  else if c = G_TOKEN_TRIGGERACTION then
    (config_trigger_action h s2 g).map (fun r => (r.1, r.2, w))
  else if c = G_TOKEN_FUNCTION then (config_function h s2 g).map (fun r => (r.1, r.2, w))
  else .ok (g_scanner_error s2 "Unexpected toplevel token", g, w)

/-- The loop of `config_parse_toplevel` (config.c:1188) with a record kept of
the token codes its `switch` was entered with, oldest first: the keywords the
dispatcher dispatched on. -/
def toplevel_dispatched (h : Host) (b : Build) :
    Nat → GScanner → Globals → Bool → Option Widget → Except Halt (List Int)
  | 0, _, _, _, _ => .error .fuel
  | n + 1, scanner, g, toplevel, w =>
    let s1 := g_scanner_peek_next_token scanner
    if s1.next_token ≠ G_TOKEN_EOF then
      let s2 := g_scanner_get_next_token s1
      match toplevel_pass h b n s2 g toplevel w with
      | .error e => .error e
      | .ok (s5, g5, w5) =>
        (toplevel_dispatched h b n s5 g5 toplevel w5).map (fun cs => s2.token.code :: cs)
    else .ok []

/-- The scanner and the state outside it with which `config_parse_data` enters
the dispatcher (config.c:1246-1397): the stylesheet part is split off and
loaded, the rest is handed to the lexer. -/
def parse_data_start (h : Host) (data : String) (log : List String) (g : Globals) :
    GScanner × Globals :=
  let split : String × Globals :=
    match strstr data.data css_marker with
    | some i =>
      (String.mk (data.data.take i),
        g.emit (.css_provider_load (String.mk (data.data.drop (i + 5)))))
    | none => (data, g)
  ({ g_scanner_new (h.lex split.1) with messages := log }, split.2)

/-- A host with two files: `plain` holds one `Define` statement, `nested` a
layout with a style. -/
def include_host : Host :=
  ⟨fun _ => "0",
   fun f => if f = "plain" then some "P" else if f = "nested" then some "N" else none,
   fun t =>
    if t = "P" then [tSym G_TOKEN_DEFINE, tIdent "a", tChar '=', tString "x"]
    else if t = "N" then
      [tSym G_TOKEN_LAYOUT, tChar '{', tSym G_TOKEN_STYLE, tChar '=', tString "s", tChar '}']
    else []⟩

/-- Tokens of `Include("f")`, behind the keyword. -/
def include_args (f : String) : List Token := [tChar '(', tString f, tChar ')']

/-- A label descriptor whose action slot 2 holds a `Focus` action. -/
def sample_widget_with_action : Widget :=
  { layout_widget_new sample_build with
    wtype := G_TOKEN_LABEL,
    actions := (List.replicate 8 none).set 2 (some ⟨0, 0, G_TOKEN_FOCUS, none, none⟩) }

/-! ## Theorems -/

/-! ### Scanner primitives -/

@[simp] theorem peek_input (s : GScanner) : (g_scanner_peek_next_token s).input = s.input := rfl
@[simp] theorem peek_head (s : GScanner) : (g_scanner_peek_next_token s).head = s.head := rfl
@[simp] theorem peek_token (s : GScanner) : (g_scanner_peek_next_token s).token = s.token := rfl
@[simp] theorem peek_flag (s : GScanner) :
    (g_scanner_peek_next_token s).max_parse_errors = s.max_parse_errors := rfl
@[simp] theorem peek_messages (s : GScanner) :
    (g_scanner_peek_next_token s).messages = s.messages := rfl
@[simp] theorem peek_next_token (s : GScanner) :
    (g_scanner_peek_next_token s).next_token = s.head.code := rfl
@[simp] theorem peek_peek (s : GScanner) :
    g_scanner_peek_next_token (g_scanner_peek_next_token s) = g_scanner_peek_next_token s := rfl
@[simp] theorem get_input (s : GScanner) : (g_scanner_get_next_token s).input = s.input.tail := rfl
@[simp] theorem get_token (s : GScanner) : (g_scanner_get_next_token s).token = s.head := rfl
@[simp] theorem get_flag (s : GScanner) :
    (g_scanner_get_next_token s).max_parse_errors = s.max_parse_errors := rfl
@[simp] theorem get_messages (s : GScanner) :
    (g_scanner_get_next_token s).messages = s.messages := rfl
@[simp] theorem get_peek (s : GScanner) :
    g_scanner_get_next_token (g_scanner_peek_next_token s) = g_scanner_get_next_token s := rfl

theorem error_eq (s : GScanner) (m : String) :
    g_scanner_error s m =
      { s with max_parse_errors := true,
               messages := if s.max_parse_errors then s.messages else s.messages ++ [m] } := by
  cases h : s.max_parse_errors <;> simp [g_scanner_error, config_log_error, h]
@[simp] theorem error_input (s : GScanner) (m : String) : (g_scanner_error s m).input = s.input := by
  rw [error_eq]
@[simp] theorem error_head (s : GScanner) (m : String) : (g_scanner_error s m).head = s.head := by
  rw [error_eq]; rfl
@[simp] theorem error_token (s : GScanner) (m : String) : (g_scanner_error s m).token = s.token := by
  rw [error_eq]
@[simp] theorem error_peeked (s : GScanner) (m : String) :
    (g_scanner_error s m).peeked = s.peeked := by
  rw [error_eq]
@[simp] theorem error_flag (s : GScanner) (m : String) :
    (g_scanner_error s m).max_parse_errors = true := by
  rw [error_eq]
theorem error_messages (s : GScanner) (m : String) :
    (g_scanner_error s m).messages =
      if s.max_parse_errors then s.messages else s.messages ++ [m] := by
  rw [error_eq]

/-! ### The sequence engine -/

theorem seq_run_nil (σ : SeqState) : seq_run [] σ = σ := rfl

theorem seq_run_cons (st : Step) (rest : List Step) (σ : SeqState) :
    seq_run (st :: rest) σ = seq_run rest (seq_step σ st) := rfl

theorem seq_run_append (pre post : List Step) (σ : SeqState) :
    seq_run (pre ++ post) σ = seq_run post (seq_run pre σ) := by
  simp [seq_run, List.foldl_append]

theorem parse_sequence_split (s : GScanner) (pre post : List Step) (st : Step) :
    config_parse_sequence s (pre ++ st :: post) =
      ((seq_run post (seq_step (seq_run pre (seq_init s)) st)).scanner,
       (seq_run post (seq_step (seq_run pre (seq_init s)) st)).dests) := by
  simp [config_parse_sequence, seq_run_append, seq_run_cons]

/-- C1 (as stated, refuted): in the call made by `config_get_loc` on the tokens
`( 1 , 2 3 )` the OPTIONAL comma before `w` does not match (it consumes nothing
and clears `matched`), yet the CONDITIONAL integer step after it consumes the
token `3` and writes it to `rect.w`.  And after a REQUIRED step that failed,
`matched` still holds its earlier value: a CONDITIONAL wildcard behind a failed
`'('` consumes the next token. -/
theorem C1_conditional_concrete_kind_still_matches :
    config_get_loc_steps.drop 4 =
        seq .SEQ_OPT (tk ',') none none ::
        seq .SEQ_CON G_TOKEN_INT (some 2) (some "missing w value in loc") ::
        config_get_loc_steps.drop 6 ∧
      (seq_run (config_get_loc_steps.take 5) (seq_init (g_scanner_new
        [tChar '(', tNum 1, tChar ',', tNum 2, tNum 3, tChar ')']))).scanner.input
        = (seq_run (config_get_loc_steps.take 4) (seq_init (g_scanner_new
        [tChar '(', tNum 1, tChar ',', tNum 2, tNum 3, tChar ')']))).scanner.input ∧
      (seq_run (config_get_loc_steps.take 5) (seq_init (g_scanner_new
        [tChar '(', tNum 1, tChar ',', tNum 2, tNum 3, tChar ')']))).matched = false ∧
      (seq_run (config_get_loc_steps.take 5) (seq_init (g_scanner_new
        [tChar '(', tNum 1, tChar ',', tNum 2, tNum 3, tChar ')']))).scanner.input
        = [tNum 3, tChar ')'] ∧
      (seq_run (config_get_loc_steps.take 6) (seq_init (g_scanner_new
        [tChar '(', tNum 1, tChar ',', tNum 2, tNum 3, tChar ')']))).scanner.input
        = [tChar ')'] ∧
      (seq_run (config_get_loc_steps.take 6) (seq_init (g_scanner_new
        [tChar '(', tNum 1, tChar ',', tNum 2, tNum 3, tChar ')']))).dests
        = [(0, .int 1), (1, .int 2), (2, .int 3)] ∧
      config_get_loc (g_scanner_new
        [tChar '(', tNum 1, tChar ',', tNum 2, tNum 3, tChar ')'])
        = ({ input := [], peeked := true, token := tChar ')', max_parse_errors := false,
             messages := [] }, ⟨1, 2, 3, 1⟩) ∧
      (seq_step (seq_init (g_scanner_new [tString "a"]))
        (seq .SEQ_REQ (tk '(') none (some "missing '('"))).scanner.input = [tString "a"] ∧
      (seq_step (seq_init (g_scanner_new [tString "a"]))
        (seq .SEQ_REQ (tk '(') none (some "missing '('"))).scanner.max_parse_errors = true ∧
      config_parse_sequence (g_scanner_new [tString "a"])
          [seq .SEQ_REQ (tk '(') none (some "missing '('"), seq .SEQ_CON (-1) (some 0) none]
        = ({ input := [], peeked := false, token := tString "a", max_parse_errors := true,
             messages := ["missing '('"] }, [(0, .token G_TOKEN_STRING)]) := by
  decide

theorem seq_step_skipped (σ : SeqState) (st : Step)
    (hskip : seq_skip st σ.matched = true) (hwild : seq_wild st σ.matched = false)
    (hkind : σ.scanner.head.code ≠ st.type ∧
      ¬ (σ.scanner.head.code = G_TOKEN_FLOAT ∧ st.type = G_TOKEN_INT)) :
    seq_step σ st =
      { σ with matched := false, scanner := g_scanner_peek_next_token σ.scanner } := by
  have hc : seq_cond st σ.matched (g_scanner_peek_next_token σ.scanner) = false := by
    simp only [seq_cond, hwild, peek_next_token]
    simp [hkind.1]
    intro h; exact fun h2 => hkind.2 ⟨h, h2⟩
  simp [seq_step, hwild, hc, hskip]

/-- C1 (amended): a CONDITIONAL step reached with the engine's `matched` flag
clear, and which is a wildcard or expects a kind other than that of the next
token, is passed over: `matched` stays clear, no token is consumed, no
destination is written, no message is emitted, the error flag keeps its value,
and the call goes on with the remaining steps. -/
theorem C1_conditional_skipped (s : GScanner) (pre post : List Step) (st : Step)
    (hreq : st.req = Req.SEQ_CON)
    (hprev : (seq_run pre (seq_init s)).matched = false)
    (hkind : (st.type = -1 ∧ 0 ≤ (seq_run pre (seq_init s)).scanner.head.code) ∨
      ((seq_run pre (seq_init s)).scanner.head.code ≠ st.type ∧
       ¬ ((seq_run pre (seq_init s)).scanner.head.code = G_TOKEN_FLOAT ∧
          st.type = G_TOKEN_INT))) :
    (seq_step (seq_run pre (seq_init s)) st).matched = false ∧
    (seq_step (seq_run pre (seq_init s)) st).scanner.input
      = (seq_run pre (seq_init s)).scanner.input ∧
    (seq_step (seq_run pre (seq_init s)) st).scanner.token
      = (seq_run pre (seq_init s)).scanner.token ∧
    (seq_step (seq_run pre (seq_init s)) st).dests = (seq_run pre (seq_init s)).dests ∧
    (seq_step (seq_run pre (seq_init s)) st).scanner.messages
      = (seq_run pre (seq_init s)).scanner.messages ∧
    (seq_step (seq_run pre (seq_init s)) st).scanner.max_parse_errors
      = (seq_run pre (seq_init s)).scanner.max_parse_errors ∧
    config_parse_sequence s (pre ++ st :: post) =
      ((seq_run post (seq_step (seq_run pre (seq_init s)) st)).scanner,
       (seq_run post (seq_step (seq_run pre (seq_init s)) st)).dests) := by
  have hstep := seq_step_skipped (seq_run pre (seq_init s)) st (by simp [seq_skip, seq_wild, hreq, hprev])
      (by simp [seq_wild, hreq, hprev]) (by
        rcases hkind with ⟨h1, h2⟩ | ⟨h1, h2⟩
        · exact ⟨by rw [h1]; omega, by rw [h1]; simp⟩
        · exact ⟨h1, h2⟩)
  rw [hstep]
  exact ⟨rfl, rfl, rfl, rfl, rfl, rfl, hstep ▸ parse_sequence_split s pre post st⟩

theorem seq_step_raised (σ : SeqState) (st : Step)
    (hskip : seq_skip st σ.matched = false) (hwild : seq_wild st σ.matched = false)
    (hkind : σ.scanner.head.code ≠ st.type ∧
      ¬ (σ.scanner.head.code = G_TOKEN_FLOAT ∧ st.type = G_TOKEN_INT)) :
    seq_step σ st =
      { σ with scanner :=
          g_scanner_error (g_scanner_peek_next_token σ.scanner) (seq_errmsg st.err) } := by
  have hc : seq_cond st σ.matched (g_scanner_peek_next_token σ.scanner) = false := by
    simp only [seq_cond, hwild, peek_next_token]
    simp [hkind.1]
    intro h; exact fun h2 => hkind.2 ⟨h, h2⟩
  simp [seq_step, hwild, hc, hskip]

theorem seq_step_matched (σ : SeqState) (st : Step)
    (hkind : σ.scanner.head.code = st.type) :
    seq_step σ st =
      { matched := true
        scanner := g_scanner_get_next_token σ.scanner
        dests := match st.dest with
          | some d => σ.dests ++ [(d, seq_store st.type σ.scanner.head)]
          | none => σ.dests } := by
  by_cases hw : seq_wild st σ.matched = true
  · simp [seq_step, hw, seq_cond]
  · simp [seq_step, hw, seq_cond, hkind]

/-- C2: a REQUIRED step with a concrete expected kind that the next token does
not have (numeric widening apart) calls `g_scanner_error` with its message,
which sets the error flag (and surfaces the message when the flag was clear),
consumes no token and writes no destination; the call goes on with the
remaining steps on the same token stream, and a directly following step that
expects the kind of the next token consumes it and fills its destination. -/
theorem C2_required_mismatch (s : GScanner) (pre post : List Step) (st st2 : Step)
    (hreq : st.req = Req.SEQ_REQ) (hconcrete : st.type ≠ -1)
    (hkind : (seq_run pre (seq_init s)).scanner.head.code ≠ st.type)
    (hwiden : ¬ ((seq_run pre (seq_init s)).scanner.head.code = G_TOKEN_FLOAT ∧
      st.type = G_TOKEN_INT))
    (hlater : st2.type = (seq_run pre (seq_init s)).scanner.head.code) :
    (seq_step (seq_run pre (seq_init s)) st).scanner =
      g_scanner_error (g_scanner_peek_next_token (seq_run pre (seq_init s)).scanner)
        (seq_errmsg st.err) ∧
    (seq_step (seq_run pre (seq_init s)) st).scanner.max_parse_errors = true ∧
    (seq_step (seq_run pre (seq_init s)) st).scanner.messages =
      (if (seq_run pre (seq_init s)).scanner.max_parse_errors
        then (seq_run pre (seq_init s)).scanner.messages
        else (seq_run pre (seq_init s)).scanner.messages ++ [seq_errmsg st.err]) ∧
    (seq_step (seq_run pre (seq_init s)) st).scanner.input =
      (seq_run pre (seq_init s)).scanner.input ∧
    (seq_step (seq_run pre (seq_init s)) st).dests = (seq_run pre (seq_init s)).dests ∧
    config_parse_sequence s (pre ++ st :: post) =
      ((seq_run post (seq_step (seq_run pre (seq_init s)) st)).scanner,
       (seq_run post (seq_step (seq_run pre (seq_init s)) st)).dests) ∧
    (seq_step (seq_step (seq_run pre (seq_init s)) st) st2).scanner.input =
      (seq_run pre (seq_init s)).scanner.input.tail ∧
    (seq_step (seq_step (seq_run pre (seq_init s)) st) st2).scanner.token =
      (seq_run pre (seq_init s)).scanner.head ∧
    (seq_step (seq_step (seq_run pre (seq_init s)) st) st2).dests =
      (match st2.dest with
        | some d => (seq_run pre (seq_init s)).dests ++
            [(d, seq_store st2.type (seq_run pre (seq_init s)).scanner.head)]
        | none => (seq_run pre (seq_init s)).dests) := by
  have hsplit := parse_sequence_split s pre post st
  have hstep := seq_step_raised (seq_run pre (seq_init s)) st
    (by simp [seq_skip, hreq]) (by simp [seq_wild, hconcrete]) ⟨hkind, hwiden⟩
  rw [hstep] at hsplit ⊢
  refine ⟨rfl, by simp, ?_, by simp, rfl, hsplit, ?_, ?_, ?_⟩
  · simp [error_messages]
  · rw [seq_step_matched _ st2 (by simp [hlater])]; simp
  · rw [seq_step_matched _ st2 (by simp [hlater])]; simp
  · rw [seq_step_matched _ st2 (by simp [hlater])]; simp

/-- C3 (as stated, refuted): an all-OPTIONAL step list holding a wildcard step,
run on the empty token stream, writes the code of the end-of-input token into
its destination; so does an OPTIONAL step that expects the end-of-input kind. -/
theorem C3_optional_wildcard_writes_at_eof :
    (seq .SEQ_OPT (-1) (some 0) none).req = Req.SEQ_OPT ∧
    (g_scanner_new []).input = [] ∧
    (config_parse_sequence (g_scanner_new []) [seq .SEQ_OPT (-1) (some 0) none]).2
      = [(0, DestVal.token G_TOKEN_EOF)] ∧
    (config_parse_sequence (g_scanner_new []) [seq .SEQ_OPT (-1) (some 0) none]).2 ≠ [] ∧
    (config_parse_sequence (g_scanner_new []) [seq .SEQ_OPT G_TOKEN_EOF (some 0) none]).2
      = [(0, DestVal.flag)] := by
  decide

theorem seq_run_all_skipped (steps : List Step) (σ : SeqState)
    (hopt : ∀ st ∈ steps, st.req = Req.SEQ_OPT)
    (hkind : ∀ st ∈ steps, st.type ≠ -1 ∧ σ.scanner.head.code ≠ st.type ∧
      ¬ (σ.scanner.head.code = G_TOKEN_FLOAT ∧ st.type = G_TOKEN_INT)) :
    (seq_run steps σ).scanner.input = σ.scanner.input ∧
    (seq_run steps σ).scanner.token = σ.scanner.token ∧
    (seq_run steps σ).scanner.max_parse_errors = σ.scanner.max_parse_errors ∧
    (seq_run steps σ).scanner.messages = σ.scanner.messages ∧
    (seq_run steps σ).dests = σ.dests := by
  induction steps generalizing σ with
  | nil => exact ⟨rfl, rfl, rfl, rfl, rfl⟩
  | cons st rest ih =>
    have h1 := hopt st (List.mem_cons_self _ _)
    have h2 := hkind st (List.mem_cons_self _ _)
    have hstep := seq_step_skipped σ st (by simp [seq_skip, h1])
      (by simp [seq_wild, h2.1]) h2.2
    rw [seq_run_cons, hstep]
    exact ih _ (fun x hx => hopt x (List.mem_cons_of_mem _ hx))
      (fun x hx => hkind x (List.mem_cons_of_mem _ hx))

/-- C3 (amended): when every step is OPTIONAL and the next token, end-of-input
included, matches no step (no step is a wildcard, none expects the kind of the
next token, none is an integer step facing a number), the call returns with
the error flag clear, no message emitted, no token consumed and no destination
written. -/
theorem C3_all_optional_no_match (s : GScanner) (steps : List Step)
    (hopt : ∀ st ∈ steps, st.req = Req.SEQ_OPT)
    (hkind : ∀ st ∈ steps, st.type ≠ -1 ∧ s.head.code ≠ st.type ∧
      ¬ (s.head.code = G_TOKEN_FLOAT ∧ st.type = G_TOKEN_INT)) :
    (config_parse_sequence s steps).1.max_parse_errors = false ∧
    (config_parse_sequence s steps).1.messages = s.messages ∧
    (config_parse_sequence s steps).1.input = s.input ∧
    (config_parse_sequence s steps).1.token = s.token ∧
    (config_parse_sequence s steps).2 = [] := by
  have h := seq_run_all_skipped steps (seq_init s) hopt hkind
  exact ⟨h.2.2.1, h.2.2.2.1, h.1, h.2.1, h.2.2.2.2⟩

theorem seq_init_flag (s : GScanner) (b : Bool) :
    seq_init { s with max_parse_errors := b } = seq_init s := rfl

theorem seq_step_flag (σ : SeqState) (st : Step) :
    (seq_step σ st).scanner.max_parse_errors =
      (σ.scanner.max_parse_errors || seq_raises σ st) := by
  unfold seq_step seq_raises
  by_cases hw : seq_wild st σ.matched = true <;> simp only [hw, if_true, if_false] <;>
    (split_ifs <;> simp_all)

theorem seq_run_flag (steps : List Step) (σ : SeqState) :
    (seq_run steps σ).scanner.max_parse_errors = true ↔
      σ.scanner.max_parse_errors = true ∨
      ∃ pre st post, steps = pre ++ st :: post ∧ seq_raises (seq_run pre σ) st = true := by
  induction steps generalizing σ with
  | nil => simp [seq_run_nil]
  | cons st rest ih =>
    rw [seq_run_cons, ih, seq_step_flag]
    constructor
    · rintro (h | ⟨pre, st', post, hsplit, hr⟩)
      · rcases Bool.or_eq_true _ _ ▸ h with h | h
        · exact Or.inl h
        · exact Or.inr ⟨[], st, rest, rfl, h⟩
      · exact Or.inr ⟨st :: pre, st', post, by simp [hsplit], hr⟩
    · rintro (h | ⟨pre, st', post, hsplit, hr⟩)
      · exact Or.inl (by simp [h])
      · cases pre with
        | nil =>
          simp only [List.nil_append, List.cons.injEq] at hsplit
          obtain ⟨rfl, rfl⟩ := hsplit
          exact Or.inl (by rw [seq_run_nil] at hr; simp [hr])
        | cons p pre' =>
          simp only [List.cons_append, List.cons.injEq] at hsplit
          obtain ⟨rfl, rfl⟩ := hsplit
          exact Or.inr ⟨pre', st', post, rfl, hr⟩

/-- C4: `config_parse_sequence` clears the error flag before its first step:
the result (scanner afterwards, consumed tokens, messages and destination
writes) does not depend on the flag's value on entry, and the flag is set on
return exactly when some step of the call took the `g_scanner_error` branch. -/
theorem C4_flag_cleared_on_entry (s : GScanner) (b : Bool) (steps : List Step) :
    config_parse_sequence { s with max_parse_errors := b } steps =
      config_parse_sequence s steps ∧
    ((config_parse_sequence s steps).1.max_parse_errors = true ↔
      ∃ pre st post, steps = pre ++ st :: post ∧
        seq_raises (seq_run pre (seq_init s)) st = true) := by
  refine ⟨by simp [config_parse_sequence, seq_init_flag], ?_⟩
  simp only [config_parse_sequence]
  rw [seq_run_flag]
  simp [seq_init]

/-- Witness for C1: `config_get_loc` on `( 1 , 2 )`: the CONDITIONAL `w` step
after the unmatched optional comma is passed over. -/
theorem C1_conditional_skipped_witness :
    (seq_run (config_get_loc_steps.take 5) (seq_init (g_scanner_new
      [tChar '(', tNum 1, tChar ',', tNum 2, tChar ')']))).matched = false ∧
    (seq_step (seq_run (config_get_loc_steps.take 5) (seq_init (g_scanner_new
      [tChar '(', tNum 1, tChar ',', tNum 2, tChar ')'])))
      (seq .SEQ_CON G_TOKEN_INT (some 2) (some "missing w value in loc"))).scanner.input =
    (seq_run (config_get_loc_steps.take 5) (seq_init (g_scanner_new
      [tChar '(', tNum 1, tChar ',', tNum 2, tChar ')']))).scanner.input :=
  ⟨by decide,
   (C1_conditional_skipped (g_scanner_new [tChar '(', tNum 1, tChar ',', tNum 2, tChar ')'])
      (config_get_loc_steps.take 5) (config_get_loc_steps.drop 6)
      (seq .SEQ_CON G_TOKEN_INT (some 2) (some "missing w value in loc"))
      rfl (by decide) (Or.inr (by decide))).2.1⟩

/-- Witness for C2: a source written without its `(`: the REQUIRED `'('` step
fails and the REQUIRED string step after it still takes the file name. -/
theorem C2_required_mismatch_witness :
    (seq_step (seq_run [] (seq_init (g_scanner_new [tString "x", tChar ')'])))
      (seq .SEQ_REQ (tk '(') none (some "Missing '(' after source"))).scanner.messages
      = ["Missing '(' after source"] ∧
    (seq_step (seq_step (seq_run [] (seq_init (g_scanner_new [tString "x", tChar ')'])))
      (seq .SEQ_REQ (tk '(') none (some "Missing '(' after source")))
      (seq .SEQ_REQ G_TOKEN_STRING (some 0) (some "Missing file in a source"))).dests
      = [(0, DestVal.str "x")] :=
  have h := C2_required_mismatch (g_scanner_new [tString "x", tChar ')']) []
      [seq .SEQ_REQ G_TOKEN_STRING (some 0) (some "Missing file in a source")]
      (seq .SEQ_REQ (tk '(') none (some "Missing '(' after source"))
      (seq .SEQ_REQ G_TOKEN_STRING (some 0) (some "Missing file in a source"))
      rfl (by decide) (by decide) (by decide) (by decide)
  ⟨h.2.2.1, h.2.2.2.2.2.2.2.2⟩

/-- Witness for C3: the two OPTIONAL steps of `config_widget_props` at end of
input. -/
theorem C3_all_optional_no_match_witness :
    (config_parse_sequence (g_scanner_new [])
      [seq .SEQ_OPT G_TOKEN_STRING (some 0) none, seq .SEQ_OPT (tk '{') (some 1) none]).2 = [] :=
  (C3_all_optional_no_match (g_scanner_new [])
      [seq .SEQ_OPT G_TOKEN_STRING (some 0) none, seq .SEQ_OPT (tk '{') (some 1) none]
      (by decide) (by decide)).2.2.2.2

/-! ### `config_value_string` -/

theorem strlen_eq (s : String) : s.length = s.data.length := rfl

theorem g_malloc_written (n : Nat) : g_malloc n = Block.written [] n := by
  simp [g_malloc, Block.written]

theorem store_written (pre : List Char) (n : Nat) (c : Char) :
    (Block.written pre (n + 1)).store pre.length c = Block.written (pre ++ [c]) n := by
  simp [Block.store, Block.written, List.set_append, List.replicate_succ]

theorem memcpy_written (cs pre : List Char) (n : Nat) :
    memcpy_at (Block.written pre (cs.length + n)) pre.length cs = Block.written (pre ++ cs) n := by
  induction cs generalizing pre with
  | nil => simp [memcpy_at]
  | cons c cs ih =>
    have h : (c :: cs).length + n = (cs.length + n) + 1 := by simp; omega
    rw [h, memcpy_at, store_written]
    have := ih (pre ++ [c])
    simp only [List.length_append, List.length_singleton, List.append_assoc,
      List.singleton_append] at this
    exact this

theorem store_written_at (pre : List Char) (n l : Nat) (c : Char) (hl : l = pre.length) :
    (Block.written pre (n + 1)).store l c = Block.written (pre ++ [c]) n := by
  subst hl; exact store_written pre n c

theorem backslash_quotes_cons_quote (cs : List Char) :
    backslash_quotes ('"' :: cs) = '\\' :: '"' :: backslash_quotes cs := by
  simp [backslash_quotes]

theorem backslash_quotes_cons_other (c : Char) (cs : List Char) (hc : c ≠ '"') :
    backslash_quotes (c :: cs) = c :: backslash_quotes cs := by
  simp [backslash_quotes, hc]

theorem escape_written (cs pre : List Char) (n l : Nat) (hl : l = pre.length) :
    escape_loop cs (l, Block.written pre ((backslash_quotes cs).length + n)) =
      (l + (backslash_quotes cs).length, Block.written (pre ++ backslash_quotes cs) n) := by
  induction cs generalizing pre l with
  | nil => simp [escape_loop, backslash_quotes]
  | cons c cs ih =>
    by_cases hc : c = '"'
    · subst hc
      rw [backslash_quotes_cons_quote, escape_loop, if_pos rfl]
      have h : ('\\' :: '"' :: backslash_quotes cs).length + n =
          ((backslash_quotes cs).length + n + 1) + 1 := by
        simp only [List.length_cons]; omega
      rw [h, store_written_at pre _ l '\\' hl,
        store_written_at (pre ++ ['\\']) _ (l + 1) '"' (by simp [hl]),
        ih (pre ++ ['\\'] ++ ['"']) (l + 2) (by simp [hl])]
      simp only [List.length_cons, List.append_assoc, List.singleton_append, Prod.mk.injEq]
      exact ⟨by omega, by simp⟩
    · rw [backslash_quotes_cons_other c cs hc, escape_loop, if_neg hc]
      have h : (c :: backslash_quotes cs).length + n = ((backslash_quotes cs).length + n) + 1 := by
        simp only [List.length_cons]; omega
      rw [h, store_written_at pre _ l c hl, ih (pre ++ [c]) (l + 1) (by simp [hl])]
      simp only [List.length_cons, List.append_assoc, List.singleton_append, Prod.mk.injEq]
      exact ⟨by omega, by simp⟩

theorem count_quotes_sum (cs : List Char) (i j : Nat) :
    (count_quotes cs (i, j)).1 + (count_quotes cs (i, j)).2 =
      i + j + (backslash_quotes cs).length := by
  induction cs generalizing i j with
  | nil => simp [count_quotes, backslash_quotes]
  | cons c cs ih =>
    by_cases hc : c = '"'
    · simp only [count_quotes, if_pos hc, backslash_quotes, List.length_cons]
      rw [ih]; omega
    · simp only [count_quotes, if_neg hc, backslash_quotes, List.length_cons]
      rw [ih]; omega

theorem config_value_string_block_eq (dest string : String) :
    config_value_string_block dest string =
      Block.written (dest.data ++ '"' :: backslash_quotes string.data ++ ['"', Char.ofNat 0]) 0 := by
  have hsum := count_quotes_sum string.data 0 0
  have hsize : dest.length + (count_quotes string.data (0, 0)).1 +
      (count_quotes string.data (0, 0)).2 + 3 =
      dest.data.length + ((((backslash_quotes string.data).length + (0 + 1 + 1)) + 1)) := by
    rw [strlen_eq]; omega
  unfold config_value_string_block
  simp only []
  rw [hsize, g_malloc_written]
  have h1 := memcpy_written dest.data [] (((backslash_quotes string.data).length + (0 + 1 + 1)) + 1)
  simp only [List.length_nil, List.nil_append] at h1
  rw [h1, store_written_at dest.data _ dest.length '"' rfl,
    escape_written string.data (dest.data ++ ['"']) (0 + 1 + 1) (dest.length + 1)
      (by rw [strlen_eq]; simp)]
  simp only []
  rw [store_written_at _ _ _ '"' (by rw [strlen_eq]; simp; omega),
    store_written_at _ _ _ (Char.ofNat 0) (by rw [strlen_eq]; simp; omega)]
  simp

theorem c_str_scan (xs : List Char) (rest : List (Option Char))
    (hx : Char.ofNat 0 ∉ xs) :
    ((xs.map some ++ some (Char.ofNat 0) :: rest).takeWhile
      (fun c => c != none && c != some (Char.ofNat 0))).filterMap id = xs := by
  induction xs with
  | nil => simp [List.takeWhile]
  | cons x xs ih =>
    have hne : x ≠ Char.ofNat 0 := fun h => hx (by simp [h])
    have hxs : Char.ofNat 0 ∉ xs := fun h => hx (List.mem_cons_of_mem _ h)
    simp only [List.map_cons, List.cons_append]
    rw [List.takeWhile_cons]
    simp [hne, ih hxs]

theorem c_str_written (xs : List Char) (hx : Char.ofNat 0 ∉ xs) :
    (Block.written (xs ++ [Char.ofNat 0]) 0).c_str = String.mk xs := by
  have := c_str_scan xs [] hx
  simp only [Block.c_str, Block.written, List.map_append, List.map_cons, List.map_nil,
    List.replicate_zero, List.append_nil]
  rw [this]

theorem mem_backslash_quotes (cs : List Char) (x : Char) (hx : x ∈ backslash_quotes cs) :
    x = '\\' ∨ x ∈ cs := by
  induction cs with
  | nil => simp [backslash_quotes] at hx
  | cons c cs ih =>
    by_cases hc : c = '"'
    · subst hc
      rw [backslash_quotes_cons_quote] at hx
      simp only [List.mem_cons] at hx ⊢
      rcases hx with h | h | h
      · exact Or.inl h
      · exact Or.inr (Or.inl h)
      · rcases ih h with h | h
        · exact Or.inl h
        · exact Or.inr (Or.inr h)
    · rw [backslash_quotes_cons_other c cs hc] at hx
      simp only [List.mem_cons] at hx ⊢
      rcases hx with h | h
      · exact Or.inr (Or.inl h)
      · rcases ih h with h | h
        · exact Or.inl h
        · exact Or.inr (Or.inr h)

/-- What `config_value_string` returns for C strings: `dest`, an opening quote,
`string` with a backslash before each double quote, a closing quote. -/
theorem config_value_string_eq (dest string : String)
    (hd : Char.ofNat 0 ∉ dest.data) (hs : Char.ofNat 0 ∉ string.data) :
    config_value_string dest string =
      String.mk (dest.data ++ '"' :: backslash_quotes string.data ++ ['"']) := by
  unfold config_value_string
  rw [config_value_string_block_eq]
  have h := c_str_written (dest.data ++ '"' :: backslash_quotes string.data ++ ['"']) (by
    intro hm
    simp only [List.mem_append, List.mem_cons, List.mem_singleton, List.not_mem_nil,
      or_false] at hm
    rcases hm with (h | h | h) | h
    · exact hd h
    · exact absurd h (by decide)
    · rcases mem_backslash_quotes _ _ h with h | h
      · exact absurd h (by decide)
      · exact hs h
    · exact absurd h (by decide))
  have h2 : dest.data ++ '"' :: backslash_quotes string.data ++ ['"', Char.ofNat 0] =
      (dest.data ++ '"' :: backslash_quotes string.data ++ ['"']) ++ [Char.ofNat 0] := by simp
  rw [h2, h]

theorem lex_escape_quote (rest : List Char) : lex_escape '"' rest = ('"', rest) := by
  simp [lex_escape, is_octal]

theorem lex_body_quote (n : Nat) (cs acc : List Char) :
    lex_string_body (n + 1) ('"' :: cs) acc = some (acc, cs) := by
  simp [lex_string_body]

theorem lex_body_escape (n : Nat) (e : Char) (rest acc : List Char) :
    lex_string_body (n + 1) ('\\' :: e :: rest) acc =
      lex_string_body n (lex_escape e rest).2 (acc ++ [(lex_escape e rest).1]) := by
  simp [lex_string_body]

theorem lex_body_plain (n : Nat) (c : Char) (cs acc : List Char)
    (h1 : c ≠ '"') (h2 : c ≠ '\\') :
    lex_string_body (n + 1) (c :: cs) acc = lex_string_body n cs (acc ++ [c]) := by
  simp [lex_string_body, h1, h2]

theorem lex_string_body_escaped (cs : List Char) (n : Nat) (acc rest : List Char)
    (hb : '\\' ∉ cs) (hn : (backslash_quotes cs).length < n) :
    lex_string_body n (backslash_quotes cs ++ '"' :: rest) acc = some (acc ++ cs, rest) := by
  induction cs generalizing n acc with
  | nil =>
    cases n with
    | zero => simp at hn
    | succ n => simp [backslash_quotes, lex_body_quote]
  | cons c cs ih =>
    have hcs : '\\' ∉ cs := fun h => hb (List.mem_cons_of_mem _ h)
    have hc2 : c ≠ '\\' := fun h => hb (by simp [h])
    cases n with
    | zero => simp at hn
    | succ n =>
      by_cases hc : c = '"'
      · subst hc
        rw [backslash_quotes_cons_quote] at hn ⊢
        simp only [List.length_cons] at hn
        rw [List.cons_append, List.cons_append, lex_body_escape, lex_escape_quote]
        simp only []
        rw [ih n _ hcs (by omega)]
        simp
      · rw [backslash_quotes_cons_other c cs hc] at hn ⊢
        simp only [List.length_cons] at hn
        rw [List.cons_append, lex_body_plain n c _ _ hc hc2, ih n _ hcs (by omega)]
        simp

/-- Round trip of `config_value_string` for strings without a backslash:
re-lexing the quoted text gives the string back. -/
theorem config_value_string_roundtrip (s : String)
    (hnul : Char.ofNat 0 ∉ s.data) (hb : '\\' ∉ s.data) :
    relex_string_literal (config_value_string "" s) = some s := by
  rw [config_value_string_eq "" s (by simp) hnul]
  have hdata : ("" : String).data = [] := rfl
  simp only [relex_string_literal, hdata, List.nil_append, List.cons_append]
  have hlen : (backslash_quotes s.data).length <
      (backslash_quotes s.data ++ ['"']).length + 1 := by
    rw [List.length_append, List.length_singleton]
    omega
  rw [lex_string_body_escaped s.data _ [] [] hb hlen]
  simp

/-- C6 (code defect): `config_value_string` puts a backslash before a double
quote only, so a backslash in the string is not protected.  For the
one-character string `\` the result is the text `"\"`, which does not re-lex
as a complete literal; for `a\nb` (backslash, `n`) the result is `"a\nb"`,
which re-lexes to `a`, newline, `b`. -/
theorem C6_backslash_not_escaped :
    config_value_string "" "\\" = "\"\\\"" ∧
    relex_string_literal (config_value_string "" "\\") = none ∧
    config_value_string "" "a\\nb" = "\"a\\nb\"" ∧
    relex_string_literal (config_value_string "" "a\\nb") = some "a\nb" ∧
    relex_string_literal (config_value_string "" "a\\nb") ≠ some "a\\nb" ∧
    relex_string_literal (config_value_string "" "say \"hi\"") = some "say \"hi\"" := by
  decide

/-- C7 (code defect): the loop of `config_get_value` goes on while
`next_token <= G_TOKEN_SCANNER`, so the reserved word `Scanner` does not end the
value: in `= 1 Scanner { }` the tokens `Scanner` and `{` are consumed and become
part of the value.  `Scanner` is the only reserved word on which the loop goes
on; every other one ends the value. -/
theorem C7_scanner_keyword_not_a_terminator (h : Host) (defines : Defines) :
    config_get_value h defines
        (g_scanner_new [tChar '=', tNum 1, tSym G_TOKEN_SCANNER, tChar '{', tChar '}'])
        "define" true false =
      .ok ({ input := [tChar '}'], peeked := true, token := tChar '{',
             max_parse_errors := false, messages := [] },
           some (h.g_ascii_dtostr 1 ++ "@" ++ "\x7b"), none) ∧
    config_get_value h defines
        (g_scanner_new [tChar '=', tNum 1, tSym G_TOKEN_LAYOUT, tChar '{', tChar '}'])
        "define" true false =
      .ok ({ input := [tSym G_TOKEN_LAYOUT, tChar '{', tChar '}'], peeked := true,
             token := tNum 1, max_parse_errors := false, messages := [] },
           some (h.g_ascii_dtostr 1), none) ∧
    value_continues G_TOKEN_SCANNER = true ∧
    (reserved_words.filter (fun w => value_continues w.2)).map Prod.fst = ["Scanner"] := by
  refine ⟨?_, ?_, by decide, by decide⟩
  · rfl
  · rfl

/-- C9 (code defect): `config_scanner_var` checks the error flag after its
first two `config_parse_sequence` calls but not after the third.  In
`a = RegEx("foo" }` the REQUIRED `')'` fails, the error is raised, and
`scanner_var_attach` is called all the same; a missing `'='`, `'('` or pattern
does abort the declaration. -/
theorem C9_missing_paren_still_attaches :
    config_scanner_var (g_scanner_new var_missing_paren_tokens) Globals.init (some 0) =
      ({ input := [tChar '}'], peeked := true, token := tString "foo",
         max_parse_errors := true, messages := ["Missing ')' after parser"] },
       { defines := none, menus := [], widgets := 0,
         events := [.scanner_var_attach (some "a") (some 0) (some "foo") G_TOKEN_REGEX
           G_TOKEN_LASTW] }) ∧
    (config_scanner_var (g_scanner_new
        [tIdent "a", tSym G_TOKEN_REGEX, tChar '(', tString "foo", tChar ')'])
        Globals.init (some 0)).2.events = [] ∧
    (config_scanner_var (g_scanner_new
        [tIdent "a", tChar '=', tSym G_TOKEN_REGEX, tString "foo", tChar ')'])
        Globals.init (some 0)).2.events = [] ∧
    (config_scanner_var (g_scanner_new
        [tIdent "a", tChar '=', tSym G_TOKEN_REGEX, tChar '(', tChar ')'])
        Globals.init (some 0)).2.events = [] := by
  refine ⟨rfl, rfl, rfl, rfl⟩

/-- C10 (code defect): `config_action` does not clear the error flag for the
argument-less kinds and for bare string literals, so after one failed action
the flag left set makes it discard them.  In the body
`{ Exec Focus "cmd" Close }` the failed `Exec` is followed by three well-formed
actions, and the registered list is empty. -/
theorem C10_failed_action_drops_later_actions (h : Host) :
    config_function h (g_scanner_new function_body_tokens) Globals.init =
      .ok ({ input := [], peeked := true, token := tChar '}', max_parse_errors := false,
             messages := ["Missing argument in action"] },
           { defines := none, menus := [], widgets := 0,
             events := [.action_function_add (some "f") []] }) ∧
    config_function h (g_scanner_new
        [tChar '(', tString "f", tChar ')', tChar '{', tSym G_TOKEN_FOCUS, tString "cmd",
         tSym G_TOKEN_CLOSE, tChar '}']) Globals.init =
      .ok ({ input := [], peeked := true, token := tChar '}', max_parse_errors := false,
             messages := [] },
           { defines := none, menus := [], widgets := 0,
             events := [.action_function_add (some "f")
               [⟨0, 0, G_TOKEN_FOCUS, none, none⟩, ⟨0, 0, G_TOKEN_EXEC, none, some "cmd"⟩,
                ⟨0, 0, G_TOKEN_CLOSE, none, none⟩]] }) := by
  refine ⟨rfl, rfl⟩

/-! ### An unclosed menu -/

theorem menu_loop_item (h : Host) (n : Nat) (s : GScanner) (g : Globals)
    (menu : List MenuEntry) (label command : String) (rest : List Token)
    (hp : s.peeked = true) (hin : s.input = menu_item_tokens label command ++ rest) :
    config_menu_loop h (n + 1) s g menu =
      config_menu_loop h n
        { input := rest, peeked := true, token := tChar ';', max_parse_errors := false,
          messages := s.messages } g (menu ++ [menu_item_entry (label, command)]) := by
  obtain ⟨input, peeked, token, flag, msgs⟩ := s
  simp only at hp hin
  subst hp hin
  rfl

theorem menu_loop_items (h : Host) (items : List (String × String)) (n : Nat) (s : GScanner)
    (g : Globals) (menu : List MenuEntry) (rest : List Token)
    (hp : s.peeked = true) (hf : s.max_parse_errors = false)
    (hin : s.input = menu_items_tokens items ++ rest) :
    ∃ s', config_menu_loop h (n + items.length) s g menu =
        config_menu_loop h n s' g (menu ++ items.map menu_item_entry) ∧
      s'.input = rest ∧ s'.peeked = true ∧ s'.max_parse_errors = false ∧
      s'.messages = s.messages := by
  induction items generalizing s menu with
  | nil => exact ⟨s, by simp, by simpa [menu_items_tokens] using hin, hp, hf, rfl⟩
  | cons p ps ih =>
    have hin' : s.input = menu_item_tokens p.1 p.2 ++ (menu_items_tokens ps ++ rest) := by
      rw [hin, menu_items_tokens, List.append_assoc]
    have hstep := menu_loop_item h (n + ps.length) s g menu p.1 p.2 _ hp hin'
    obtain ⟨s', h1, h2, h3, h4, h5⟩ := ih
      { input := menu_items_tokens ps ++ rest, peeked := true, token := tChar ';',
        max_parse_errors := false, messages := s.messages }
      (menu ++ [menu_item_entry (p.1, p.2)]) rfl rfl rfl
    refine ⟨s', ?_, h2, h3, h4, h5⟩
    rw [List.length_cons, ← Nat.add_assoc, hstep, h1]
    simp

/-- A token that the menu loop reads and passes over in its `default` branch. -/
theorem menu_loop_junk_step (h : Host) (n : Nat) (s : GScanner) (g : Globals)
    (menu : List MenuEntry) (t : Token) (rest : List Token)
    (hp : s.peeked = true) (hin : s.input = t :: rest)
    (h0 : t.code ≠ G_TOKEN_EOF) (h1 : t.code ≠ tk '}') (h2 : t.code ≠ G_TOKEN_ITEM)
    (h3 : t.code ≠ G_TOKEN_SEPARATOR) (h4 : t.code ≠ G_TOKEN_SUBMENU) :
    config_menu_loop h (n + 1) s g menu =
      config_menu_loop h n
        (g_scanner_peek_next_token (g_scanner_error (g_scanner_get_next_token s)
          menu_unexpected)) g menu := by
  have hnt : s.next_token = t.code := by
    simp [GScanner.next_token, hp, GScanner.head, hin]
  have htok : (g_scanner_get_next_token s).token.code = t.code := by
    simp [GScanner.head, hin]
  rw [config_menu_loop]
  simp only [hnt, htok, ne_eq, h0, h1, h2, h3, h4, not_false_eq_true, and_self, if_true,
    if_false]
  rfl

theorem menu_loop_junk (h : Host) (junk : List Token) (n : Nat) (s : GScanner) (g : Globals)
    (menu : List MenuEntry)
    (hp : s.peeked = true) (hf : s.max_parse_errors = true) (hin : s.input = junk)
    (hj : ∀ t ∈ junk, t.code ≠ G_TOKEN_EOF ∧ t.code ≠ tk '}' ∧ t.code ≠ G_TOKEN_ITEM ∧
      t.code ≠ G_TOKEN_SEPARATOR ∧ t.code ≠ G_TOKEN_SUBMENU)
    (hn : junk.length < n) :
    ∃ s', config_menu_loop h n s g menu = .ok (s', g, menu) ∧ s'.input = [] ∧
      s'.peeked = true ∧ s'.messages = s.messages := by
  induction junk generalizing n s with
  | nil =>
    cases n with
    | zero => simp at hn
    | succ n =>
      refine ⟨s, ?_, hin, hp, rfl⟩
      have hnt : s.next_token = G_TOKEN_EOF := by
        simp [GScanner.next_token, hp, GScanner.head, hin, eofToken]
      rw [config_menu_loop]
      simp [hnt]
  | cons t rest ih =>
    cases n with
    | zero => simp at hn
    | succ n =>
      obtain ⟨h0, h1, h2, h3, h4⟩ := hj t (List.mem_cons_self _ _)
      rw [menu_loop_junk_step h n s g menu t rest hp hin h0 h1 h2 h3 h4]
      obtain ⟨s', e1, e2, e3, e4⟩ := ih n
        (g_scanner_peek_next_token (g_scanner_error (g_scanner_get_next_token s)
          menu_unexpected)) rfl (by simp) (by simp [hin])
        (fun x hx => hj x (List.mem_cons_of_mem _ hx))
        (by simp only [List.length_cons] at hn; omega)
      refine ⟨s', e1, e2, e3, ?_⟩
      rw [e4]
      simp [error_messages, hf]

theorem menu_header (h : Host) (n : Nat) (s : GScanner) (g : Globals) (name : String)
    (body : List Token)
    (hin : s.input = tChar '(' :: tString name :: tChar ')' :: tChar '{' :: body) :
    config_menu h (n + 1) s g none =
      match config_menu_loop h n
          { input := body, peeked := true, token := tChar '{', max_parse_errors := false,
            messages := s.messages } g (menu_start (layout_menu_get g (some name)) none) with
      | .error e => .error e
      | .ok (s2, g2, menu2) =>
        .ok (config_optional_semicolon
            (if s2.next_token = tk '}' then g_scanner_get_next_token s2 else s2),
          layout_menu_add g2 (some name) menu2, none) := by
  obtain ⟨input, peeked, token, flag, msgs⟩ := s
  simp only at hin
  subst hin
  rfl

theorem optional_semicolon_at_end (s : GScanner) (hin : s.input = []) :
    (config_optional_semicolon s).input = [] ∧
    (config_optional_semicolon s).messages = s.messages := by
  have hnt : (g_scanner_peek_next_token s).next_token ≠ tk ';' := by
    simp [GScanner.head, hin, eofToken]
  simp only [config_optional_semicolon, hnt, if_false]
  exact ⟨hin, rfl⟩

theorem define_tokens_pass (ident : String) (value : List Token)
    (hvalue : ∀ t ∈ value, value_continues t.code = true) :
    ∀ t ∈ define_tokens ident value,
      t.code ≠ G_TOKEN_EOF ∧ t.code ≠ tk '}' ∧ t.code ≠ G_TOKEN_ITEM ∧
      t.code ≠ G_TOKEN_SEPARATOR ∧ t.code ≠ G_TOKEN_SUBMENU := by
  intro t ht
  simp only [define_tokens, List.mem_cons] at ht
  rcases ht with rfl | rfl | rfl | ht
  · decide
  · simp [tIdent]
  · decide
  · have hv := hvalue t ht
    simp only [value_continues, Bool.and_eq_true, decide_eq_true_eq, bne_iff_ne, ne_eq] at hv
    obtain ⟨⟨⟨⟨h1, h2⟩, _⟩, _⟩, h5⟩ := hv
    refine ⟨h5, h2, ?_, ?_, ?_⟩ <;> intro hc <;> rw [hc] at h1 <;> exact absurd h1 (by decide)

/-- A menu whose closing brace is missing: the loop passes over every token
that follows the items, up to the end of the input. -/
theorem config_menu_unclosed (h : Host) (n : Nat) (s : GScanner) (g : Globals) (name : String)
    (items : List (String × String)) (j : Token) (junk : List Token)
    (hin : s.input = tChar '(' :: tString name :: tChar ')' :: tChar '{' ::
      (menu_items_tokens items ++ j :: junk))
    (hj : ∀ t ∈ j :: junk, t.code ≠ G_TOKEN_EOF ∧ t.code ≠ tk '}' ∧ t.code ≠ G_TOKEN_ITEM ∧
      t.code ≠ G_TOKEN_SEPARATOR ∧ t.code ≠ G_TOKEN_SUBMENU)
    (hn : items.length + junk.length + 3 ≤ n) :
    ∃ s', config_menu h n s g none =
        .ok (s', layout_menu_add g (some name)
          (menu_start (layout_menu_get g (some name)) none ++ items.map menu_item_entry), none) ∧
      s'.input = [] ∧ s'.messages = s.messages ++ [menu_unexpected] := by
  obtain ⟨k, rfl⟩ : ∃ k, n = ((k + 1) + 1 + items.length) + 1 := ⟨n - items.length - 3, by omega⟩
  have hk : junk.length < k + 1 := by omega
  rw [menu_header h _ s g name _ hin]
  obtain ⟨s1, e1, i1, p1, f1, m1⟩ := menu_loop_items h items (k + 1 + 1)
    { input := menu_items_tokens items ++ j :: junk, peeked := true, token := tChar '{',
      max_parse_errors := false, messages := s.messages } g
    (menu_start (layout_menu_get g (some name)) none) (j :: junk) rfl rfl rfl
  obtain ⟨h0, h1, h2, h3, h4⟩ := hj j (List.mem_cons_self _ _)
  obtain ⟨s2, e2, i2, p2, m2⟩ := menu_loop_junk h junk (k + 1)
    (g_scanner_peek_next_token (g_scanner_error (g_scanner_get_next_token s1) menu_unexpected))
    g (menu_start (layout_menu_get g (some name)) none ++ items.map menu_item_entry)
    rfl (by simp) (by simp [i1]) (fun x hx => hj x (List.mem_cons_of_mem _ hx)) hk
  rw [e1, menu_loop_junk_step h (k + 1) s1 g _ j junk p1 i1 h0 h1 h2 h3 h4, e2]
  have hnt : s2.next_token ≠ tk '}' := by
    simp [GScanner.next_token, p2, GScanner.head, i2, eofToken]
  simp only [hnt, if_false]
  refine ⟨_, rfl, (optional_semicolon_at_end s2 i2).1, ?_⟩
  rw [(optional_semicolon_at_end s2 i2).2, m2]
  simp [error_messages, f1, m1]

theorem toplevel_layout_step (h : Host) (b : Build) (n : Nat) (g : Globals) (w : Option Widget)
    (rest : List Token) :
    config_parse_toplevel h b (n + 1)
        (g_scanner_new (tSym G_TOKEN_LAYOUT :: tChar '{' :: rest)) g true w =
      match (config_layout h b n
          { input := tChar '{' :: rest, peeked := true, token := tSym G_TOKEN_LAYOUT,
            max_parse_errors := false, messages := [] }
          (bar_grid_by_name b g none).2 (some (bar_grid_by_name b g none).1)).map
          (fun r => (r.1, r.2.1.emit (.widget_set_css (bar_grid_by_name b g none).1.widget), w))
        with
      | .error e => .error e
      | .ok (s5, g5, w5) => config_parse_toplevel h b n s5 g5 true w5 := by
  rfl

theorem toplevel_menu_step (h : Host) (b : Build) (n : Nat) (s : GScanner) (g : Globals)
    (w : Option Widget) (rest : List Token) (hin : s.input = tSym G_TOKEN_MENU :: rest) :
    config_parse_toplevel h b (n + 1) s g true w =
      match (config_menu h (rest.length + 1) (g_scanner_get_next_token s) g none).map
          (fun r => (r.1, r.2.1, w)) with
      | .error e => .error e
      | .ok (s5, g5, w5) => config_parse_toplevel h b n s5 g5 true w5 := by
  obtain ⟨input, peeked, token, flag, msgs⟩ := s
  simp only at hin
  subst hin
  rfl

theorem toplevel_at_end (h : Host) (b : Build) (n : Nat) (s : GScanner) (g : Globals)
    (toplevel : Bool) (w : Option Widget) (hin : s.input = []) :
    config_parse_toplevel h b (n + 1) s g toplevel w = .ok (g_scanner_peek_next_token s, g, w) := by
  obtain ⟨input, peeked, token, flag, msgs⟩ := s
  simp only at hin
  subst hin
  rfl

theorem menu_items_tokens_length (items : List (String × String)) :
    (menu_items_tokens items).length = 8 * items.length := by
  induction items with
  | nil => rfl
  | cons p ps ih =>
    simp only [menu_items_tokens, menu_item_tokens, List.length_append, List.length_cons,
      List.length_nil, ih]
    omega

/-- The dispatcher on a Layout block that `config_layout` parses up to the
keyword `Menu`, followed by a menu without closing brace and a `Define`. -/
theorem unclosed_menu_run (h : Host) (b : Build) (m : Nat) (g : Globals) (L : List Token)
    (name ident : String) (items : List (String × String)) (value : List Token)
    (sL : GScanner) (gL : Globals) (lwL : Widget)
    (hL : config_layout h b (m + 2)
        { input := tChar '{' :: (L ++ (unclosed_menu_tokens name items ++
            define_tokens ident value)),
          peeked := true, token := tSym G_TOKEN_LAYOUT, max_parse_errors := false,
          messages := [] }
        (bar_grid_by_name b g none).2 (some (bar_grid_by_name b g none).1) = .ok (sL, gL, lwL))
    (hrest : sL.input = unclosed_menu_tokens name items ++ define_tokens ident value)
    (hvalue : ∀ t ∈ value, value_continues t.code = true) :
    ∃ s', config_parse_toplevel h b (m + 3)
        (g_scanner_new (tSym G_TOKEN_LAYOUT :: tChar '{' :: (L ++
          (unclosed_menu_tokens name items ++ define_tokens ident value)))) g true none =
        .ok (s', layout_menu_add (gL.emit (.widget_set_css (bar_grid_by_name b g none).1.widget))
          (some name) (menu_start (layout_menu_get gL (some name)) none ++
            items.map menu_item_entry), none) ∧
      s'.input = [] ∧ s'.messages = sL.messages ++ [menu_unexpected] := by
  rw [toplevel_layout_step, hL]
  simp only [Except.map]
  have hin2 : sL.input = tSym G_TOKEN_MENU ::
      (tChar '(' :: tString name :: tChar ')' :: tChar '{' ::
        (menu_items_tokens items ++ tSym G_TOKEN_DEFINE ::
          (tIdent ident :: tChar '=' :: value))) := by
    rw [hrest]; rfl
  rw [toplevel_menu_step h b (m + 1) sL _ none _ hin2]
  obtain ⟨s1, e1, i1, m1⟩ := config_menu_unclosed h
    ((tChar '(' :: tString name :: tChar ')' :: tChar '{' ::
        (menu_items_tokens items ++ tSym G_TOKEN_DEFINE ::
          (tIdent ident :: tChar '=' :: value))).length + 1)
    (g_scanner_get_next_token sL)
    (gL.emit (.widget_set_css (bar_grid_by_name b g none).1.widget)) name items
    (tSym G_TOKEN_DEFINE) (tIdent ident :: tChar '=' :: value)
    (by simp [hin2]) (define_tokens_pass ident value hvalue)
    (by simp only [List.length_cons, List.length_append]
        have := menu_items_tokens_length items
        omega)
  rw [e1]
  simp only [Except.map]
  rw [toplevel_at_end h b m s1 _ true none i1]
  refine ⟨_, rfl, by simp [i1], by simp [m1]⟩

/-- C5 (as stated, refuted): on `Layout { Label { Style = "s" } }`, then
`Menu("m") { Item("a", Exec "b");` without its closing brace, then
`Define X = 1`, the dispatcher configures the layout, registers the menu and
emits one message, but the menu loop consumes the tokens of the `Define`
statement as unexpected menu tokens: at the end of the input the macro table
has not been created and `X` has no definition. -/
theorem C5_define_after_unclosed_menu_is_lost :
    config_parse_toplevel sample_host sample_build 8 (g_scanner_new unclosed_menu_sample)
        Globals.init true none =
      .ok (⟨[], true, tNum 1, true, [menu_unexpected]⟩,
           { defines := none,
             menus := [(some "m", [menu_item_entry ("a", "b")])],
             widgets := 2,
             events := sample_layout_globals.events ++
               [.widget_set_css (some ⟨.grid, 0⟩),
                .layout_menu_add (some "m") [menu_item_entry ("a", "b")]] },
           none) ∧
    defines_lookup (none : Defines) "X" = none := by
  decide!

/-- C5 (amended): take a Layout block that `config_layout` parses up to the
keyword `Menu`, then `Menu("name") {` with any number of well-formed items
`Item("label", Exec "command");` and no closing brace, then `Define ident =
value` with a well-formed value.  `config_parse_toplevel` returns at the end of
the input having configured the layout, emitted exactly one message for the
menu and registered the menu with its items; the `Define` statement is consumed
by the menu loop, which stops only at a closing brace or at the end of the
input, so the macro table is as the Layout block left it. -/
theorem C5_unclosed_menu_swallows_define (h : Host) (b : Build) (m : Nat) (g : Globals)
    (L : List Token) (name ident : String) (items : List (String × String))
    (value : List Token) (sL : GScanner) (gL : Globals) (lwL : Widget)
    (hL : config_layout h b (m + 2)
        { input := tChar '{' :: (L ++ (unclosed_menu_tokens name items ++
            define_tokens ident value)),
          peeked := true, token := tSym G_TOKEN_LAYOUT, max_parse_errors := false,
          messages := [] }
        (bar_grid_by_name b g none).2 (some (bar_grid_by_name b g none).1) = .ok (sL, gL, lwL))
    (hrest : sL.input = unclosed_menu_tokens name items ++ define_tokens ident value)
    (hvalue : ∀ t ∈ value, value_continues t.code = true) :
    ∃ s' g', config_parse_toplevel h b (m + 3)
        (g_scanner_new (tSym G_TOKEN_LAYOUT :: tChar '{' :: (L ++
          (unclosed_menu_tokens name items ++ define_tokens ident value)))) g true none =
        .ok (s', g', none) ∧
      s'.input = [] ∧
      s'.messages = sL.messages ++ [menu_unexpected] ∧
      g'.defines = gL.defines ∧
      g'.events = gL.events ++
        [.widget_set_css (bar_grid_by_name b g none).1.widget,
         .layout_menu_add (some name)
           (menu_start (layout_menu_get gL (some name)) none ++ items.map menu_item_entry)] := by
  obtain ⟨s', e, i, ms⟩ :=
    unclosed_menu_run h b m g L name ident items value sL gL lwL hL hrest hvalue
  exact ⟨s', _, e, i, ms, rfl, by simp [layout_menu_add, Globals.emit]⟩

/-- Witness for C5: the sample input, where the Layout block is
`Layout { Label { Style = "s" } }`. -/
theorem C5_unclosed_menu_swallows_define_witness :
    ∃ s' g', config_parse_toplevel sample_host sample_build 8
        (g_scanner_new unclosed_menu_sample) Globals.init true none = .ok (s', g', none) ∧
      s'.input = [] ∧
      s'.messages = [] ++ [menu_unexpected] ∧
      g'.defines = none ∧
      g'.events = sample_layout_globals.events ++
        [.widget_set_css (some ⟨.grid, 0⟩),
         .layout_menu_add (some "m") ([] ++ [("a", "b")].map menu_item_entry)] :=
  C5_unclosed_menu_swallows_define sample_host sample_build 5 Globals.init sample_layout_body
    "m" "X" [("a", "b")] [tNum 1]
    ⟨unclosed_menu_tokens "m" [("a", "b")] ++ define_tokens "X" [tNum 1], false, tChar '}',
      false, []⟩
    sample_layout_globals sample_grid (by decide!) rfl (by decide)

/-- When the first call of `config_scanner_var` raises an error the declaration
is dropped: nothing is attached. -/
theorem scanner_var_aborts_on_head (scanner : GScanner) (g : Globals) (file : Option Nat)
    (herr : (config_parse_sequence scanner scanner_var_steps1).1.max_parse_errors = true) :
    (config_scanner_var scanner g file).2 = g := by
  simp [config_scanner_var, herr]

/-- When the pattern call of `config_scanner_var` raises an error the
declaration is dropped: nothing is attached. -/
theorem scanner_var_aborts_on_pattern (scanner : GScanner) (g : Globals) (file : Option Nat)
    (hok : (config_parse_sequence scanner scanner_var_steps1).1.max_parse_errors = false)
    (hkind : dest_int (config_parse_sequence scanner scanner_var_steps1).2 2 0 = G_TOKEN_REGEX ∨
      dest_int (config_parse_sequence scanner scanner_var_steps1).2 2 0 = G_TOKEN_JSON)
    (herr : (config_parse_sequence (config_parse_sequence scanner scanner_var_steps1).1
      scanner_var_steps2).1.max_parse_errors = true) :
    (config_scanner_var scanner g file).2 = g := by
  simp [config_scanner_var, hok, hkind, herr]

/-! ### `config_widget_action` -/

theorem widget_action_index_parse (s : GScanner) (q : Rat) (rest : List Token)
    (hin : s.input = tChar '[' :: tNum q :: tChar ']' :: tChar '=' :: rest) :
    config_parse_sequence s widget_action_steps =
      (⟨rest, false, tChar '=', false, s.messages⟩, [(0, DestVal.int (gint_of_gdouble q))]) := by
  obtain ⟨input, peeked, token, flag, msgs⟩ := s
  simp only at hin
  subst hin
  rfl

/-- C14: for `action[<index>] = ...` with an index (a number whose integer part
is in the range of `gint`) below 0 or not below `MAX_BUTTON`,
`config_widget_action` raises the error "invalid action index"
and returns with the descriptor, and so every slot of its action table,
unchanged; the scanner stands right behind the `=`, so no token of the action
text has been read and `config_action` has not run. -/
theorem C14_action_index_out_of_range (h : Host) (b : Build) (defines : Defines)
    (s : GScanner) (lw : Widget) (q : Rat) (rest : List Token)
    (hin : s.input = tChar '[' :: tNum q :: tChar ']' :: tChar '=' :: rest)
    (_hgint : gint_in_range q = true)
    (hrange : gint_of_gdouble q < 0 ∨ gint_of_gdouble q ≥ b.MAX_BUTTON) :
    config_widget_action h b defines s lw =
      .ok (⟨rest, false, tChar '=', true,
            s.messages ++ ["invalid action index " ++ toString (gint_of_gdouble q)]⟩, lw) := by
  have hbutton : dest_int [(0, DestVal.int (gint_of_gdouble q))] 0 1 = gint_of_gdouble q := rfl
  simp only [config_widget_action, widget_action_index_parse s q rest hin, hbutton,
    Bool.false_eq_true, if_false, hrange, if_true]
  rfl

/-- Witness for C14: `action[8] = Focus` with eight action slots. -/
theorem C14_action_index_out_of_range_witness :
    config_widget_action sample_host sample_build none
        (g_scanner_new [tChar '[', tNum 8, tChar ']', tChar '=', tSym G_TOKEN_FOCUS])
        (layout_widget_new sample_build) =
      .ok (⟨[tSym G_TOKEN_FOCUS], false, tChar '=', true,
            [] ++ ["invalid action index " ++ toString (gint_of_gdouble 8)]⟩,
          layout_widget_new sample_build) :=
  C14_action_index_out_of_range sample_host sample_build none
    (g_scanner_new [tChar '[', tNum 8, tChar ']', tChar '=', tSym G_TOKEN_FOCUS])
    (layout_widget_new sample_build) 8 [tSym G_TOKEN_FOCUS] rfl (by decide!)
    (Or.inr (by decide))

/-! ### The loop of `config_get_value` -/

theorem value_loop_stop (h : Host) (d : Defines) (n : Nat) (s : GScanner) (v : String)
    (hstop : value_continues s.next_token = false) :
    value_loop h d (n + 1) s v = .ok (s, v) := by
  simp [value_loop, hstop]

theorem value_loop_step (h : Host) (d : Defines) (n : Nat) (s : GScanner) (v : String)
    (hgo : value_continues s.next_token = true) :
    value_loop h d (n + 1) s v =
      value_loop h d n (g_scanner_peek_next_token (g_scanner_get_next_token s))
        (value_append h d v s.head) := by
  simp [value_loop, hgo]

/-- The loop reads every token up to the first terminator and appends the
fragment of each to the value. -/
theorem value_loop_run (h : Host) (d : Defines) (pre : List Token) (n : Nat) (s : GScanner)
    (v : String) (rest : List Token)
    (hp : s.peeked = true) (hin : s.input = pre ++ rest)
    (hpre : ∀ t ∈ pre, value_continues t.code = true)
    (hrest : value_continues (rest.headD eofToken).code = false)
    (hn : pre.length < n) :
    value_loop h d n s v =
      .ok (value_loop_end s pre rest, assemble h d v pre) := by
  induction pre generalizing n s v with
  | nil =>
    cases n with
    | zero => simp at hn
    | succ n =>
      have hnt : s.next_token = (rest.headD eofToken).code := by
        simp only [List.nil_append] at hin
        simp [GScanner.next_token, hp, GScanner.head, hin]
      rw [value_loop_stop h d n s v (by rw [hnt]; exact hrest)]
      obtain ⟨input, peeked, token, flag, msgs⟩ := s
      simp only [List.nil_append] at hp hin
      subst hp hin
      rfl
  | cons t ts ih =>
    cases n with
    | zero => simp at hn
    | succ n =>
      have hhead : s.head = t := by simp [GScanner.head, hin]
      have hnt : s.next_token = t.code := by simp [GScanner.next_token, hp, hhead]
      rw [value_loop_step h d n s v (by rw [hnt]; exact hpre t (List.mem_cons_self _ _)),
        ih n _ _ rfl (by simp [hin]) (fun x hx => hpre x (List.mem_cons_of_mem _ hx))
          (by simp only [List.length_cons] at hn; omega), hhead]
      obtain ⟨input, peeked, token, flag, msgs⟩ := s
      simp only [List.cons_append] at hin
      subst hin
      simp only [value_loop_end, g_scanner_peek_next_token, g_scanner_get_next_token, assemble,
        List.foldl_cons, GScanner.head, List.headD_cons, List.getLast?_cons]
      cases ts <;> rfl

theorem get_value_assign_head (h : Host) (d : Defines) (s : GScanner) (prop : String)
    (body : List Token) (hin : s.input = tChar '=' :: body) :
    config_get_value h d s prop true false =
      match value_loop h d (body.length + 1) ⟨body, true, tChar '=', false, s.messages⟩ "" with
      | .error e => .error e
      | .ok (s6, value) => .ok (config_optional_semicolon s6, some value, none) := by
  obtain ⟨input, peeked, token, flag, msgs⟩ := s
  simp only at hin
  subst hin
  rfl

/-- `config_get_value` with a required `=`: the tokens before the first
terminator are read and assembled; the terminator stays, a `;` apart. -/
theorem get_value_assign (h : Host) (d : Defines) (s : GScanner) (prop : String)
    (pre rest : List Token) (hin : s.input = tChar '=' :: (pre ++ rest))
    (hpre : ∀ t ∈ pre, value_continues t.code = true)
    (hrest : value_continues (rest.headD eofToken).code = false) :
    config_get_value h d s prop true false =
      .ok (config_optional_semicolon
            ⟨rest, true, (pre.getLast?).getD (tChar '='), false, s.messages⟩,
          some (assemble h d "" pre), none) := by
  rw [get_value_assign_head h d s prop _ hin,
    value_loop_run h d pre _ _ "" rest rfl rfl hpre hrest
      (by rw [List.length_append]; omega)]
  rfl

theorem get_value_plain_head (h : Host) (d : Defines) (s : GScanner) (prop : String) :
    config_get_value h d s prop false false =
      match value_loop h d (s.input.length + 1)
          ⟨s.input, true, s.token, false, s.messages⟩ "" with
      | .error e => .error e
      | .ok (s6, value) => .ok (config_optional_semicolon s6, some value, none) := by
  rfl

/-- `config_get_value` without `=` and without key destination. -/
theorem get_value_plain (h : Host) (d : Defines) (s : GScanner) (prop : String)
    (pre rest : List Token) (hin : s.input = pre ++ rest)
    (hpre : ∀ t ∈ pre, value_continues t.code = true)
    (hrest : value_continues (rest.headD eofToken).code = false) :
    config_get_value h d s prop false false =
      .ok (config_optional_semicolon
            ⟨rest, true, (pre.getLast?).getD s.token, false, s.messages⟩,
          some (assemble h d "" pre), none) := by
  rw [get_value_plain_head h d s prop,
    value_loop_run h d pre _ ⟨s.input, true, s.token, false, s.messages⟩ "" rest rfl hin hpre
      hrest (by rw [hin, List.length_append]; omega)]
  rfl

theorem get_value_key_head (h : Host) (d : Defines) (s : GScanner) (prop : String)
    (key : String) (body : List Token) (hin : s.input = tString key :: tChar ',' :: body) :
    config_get_value h d s prop false true =
      match value_loop h d (body.length + 1) ⟨body, true, tChar ',', false, s.messages⟩ "" with
      | .error e => .error e
      | .ok (s6, value) => .ok (config_optional_semicolon s6, some value, some key) := by
  obtain ⟨input, peeked, token, flag, msgs⟩ := s
  simp only at hin
  subst hin
  rfl

theorem get_value_nokey_head (h : Host) (d : Defines) (s : GScanner) (prop : String)
    (key : String) (body : List Token) (hin : s.input = tString key :: body)
    (hcomma : (body.headD eofToken).code ≠ tk ',') :
    config_get_value h d s prop false true =
      match value_loop h d (body.length + 1) ⟨body, true, tString key, false, s.messages⟩
          (config_value_string "" key) with
      | .error e => .error e
      | .ok (s6, value) => .ok (config_optional_semicolon s6, some value, none) := by
  obtain ⟨input, peeked, token, flag, msgs⟩ := s
  simp only at hin
  subst hin
  simp only [config_get_value, Bool.false_eq_true, if_false, Bool.not_true, if_true,
    g_scanner_peek_next_token, g_scanner_get_next_token, GScanner.next_token, GScanner.head,
    List.headD_cons, List.tail_cons, tString, Bool.true_and, beq_self_eq_true, hcomma]

theorem get_value_key_head_assign (h : Host) (d : Defines) (s : GScanner) (prop : String)
    (key : String) (body : List Token)
    (hin : s.input = tChar '=' :: tString key :: tChar ',' :: body) :
    config_get_value h d s prop true true =
      match value_loop h d (body.length + 1) ⟨body, true, tChar ',', false, s.messages⟩ "" with
      | .error e => .error e
      | .ok (s6, value) => .ok (config_optional_semicolon s6, some value, some key) := by
  obtain ⟨input, peeked, token, flag, msgs⟩ := s
  simp only at hin
  subst hin
  rfl

theorem get_value_nokey_head_assign (h : Host) (d : Defines) (s : GScanner) (prop : String)
    (key : String) (body : List Token) (hin : s.input = tChar '=' :: tString key :: body)
    (hcomma : (body.headD eofToken).code ≠ tk ',') :
    config_get_value h d s prop true true =
      match value_loop h d (body.length + 1) ⟨body, true, tString key, false, s.messages⟩
          (config_value_string "" key) with
      | .error e => .error e
      | .ok (s6, value) => .ok (config_optional_semicolon s6, some value, none) := by
  obtain ⟨input, peeked, token, flag, msgs⟩ := s
  simp only at hin
  subst hin
  simp only [config_get_value, config_expect_token, Bool.false_eq_true, if_false, Bool.not_true,
    if_true, g_scanner_peek_next_token, g_scanner_get_next_token, GScanner.next_token,
    GScanner.head, List.headD_cons, List.tail_cons, tString, tChar, Bool.true_and,
    beq_self_eq_true, hcomma]

/-- The key form: `"key" , tokens`. -/
theorem get_value_key (h : Host) (d : Defines) (s : GScanner) (prop : String) (assign : Bool)
    (key : String) (pre rest : List Token)
    (hin : s.input = (if assign then [tChar '='] else []) ++
      tString key :: tChar ',' :: (pre ++ rest))
    (hpre : ∀ t ∈ pre, value_continues t.code = true)
    (hrest : value_continues (rest.headD eofToken).code = false) :
    config_get_value h d s prop assign true =
      .ok (config_optional_semicolon
            ⟨rest, true, (pre.getLast?).getD (tChar ','), false, s.messages⟩,
          some (assemble h d "" pre), some key) := by
  have hrun := value_loop_run h d pre ((pre ++ rest).length + 1)
    ⟨pre ++ rest, true, tChar ',', false, s.messages⟩ "" rest rfl rfl hpre hrest
    (by rw [List.length_append]; omega)
  cases assign with
  | false => rw [get_value_key_head h d s prop key _ (by simpa using hin), hrun]; rfl
  | true => rw [get_value_key_head_assign h d s prop key _ (by simpa using hin), hrun]; rfl

/-- The string is not followed by a comma: it opens the value. -/
theorem get_value_nokey (h : Host) (d : Defines) (s : GScanner) (prop : String) (assign : Bool)
    (key : String) (pre rest : List Token)
    (hin : s.input = (if assign then [tChar '='] else []) ++ tString key :: (pre ++ rest))
    (hcomma : ((pre ++ rest).headD eofToken).code ≠ tk ',')
    (hpre : ∀ t ∈ pre, value_continues t.code = true)
    (hrest : value_continues (rest.headD eofToken).code = false) :
    config_get_value h d s prop assign true =
      .ok (config_optional_semicolon
            ⟨rest, true, (pre.getLast?).getD (tString key), false, s.messages⟩,
          some (assemble h d (config_value_string "" key) pre), none) := by
  have hrun := value_loop_run h d pre ((pre ++ rest).length + 1)
    ⟨pre ++ rest, true, tString key, false, s.messages⟩ (config_value_string "" key) rest
    rfl rfl hpre hrest (by rw [List.length_append]; omega)
  cases assign with
  | false => rw [get_value_nokey_head h d s prop key _ (by simpa using hin) hcomma, hrun]; rfl
  | true =>
    rw [get_value_nokey_head_assign h d s prop key _ (by simpa using hin) hcomma, hrun]; rfl

theorem value_append_ident (h : Host) (d : Defines) (v x : String) :
    value_append h d v (tIdent x) = v ++ (defines_lookup d x).getD x := by
  simp only [value_append, tIdent]
  cases defines_lookup d x <;> rfl

theorem string_empty_append (s : String) : "" ++ s = s := by
  show String.append "" s = s
  simp [String.append]

/-- C16: for an identifier token the fragment appended by `config_get_value`
is the text stored in the macro table under that identifier when there is
one, and the identifier text itself otherwise.  The stored text goes into the
value as it is: the result is given by one lookup, whatever the stored text
contains. -/
theorem C16_macro_expansion_single_level (h : Host) (d : Defines) (s : GScanner)
    (prop v x : String) (rest : List Token)
    (hin : s.input = tIdent x :: rest)
    (hrest : value_continues (rest.headD eofToken).code = false) :
    value_append h d v (tIdent x) = v ++ (defines_lookup d x).getD x ∧
    config_get_value h d s prop false false =
      .ok (config_optional_semicolon ⟨rest, true, tIdent x, false, s.messages⟩,
          some ((defines_lookup d x).getD x), none) := by
  refine ⟨value_append_ident h d v x, ?_⟩
  rw [get_value_plain h d s prop [tIdent x] rest hin (by
    intro t ht
    rw [List.mem_singleton] at ht
    subst ht
    rfl) hrest]
  simp only [assemble, List.foldl_cons, List.foldl_nil, value_append_ident,
    string_empty_append]
  rfl

/-- Witness for C16: with `A` defined as the text `B` and `B` defined as `Y`,
the value assembled from the identifier `A` is `B`, not `Y`; the undefined
identifier `C` gives `C`. -/
theorem C16_macro_expansion_single_level_witness :
    config_get_value sample_host (some [("A", "B"), ("B", "Y")])
        (g_scanner_new [tIdent "A", tChar ';']) "value" false false =
      .ok (config_optional_semicolon ⟨[tChar ';'], true, tIdent "A", false, []⟩,
          some "B", none) ∧
    config_get_value sample_host (some [("A", "B"), ("B", "Y")])
        (g_scanner_new [tIdent "C", tChar ';']) "value" false false =
      .ok (config_optional_semicolon ⟨[tChar ';'], true, tIdent "C", false, []⟩,
          some "C", none) :=
  ⟨(C16_macro_expansion_single_level sample_host (some [("A", "B"), ("B", "Y")])
      (g_scanner_new [tIdent "A", tChar ';']) "value" "" "A" [tChar ';'] rfl (by decide)).2,
   (C16_macro_expansion_single_level sample_host (some [("A", "B"), ("B", "Y")])
      (g_scanner_new [tIdent "C", tChar ';']) "value" "" "C" [tChar ';'] rfl (by decide)).2⟩

/-- C18: with a key destination and a string literal `key` next, followed by a
comma: the key output is `key`, the comma is consumed and the value is
assembled from the tokens behind the comma alone.  Followed by anything else:
no key is stored and the value starts with `key` quoted and escaped, the
tokens up to the terminator being appended to it. -/
theorem C18_key_form (h : Host) (d : Defines) (s1 s2 : GScanner) (prop : String)
    (assign : Bool) (key : String) (pre rest : List Token)
    (hin1 : s1.input = (if assign then [tChar '='] else []) ++
      tString key :: tChar ',' :: (pre ++ rest))
    (hin2 : s2.input = (if assign then [tChar '='] else []) ++ tString key :: (pre ++ rest))
    (hcomma : ((pre ++ rest).headD eofToken).code ≠ tk ',')
    (hpre : ∀ t ∈ pre, value_continues t.code = true)
    (hrest : value_continues (rest.headD eofToken).code = false)
    (hnul : Char.ofNat 0 ∉ key.data) :
    config_get_value h d s1 prop assign true =
      .ok (config_optional_semicolon
            ⟨rest, true, (pre.getLast?).getD (tChar ','), false, s1.messages⟩,
          some (assemble h d "" pre), some key) ∧
    config_get_value h d s2 prop assign true =
      .ok (config_optional_semicolon
            ⟨rest, true, (pre.getLast?).getD (tString key), false, s2.messages⟩,
          some (assemble h d (config_value_string "" key) pre), none) ∧
    config_value_string "" key = String.mk ('"' :: backslash_quotes key.data ++ ['"']) := by
  refine ⟨get_value_key h d s1 prop assign key pre rest hin1 hpre hrest,
    get_value_nokey h d s2 prop assign key pre rest hin2 hcomma hpre hrest, ?_⟩
  rw [config_value_string_eq "" key (by simp) hnul]
  rfl

/-- Witness for C18: `"k" , X ;` and `"k" X ;`. -/
theorem C18_key_form_witness :
    config_get_value sample_host none (g_scanner_new [tString "k", tChar ',', tIdent "X",
        tChar ';']) "action value" false true =
      .ok (config_optional_semicolon ⟨[tChar ';'], true, tIdent "X", false, []⟩,
          some (assemble sample_host none "" [tIdent "X"]), some "k") ∧
    config_get_value sample_host none (g_scanner_new [tString "k", tIdent "X", tChar ';'])
        "action value" false true =
      .ok (config_optional_semicolon ⟨[tChar ';'], true, tIdent "X", false, []⟩,
          some (assemble sample_host none (config_value_string "" "k") [tIdent "X"]), none) :=
  have w := C18_key_form sample_host none
    (g_scanner_new [tString "k", tChar ',', tIdent "X", tChar ';'])
    (g_scanner_new [tString "k", tIdent "X", tChar ';']) "action value" false "k"
    [tIdent "X"] [tChar ';'] rfl rfl (by decide) (by decide) (by decide) (by decide)
  ⟨w.1, w.2.1⟩

/-! ### The macro table -/

theorem find_after_replace (k v : String) (l : List (String × String))
    (hany : l.any (fun p => str_nequal p.1 k) = true) :
    ((l.map (fun p => if str_nequal p.1 k = true then (p.1, v) else p)).find?
      (fun p => str_nequal p.1 k)).map Prod.snd = some v := by
  induction l with
  | nil => simp at hany
  | cons p ps ih =>
    by_cases hp : str_nequal p.1 k = true
    · simp [List.find?_cons, hp]
    · have hps : ps.any (fun p => str_nequal p.1 k) = true := by
        simpa [List.any_cons, hp] using hany
      simp only [Bool.not_eq_true] at hp
      simp only [List.map_cons, hp, Bool.false_eq_true, if_false, List.find?_cons]
      exact ih hps

theorem find_after_append (k v : String) (l : List (String × String))
    (hany : l.any (fun p => str_nequal p.1 k) = false) :
    ((l ++ [(k, v)]).find? (fun p => str_nequal p.1 k)).map Prod.snd = some v := by
  induction l with
  | nil => simp [str_nequal]
  | cons p ps ih =>
    simp only [List.any_cons, Bool.or_eq_false_iff] at hany
    simp only [List.cons_append, List.find?_cons, hany.1]
    exact ih hany.2

theorem defines_lookup_insert_self (tbl : List (String × String)) (k v : String) :
    defines_lookup (some (defines_insert tbl k v)) k = some v := by
  by_cases hany : tbl.any (fun p => str_nequal p.1 k) = true
  · simp only [defines_lookup, defines_insert, hany, if_true]
    exact find_after_replace k v tbl hany
  · simp only [Bool.not_eq_true] at hany
    simp only [defines_lookup, defines_insert, hany, Bool.false_eq_true, if_false]
    exact find_after_append k v tbl hany

theorem find_other_after_replace (k v k2 : String) (hne : k2 ≠ k)
    (l : List (String × String)) :
    ((l.map (fun p => if str_nequal p.1 k = true then (p.1, v) else p)).find?
      (fun p => str_nequal p.1 k2)).map Prod.snd =
    (l.find? (fun p => str_nequal p.1 k2)).map Prod.snd := by
  induction l with
  | nil => rfl
  | cons p ps ih =>
    by_cases hp : str_nequal p.1 k = true
    · have hp2 : str_nequal p.1 k2 = false := by
        simp only [str_nequal, beq_iff_eq, beq_eq_false_iff_ne] at hp ⊢
        exact fun e => hne (e.symm.trans hp)
      simp only [List.map_cons, hp, if_true, List.find?_cons, hp2]
      exact ih
    · simp only [Bool.not_eq_true] at hp
      simp only [List.map_cons, hp, Bool.false_eq_true, if_false, List.find?_cons]
      cases hq : str_nequal p.1 k2
      · exact ih
      · rfl

theorem find_other_after_append (k v k2 : String) (hne : k2 ≠ k)
    (l : List (String × String)) :
    ((l ++ [(k, v)]).find? (fun p => str_nequal p.1 k2)).map Prod.snd =
    (l.find? (fun p => str_nequal p.1 k2)).map Prod.snd := by
  induction l with
  | nil =>
    have : str_nequal k k2 = false := by
      simp only [str_nequal, beq_eq_false_iff_ne]
      exact fun e => hne e.symm
    simp [List.find?_cons, this]
  | cons p ps ih =>
    simp only [List.cons_append, List.find?_cons]
    cases hq : str_nequal p.1 k2
    · exact ih
    · rfl

theorem defines_lookup_insert_other (tbl : List (String × String)) (k v k2 : String)
    (hne : k2 ≠ k) :
    defines_lookup (some (defines_insert tbl k v)) k2 = defines_lookup (some tbl) k2 := by
  by_cases hany : tbl.any (fun p => str_nequal p.1 k) = true
  · simp only [defines_lookup, defines_insert, hany, if_true]
    exact find_other_after_replace k v k2 hne tbl
  · simp only [Bool.not_eq_true] at hany
    simp only [defines_lookup, defines_insert, hany, Bool.false_eq_true, if_false]
    exact find_other_after_append k v k2 hne tbl

theorem defines_insert_twice (tbl : List (String × String)) (k v1 v2 : String) :
    defines_insert (defines_insert tbl k v1) k v2 = defines_insert tbl k v2 := by
  by_cases hany : tbl.any (fun q => str_nequal q.1 k) = true
  · have h2 : (tbl.map (fun p => if str_nequal p.1 k = true then (p.1, v1) else p)).any
        (fun q => str_nequal q.1 k) = true := by
      simp only [List.any_eq_true, List.mem_map] at hany ⊢
      obtain ⟨x, hx, hk⟩ := hany
      exact ⟨(x.1, v1), ⟨x, hx, by simp [hk]⟩, hk⟩
    simp only [defines_insert, hany, if_true, h2, List.map_map]
    apply List.map_congr_left
    intro p _
    by_cases hp : str_nequal p.1 k = true <;> simp [hp]
  · have hany' : tbl.any (fun q => str_nequal q.1 k) = false := by simpa using hany
    have h2 : (tbl ++ [(k, v1)]).any (fun q => str_nequal q.1 k) = true := by
      simp [str_nequal]
    simp only [defines_insert, hany', Bool.false_eq_true, if_false, h2, if_true,
      List.map_append, List.map_cons, List.map_nil]
    have hmap : tbl.map (fun p => if str_nequal p.1 k = true then (p.1, v2) else p) = tbl := by
      conv_rhs => rw [← List.map_id tbl]
      apply List.map_congr_left
      intro p hp
      have : str_nequal p.1 k = false := by
        rw [List.any_eq_false] at hany'
        simpa using hany' p hp
      simp [this]
    rw [hmap]
    simp [str_nequal]

/-! ### `Define` -/

theorem config_define_head (h : Host) (s : GScanner) (g : Globals) (n : String)
    (body : List Token) (hin : s.input = tIdent n :: body) :
    config_define h s g =
      match config_get_value h g.defines ⟨body, false, tIdent n, s.max_parse_errors, s.messages⟩
          "define" true false with
      | .error e => .error e
      | .ok (s2, none, _) => .ok (s2, g)
      | .ok (s2, some value, _) =>
        .ok (s2, { g with defines := some (defines_insert (g.defines.getD []) n value) }) := by
  obtain ⟨input, peeked, token, flag, msgs⟩ := s
  simp only at hin
  subst hin
  rfl

/-- A well-formed `Define n = value` stores the assembled value under `n`. -/
theorem config_define_ok (h : Host) (s : GScanner) (g : Globals) (n : String)
    (pre rest : List Token) (hin : s.input = tIdent n :: tChar '=' :: (pre ++ rest))
    (hpre : ∀ t ∈ pre, value_continues t.code = true)
    (hrest : value_continues (rest.headD eofToken).code = false) :
    config_define h s g =
      .ok (config_optional_semicolon
            ⟨rest, true, (pre.getLast?).getD (tChar '='), false, s.messages⟩,
          ⟨some (defines_insert (g.defines.getD []) n (assemble h g.defines "" pre)),
            g.menus, g.events, g.widgets⟩) := by
  rw [config_define_head h s g n _ hin,
    get_value_assign h g.defines _ "define" pre rest rfl hpre hrest]

theorem assemble_string (h : Host) (d : Defines) (x : String) :
    assemble h d "" [tString x] = config_value_string "" x := by
  rfl

theorem assemble_ident (h : Host) (d : Defines) (x : String) :
    assemble h d "" [tIdent x] = (defines_lookup d x).getD x := by
  simp only [assemble, List.foldl_cons, List.foldl_nil, value_append_ident, string_empty_append]

/-- C15: after `Define n = v1` and `Define n = v2` the macro table is the table
before the two statements with `n` mapped to the assembled text of `v2` alone;
a lookup of `n` gives that text, and a later value made of the identifier `n`
has that text appended. -/
theorem C15_define_overwrites (h : Host) (g : Globals) (s1 s2 s3 : GScanner) (n prop : String)
    (v1 v2 r1 r2 r3 : List Token)
    (hin1 : s1.input = tIdent n :: tChar '=' :: (v1 ++ r1))
    (hin2 : s2.input = tIdent n :: tChar '=' :: (v2 ++ r2))
    (hin3 : s3.input = tIdent n :: r3)
    (hv1 : ∀ t ∈ v1, value_continues t.code = true)
    (hv2 : ∀ t ∈ v2, value_continues t.code = true)
    (hr1 : value_continues (r1.headD eofToken).code = false)
    (hr2 : value_continues (r2.headD eofToken).code = false)
    (hr3 : value_continues (r3.headD eofToken).code = false) :
    ∃ t1 g1 t2 g2,
      config_define h s1 g = .ok (t1, g1) ∧
      config_define h s2 g1 = .ok (t2, g2) ∧
      g1.defines = some (defines_insert (g.defines.getD []) n (assemble h g.defines "" v1)) ∧
      g2.defines = some (defines_insert (g.defines.getD []) n (assemble h g1.defines "" v2)) ∧
      defines_lookup g2.defines n = some (assemble h g1.defines "" v2) ∧
      (∀ v, value_append h g2.defines v (tIdent n) = v ++ assemble h g1.defines "" v2) ∧
      config_get_value h g2.defines s3 prop false false =
        .ok (config_optional_semicolon ⟨r3, true, tIdent n, false, s3.messages⟩,
          some (assemble h g1.defines "" v2), none) := by
  have hlook : defines_lookup
      (some (defines_insert (defines_insert (g.defines.getD []) n (assemble h g.defines "" v1)) n
        (assemble h (some (defines_insert (g.defines.getD []) n (assemble h g.defines "" v1)))
          "" v2))) n =
      some (assemble h (some (defines_insert (g.defines.getD []) n (assemble h g.defines "" v1)))
          "" v2) := defines_lookup_insert_self _ _ _
  refine ⟨_, _, _, _, config_define_ok h s1 g n v1 r1 hin1 hv1 hr1,
    config_define_ok h s2 _ n v2 r2 hin2 hv2 hr2, rfl, ?_, hlook, ?_, ?_⟩
  · simp only [Option.getD_some, defines_insert_twice]
  · intro v
    rw [value_append_ident]
    simp only [Option.getD_some] at hlook ⊢
    rw [hlook]
    rfl
  · have hrun := get_value_plain h
      (some (defines_insert (defines_insert (g.defines.getD []) n (assemble h g.defines "" v1)) n
        (assemble h (some (defines_insert (g.defines.getD []) n (assemble h g.defines "" v1)))
          "" v2))) s3 prop [tIdent n] r3 hin3
      (by intro t ht; simp only [List.mem_singleton] at ht; subst ht; rfl) hr3
    simp only [Option.getD_some] at hrun ⊢
    rw [hrun, assemble_ident, hlook]
    rfl

/-- C15 on `n = "a";` then `n = "b"` with an empty table at the start, followed
by a value `n`. -/
theorem C15_define_overwrites_witness :
    ∃ t1 g1 t2 g2,
      config_define sample_host
        (g_scanner_new [tIdent "n", tChar '=', tString "a", tChar ';']) Globals.init =
          .ok (t1, g1) ∧
      config_define sample_host (g_scanner_new [tIdent "n", tChar '=', tString "b"]) g1 =
          .ok (t2, g2) ∧
      g1.defines = some (defines_insert (Globals.init.defines.getD []) "n"
        (assemble sample_host Globals.init.defines "" [tString "a"])) ∧
      g2.defines = some (defines_insert (Globals.init.defines.getD []) "n"
        (assemble sample_host g1.defines "" [tString "b"])) ∧
      defines_lookup g2.defines "n" = some (assemble sample_host g1.defines "" [tString "b"]) ∧
      (∀ v, value_append sample_host g2.defines v (tIdent "n") =
        v ++ assemble sample_host g1.defines "" [tString "b"]) ∧
      config_get_value sample_host g2.defines (g_scanner_new [tIdent "n"]) "value" false false =
        .ok (config_optional_semicolon ⟨[], true, tIdent "n", false, []⟩,
          some (assemble sample_host g1.defines "" [tString "b"]), none) :=
  C15_define_overwrites sample_host Globals.init
    (g_scanner_new [tIdent "n", tChar '=', tString "a", tChar ';'])
    (g_scanner_new [tIdent "n", tChar '=', tString "b"]) (g_scanner_new [tIdent "n"])
    "n" "value" [tString "a"] [tString "b"] [tChar ';'] [] []
    rfl rfl rfl (by decide) (by decide) (by decide) (by decide) (by decide)

/-- C17: after `Define a = "x"` and `Define b = a` the table maps `b` to the
text assembled from the literal `"x"`, the value `a` had at that moment; a
later `Define a = "y"` changes the entry of `a` and leaves the entry of `b`
as it was. -/
theorem C17_expansion_not_retroactive (h : Host) (g : Globals) (s1 s2 s3 : GScanner)
    (a b x y : String) (r1 r2 r3 : List Token) (hab : a ≠ b)
    (hin1 : s1.input = tIdent a :: tChar '=' :: tString x :: r1)
    (hin2 : s2.input = tIdent b :: tChar '=' :: tIdent a :: r2)
    (hin3 : s3.input = tIdent a :: tChar '=' :: tString y :: r3)
    (hr1 : value_continues (r1.headD eofToken).code = false)
    (hr2 : value_continues (r2.headD eofToken).code = false)
    (hr3 : value_continues (r3.headD eofToken).code = false) :
    ∃ t1 g1 t2 g2 t3 g3,
      config_define h s1 g = .ok (t1, g1) ∧
      config_define h s2 g1 = .ok (t2, g2) ∧
      config_define h s3 g2 = .ok (t3, g3) ∧
      defines_lookup g1.defines a = some (config_value_string "" x) ∧
      defines_lookup g2.defines a = some (config_value_string "" x) ∧
      defines_lookup g2.defines b = some (config_value_string "" x) ∧
      defines_lookup g3.defines a = some (config_value_string "" y) ∧
      defines_lookup g3.defines b = some (config_value_string "" x) := by
  have hs : ∀ z : String, ∀ t ∈ [tString z], value_continues t.code = true := by
    intro z t ht
    simp only [List.mem_singleton] at ht
    subst ht
    rfl
  have hi : ∀ t ∈ [tIdent a], value_continues t.code = true := by
    intro t ht
    simp only [List.mem_singleton] at ht
    subst ht
    rfl
  have h1 : defines_lookup (some (defines_insert (g.defines.getD []) a
      (config_value_string "" x))) a = some (config_value_string "" x) :=
    defines_lookup_insert_self _ _ _
  refine ⟨_, _, _, _, _, _,
    config_define_ok h s1 g a [tString x] r1 hin1 (hs x) hr1,
    config_define_ok h s2 _ b [tIdent a] r2 hin2 hi hr2,
    config_define_ok h s3 _ a [tString y] r3 hin3 (hs y) hr3, ?_, ?_, ?_, ?_, ?_⟩
  · exact h1
  · simp only [assemble_string, assemble_ident, Option.getD_some]
    rw [defines_lookup_insert_other _ _ _ _ hab]
    exact h1
  · simp only [assemble_string, assemble_ident, Option.getD_some]
    rw [defines_lookup_insert_self, h1]
    rfl
  · simp only [assemble_string, assemble_ident, Option.getD_some]
    exact defines_lookup_insert_self _ _ _
  · simp only [assemble_string, assemble_ident, Option.getD_some]
    rw [defines_lookup_insert_other _ _ _ _ (Ne.symm hab), defines_lookup_insert_self, h1]
    rfl

/-- C17 on `A = "X";`, `B = A;`, `A = "Y";` from an empty table: `B` keeps the
quoted text of `"X"`. -/
theorem C17_expansion_not_retroactive_witness :
    (∃ t1 g1 t2 g2 t3 g3,
      config_define sample_host
        (g_scanner_new [tIdent "A", tChar '=', tString "X", tChar ';']) Globals.init =
          .ok (t1, g1) ∧
      config_define sample_host
        (g_scanner_new [tIdent "B", tChar '=', tIdent "A", tChar ';']) g1 = .ok (t2, g2) ∧
      config_define sample_host
        (g_scanner_new [tIdent "A", tChar '=', tString "Y", tChar ';']) g2 = .ok (t3, g3) ∧
      defines_lookup g1.defines "A" = some (config_value_string "" "X") ∧
      defines_lookup g2.defines "A" = some (config_value_string "" "X") ∧
      defines_lookup g2.defines "B" = some (config_value_string "" "X") ∧
      defines_lookup g3.defines "A" = some (config_value_string "" "Y") ∧
      defines_lookup g3.defines "B" = some (config_value_string "" "X")) ∧
    config_value_string "" "X" = "\"X\"" ∧ config_value_string "" "Y" = "\"Y\"" :=
  ⟨C17_expansion_not_retroactive sample_host Globals.init
    (g_scanner_new [tIdent "A", tChar '=', tString "X", tChar ';'])
    (g_scanner_new [tIdent "B", tChar '=', tIdent "A", tChar ';'])
    (g_scanner_new [tIdent "A", tChar '=', tString "Y", tChar ';'])
    "A" "B" "X" "Y" [tChar ';'] [tChar ';'] [tChar ';']
    (by decide) rfl rfl rfl (by decide) (by decide) (by decide), by decide!, by decide!⟩

/-! ### Actions -/

theorem string_kind_codes (c : Int) (hk : c ∈ action_kinds_string) :
    c ≠ G_TOKEN_STRING ∧ c ∉ action_kinds_plain := by
  simp only [action_kinds_string, List.mem_cons, List.mem_singleton, List.not_mem_nil,
    or_false] at hk
  rcases hk with hk | hk | hk | hk | hk | hk | hk | hk | hk | hk | hk | hk | hk | hk | hk | hk <;>
    subst hk <;> exact ⟨by decide, by decide⟩

theorem action_kind_string (h : Host) (d : Defines) (s : GScanner) (a : Action)
    (hk : s.token.code ∈ action_kinds_string) :
    config_action_kind h d s a =
      if (dest_string (config_parse_sequence s action_steps_string).2 1 a.command).isNone then
        .ok ((config_parse_sequence s action_steps_string).1,
          { a with
            command := dest_string (config_parse_sequence s action_steps_string).2 0 a.addr,
            addr := none })
      else
        .ok ((config_parse_sequence s action_steps_string).1,
          { a with
            addr := dest_string (config_parse_sequence s action_steps_string).2 0 a.addr,
            command := dest_string (config_parse_sequence s action_steps_string).2 1 a.command }) := by
  have hc := string_kind_codes _ hk
  simp only [config_action_kind, hc.1, hc.2, hk, if_true, if_false]

theorem string_args_single (s : GScanner) (a : String) (rest : List Token)
    (hin : s.input = tString a :: rest)
    (hcomma : (rest.headD eofToken).code ≠ tk ',')
    (hstr : (rest.headD eofToken).code ≠ G_TOKEN_STRING) :
    config_parse_sequence s action_steps_string =
      (⟨rest, true, tString a, false, s.messages⟩, [(0, .str a)]) := by
  obtain ⟨input, peeked, token, flag, msgs⟩ := s
  simp only at hin
  subst hin
  have h1 : seq_step (seq_init ⟨tString a :: rest, peeked, token, flag, msgs⟩)
      (seq .SEQ_REQ G_TOKEN_STRING (some 0) (some "Missing argument in action")) =
      ⟨true, ⟨rest, false, tString a, false, msgs⟩, [(0, .str a)]⟩ := rfl
  have h2 : seq_step ⟨true, ⟨rest, false, tString a, false, msgs⟩, [(0, .str a)]⟩
      (seq .SEQ_OPT (tk ',') none none) =
      ⟨false, ⟨rest, true, tString a, false, msgs⟩, [(0, .str a)]⟩ :=
    seq_step_skipped _ _ rfl rfl ⟨hcomma, fun hh => absurd hh.2 (by decide)⟩
  have h3 : seq_step ⟨false, ⟨rest, true, tString a, false, msgs⟩, [(0, .str a)]⟩
      (seq .SEQ_CON G_TOKEN_STRING (some 1) (some "Missing argument after ','")) =
      ⟨false, ⟨rest, true, tString a, false, msgs⟩, [(0, .str a)]⟩ :=
    seq_step_skipped _ _ rfl rfl ⟨hstr, fun hh => absurd hh.2 (by decide)⟩
  simp only [config_parse_sequence, action_steps_string, seq_run_cons, seq_run_nil, h1, h2, h3]

theorem config_action_after_conditions (h : Host) (d : Defines) (s s1 : GScanner) (c nc : Nat)
    (hc : config_action_conditions s 0 0 = .ok (s1, c, nc)) :
    config_action h d s =
      match config_action_kind h d (g_scanner_get_next_token s1)
          ⟨c, nc, (g_scanner_get_next_token s1).token.code, none, none⟩ with
      | .error e => .error e
      | .ok (s3, a3) => .ok (s3, if s3.max_parse_errors then none else some a3) := by
  simp only [config_action, hc]

theorem condition_flag_some (k : Int) (f : Nat) (hf : condition_flag k = some f) :
    (k = G_TOKEN_FOCUSED ∧ f = WS_FOCUSED) ∨ (k = G_TOKEN_MINIMIZED ∧ f = WS_MINIMIZED) ∨
    (k = G_TOKEN_MAXIMIZED ∧ f = WS_MAXIMIZED) ∨ (k = G_TOKEN_FULLSCREEN ∧ f = WS_FULLSCREEN) ∨
    (k = G_TOKEN_IDLEINHIBIT ∧ f = WS_INHIBIT) ∨ (k = G_TOKEN_USERSTATE ∧ f = WS_USERSTATE) := by
  unfold condition_flag at hf
  split_ifs at hf with h1 h2 h3 h4 h5 h6
  · exact Or.inl ⟨h1, (Option.some.inj hf).symm⟩
  · exact Or.inr (Or.inl ⟨h2, (Option.some.inj hf).symm⟩)
  · exact Or.inr (Or.inr (Or.inl ⟨h3, (Option.some.inj hf).symm⟩))
  · exact Or.inr (Or.inr (Or.inr (Or.inl ⟨h4, (Option.some.inj hf).symm⟩)))
  · exact Or.inr (Or.inr (Or.inr (Or.inr (Or.inl ⟨h5, (Option.some.inj hf).symm⟩))))
  · exact Or.inr (Or.inr (Or.inr (Or.inr (Or.inr ⟨h6, (Option.some.inj hf).symm⟩))))

/-- One pass of the `do ... while` loop over an entry that is a condition
keyword. -/
theorem conditions_loop_step (n : Nat) (s : GScanner) (c nc : Nat) (x : Token)
    (e : Bool × Int) (f : Nat) (rest : List Token)
    (hin : s.input = x :: (condition_tokens e ++ rest))
    (hf : condition_flag e.2 = some f) :
    conditions_loop (n + 1) s c nc =
      if (rest.headD eofToken).code = tk '|' then
        conditions_loop n ⟨rest, true, tSym e.2, s.max_parse_errors, s.messages⟩
          (if e.1 then c else c ||| f) (if e.1 then nc ||| f else nc)
      else
        .ok (⟨rest, true, tSym e.2, s.max_parse_errors, s.messages⟩,
          if e.1 then c else c ||| f, if e.1 then nc ||| f else nc) := by
  obtain ⟨input, peeked, token, flag, msgs⟩ := s
  obtain ⟨neg, k⟩ := e
  simp only at hin hf
  subst hin
  rcases condition_flag_some k f hf with ⟨hk, hv⟩ | ⟨hk, hv⟩ | ⟨hk, hv⟩ | ⟨hk, hv⟩ | ⟨hk, hv⟩ |
    ⟨hk, hv⟩ <;> subst hk <;> subst hv <;> cases neg <;> rfl

theorem conditions_tokens_cons (e e2 : Bool × Int) (es : List (Bool × Int)) :
    conditions_tokens (e :: e2 :: es) =
      condition_tokens e ++ tChar '|' :: conditions_tokens (e2 :: es) := rfl

/-- The loop over a whole list of condition keywords. -/
theorem conditions_loop_run (es : List (Bool × Int)) (hne : es ≠ [])
    (hkw : ∀ e ∈ es, (condition_flag e.2).isSome = true) :
    ∀ (n : Nat) (s : GScanner) (c nc : Nat) (x : Token) (rest : List Token),
      s.input = x :: (conditions_tokens es ++ rest) →
      (rest.headD eofToken).code ≠ tk '|' → es.length ≤ n →
      conditions_loop n s c nc =
        .ok (⟨rest, true, tSym ((es.getLast?).getD (false, 0)).2, s.max_parse_errors,
            s.messages⟩,
          c ||| condition_mask false es, nc ||| condition_mask true es) := by
  induction es with
  | nil => exact absurd rfl hne
  | cons e tl ih =>
    intro n s c nc x rest hin hrest hn
    obtain ⟨f, hf⟩ := Option.isSome_iff_exists.mp (hkw e (List.mem_cons_self _ _))
    cases n with
    | zero => simp at hn
    | succ n =>
      cases tl with
      | nil =>
        rw [conditions_loop_step n s c nc x e f rest hin hf, if_neg hrest]
        obtain ⟨neg, k⟩ := e
        simp only at hf
        cases neg <;> simp [condition_mask, hf]
      | cons e2 tl2 =>
        have hin2 : s.input =
            x :: (condition_tokens e ++ (tChar '|' :: (conditions_tokens (e2 :: tl2) ++ rest))) := by
          rw [hin, conditions_tokens_cons, List.append_assoc]
          rfl
        have hbar : ((tChar '|' :: (conditions_tokens (e2 :: tl2) ++ rest)).headD eofToken).code =
            tk '|' := rfl
        rw [conditions_loop_step n s c nc x e f _ hin2 hf, if_pos hbar,
          ih (List.cons_ne_nil _ _) (fun e3 h3 => hkw e3 (List.mem_cons_of_mem _ h3)) n _ _ _
            (tChar '|') rest rfl hrest (by simpa using hn)]
        obtain ⟨neg, k⟩ := e
        simp only at hf
        cases neg <;> simp [condition_mask, hf, Nat.lor_assoc]

theorem conditions_tokens_length (es : List (Bool × Int)) :
    es.length ≤ (conditions_tokens es).length := by
  induction es with
  | nil => simp
  | cons e tl ih =>
    cases tl with
    | nil => simp [conditions_tokens, condition_tokens]
    | cons e2 tl2 =>
      rw [conditions_tokens_cons]
      simp only [List.length_append, List.length_cons] at ih ⊢
      omega

/-- A well-formed bracketed condition list: both masks are ORed with the flags
of their entries, the closing bracket is consumed, the error flag and the
messages stay as they were. -/
theorem conditions_run (es : List (Bool × Int)) (hne : es ≠ [])
    (hkw : ∀ e ∈ es, (condition_flag e.2).isSome = true)
    (s : GScanner) (c nc : Nat) (rest : List Token)
    (hin : s.input = tChar '[' :: (conditions_tokens es ++ tChar ']' :: rest)) :
    config_action_conditions s c nc =
      .ok (⟨rest, false, tChar ']', s.max_parse_errors, s.messages⟩,
        c ||| condition_mask false es, nc ||| condition_mask true es) := by
  have hnt : (g_scanner_peek_next_token s).next_token = tk '[' := by
    simp [g_scanner_peek_next_token, GScanner.next_token, GScanner.head, hin, tChar]
  have hrun := conditions_loop_run es hne hkw ((g_scanner_peek_next_token s).input.length + 1)
    (g_scanner_peek_next_token s) c nc (tChar '[') (tChar ']' :: rest) hin
    (by simp only [List.headD_cons]; decide)
    (by
      have := conditions_tokens_length es
      simp only [g_scanner_peek_next_token, hin, List.length_cons, List.length_append]
      omega)
  simp only [config_action_conditions, hnt, ne_eq, not_true_eq_false, if_false, hrun]
  rfl

theorem condition_mask_testBit (neg : Bool) (es : List (Bool × Int)) (i : Nat) :
    (condition_mask neg es).testBit i =
      es.any (fun e => decide (e.1 = neg) && ((condition_flag e.2).getD 0).testBit i) := by
  induction es with
  | nil => simp [condition_mask]
  | cons e tl ih =>
    simp only [condition_mask, Nat.testBit_lor, ih, List.any_cons]
    by_cases he : e.1 = neg <;> simp [he]

/-- The mask depends only on which entries occur, not on their order or
number. -/
theorem condition_mask_congr (neg : Bool) (es es2 : List (Bool × Int))
    (hsame : ∀ e, e ∈ es ↔ e ∈ es2) : condition_mask neg es = condition_mask neg es2 := by
  apply Nat.eq_of_testBit_eq
  intro i
  rw [condition_mask_testBit, condition_mask_testBit, Bool.eq_iff_iff]
  simp only [List.any_eq_true]
  constructor
  · rintro ⟨e, he, hp⟩
    exact ⟨e, (hsame e).mp he, hp⟩
  · rintro ⟨e, he, hp⟩
    exact ⟨e, (hsame e).mpr he, hp⟩

/-- C20: on a bracketed list of condition keywords, each optionally preceded
by `!`, `config_action_conditions` ORs into the positive mask the flags of the
entries without `!` and into the negated mask the flags of the entries with
`!`, consumes the list up to and including `]`, and leaves the error flag and
the messages as they were.  A second list with the same set of entries, in any
order and with any repetitions, gives the same two masks. -/
theorem C20_condition_masks (es es2 : List (Bool × Int)) (s s2 : GScanner) (c nc : Nat)
    (rest rest2 : List Token) (hne : es ≠ [])
    (hkw : ∀ e ∈ es, (condition_flag e.2).isSome = true)
    (hsame : ∀ e, e ∈ es ↔ e ∈ es2)
    (hin : s.input = tChar '[' :: (conditions_tokens es ++ tChar ']' :: rest))
    (hin2 : s2.input = tChar '[' :: (conditions_tokens es2 ++ tChar ']' :: rest2)) :
    config_action_conditions s c nc =
      .ok (⟨rest, false, tChar ']', s.max_parse_errors, s.messages⟩,
        c ||| condition_mask false es, nc ||| condition_mask true es) ∧
    config_action_conditions s2 c nc =
      .ok (⟨rest2, false, tChar ']', s2.max_parse_errors, s2.messages⟩,
        c ||| condition_mask false es, nc ||| condition_mask true es) := by
  have hne2 : es2 ≠ [] := by
    obtain ⟨e, tl, rfl⟩ := List.exists_cons_of_ne_nil hne
    exact List.ne_nil_of_mem ((hsame e).mp (List.mem_cons_self _ _))
  have hkw2 : ∀ e ∈ es2, (condition_flag e.2).isSome = true :=
    fun e he => hkw e ((hsame e).mpr he)
  refine ⟨conditions_run es hne hkw s c nc rest hin, ?_⟩
  rw [conditions_run es2 hne2 hkw2 s2 c nc rest2 hin2,
    condition_mask_congr false es es2 hsame, condition_mask_congr true es es2 hsame]

/-- C20 on `[Focused | !Focused | Maximized]` and on
`[Maximized | !Focused | Focused | Maximized]`, with masks 8 and 2 before:
`Focused` ends up in both masks. -/
theorem C20_condition_masks_witness :
    (config_action_conditions
      (g_scanner_new [tChar '[', tSym G_TOKEN_FOCUSED, tChar '|', tChar '!',
        tSym G_TOKEN_FOCUSED, tChar '|', tSym G_TOKEN_MAXIMIZED, tChar ']',
        tSym G_TOKEN_CLOSE]) 8 2 =
      .ok (⟨[tSym G_TOKEN_CLOSE], false, tChar ']', false, []⟩,
        8 ||| condition_mask false
          [(false, G_TOKEN_FOCUSED), (true, G_TOKEN_FOCUSED), (false, G_TOKEN_MAXIMIZED)],
        2 ||| condition_mask true
          [(false, G_TOKEN_FOCUSED), (true, G_TOKEN_FOCUSED), (false, G_TOKEN_MAXIMIZED)]) ∧
    config_action_conditions
      (g_scanner_new [tChar '[', tSym G_TOKEN_MAXIMIZED, tChar '|', tChar '!',
        tSym G_TOKEN_FOCUSED, tChar '|', tSym G_TOKEN_FOCUSED, tChar '|',
        tSym G_TOKEN_MAXIMIZED, tChar ']']) 8 2 =
      .ok (⟨[], false, tChar ']', false, []⟩,
        8 ||| condition_mask false
          [(false, G_TOKEN_FOCUSED), (true, G_TOKEN_FOCUSED), (false, G_TOKEN_MAXIMIZED)],
        2 ||| condition_mask true
          [(false, G_TOKEN_FOCUSED), (true, G_TOKEN_FOCUSED), (false, G_TOKEN_MAXIMIZED)])) ∧
    8 ||| condition_mask false
      [(false, G_TOKEN_FOCUSED), (true, G_TOKEN_FOCUSED), (false, G_TOKEN_MAXIMIZED)] = 13 ∧
    2 ||| condition_mask true
      [(false, G_TOKEN_FOCUSED), (true, G_TOKEN_FOCUSED), (false, G_TOKEN_MAXIMIZED)] = 3 :=
  ⟨C20_condition_masks
    [(false, G_TOKEN_FOCUSED), (true, G_TOKEN_FOCUSED), (false, G_TOKEN_MAXIMIZED)]
    [(false, G_TOKEN_MAXIMIZED), (true, G_TOKEN_FOCUSED), (false, G_TOKEN_FOCUSED),
      (false, G_TOKEN_MAXIMIZED)]
    (g_scanner_new [tChar '[', tSym G_TOKEN_FOCUSED, tChar '|', tChar '!',
        tSym G_TOKEN_FOCUSED, tChar '|', tSym G_TOKEN_MAXIMIZED, tChar ']',
        tSym G_TOKEN_CLOSE])
    (g_scanner_new [tChar '[', tSym G_TOKEN_MAXIMIZED, tChar '|', tChar '!',
        tSym G_TOKEN_FOCUSED, tChar '|', tSym G_TOKEN_FOCUSED, tChar '|',
        tSym G_TOKEN_MAXIMIZED, tChar ']'])
    8 2 [tSym G_TOKEN_CLOSE] [] (by decide) (by decide)
    (by intro e; simp only [List.mem_cons, List.mem_singleton, List.not_mem_nil, or_false]; tauto)
    rfl rfl, by decide, by decide⟩

/-! ### `interval` and `trigger` -/

theorem assign_string_ok (s : GScanner) (expr v : String) (rest : List Token)
    (hin : s.input = tChar '=' :: tString v :: rest) :
    config_assign_string s expr =
      (config_optional_semicolon ⟨rest, false, tString v, false, s.messages⟩, some v) := by
  obtain ⟨input, peeked, token, flag, msgs⟩ := s
  simp only at hin
  subst hin
  rfl

/-- C11 (as stated, refuted): a label widget whose interval is 5000 reads
`trigger = "t"`.  No error is raised (the flag stays clear and no message is
written), the trigger is stored and the interval is set to 0. -/
theorem C11_trigger_after_interval_is_accepted :
    config_widget_prop sample_host sample_build
      ⟨[tChar '=', tString "t"], false, tSym G_TOKEN_TRIGGER, false, []⟩ Globals.init
      { layout_widget_new sample_build with
        wtype := G_TOKEN_LABEL, widget := some ⟨.label, 0⟩, interval := 5000 } =
    .ok (⟨[], true, tString "t", false, []⟩, Globals.init,
      { layout_widget_new sample_build with
        wtype := G_TOKEN_LABEL, widget := some ⟨.label, 0⟩, interval := 0,
        trigger := some "t" }) := by
  decide!

/-- C11 (amended): `trigger = "t"` is accepted whatever the interval of the
widget is: the trigger is stored, the interval becomes 0 and no error is
raised.  On the widget this leaves, if it is not a grid, a following
`interval` raises "this widget already has a trigger" and changes neither the
widget nor the position in the input. -/
theorem C11_trigger_wins_over_interval (h : Host) (b : Build) (g : Globals) (lw : Widget)
    (st si : GScanner) (t : String) (rest : List Token)
    (hgrid : GTK_IS_GRID b.scale_image_is_grid b.flow_grid_is_grid lw.widget = false)
    (ht : st.token.code = G_TOKEN_TRIGGER)
    (hin : st.input = tChar '=' :: tString t :: rest)
    (hi : si.token.code = G_TOKEN_INTERVAL) :
    config_widget_prop h b st g lw =
      .ok (config_optional_semicolon ⟨rest, false, tString t, false, st.messages⟩, g,
        { lw with interval := 0, trigger := some t }) ∧
    config_widget_prop h b si g { lw with interval := 0, trigger := some t } =
      .ok (g_scanner_error si "this widget already has a trigger", g,
        { lw with interval := 0, trigger := some t }) := by
  constructor
  · have h1 : ¬ G_TOKEN_TRIGGER = G_TOKEN_STYLE := by decide
    have h2 : ¬ G_TOKEN_TRIGGER = G_TOKEN_CSS := by decide
    have h3 : ¬ G_TOKEN_TRIGGER = G_TOKEN_INTERVAL := by decide
    simp only [config_widget_prop, h1, h2, h3, ht, if_true, if_false,
      assign_string_ok st "trigger" t rest hin]
  · have h1 : ¬ G_TOKEN_INTERVAL = G_TOKEN_STYLE := by decide
    have h2 : ¬ G_TOKEN_INTERVAL = G_TOKEN_CSS := by decide
    simp only [config_widget_prop, h1, h2, hi, hgrid, if_true, if_false, Bool.false_eq_true]

/-- C11 (amended) on a label with interval 5000 reading `trigger = "t";` and
then `interval`. -/
theorem C11_trigger_wins_over_interval_witness :
    config_widget_prop sample_host sample_build
      ⟨[tChar '=', tString "t", tChar ';', tSym G_TOKEN_INTERVAL, tChar '=', tNum 5],
        false, tSym G_TOKEN_TRIGGER, false, []⟩ Globals.init
      { layout_widget_new sample_build with
        wtype := G_TOKEN_LABEL, widget := some ⟨.label, 0⟩, interval := 5000 } =
      .ok (config_optional_semicolon
          ⟨[tChar ';', tSym G_TOKEN_INTERVAL, tChar '=', tNum 5], false, tString "t", false, []⟩,
        Globals.init,
        { layout_widget_new sample_build with
          wtype := G_TOKEN_LABEL, widget := some ⟨.label, 0⟩, interval := 0,
          trigger := some "t" }) ∧
    config_widget_prop sample_host sample_build
      ⟨[tChar '=', tNum 5], false, tSym G_TOKEN_INTERVAL, false, []⟩ Globals.init
      { layout_widget_new sample_build with
        wtype := G_TOKEN_LABEL, widget := some ⟨.label, 0⟩, interval := 0,
        trigger := some "t" } =
      .ok (g_scanner_error ⟨[tChar '=', tNum 5], false, tSym G_TOKEN_INTERVAL, false, []⟩
          "this widget already has a trigger",
        Globals.init,
        { layout_widget_new sample_build with
          wtype := G_TOKEN_LABEL, widget := some ⟨.label, 0⟩, interval := 0,
          trigger := some "t" }) :=
  C11_trigger_wins_over_interval sample_host sample_build Globals.init
    { layout_widget_new sample_build with
      wtype := G_TOKEN_LABEL, widget := some ⟨.label, 0⟩, interval := 5000 }
    ⟨[tChar '=', tString "t", tChar ';', tSym G_TOKEN_INTERVAL, tChar '=', tNum 5],
      false, tSym G_TOKEN_TRIGGER, false, []⟩
    ⟨[tChar '=', tNum 5], false, tSym G_TOKEN_INTERVAL, false, []⟩
    "t" [tChar ';', tSym G_TOKEN_INTERVAL, tChar '=', tNum 5] rfl rfl rfl rfl

/-! ### Malformed statements at top level -/

theorem toplevel_malformed_define (h : Host) (b : Build) (n : Nat) (s : GScanner) (g : Globals)
    (toplevel : Bool) (w : Option Widget) (q : Rat) (rest : List Token)
    (hin : s.input = tSym G_TOKEN_DEFINE :: tNum q :: rest) :
    config_parse_toplevel h b (n + 2) s g toplevel w =
      config_parse_toplevel h b n
        ⟨rest, false, tNum q, true,
          if s.max_parse_errors then s.messages
          else s.messages ++ ["Missing identifier after 'define'"]⟩ g toplevel w := by
  obtain ⟨input, peeked, token, flag, msgs⟩ := s
  simp only at hin
  subst hin
  cases flag <;> rfl

theorem toplevel_stray_number (h : Host) (b : Build) (n : Nat) (s : GScanner) (g : Globals)
    (toplevel : Bool) (w : Option Widget) (q : Rat) (rest : List Token)
    (hin : s.input = tNum q :: rest) :
    config_parse_toplevel h b (n + 1) s g toplevel w =
      config_parse_toplevel h b n
        ⟨rest, false, tNum q, true,
          if s.max_parse_errors then s.messages
          else s.messages ++ ["Unexpected toplevel token"]⟩ g toplevel w := by
  obtain ⟨input, peeked, token, flag, msgs⟩ := s
  simp only at hin
  subst hin
  cases flag <;> rfl

/-- Once the error flag is set, further malformed `Define` statements add no
message. -/
theorem malformed_defines_silent (h : Host) (b : Build) (g : Globals) (toplevel : Bool)
    (w : Option Widget) (qs : List Rat) :
    ∀ (k : Nat) (s : GScanner), s.input = malformed_defines qs → s.max_parse_errors = true →
      (config_parse_toplevel h b (2 * qs.length + 1 + k) s g toplevel w).map
        (fun r => (r.1.messages, r.2)) = .ok (s.messages, g, w) := by
  induction qs with
  | nil =>
    intro k s hin _
    rw [show 2 * ([] : List Rat).length + 1 + k = k + 1 by simp; omega,
      toplevel_at_end h b k s g toplevel w hin]
    rfl
  | cons q qs ih =>
    intro k s hin hflag
    rw [show 2 * (q :: qs).length + 1 + k = (2 * qs.length + 1 + k) + 2 by
        simp only [List.length_cons]; omega,
      toplevel_malformed_define h b _ s g toplevel w q (malformed_defines qs) hin,
      ih k _ rfl rfl]
    simp only [hflag, if_true]

/-- Once the error flag is set, further stray numbers add no message. -/
theorem stray_numbers_silent (h : Host) (b : Build) (g : Globals) (toplevel : Bool)
    (w : Option Widget) (qs : List Rat) :
    ∀ (k : Nat) (s : GScanner), s.input = qs.map tNum → s.max_parse_errors = true →
      (config_parse_toplevel h b (qs.length + 1 + k) s g toplevel w).map
        (fun r => (r.1.messages, r.2)) = .ok (s.messages, g, w) := by
  induction qs with
  | nil =>
    intro k s hin _
    rw [show ([] : List Rat).length + 1 + k = k + 1 by simp; omega,
      toplevel_at_end h b k s g toplevel w hin]
    rfl
  | cons q qs ih =>
    intro k s hin hflag
    rw [show (q :: qs).length + 1 + k = (qs.length + 1 + k) + 1 by
        simp only [List.length_cons]; omega,
      toplevel_stray_number h b _ s g toplevel w q (qs.map tNum) hin,
      ih k _ rfl rfl]
    simp only [hflag, if_true]

/-- C12: an input made of the malformed statements `Define q` for any number
of numbers `q :: qs` surfaces the single message of the first statement, and
an input made of the stray numbers `q :: qs` surfaces the single message of
the first number: the error flag set by the first statement is never cleared
and silences every later one.  The macro table and the widget stay as they
were. -/
theorem C12_one_message_for_many_malformed_statements (h : Host) (b : Build) (g : Globals)
    (toplevel : Bool) (w : Option Widget) (q : Rat) (qs : List Rat) (k : Nat) :
    (config_parse_toplevel h b (2 * (q :: qs).length + 1 + k)
        (g_scanner_new (malformed_defines (q :: qs))) g toplevel w).map
      (fun r => (r.1.messages, r.2)) = .ok (["Missing identifier after 'define'"], g, w) ∧
    (config_parse_toplevel h b ((q :: qs).length + 1 + k)
        (g_scanner_new ((q :: qs).map tNum)) g toplevel w).map
      (fun r => (r.1.messages, r.2)) = .ok (["Unexpected toplevel token"], g, w) := by
  constructor
  · rw [show 2 * (q :: qs).length + 1 + k = (2 * qs.length + 1 + k) + 2 by
        simp only [List.length_cons]; omega,
      toplevel_malformed_define h b _ _ g toplevel w q (malformed_defines qs) rfl,
      malformed_defines_silent h b g toplevel w qs k _ rfl rfl]
    rfl
  · rw [show (q :: qs).length + 1 + k = (qs.length + 1 + k) + 1 by
        simp only [List.length_cons]; omega,
      toplevel_stray_number h b _ _ g toplevel w q (qs.map tNum) rfl,
      stray_numbers_silent h b g toplevel w qs k _ rfl rfl]
    rfl

/-! ### Property blocks of a grid -/

theorem widget_props_loop_succ (h : Host) (b : Build) (n : Nat) (s : GScanner) (g : Globals)
    (lw : Widget) :
    widget_props_loop h b (n + 1) s g lw =
      if widget_props_continues s.next_token lw.wtype then
        match config_widget_prop h b (g_scanner_get_next_token s) g lw with
        | .error e => .error e
        | .ok (s1, g1, lw1) => widget_props_loop h b n (g_scanner_peek_next_token s1) g1 lw1
      else .ok (s, g, lw) := rfl

theorem widget_action_exec (h : Host) (b : Build) (d : Defines) (s : GScanner) (lw : Widget)
    (cmd : String) (rest : List Token) (hb : 1 < b.MAX_BUTTON)
    (hin : s.input = tChar '=' :: tSym G_TOKEN_EXEC :: tString cmd :: tChar ';' :: rest) :
    config_widget_action h b d s lw =
      .ok (⟨rest, false, tChar ';', false, s.messages⟩,
        { lw with actions := lw.actions.set 1 (some ⟨0, 0, G_TOKEN_EXEC, none, some cmd⟩) }) := by
  have hseq : config_parse_sequence s widget_action_steps =
      (⟨tSym G_TOKEN_EXEC :: tString cmd :: tChar ';' :: rest, false, tChar '=', false,
        s.messages⟩, []) := by
    obtain ⟨input, peeked, token, flag, msgs⟩ := s
    simp only at hin
    subst hin
    rfl
  have hact : config_action h d
      ⟨tSym G_TOKEN_EXEC :: tString cmd :: tChar ';' :: rest, false, tChar '=', false,
        s.messages⟩ =
      .ok (⟨tChar ';' :: rest, true, tString cmd, false, s.messages⟩,
        some ⟨0, 0, G_TOKEN_EXEC, none, some cmd⟩) := rfl
  have hbutton : dest_int ([] : List (Nat × DestVal)) 0 1 = 1 := rfl
  have hrange : ¬ ((1 : Int) < 0 ∨ (1 : Int) ≥ (b.MAX_BUTTON : Int)) := by omega
  simp only [config_widget_action, hseq, hbutton, Bool.false_eq_true, if_false, hrange, hact]
  rfl

theorem prop_style (h : Host) (b : Build) (s : GScanner) (g : Globals) (lw : Widget)
    (v : String) (rest : List Token) (hk : s.token.code = G_TOKEN_STYLE)
    (hin : s.input = tChar '=' :: tString v :: tChar ';' :: rest) :
    config_widget_prop h b s g lw =
      .ok (⟨rest, false, tChar ';', false, s.messages⟩, g, GridProp.stored lw (.style v)) := by
  have hv : config_get_value h g.defines s "style" true false =
      .ok (config_optional_semicolon ⟨tChar ';' :: rest, true, tString v, false, s.messages⟩,
        some (assemble h g.defines "" [tString v]), none) :=
    get_value_assign h g.defines s "style" [tString v] (tChar ';' :: rest) hin
      (by intro t ht; simp only [List.mem_singleton] at ht; subst ht; rfl) rfl
  simp only [config_widget_prop, hk, if_true, hv]
  rfl

theorem prop_css (h : Host) (b : Build) (s : GScanner) (g : Globals) (lw : Widget)
    (v : String) (rest : List Token) (hk : s.token.code = G_TOKEN_CSS)
    (hin : s.input = tChar '=' :: tString v :: tChar ';' :: rest) :
    config_widget_prop h b s g lw =
      .ok (⟨rest, false, tChar ';', false, s.messages⟩, g, GridProp.stored lw (.css v)) := by
  obtain ⟨input, peeked, ⟨code, str, num⟩, flag, msgs⟩ := s
  simp only at hk hin
  subst hk
  subst hin
  rfl

theorem prop_trigger (h : Host) (b : Build) (s : GScanner) (g : Globals) (lw : Widget)
    (v : String) (rest : List Token) (hk : s.token.code = G_TOKEN_TRIGGER)
    (hin : s.input = tChar '=' :: tString v :: tChar ';' :: rest) :
    config_widget_prop h b s g lw =
      .ok (⟨rest, false, tChar ';', false, s.messages⟩, g, GridProp.stored lw (.trigger v)) := by
  obtain ⟨input, peeked, ⟨code, str, num⟩, flag, msgs⟩ := s
  simp only at hk hin
  subst hk
  subst hin
  rfl

theorem get_loc_full (s : GScanner) (x y w z : Rat) (rest : List Token)
    (hin : s.input = tChar '(' :: tNum x :: tChar ',' :: tNum y :: tChar ',' :: tNum w ::
      tChar ',' :: tNum z :: tChar ')' :: tChar ';' :: rest) :
    config_parse_sequence s config_get_loc_steps =
      (⟨rest, false, tChar ';', false, s.messages⟩,
        [(0, .int (gint_of_gdouble x)), (1, .int (gint_of_gdouble y)),
          (2, .int (gint_of_gdouble w)), (3, .int (gint_of_gdouble z))]) := by
  obtain ⟨input, peeked, token, flag, msgs⟩ := s
  simp only at hin
  subst hin
  rfl

theorem prop_loc_head (h : Host) (b : Build) (s : GScanner) (g : Globals) (lw : Widget)
    (hk : s.token.code = G_TOKEN_LOC) :
    config_widget_prop h b s g lw =
      .ok ((config_get_loc s).1, g, { lw with rect := (config_get_loc s).2 }) := by
  obtain ⟨input, peeked, ⟨code, str, num⟩, flag, msgs⟩ := s
  simp only at hk
  subst hk
  rfl

theorem prop_loc (h : Host) (b : Build) (s : GScanner) (g : Globals) (lw : Widget)
    (x y w z : Rat) (rest : List Token) (hk : s.token.code = G_TOKEN_LOC)
    (hin : s.input = tChar '(' :: tNum x :: tChar ',' :: tNum y :: tChar ',' :: tNum w ::
      tChar ',' :: tNum z :: tChar ')' :: tChar ';' :: rest) :
    config_widget_prop h b s g lw =
      .ok (⟨rest, false, tChar ';', false, s.messages⟩, g, GridProp.stored lw (.loc x y w z)) := by
  rw [prop_loc_head h b s g lw hk]
  simp only [config_get_loc, get_loc_full s x y w z rest hin]
  rfl

theorem prop_action (h : Host) (b : Build) (s : GScanner) (g : Globals) (lw : Widget)
    (cmd : String) (rest : List Token) (hb : 1 < b.MAX_BUTTON)
    (hk : s.token.code = G_TOKEN_ACTION)
    (hin : s.input = tChar '=' :: tSym G_TOKEN_EXEC :: tString cmd :: tChar ';' :: rest) :
    config_widget_prop h b s g lw =
      .ok (⟨rest, false, tChar ';', false, s.messages⟩, g, GridProp.stored lw (.action cmd)) := by
  have ha := widget_action_exec h b g.defines s lw cmd rest hb hin
  obtain ⟨input, peeked, ⟨code, str, num⟩, flag, msgs⟩ := s
  simp only at hk hin
  subst hk
  subst hin
  have hp : config_widget_prop h b
      ⟨tChar '=' :: tSym G_TOKEN_EXEC :: tString cmd :: tChar ';' :: rest, peeked,
        ⟨G_TOKEN_ACTION, str, num⟩, flag, msgs⟩ g lw =
      (config_widget_action h b g.defines
        ⟨tChar '=' :: tSym G_TOKEN_EXEC :: tString cmd :: tChar ';' :: rest, peeked,
          ⟨G_TOKEN_ACTION, str, num⟩, flag, msgs⟩ lw).map (fun r => (r.1, g, r.2)) := rfl
  rw [hp, ha]
  rfl

/-- One pass of the property loop over a property statement. -/
theorem widget_props_step (h : Host) (b : Build) (hb : 1 < b.MAX_BUTTON) (p : GridProp)
    (n : Nat) (s : GScanner) (g : Globals) (lw : Widget) (rest : List Token)
    (hp : s.peeked = true) (hin : s.input = p.tokens ++ rest) :
    widget_props_loop h b (n + 1) s g lw =
      widget_props_loop h b n ⟨rest, true, tChar ';', false, s.messages⟩ g
        (GridProp.stored lw p) := by
  obtain ⟨input, peeked, token, flag, msgs⟩ := s
  simp only at hp hin
  subst hp
  subst hin
  rw [widget_props_loop_succ]
  cases p with
  | style v =>
    have hc : widget_props_continues (GScanner.next_token
        ⟨(GridProp.style v).tokens ++ rest, true, token, flag, msgs⟩) lw.wtype = true := rfl
    rw [if_pos hc, prop_style h b _ g lw v rest rfl rfl]
    rfl
  | css v =>
    have hc : widget_props_continues (GScanner.next_token
        ⟨(GridProp.css v).tokens ++ rest, true, token, flag, msgs⟩) lw.wtype = true := rfl
    rw [if_pos hc, prop_css h b _ g lw v rest rfl rfl]
    rfl
  | trigger v =>
    have hc : widget_props_continues (GScanner.next_token
        ⟨(GridProp.trigger v).tokens ++ rest, true, token, flag, msgs⟩) lw.wtype = true := rfl
    rw [if_pos hc, prop_trigger h b _ g lw v rest rfl rfl]
    rfl
  | loc x y w z =>
    have hc : widget_props_continues (GScanner.next_token
        ⟨(GridProp.loc x y w z).tokens ++ rest, true, token, flag, msgs⟩) lw.wtype = true := rfl
    rw [if_pos hc, prop_loc h b _ g lw x y w z rest rfl rfl]
    rfl
  | action cmd =>
    have hc : widget_props_continues (GScanner.next_token
        ⟨(GridProp.action cmd).tokens ++ rest, true, token, flag, msgs⟩) lw.wtype = true := rfl
    rw [if_pos hc, prop_action h b _ g lw cmd rest hb rfl rfl]
    rfl

/-- The property loop over a run of property statements. -/
theorem widget_props_run (h : Host) (b : Build) (hb : 1 < b.MAX_BUTTON) (ps : List GridProp) :
    ∀ (n : Nat) (s : GScanner) (g : Globals) (lw : Widget) (rest : List Token),
      s.peeked = true → s.input = props_tokens ps ++ rest →
      widget_props_loop h b (ps.length + n) s g lw =
        widget_props_loop h b n (after_props s ps rest) g (ps.foldl GridProp.stored lw) := by
  induction ps with
  | nil =>
    intro n s g lw rest _ _
    simp only [List.length_nil, Nat.zero_add, after_props, List.isEmpty_nil, if_true,
      List.foldl_nil]
  | cons p ps ih =>
    intro n s g lw rest hp hin
    have hin2 : s.input = p.tokens ++ (props_tokens ps ++ rest) := by
      rw [hin, props_tokens, List.append_assoc]
    rw [show (p :: ps).length + n = (ps.length + n) + 1 by simp only [List.length_cons]; omega,
      widget_props_step h b hb p _ s g lw _ hp hin2, ih n _ g _ rest rfl rfl]
    cases ps <;> rfl

/-- The property loop over a token that is no property keyword, with the error
flag set. -/
theorem widget_props_filler (h : Host) (b : Build) (n : Nat) (s : GScanner) (g : Globals)
    (lw : Widget) (t : Token) (rest : List Token) (ht : t.code ∈ assignment_filler)
    (hp : s.peeked = true) (hflag : s.max_parse_errors = true) (hin : s.input = t :: rest) :
    widget_props_loop h b (n + 1) s g lw =
      widget_props_loop h b n ⟨rest, true, t, true, s.messages⟩ g lw := by
  obtain ⟨input, peeked, token, flag, msgs⟩ := s
  obtain ⟨code, str, num⟩ := t
  simp only at hp hin hflag ht
  subst hp
  subst hin
  subst hflag
  simp only [assignment_filler, List.mem_cons, List.mem_singleton, List.not_mem_nil,
    or_false] at ht
  rcases ht with ht | ht | ht | ht | ht | ht | ht | ht | ht | ht | ht | ht <;> subst ht <;> rfl

theorem widget_props_fillers (h : Host) (b : Build) (g : Globals) (lw : Widget)
    (junk : List Token) (hjunk : ∀ t ∈ junk, t.code ∈ assignment_filler) :
    ∀ (n : Nat) (s : GScanner) (rest : List Token),
      s.peeked = true → s.max_parse_errors = true → s.input = junk ++ rest →
      widget_props_loop h b (junk.length + n) s g lw =
        widget_props_loop h b n
          ⟨rest, true, (junk.getLast?).getD s.token, true, s.messages⟩ g lw := by
  induction junk with
  | nil =>
    intro n s rest hp hflag hin
    obtain ⟨input, peeked, token, flag, msgs⟩ := s
    simp only at hp hflag hin
    subst hp
    subst hflag
    simp only [List.nil_append] at hin
    subst hin
    simp only [List.length_nil, Nat.zero_add, List.getLast?_nil, Option.getD_none]
  | cons t ts ih =>
    intro n s rest hp hflag hin
    rw [show (t :: ts).length + n = (ts.length + n) + 1 by simp only [List.length_cons]; omega,
      widget_props_filler h b _ s g lw t (ts ++ rest) (hjunk t (List.mem_cons_self _ _)) hp
        hflag hin,
      ih (fun u hu => hjunk u (List.mem_cons_of_mem _ hu)) n _ rest rfl rfl rfl]
    cases ts with
    | nil => rfl
    | cons u us =>
      rw [List.getLast?_cons_cons]
      cases hl : (u :: us).getLast? with
      | none => exact absurd hl (by simp)
      | some z => rfl

/-- The property loop over a property that a grid does not have, with the
error flag clear. -/
theorem widget_props_illegal (h : Host) (b : Build) (n : Nat) (s : GScanner) (g : Globals)
    (lw : Widget) (k : Nat) (kw : Int) (msg : String) (rest : List Token)
    (hw : lw.widget = some ⟨.grid, k⟩) (hill : (kw, msg) ∈ grid_illegal)
    (hp : s.peeked = true) (hflag : s.max_parse_errors = false)
    (hin : s.input = tSym kw :: rest) :
    widget_props_loop h b (n + 1) s g lw =
      widget_props_loop h b n ⟨rest, true, tSym kw, true, s.messages ++ [msg]⟩ g lw := by
  obtain ⟨input, peeked, token, flag, msgs⟩ := s
  obtain ⟨wtype, widget, id, style, css, value, tooltip, trigger, interval, actions, rect⟩ := lw
  simp only at hp hin hflag hw
  subst hp
  subst hin
  subst hflag
  subst hw
  simp only [grid_illegal, List.mem_cons, List.mem_singleton, List.not_mem_nil, or_false,
    Prod.mk.injEq] at hill
  rcases hill with ⟨hk, hm⟩ | ⟨hk, hm⟩ | ⟨hk, hm⟩ <;> subst hk <;> subst hm <;> rfl

theorem props_tokens_length (ps : List GridProp) : ps.length ≤ (props_tokens ps).length := by
  induction ps with
  | nil => simp
  | cons p ps ih =>
    simp only [props_tokens, List.length_append, List.length_cons]
    cases p <;> simp [GridProp.tokens] <;> omega

theorem stored_wtype (ps : List GridProp) :
    ∀ lw : Widget, (ps.foldl GridProp.stored lw).wtype = lw.wtype := by
  induction ps with
  | nil => intro lw; rfl
  | cons p ps ih =>
    intro lw
    rw [List.foldl_cons, ih]
    cases p <;> rfl

theorem stored_widget (ps : List GridProp) :
    ∀ lw : Widget, (ps.foldl GridProp.stored lw).widget = lw.widget := by
  induction ps with
  | nil => intro lw; rfl
  | cons p ps ih =>
    intro lw
    rw [List.foldl_cons, ih]
    cases p <;> rfl

theorem after_props_fields (s : GScanner) (ps : List GridProp) (rest : List Token)
    (hp : s.peeked = true) (hin : s.input = props_tokens ps ++ rest) :
    (after_props s ps rest).peeked = true ∧ (after_props s ps rest).input = rest ∧
    (after_props s ps rest).messages = s.messages ∧
    ((after_props s ps rest).max_parse_errors = true → ps = [] ∧ s.max_parse_errors = true) := by
  cases ps with
  | nil => exact ⟨hp, by simpa [props_tokens] using hin, rfl, fun hf => ⟨rfl, hf⟩⟩
  | cons p ps => exact ⟨rfl, rfl, rfl, fun hf => absurd hf (by simp [after_props])⟩

theorem widget_props_header (h : Host) (b : Build) (s : GScanner) (g : Globals) (lw : Widget)
    (body : List Token) (hin : s.input = tChar '{' :: body) :
    config_widget_props h b s g lw =
      match widget_props_loop h b (body.length + 1) ⟨body, true, tChar '{', false, s.messages⟩
          g lw with
      | .error e => .error e
      | .ok (s2, g2, lw2) =>
        .ok (if (g_scanner_peek_next_token s2).next_token = tk '}' ∧ lw2.wtype ≠ G_TOKEN_GRID
            then g_scanner_get_next_token (g_scanner_peek_next_token s2)
            else g_scanner_peek_next_token s2, g2, lw2, true) := by
  obtain ⟨input, peeked, token, flag, msgs⟩ := s
  simp only at hin
  subst hin
  rfl

/-- The whole property loop of a grid over a block with one refused property:
the run before it, the property with its assignment, the run after it. -/
theorem widget_props_block (h : Host) (b : Build) (hb : 1 < b.MAX_BUTTON) (g : Globals)
    (lw : Widget) (k : Nat) (pre post : List GridProp) (kw : Int) (msg : String)
    (junk rest : List Token) (s : GScanner) (m : Nat)
    (hwt : lw.wtype = G_TOKEN_GRID) (hw : lw.widget = some ⟨.grid, k⟩)
    (hill : (kw, msg) ∈ grid_illegal) (hjunk : ∀ t ∈ junk, t.code ∈ assignment_filler)
    (hp : s.peeked = true) (hflag : s.max_parse_errors = false)
    (hin : s.input = props_tokens pre ++ (tSym kw :: (junk ++ (props_tokens post ++ rest))))
    (hrest : widget_props_continues (rest.headD eofToken).code G_TOKEN_GRID = false) :
    widget_props_loop h b (pre.length + ((junk.length + (post.length + (m + 1))) + 1)) s g lw =
      .ok (after_props
            ⟨props_tokens post ++ rest, true, (junk.getLast?).getD (tSym kw), true,
              s.messages ++ [msg]⟩ post rest,
          g, post.foldl GridProp.stored (pre.foldl GridProp.stored lw)) := by
  obtain ⟨hp1, hin1, hm1, hf1⟩ := after_props_fields s pre _ hp hin
  have hflag1 : (after_props s pre
      (tSym kw :: (junk ++ (props_tokens post ++ rest)))).max_parse_errors = false := by
    cases hc : (after_props s pre
      (tSym kw :: (junk ++ (props_tokens post ++ rest)))).max_parse_errors with
    | false => rfl
    | true => rw [(hf1 hc).2] at hflag; exact absurd hflag (by decide)
  obtain ⟨hp2, hin2, hm2, _⟩ := after_props_fields
    ⟨props_tokens post ++ rest, true, (junk.getLast?).getD (tSym kw), true,
      s.messages ++ [msg]⟩ post rest rfl rfl
  rw [widget_props_run h b hb pre _ s g lw _ hp hin,
    widget_props_illegal h b _ _ g _ k kw msg _ (by rw [stored_widget, hw]) hill hp1 hflag1 hin1,
    widget_props_fillers h b g _ junk hjunk _ _ (props_tokens post ++ rest) rfl rfl rfl,
    hm1,
    widget_props_run h b hb post _ _ g _ rest rfl rfl,
    widget_props_loop_succ]
  have hstop : widget_props_continues
      (after_props ⟨props_tokens post ++ rest, true, (junk.getLast?).getD (tSym kw), true,
        s.messages ++ [msg]⟩ post rest).next_token
      (post.foldl GridProp.stored (pre.foldl GridProp.stored lw)).wtype = false := by
    rw [stored_wtype, stored_wtype, hwt]
    simp only [GScanner.next_token, GScanner.head, hp2, hin2, if_true]
    exact hrest
  rw [if_neg (by rw [hstop]; decide)]

theorem peek_of_peeked (s : GScanner) (hp : s.peeked = true) :
    g_scanner_peek_next_token s = s := by
  obtain ⟨input, peeked, token, flag, msgs⟩ := s
  simp only at hp
  subst hp
  rfl

/-- C13: `config_widget_props` on a grid whose block holds any property
statements (of the forms `style`, `css`, `trigger`, `loc`, `action`; the
numbers of a `loc` in the range of `gint`), then one
property a grid does not have (`interval`, `value` or `tooltip`) with its
assignment, then again any property statements.  The call returns TRUE, the
single message of the refused property is added to the messages, the input
is read up to the token that ends the block, and the descriptor holds the
value of every property statement, stored in the order written. -/
theorem C13_grid_illegal_property (h : Host) (b : Build) (g : Globals) (lw : Widget) (k : Nat)
    (pre post : List GridProp) (kw : Int) (msg : String) (junk rest : List Token)
    (s : GScanner) (hb : 1 < b.MAX_BUTTON)
    (hwt : lw.wtype = G_TOKEN_GRID) (hw : lw.widget = some ⟨.grid, k⟩)
    (hill : (kw, msg) ∈ grid_illegal) (hjunk : ∀ t ∈ junk, t.code ∈ assignment_filler)
    (_hgint : ∀ p ∈ pre ++ post, p.in_gint_range = true)
    (hin : s.input =
      tChar '{' :: (props_tokens pre ++ (tSym kw :: (junk ++ (props_tokens post ++ rest)))))
    (hrest : widget_props_continues (rest.headD eofToken).code G_TOKEN_GRID = false) :
    ∃ s2, config_widget_props h b s g lw =
        .ok (s2, g, post.foldl GridProp.stored (pre.foldl GridProp.stored lw), true) ∧
      s2.messages = s.messages ++ [msg] ∧ s2.input = rest ∧
      s2.max_parse_errors = post.isEmpty := by
  obtain ⟨hp2, hin2, hm2, hf2⟩ := after_props_fields
    ⟨props_tokens post ++ rest, true, (junk.getLast?).getD (tSym kw), true,
      s.messages ++ [msg]⟩ post rest rfl rfl
  refine ⟨after_props ⟨props_tokens post ++ rest, true, (junk.getLast?).getD (tSym kw), true,
      s.messages ++ [msg]⟩ post rest, ?_, hm2, hin2, ?_⟩
  · have hlen : (props_tokens pre ++
        (tSym kw :: (junk ++ (props_tokens post ++ rest)))).length + 1 =
        pre.length + ((junk.length + (post.length +
          (((props_tokens pre).length - pre.length +
            ((props_tokens post).length - post.length) + rest.length) + 1))) + 1) := by
      have h1 := props_tokens_length pre
      have h2 := props_tokens_length post
      simp only [List.length_append, List.length_cons]
      omega
    rw [widget_props_header h b s g lw _ hin, hlen,
      widget_props_block h b hb g lw k pre post kw msg junk rest _ _ hwt hw hill hjunk rfl rfl
        rfl hrest]
    have hwt2 : (post.foldl GridProp.stored (pre.foldl GridProp.stored lw)).wtype =
        G_TOKEN_GRID := by rw [stored_wtype, stored_wtype, hwt]
    simp only [hwt2, ne_eq, not_true_eq_false, and_false, if_false, peek_of_peeked _ hp2]
  · cases post <;> rfl

/-- C13 on the block `{ style = "a"; loc(1,2,3,4); interval = 5; css = "c";
action = Exec "xterm"; }` of a grid: one message, and the descriptor holds
the style, the rectangle, the css text and the action. -/
theorem C13_grid_illegal_property_witness :
    (∃ s2, config_widget_props sample_host sample_build
        (g_scanner_new
          [tChar '{', tSym G_TOKEN_STYLE, tChar '=', tString "a", tChar ';',
            tSym G_TOKEN_LOC, tChar '(', tNum 1, tChar ',', tNum 2, tChar ',', tNum 3, tChar ',',
            tNum 4, tChar ')', tChar ';',
            tSym G_TOKEN_INTERVAL, tChar '=', tNum 5, tChar ';',
            tSym G_TOKEN_CSS, tChar '=', tString "c", tChar ';',
            tSym G_TOKEN_ACTION, tChar '=', tSym G_TOKEN_EXEC, tString "xterm", tChar ';',
            tChar '}'])
        Globals.init sample_grid =
        .ok (s2, Globals.init,
          [GridProp.css "c", .action "xterm"].foldl GridProp.stored
            ([GridProp.style "a", .loc 1 2 3 4].foldl GridProp.stored sample_grid), true) ∧
      s2.messages = [] ++ ["this widget has no property 'interval'"] ∧ s2.input = [tChar '}'] ∧
      s2.max_parse_errors = [GridProp.css "c", .action "xterm"].isEmpty) ∧
    [GridProp.css "c", .action "xterm"].foldl GridProp.stored
        ([GridProp.style "a", .loc 1 2 3 4].foldl GridProp.stored sample_grid) =
      { sample_grid with
        style := some "\"a\"", css := some "c", rect := ⟨1, 2, 3, 4⟩,
        actions := [none, some ⟨0, 0, G_TOKEN_EXEC, none, some "xterm"⟩, none, none, none, none,
          none, none] } :=
  ⟨C13_grid_illegal_property sample_host sample_build Globals.init sample_grid 0
    [.style "a", .loc 1 2 3 4] [.css "c", .action "xterm"] G_TOKEN_INTERVAL
    "this widget has no property 'interval'" [tChar '=', tNum 5, tChar ';'] [tChar '}']
    (g_scanner_new
      [tChar '{', tSym G_TOKEN_STYLE, tChar '=', tString "a", tChar ';',
        tSym G_TOKEN_LOC, tChar '(', tNum 1, tChar ',', tNum 2, tChar ',', tNum 3, tChar ',',
        tNum 4, tChar ')', tChar ';',
        tSym G_TOKEN_INTERVAL, tChar '=', tNum 5, tChar ';',
        tSym G_TOKEN_CSS, tChar '=', tString "c", tChar ';',
        tSym G_TOKEN_ACTION, tChar '=', tSym G_TOKEN_EXEC, tString "xterm", tChar ';',
        tChar '}'])
    (by decide) rfl rfl (by decide) (by decide) (by decide!) rfl (by decide), by decide!⟩

/-! ### Unknown action kinds -/

/-- C21: when the token after the condition list (`s1` is the scanner and `c`,
`nc` the masks that `config_action_conditions` leaves) is neither a string
literal nor a keyword of one of the `case` labels of `config_action`, that one
token is read, `g_scanner_error` is called with "invalid action" and no
descriptor is returned. -/
theorem C21_unknown_action_kind (h : Host) (d : Defines) (s s1 : GScanner) (c nc : Nat)
    (hc : config_action_conditions s 0 0 = .ok (s1, c, nc))
    (hstr : s1.head.code ≠ G_TOKEN_STRING)
    (hplain : s1.head.code ∉ action_kinds_plain)
    (hstring : s1.head.code ∉ action_kinds_string)
    (hclient : s1.head.code ≠ G_TOKEN_CLIENTSEND)
    (hset : s1.head.code ≠ G_TOKEN_SETVALUE ∧ s1.head.code ≠ G_TOKEN_SETSTYLE ∧
      s1.head.code ≠ G_TOKEN_SETTOOLTIP) :
    config_action h d s =
      .ok (g_scanner_error (g_scanner_get_next_token s1) "invalid action", none) ∧
    (g_scanner_error (g_scanner_get_next_token s1) "invalid action").input = s1.input.tail ∧
    (g_scanner_error (g_scanner_get_next_token s1) "invalid action").max_parse_errors = true := by
  refine ⟨?_, by rw [error_input]; rfl, by rw [error_eq]⟩
  rw [config_action_after_conditions h d s s1 c nc hc]
  have hk : (g_scanner_get_next_token s1).token.code = s1.head.code := rfl
  simp only [config_action_kind, hk, hstr, hplain, hstring, hclient, hset.1, hset.2.1, hset.2.2,
    if_false, or_self]
  rfl

/-- C21 on `[Focused] Layout "x"` and on the empty input. -/
theorem C21_unknown_action_kind_witness :
    (config_action sample_host none
      (g_scanner_new [tChar '[', tSym G_TOKEN_FOCUSED, tChar ']', tSym G_TOKEN_LAYOUT,
        tString "x"]) =
      .ok (g_scanner_error (g_scanner_get_next_token
          ⟨[tSym G_TOKEN_LAYOUT, tString "x"], false, tChar ']', false, []⟩) "invalid action",
        none) ∧
    (g_scanner_error (g_scanner_get_next_token
        ⟨[tSym G_TOKEN_LAYOUT, tString "x"], false, tChar ']', false, []⟩)
      "invalid action").input =
      (⟨[tSym G_TOKEN_LAYOUT, tString "x"], false, tChar ']', false, []⟩ : GScanner).input.tail ∧
    (g_scanner_error (g_scanner_get_next_token
        ⟨[tSym G_TOKEN_LAYOUT, tString "x"], false, tChar ']', false, []⟩)
      "invalid action").max_parse_errors = true) ∧
    g_scanner_error (g_scanner_get_next_token
        ⟨[tSym G_TOKEN_LAYOUT, tString "x"], false, tChar ']', false, []⟩) "invalid action" =
      ⟨[tString "x"], false, tSym G_TOKEN_LAYOUT, true, ["invalid action"]⟩ :=
  ⟨C21_unknown_action_kind sample_host none
    (g_scanner_new [tChar '[', tSym G_TOKEN_FOCUSED, tChar ']', tSym G_TOKEN_LAYOUT,
      tString "x"])
    ⟨[tSym G_TOKEN_LAYOUT, tString "x"], false, tChar ']', false, []⟩ WS_FOCUSED 0
    (by decide!) (by decide) (by decide) (by decide) (by decide) (by decide), by decide⟩

/-! ### Wildcard steps -/

/-- C23 (as stated, refuted): on the token `"a"` a REQUIRED `'('` step does not
match: it raises its error and consumes nothing.  The CONDITIONAL wildcard
step behind it matches all the same, consumes `"a"` and stores its code,
because the failed step left the engine's `matched` flag set. -/
theorem C23_conditional_wildcard_after_failed_step :
    seq_raises (seq_init (g_scanner_new [tString "a"]))
      (seq .SEQ_REQ (tk '(') none (some "missing '('")) = true ∧
    (seq_step (seq_init (g_scanner_new [tString "a"]))
      (seq .SEQ_REQ (tk '(') none (some "missing '('"))).scanner.input = [tString "a"] ∧
    (seq_step (seq_init (g_scanner_new [tString "a"]))
      (seq .SEQ_REQ (tk '(') none (some "missing '('"))).matched = true ∧
    seq_step (seq_step (seq_init (g_scanner_new [tString "a"]))
        (seq .SEQ_REQ (tk '(') none (some "missing '('")))
      (seq .SEQ_CON (-1) (some 0) none) =
      ⟨true, ⟨[], false, tString "a", true, ["missing '('"]⟩,
        [(0, .token G_TOKEN_STRING)]⟩ := by
  decide

/-- C23 (amended): a wildcard step that is REQUIRED, or CONDITIONAL with the
engine's `matched` flag set, reads the next token whatever it is (the
end-of-input token when the input is empty), sets `matched` and stores the
token code in its destination; a CONDITIONAL wildcard step with `matched`
clear reads nothing, stores nothing and leaves `matched` clear.  In no case is
an error raised.  The flag `matched` is set when the call starts and is left
as it was by a step that raises an error. -/
theorem C23_wildcard_steps (σ : SeqState) (st st0 : Step) (d : Nat) (s : GScanner)
    (htype : st.type = -1) (hdest : st.dest = some d)
    (hreq : st.req = Req.SEQ_REQ ∨ st.req = Req.SEQ_CON)
    (hcode : 0 ≤ σ.scanner.head.code)
    (hraise : seq_raises σ st0 = true) :
    seq_step σ st =
      (if st.req = Req.SEQ_CON ∧ σ.matched = false then
        { σ with matched := false, scanner := g_scanner_peek_next_token σ.scanner }
      else
        ⟨true, g_scanner_get_next_token σ.scanner,
          σ.dests ++ [(d, .token σ.scanner.head.code)]⟩) ∧
    seq_raises σ st = false ∧
    (seq_init s).matched = true ∧
    (seq_step σ st0).matched = σ.matched := by
  refine ⟨?_, ?_, rfl, ?_⟩
  · by_cases hcon : st.req = Req.SEQ_CON ∧ σ.matched = false
    · rw [if_pos hcon]
      exact seq_step_skipped σ st (by simp [seq_skip, hcon.1, hcon.2])
        (by simp [seq_wild, hcon.1, hcon.2])
        ⟨by rw [htype]; omega, by rw [htype]; simp⟩
    · rw [if_neg hcon]
      have hw : seq_wild st σ.matched = true := by
        rcases hreq with hr | hr
        · simp [seq_wild, htype, hr]
        · have hm : σ.matched = true := by
            cases hmm : σ.matched with
            | true => rfl
            | false => exact absurd ⟨hr, hmm⟩ hcon
          simp [seq_wild, htype, hm]
      simp [seq_step, hw, seq_cond, hdest, seq_store, htype]
  · by_cases hw : seq_wild st σ.matched = true
    · simp [seq_raises, hw, seq_cond]
    · have hcon : st.req = Req.SEQ_CON ∧ σ.matched = false := by
        rcases hreq with hr | hr
        · simp [seq_wild, htype, hr] at hw
        · cases hmm : σ.matched with
          | true => simp [seq_wild, htype, hmm] at hw
          | false => exact ⟨hr, rfl⟩
      simp [seq_raises, seq_skip, hcon.1, hcon.2]
  · simp only [seq_raises, Bool.and_eq_true, Bool.not_eq_true'] at hraise
    simp [seq_step, hraise.1, hraise.2]

/-- C23 (amended) on a CONDITIONAL wildcard step that meets the end of the
input with `matched` set, after a REQUIRED `'('` step would have failed. -/
theorem C23_wildcard_steps_witness :
    seq_step ⟨true, g_scanner_new [], []⟩ (seq .SEQ_CON (-1) (some 0) none) =
      (if (seq .SEQ_CON (-1) (some 0) none).req = Req.SEQ_CON ∧
          (⟨true, g_scanner_new [], []⟩ : SeqState).matched = false then
        { (⟨true, g_scanner_new [], []⟩ : SeqState) with
          matched := false, scanner := g_scanner_peek_next_token (g_scanner_new []) }
      else
        ⟨true, g_scanner_get_next_token (g_scanner_new []),
          [] ++ [(0, .token (g_scanner_new []).head.code)]⟩) ∧
    seq_raises ⟨true, g_scanner_new [], []⟩ (seq .SEQ_CON (-1) (some 0) none) = false ∧
    (seq_init (g_scanner_new [tString "a"])).matched = true ∧
    (seq_step ⟨true, g_scanner_new [], []⟩
      (seq .SEQ_REQ (tk '(') none (some "missing '('"))).matched = true :=
  C23_wildcard_steps ⟨true, g_scanner_new [], []⟩ (seq .SEQ_CON (-1) (some 0) none)
    (seq .SEQ_REQ (tk '(') none (some "missing '('")) 0 (g_scanner_new [tString "a"])
    rfl rfl (Or.inr rfl) (by decide) (by decide)

/-! ### Numbers where an integer is expected -/

theorem gint_of_gdouble_trunc (v : Rat) :
    gint_of_gdouble v = if 0 ≤ v then ⌊v⌋ else ⌈v⌉ := by
  unfold gint_of_gdouble
  have hden : (0 : Int) < (v.den : Int) := by exact_mod_cast v.den_pos
  by_cases hv : 0 ≤ v
  · rw [if_pos hv, Rat.floor_def]
    exact Int.tdiv_eq_ediv (Rat.num_nonneg.mpr hv) (le_of_lt hden)
  · rw [if_neg hv]
    have hneg : 0 ≤ -v := by linarith [not_le.mp hv]
    have hn : 0 ≤ (-v).num := Rat.num_nonneg.mpr hneg
    have hceil : ⌈v⌉ = -⌊-v⌋ := by rw [Int.floor_neg, neg_neg]
    rw [hceil, Rat.floor_def, Rat.neg_den, Rat.neg_num]
    rw [Rat.neg_num] at hn
    rw [← Int.tdiv_eq_ediv hn (le_of_lt hden), Int.neg_tdiv, neg_neg]

/-- C24: a step that expects an integer and meets a number token `v` matches:
the token is read and the destination receives `(gint)v`, which is `v` with
its fractional part dropped, that is the floor of `v` for `v ≥ 0` and the
ceiling for `v < 0` (stated for results in the range of `gint`; the cast is
undefined beyond it).  So `config_get_loc` on `(1.9, 2.5)` gives x = 1 and
y = 2. -/
theorem C24_numeric_widening (σ : SeqState) (st : Step) (d : Nat) (v : Rat)
    (rest : List Token)
    (htype : st.type = G_TOKEN_INT) (hdest : st.dest = some d)
    (hin : σ.scanner.input = tNum v :: rest)
    (_hrange : -2147483648 ≤ gint_of_gdouble v ∧ gint_of_gdouble v ≤ 2147483647) :
    seq_step σ st =
      ⟨true, ⟨rest, false, tNum v, σ.scanner.max_parse_errors, σ.scanner.messages⟩,
        σ.dests ++ [(d, .int (gint_of_gdouble v))]⟩ ∧
    gint_of_gdouble v = (if 0 ≤ v then ⌊v⌋ else ⌈v⌉) ∧
    config_get_loc (g_scanner_new [tChar '(', tNum (19 / 10), tChar ',', tNum (5 / 2),
        tChar ')']) =
      (⟨[], true, tChar ')', false, []⟩, ⟨1, 2, 1, 1⟩) := by
  refine ⟨?_, gint_of_gdouble_trunc v, by decide!⟩
  obtain ⟨matched, ⟨input, peeked, token, flag, msgs⟩, dests⟩ := σ
  obtain ⟨req, type, dest, err⟩ := st
  simp only at htype hdest hin
  subst htype
  subst hdest
  subst hin
  cases req <;> cases matched <;> rfl

/-- C24 on the number 1.9 met by the REQUIRED integer step for `x` of
`config_get_loc`. -/
theorem C24_numeric_widening_witness :
    (seq_step ⟨true, ⟨[tNum (19 / 10), tChar ','], false, tChar '(', false, []⟩, []⟩
        (seq .SEQ_REQ G_TOKEN_INT (some 0) (some "missing x value in loc")) =
      ⟨true, ⟨[tChar ','], false, tNum (19 / 10), false, []⟩,
        [] ++ [(0, .int (gint_of_gdouble (19 / 10)))]⟩ ∧
    gint_of_gdouble (19 / 10) = (if (0 : Rat) ≤ 19 / 10 then ⌊(19 / 10 : Rat)⌋
      else ⌈(19 / 10 : Rat)⌉) ∧
    config_get_loc (g_scanner_new [tChar '(', tNum (19 / 10), tChar ',', tNum (5 / 2),
        tChar ')']) =
      (⟨[], true, tChar ')', false, []⟩, ⟨1, 2, 1, 1⟩)) ∧
    gint_of_gdouble (19 / 10) = 1 ∧ gint_of_gdouble (-19 / 10) = -1 :=
  ⟨C24_numeric_widening
    ⟨true, ⟨[tNum (19 / 10), tChar ','], false, tChar '(', false, []⟩, []⟩
    (seq .SEQ_REQ G_TOKEN_INT (some 0) (some "missing x value in loc")) 0 (19 / 10)
    [tChar ','] rfl rfl rfl (by decide!), by decide!, by decide!⟩

/-! ### The message handler -/

theorem log_error_run_set (ms : List String) :
    ∀ s : GScanner, s.max_parse_errors = true →
      ms.foldl (fun t x => config_log_error t x true) s = s := by
  induction ms with
  | nil => intro s _; rfl
  | cons m ms ih =>
    intro s hs
    have h1 : config_log_error s m true = s := by
      obtain ⟨input, peeked, token, flag, msgs⟩ := s
      simp only at hs
      subst hs
      rfl
    rw [List.foldl_cons, h1]
    exact ih s hs

/-- C25: `config_log_error` with `error` set surfaces the message exactly when
the error flag is clear on entry and returns with the flag set; with `error`
unset it surfaces the message and leaves the flag as it is.  Nothing else
changes.  A run of reports with `error` set that starts with the flag clear
surfaces its first message only. -/
theorem C25_log_error (s : GScanner) (m : String) (ms : List String) :
    config_log_error s m true =
      { s with max_parse_errors := true,
               messages := if s.max_parse_errors then s.messages else s.messages ++ [m] } ∧
    config_log_error s m false = { s with messages := s.messages ++ [m] } ∧
    (m :: ms).foldl (fun t x => config_log_error t x true)
        { s with max_parse_errors := false } =
      { s with max_parse_errors := true, messages := s.messages ++ [m] } := by
  refine ⟨error_eq s m, rfl, ?_⟩
  rw [List.foldl_cons, log_error_run_set ms _ rfl]
  rfl

/-! ### The stylesheet part of a configuration text -/

theorem strstr_absent (needle : List Char) (hne : needle ≠ []) :
    ∀ hay : List Char, ¬ needle <:+: hay → strstr hay needle = none := by
  intro hay
  induction hay with
  | nil =>
    intro _
    cases needle with
    | nil => exact absurd rfl hne
    | cons c cs => rfl
  | cons c cs ih =>
    intro hno
    have hp : needle.isPrefixOf (c :: cs) = false := by
      cases hq : needle.isPrefixOf (c :: cs) with
      | false => rfl
      | true => exact absurd (List.isPrefixOf_iff_prefix.mp hq).isInfix hno
    have hrec : strstr cs needle = none :=
      ih (fun hi => hno (hi.trans (List.infix_cons (List.infix_refl cs))))
    simp only [strstr, hp, Bool.false_eq_true, if_false, hrec, Option.map_none']

theorem strstr_first (needle post : List Char) (hne : needle ≠ []) :
    ∀ pre : List Char, ¬ needle <:+: pre ++ needle.dropLast →
      strstr (pre ++ needle ++ post) needle = some pre.length := by
  intro pre
  induction pre with
  | nil =>
    intro _
    have hp : needle.isPrefixOf (needle ++ post) = true :=
      List.isPrefixOf_iff_prefix.mpr (List.prefix_append needle post)
    cases hl : needle ++ post with
    | nil =>
      have : needle = [] := (List.append_eq_nil.mp hl).1
      exact absurd this hne
    | cons c cs =>
      rw [hl] at hp
      simp only [List.nil_append, List.append_assoc, hl, strstr, hp, if_true, List.length_nil]
  | cons c cs ih =>
    intro hno
    have hsplit : needle = needle.dropLast ++ [needle.getLast hne] :=
      (List.dropLast_append_getLast hne).symm
    have hpre2 : (c :: cs ++ needle.dropLast) <+: (c :: cs ++ needle ++ post) := by
      refine ⟨[needle.getLast hne] ++ post, ?_⟩
      conv_rhs => rw [hsplit]
      simp only [List.append_assoc, List.cons_append]
    have hp : needle.isPrefixOf (c :: (cs ++ needle ++ post)) = false := by
      cases hq : needle.isPrefixOf (c :: (cs ++ needle ++ post)) with
      | false => rfl
      | true =>
        have hpre1 : needle <+: (c :: cs ++ needle ++ post) := List.isPrefixOf_iff_prefix.mp hq
        have hlen : needle.length ≤ (c :: cs ++ needle.dropLast).length := by
          simp only [List.length_append, List.length_cons, List.length_dropLast]
          have : 0 < needle.length := List.length_pos.mpr hne
          omega
        exact absurd (List.prefix_of_prefix_length_le hpre1 hpre2 hlen).isInfix hno
    have hrec := ih (fun hi => hno (by
      have : cs ++ needle.dropLast <:+: c :: (cs ++ needle.dropLast) :=
        List.infix_cons (List.infix_refl _)
      exact hi.trans this))
    have hunf : strstr (c :: (cs ++ needle ++ post)) needle =
        if needle.isPrefixOf (c :: (cs ++ needle ++ post)) then some 0
        else (strstr (cs ++ needle ++ post) needle).map (· + 1) := rfl
    show strstr (c :: (cs ++ needle ++ post)) needle = some (cs.length + 1)
    rw [hunf, hp, hrec]
    rfl

theorem parse_data_succ (h : Host) (b : Build) (n : Nat) (data : String) (toplevel : Bool)
    (log : List String) (g : Globals) :
    config_parse_data h b (n + 1) (some data) toplevel log g =
      match config_parse_toplevel h b n
          { g_scanner_new (h.lex
              (match strstr data.data css_marker with
                | some i =>
                  (String.mk (data.data.take i),
                    g.emit (.css_provider_load (String.mk (data.data.drop (i + 5)))))
                | none => (data, g)).1) with messages := log }
          (match strstr data.data css_marker with
            | some i =>
              (String.mk (data.data.take i),
                g.emit (.css_provider_load (String.mk (data.data.drop (i + 5)))))
            | none => (data, g)).2 toplevel none with
      | .error e => .error e
      | .ok (s, g1, w) => .ok (s.messages, g1, w) := rfl

/-- C26: when the text is `pre`, the marker (newline and `#CSS`), `post`, and
the marker does not occur earlier, `config_parse_data` has the tokenizer read
`pre` and hands `post` to the stylesheet loader before parsing; when the
marker does not occur in the text, the whole text is tokenized and no
stylesheet is loaded. -/
theorem C26_css_directive (h : Host) (b : Build) (n : Nat) (data data2 : String)
    (toplevel : Bool) (log : List String) (g : Globals) (pre post : List Char)
    (hdata : data.data = pre ++ css_marker ++ post)
    (hfirst : ¬ css_marker <:+: pre ++ css_marker.dropLast)
    (hnone : ¬ css_marker <:+: data2.data) :
    config_parse_data h b (n + 1) (some data) toplevel log g =
      (match config_parse_toplevel h b n
          { g_scanner_new (h.lex (String.mk pre)) with messages := log }
          (g.emit (.css_provider_load (String.mk post))) toplevel none with
        | .error e => .error e
        | .ok (s, g1, w) => .ok (s.messages, g1, w)) ∧
    config_parse_data h b (n + 1) (some data2) toplevel log g =
      (match config_parse_toplevel h b n
          { g_scanner_new (h.lex data2) with messages := log } g toplevel none with
        | .error e => .error e
        | .ok (s, g1, w) => .ok (s.messages, g1, w)) := by
  have hne : css_marker ≠ [] := by decide
  constructor
  · have hs := strstr_first css_marker post hne pre hfirst
    rw [← hdata] at hs
    have htake : data.data.take pre.length = pre := by
      rw [hdata, List.append_assoc, List.take_left]
    have hdrop : data.data.drop (pre.length + 5) = post := by
      have h5 : pre.length + 5 = (pre ++ css_marker).length := by
        rw [List.length_append]
        rfl
      rw [hdata, h5, List.drop_left]
    rw [parse_data_succ, hs]
    simp only [htake, hdrop]
  · rw [parse_data_succ, strstr_absent css_marker hne data2.data hnone]

/-- C26 on the text `a`, marker, `b`, marker, `c` (the stylesheet is
everything behind the first marker) and on the text `abc`, with a tokenizer
that delivers no token. -/
theorem C26_css_directive_witness :
    (config_parse_data sample_host sample_build (1 + 1) (some "a\n#CSSb\n#CSSc") true []
        Globals.init =
      (match config_parse_toplevel sample_host sample_build 1
          { g_scanner_new (sample_host.lex (String.mk ['a'])) with messages := [] }
          (Globals.init.emit (.css_provider_load
            (String.mk ['b', '\n', '#', 'C', 'S', 'S', 'c']))) true none with
        | .error e => .error e
        | .ok (s, g1, w) => .ok (s.messages, g1, w)) ∧
    config_parse_data sample_host sample_build (1 + 1) (some "abc") true [] Globals.init =
      (match config_parse_toplevel sample_host sample_build 1
          { g_scanner_new (sample_host.lex "abc") with messages := [] } Globals.init true
          none with
        | .error e => .error e
        | .ok (s, g1, w) => .ok (s.messages, g1, w))) ∧
    config_parse_data sample_host sample_build 2 (some "a\n#CSSb\n#CSSc") true []
        Globals.init =
      .ok ([], Globals.init.emit (.css_provider_load "b\n#CSSc"), none) ∧
    config_parse_data sample_host sample_build 2 (some "abc") true [] Globals.init =
      .ok ([], Globals.init, none) :=
  ⟨C26_css_directive sample_host sample_build 1 "a\n#CSSb\n#CSSc" "abc" true []
    Globals.init ['a'] ['b', '\n', '#', 'C', 'S', 'S', 'c'] (by decide) (by decide)
    (by decide), by decide!, by decide!⟩

/-! ### The aggregation flag of `Grab` -/

theorem scanner_var_head (s : GScanner) (v : String) (kind : Int) (after : List Token)
    (hin : s.input = tIdent v :: tChar '=' :: tSym kind :: tChar '(' :: after) :
    config_parse_sequence s scanner_var_steps1 =
      (⟨after, false, tChar '(', false, s.messages⟩, [(0, .ident v), (2, .token kind)]) := by
  obtain ⟨input, peeked, token, flag, msgs⟩ := s
  simp only at hin
  subst hin
  rfl

/-- C27: in `v = Grab(` the token behind the `(` (the end-of-input token when
there is none) is read as the aggregation flag exactly when its code lies
between `G_TOKEN_SUM` and `G_TOKEN_FIRST`; otherwise it stays in the input and
the flag is `G_TOKEN_LASTW`.  The closing call then runs from that position
and the variable is attached with that flag. -/
theorem C27_grab_flag (s : GScanner) (g : Globals) (file : Option Nat) (v : String)
    (after : List Token)
    (hin : s.input = tIdent v :: tChar '=' :: tSym G_TOKEN_GRAB :: tChar '(' :: after) :
    config_scanner_var s g file =
      if G_TOKEN_SUM ≤ (after.headD eofToken).code ∧
          (after.headD eofToken).code ≤ G_TOKEN_FIRST then
        ((config_parse_sequence ⟨after.tail, false, after.headD eofToken, false, s.messages⟩
            scanner_var_steps3).1,
          g.emit (.scanner_var_attach (some v) file none G_TOKEN_GRAB
            (after.headD eofToken).code))
      else
        ((config_parse_sequence ⟨after, true, tChar '(', false, s.messages⟩
            scanner_var_steps3).1,
          g.emit (.scanner_var_attach (some v) file none G_TOKEN_GRAB G_TOKEN_LASTW)) := by
  have hv : dest_string [(0, DestVal.ident v), (2, DestVal.token G_TOKEN_GRAB)] 0 none =
      some v := rfl
  have ht : dest_int [(0, DestVal.ident v), (2, DestVal.token G_TOKEN_GRAB)] 2 0 =
      G_TOKEN_GRAB := rfl
  have h1 : ¬ (G_TOKEN_GRAB = G_TOKEN_REGEX ∨ G_TOKEN_GRAB = G_TOKEN_JSON) := by decide
  have hnt : (g_scanner_peek_next_token
      ⟨after, false, tChar '(', false, s.messages⟩).next_token = (after.headD eofToken).code :=
    rfl
  simp only [config_scanner_var, scanner_var_head s v G_TOKEN_GRAB after hin, hv, ht, h1,
    Bool.false_eq_true, if_false, if_true, hnt, ge_iff_le]
  by_cases hr : G_TOKEN_SUM ≤ (after.headD eofToken).code ∧
      (after.headD eofToken).code ≤ G_TOKEN_FIRST
  · simp only [hr, and_self, if_true]
    rfl
  · simp only [hr, if_false]
    rfl

/-- C27 on `v = Grab(Sum)` and on `v = Grab()`. -/
theorem C27_grab_flag_witness :
    config_scanner_var
        (g_scanner_new [tIdent "v", tChar '=', tSym G_TOKEN_GRAB, tChar '(', tSym G_TOKEN_SUM,
          tChar ')']) Globals.init (some 0) =
      (⟨[], true, tChar ')', false, []⟩,
        Globals.init.emit (.scanner_var_attach (some "v") (some 0) none G_TOKEN_GRAB
          G_TOKEN_SUM)) ∧
    config_scanner_var
        (g_scanner_new [tIdent "v", tChar '=', tSym G_TOKEN_GRAB, tChar '(', tChar ')'])
        Globals.init (some 0) =
      (⟨[], true, tChar ')', false, []⟩,
        Globals.init.emit (.scanner_var_attach (some "v") (some 0) none G_TOKEN_GRAB
          G_TOKEN_LASTW)) :=
  ⟨(C27_grab_flag
      (g_scanner_new [tIdent "v", tChar '=', tSym G_TOKEN_GRAB, tChar '(', tSym G_TOKEN_SUM,
        tChar ')']) Globals.init (some 0) "v" [tSym G_TOKEN_SUM, tChar ')'] rfl).trans
      (by decide!),
   (C27_grab_flag
      (g_scanner_new [tIdent "v", tChar '=', tSym G_TOKEN_GRAB, tChar '(', tChar ')'])
      Globals.init (some 0) "v" [tChar ')'] rfl).trans (by decide!)⟩

/-! ### Properties tied to a widget kind -/

theorem assign_boolean_ok (s : GScanner) (dflt v : Bool) (expr : String) (rest : List Token)
    (hin : s.input = tChar '=' :: tBool v :: rest) :
    config_assign_boolean s dflt expr =
      (config_optional_semicolon ⟨rest, false, tBool v, false, s.messages⟩, v) := by
  obtain ⟨input, peeked, token, flag, msgs⟩ := s
  simp only at hin
  subst hin
  cases v <;> rfl

theorem assign_number_ok (s : GScanner) (expr : String) (q : Rat) (rest : List Token)
    (hin : s.input = tChar '=' :: tNum q :: rest) :
    config_assign_number s expr =
      (config_optional_semicolon ⟨rest, false, tNum q, false, s.messages⟩, q) := by
  obtain ⟨input, peeked, token, flag, msgs⟩ := s
  simp only at hin
  subst hin
  rfl

theorem prop_pins_head (h : Host) (b : Build) (s : GScanner) (g : Globals) (lw : Widget)
    (hk : s.token.code = G_TOKEN_PINS) :
    config_widget_prop h b s g lw = (config_get_pins s g lw).map (fun r => (r.1, r.2, lw)) := by
  obtain ⟨input, peeked, ⟨code, str, num⟩, flag, msgs⟩ := s
  simp only at hk
  subst hk
  rfl

theorem prop_preview_head (h : Host) (b : Build) (s : GScanner) (g : Globals) (lw : Widget)
    (hk : s.token.code = G_TOKEN_PREVIEW) :
    config_widget_prop h b s g lw =
      if lw.wtype ≠ G_TOKEN_PAGER then
        .ok (g_scanner_error s "this widget has no property 'preview'", g, lw)
      else
        .ok ((config_assign_boolean s false "preview").1,
          g.emit (.pager_set_preview (config_assign_boolean s false "preview").2), lw) := by
  obtain ⟨input, peeked, ⟨code, str, num⟩, flag, msgs⟩ := s
  simp only at hk
  subst hk
  rfl

theorem prop_numeric_head (h : Host) (b : Build) (s : GScanner) (g : Globals) (lw : Widget)
    (hk : s.token.code = G_TOKEN_NUMERIC) :
    config_widget_prop h b s g lw =
      if lw.wtype ≠ G_TOKEN_PAGER then
        .ok (g_scanner_error s "this widget has no property 'numeric'", g, lw)
      else
        .ok ((config_assign_boolean s true "numeric").1,
          g.emit (.pager_set_numeric (config_assign_boolean s true "numeric").2), lw) := by
  obtain ⟨input, peeked, ⟨code, str, num⟩, flag, msgs⟩ := s
  simp only at hk
  subst hk
  rfl

theorem prop_cols_head (h : Host) (b : Build) (s : GScanner) (g : Globals) (lw : Widget)
    (hk : s.token.code = G_TOKEN_COLS) :
    config_widget_prop h b s g lw =
      .ok ((config_widget_cols s g lw).1, (config_widget_cols s g lw).2, lw) := by
  obtain ⟨input, peeked, ⟨code, str, num⟩, flag, msgs⟩ := s
  simp only at hk
  subst hk
  rfl

theorem prop_rows_head (h : Host) (b : Build) (s : GScanner) (g : Globals) (lw : Widget)
    (hk : s.token.code = G_TOKEN_ROWS) :
    config_widget_prop h b s g lw =
      .ok ((config_widget_rows s g lw).1, (config_widget_rows s g lw).2, lw) := by
  obtain ⟨input, peeked, ⟨code, str, num⟩, flag, msgs⟩ := s
  simp only at hk
  subst hk
  rfl

/-- One pass of the `do ... while` loop of `config_get_pins` over a string. -/
theorem pins_loop_step (n : Nat) (s : GScanner) (g : Globals) (x : Token) (p : String)
    (rest : List Token) (hin : s.input = x :: tString p :: rest) :
    pins_loop (n + 1) s g =
      if (rest.headD eofToken).code = tk ',' then
        pins_loop n ⟨rest, true, tString p, s.max_parse_errors, s.messages⟩
          (g.emit (.pager_add_pin p))
      else
        .ok (⟨rest, true, tString p, s.max_parse_errors, s.messages⟩,
          g.emit (.pager_add_pin p)) := by
  obtain ⟨input, peeked, token, flag, msgs⟩ := s
  simp only at hin
  subst hin
  rfl

theorem pins_tokens_cons (p q : String) (ps : List String) :
    pins_tokens (p :: q :: ps) = tString p :: tChar ',' :: pins_tokens (q :: ps) := rfl

theorem pins_loop_run (ps : List String) (hne : ps ≠ []) :
    ∀ (n : Nat) (s : GScanner) (g : Globals) (x : Token) (rest : List Token),
      s.input = x :: (pins_tokens ps ++ rest) →
      (rest.headD eofToken).code ≠ tk ',' → ps.length ≤ n →
      pins_loop n s g =
        .ok (⟨rest, true, tString ((ps.getLast?).getD ""), s.max_parse_errors, s.messages⟩,
          ps.foldl (fun a q => a.emit (.pager_add_pin q)) g) := by
  induction ps with
  | nil => exact absurd rfl hne
  | cons p tl ih =>
    intro n s g x rest hin hrest hn
    cases n with
    | zero => simp at hn
    | succ n =>
      cases tl with
      | nil =>
        rw [pins_loop_step n s g x p rest hin, if_neg hrest]
        rfl
      | cons q tl2 =>
        have hin2 : s.input = x :: tString p :: (tChar ',' :: (pins_tokens (q :: tl2) ++ rest)) := by
          rw [hin, pins_tokens_cons]
          rfl
        have hbar : ((tChar ',' :: (pins_tokens (q :: tl2) ++ rest)).headD eofToken).code =
            tk ',' := rfl
        rw [pins_loop_step n s g x p _ hin2, if_pos hbar,
          ih (List.cons_ne_nil _ _) n _ _ (tChar ',') rest rfl hrest (by simpa using hn)]
        rw [List.getLast?_cons_cons]
        rfl

theorem pins_tokens_length (ps : List String) : ps.length ≤ (pins_tokens ps).length := by
  induction ps with
  | nil => simp
  | cons p tl ih =>
    cases tl with
    | nil => simp [pins_tokens]
    | cons q tl2 =>
      rw [pins_tokens_cons]
      simp only [List.length_cons] at ih ⊢
      omega

theorem get_pins_pager (s : GScanner) (g : Globals) (lw : Widget) (ps : List String)
    (rest : List Token) (hw : lw.wtype = G_TOKEN_PAGER) (hne : ps ≠ [])
    (hin : s.input = tChar '=' :: (pins_tokens ps ++ rest))
    (hrest : (rest.headD eofToken).code ≠ tk ',') :
    config_get_pins s g lw =
      .ok (config_optional_semicolon
          ⟨rest, true, tString ((ps.getLast?).getD ""), false, s.messages⟩,
        ps.foldl (fun a q => a.emit (.pager_add_pin q)) g) := by
  have hexp : config_expect_token { s with max_parse_errors := false } (tk '=')
      "expecting pins = string [,string]" =
      (⟨s.input, true, s.token, false, s.messages⟩, true) := by
    obtain ⟨input, peeked, token, flag, msgs⟩ := s
    simp only at hin
    subst hin
    rfl
  have hrun := pins_loop_run ps hne (s.input.length + 1)
    ⟨s.input, true, s.token, false, s.messages⟩ g (tChar '=') rest hin hrest (by
      have := pins_tokens_length ps
      rw [hin]
      simp only [List.length_cons, List.length_append]
      omega)
  simp only [config_get_pins, hw, ne_eq, not_true_eq_false, if_false, hexp, Bool.not_true,
    Bool.false_eq_true, hrun]

/-- C28: the `switch` of `config_widget_props` on the properties tied to a
widget kind.  `preview` and `numeric` on a widget that is no pager, and `pins`
likewise, raise "this widget has no property ..." and return with the state
outside the scanner and the descriptor unchanged; so do `cols` and `rows` on
a widget that is neither task bar, pager nor tray.  On a pager,
`preview = v` and `numeric = v` hand the boolean to the pager and
`pins = "p", ...` adds each pin in order; on a task bar, pager or tray
`cols = q` and `rows = q`, for a number `q` whose integer part is in the range
of `gint`, hand the number, narrowed to an integer, to the flow grid of the
widget. -/
theorem C28_property_legality (h : Host) (b : Build) (s : GScanner) (g : Globals)
    (lw : Widget) :
    (s.token.code = G_TOKEN_PREVIEW → lw.wtype ≠ G_TOKEN_PAGER →
      config_widget_prop h b s g lw =
        .ok (g_scanner_error s "this widget has no property 'preview'", g, lw)) ∧
    (s.token.code = G_TOKEN_NUMERIC → lw.wtype ≠ G_TOKEN_PAGER →
      config_widget_prop h b s g lw =
        .ok (g_scanner_error s "this widget has no property 'numeric'", g, lw)) ∧
    (s.token.code = G_TOKEN_PINS → lw.wtype ≠ G_TOKEN_PAGER →
      config_widget_prop h b s g lw =
        .ok (g_scanner_error { s with max_parse_errors := false }
          "this widget has no property 'pins'", g, lw)) ∧
    (s.token.code = G_TOKEN_COLS →
      lw.wtype ≠ G_TOKEN_TASKBAR ∧ lw.wtype ≠ G_TOKEN_PAGER ∧ lw.wtype ≠ G_TOKEN_TRAY →
      config_widget_prop h b s g lw =
        .ok (g_scanner_error { s with max_parse_errors := false }
          "this widget has no property 'cols'", g, lw)) ∧
    (s.token.code = G_TOKEN_ROWS →
      lw.wtype ≠ G_TOKEN_TASKBAR ∧ lw.wtype ≠ G_TOKEN_PAGER ∧ lw.wtype ≠ G_TOKEN_TRAY →
      config_widget_prop h b s g lw =
        .ok (g_scanner_error { s with max_parse_errors := false }
          "this widget has no property 'rows'", g, lw)) ∧
    (∀ v rest, s.token.code = G_TOKEN_PREVIEW → lw.wtype = G_TOKEN_PAGER →
      s.input = tChar '=' :: tBool v :: rest →
      config_widget_prop h b s g lw =
        .ok (config_optional_semicolon ⟨rest, false, tBool v, false, s.messages⟩,
          g.emit (.pager_set_preview v), lw)) ∧
    (∀ v rest, s.token.code = G_TOKEN_NUMERIC → lw.wtype = G_TOKEN_PAGER →
      s.input = tChar '=' :: tBool v :: rest →
      config_widget_prop h b s g lw =
        .ok (config_optional_semicolon ⟨rest, false, tBool v, false, s.messages⟩,
          g.emit (.pager_set_numeric v), lw)) ∧
    (∀ ps rest, s.token.code = G_TOKEN_PINS → lw.wtype = G_TOKEN_PAGER → ps ≠ [] →
      s.input = tChar '=' :: (pins_tokens ps ++ rest) →
      (rest.headD eofToken).code ≠ tk ',' →
      config_widget_prop h b s g lw =
        .ok (config_optional_semicolon
            ⟨rest, true, tString ((ps.getLast?).getD ""), false, s.messages⟩,
          ps.foldl (fun a q => a.emit (.pager_add_pin q)) g, lw)) ∧
    (∀ q rest, gint_in_range q = true → s.token.code = G_TOKEN_COLS →
      lw.wtype = G_TOKEN_TASKBAR ∨ lw.wtype = G_TOKEN_PAGER ∨ lw.wtype = G_TOKEN_TRAY →
      s.input = tChar '=' :: tNum q :: rest →
      config_widget_prop h b s g lw =
        .ok (config_optional_semicolon ⟨rest, false, tNum q, false, s.messages⟩,
          g.emit (.flow_grid_set_cols lw.widget (gint_of_gdouble q)), lw)) ∧
    (∀ q rest, gint_in_range q = true → s.token.code = G_TOKEN_ROWS →
      lw.wtype = G_TOKEN_TASKBAR ∨ lw.wtype = G_TOKEN_PAGER ∨ lw.wtype = G_TOKEN_TRAY →
      s.input = tChar '=' :: tNum q :: rest →
      config_widget_prop h b s g lw =
        .ok (config_optional_semicolon ⟨rest, false, tNum q, false, s.messages⟩,
          g.emit (.flow_grid_set_rows lw.widget (gint_of_gdouble q)), lw)) := by
  refine ⟨?_, ?_, ?_, ?_, ?_, ?_, ?_, ?_, ?_, ?_⟩
  · intro hk hw
    rw [prop_preview_head h b s g lw hk, if_pos hw]
  · intro hk hw
    rw [prop_numeric_head h b s g lw hk, if_pos hw]
  · intro hk hw
    rw [prop_pins_head h b s g lw hk]
    simp only [config_get_pins, hw, ne_eq, not_false_eq_true, if_true]
    rfl
  · intro hk hw
    rw [prop_cols_head h b s g lw hk]
    simp only [config_widget_cols, hw, ne_eq, not_false_eq_true, and_self, if_true]
  · intro hk hw
    rw [prop_rows_head h b s g lw hk]
    simp only [config_widget_rows, hw, ne_eq, not_false_eq_true, and_self, if_true]
  · intro v rest hk hw hin
    rw [prop_preview_head h b s g lw hk, if_neg (by rw [hw]; decide),
      assign_boolean_ok s false v "preview" rest hin]
  · intro v rest hk hw hin
    rw [prop_numeric_head h b s g lw hk, if_neg (by rw [hw]; decide),
      assign_boolean_ok s true v "numeric" rest hin]
  · intro ps rest hk hw hne hin hrest
    rw [prop_pins_head h b s g lw hk, get_pins_pager s g lw ps rest hw hne hin hrest]
    rfl
  · intro q rest _ hk hw hin
    have hleg : ¬ (lw.wtype ≠ G_TOKEN_TASKBAR ∧ lw.wtype ≠ G_TOKEN_PAGER ∧
        lw.wtype ≠ G_TOKEN_TRAY) := by
      rintro ⟨h1, h2, h3⟩
      rcases hw with hw | hw | hw
      · exact h1 hw
      · exact h2 hw
      · exact h3 hw
    rw [prop_cols_head h b s g lw hk]
    simp only [config_widget_cols, hleg, if_false,
      assign_number_ok { s with max_parse_errors := false } "cols" q rest hin]
  · intro q rest _ hk hw hin
    have hleg : ¬ (lw.wtype ≠ G_TOKEN_TASKBAR ∧ lw.wtype ≠ G_TOKEN_PAGER ∧
        lw.wtype ≠ G_TOKEN_TRAY) := by
      rintro ⟨h1, h2, h3⟩
      rcases hw with hw | hw | hw
      · exact h1 hw
      · exact h2 hw
      · exact h3 hw
    rw [prop_rows_head h b s g lw hk]
    simp only [config_widget_rows, hleg, if_false,
      assign_number_ok { s with max_parse_errors := false } "rows" q rest hin]

/-- C28 on `pins = "a", "b";` read for a label and for a pager, and on
`cols = 3;` read for a grid and for a task bar. -/
theorem C28_property_legality_witness :
    config_widget_prop sample_host sample_build
        ⟨[tChar '=', tString "a", tChar ',', tString "b", tChar ';'], false,
          tSym G_TOKEN_PINS, false, []⟩ Globals.init
        { layout_widget_new sample_build with wtype := G_TOKEN_LABEL } =
      .ok (g_scanner_error
          { (⟨[tChar '=', tString "a", tChar ',', tString "b", tChar ';'], false,
              tSym G_TOKEN_PINS, false, []⟩ : GScanner) with max_parse_errors := false }
          "this widget has no property 'pins'",
        Globals.init, { layout_widget_new sample_build with wtype := G_TOKEN_LABEL }) ∧
    config_widget_prop sample_host sample_build
        ⟨[tChar '=', tString "a", tChar ',', tString "b", tChar ';'], false,
          tSym G_TOKEN_PINS, false, []⟩ Globals.init
        { layout_widget_new sample_build with wtype := G_TOKEN_PAGER } =
      .ok (config_optional_semicolon
          ⟨[tChar ';'], true, tString ((["a", "b"].getLast?).getD ""), false, []⟩,
        ["a", "b"].foldl (fun a q => a.emit (.pager_add_pin q)) Globals.init,
        { layout_widget_new sample_build with wtype := G_TOKEN_PAGER }) ∧
    config_widget_prop sample_host sample_build
        ⟨[tChar '=', tNum 3, tChar ';'], false, tSym G_TOKEN_COLS, false, []⟩ Globals.init
        sample_grid =
      .ok (g_scanner_error
          { (⟨[tChar '=', tNum 3, tChar ';'], false, tSym G_TOKEN_COLS, false, []⟩ :
              GScanner) with max_parse_errors := false }
          "this widget has no property 'cols'", Globals.init, sample_grid) ∧
    config_widget_prop sample_host sample_build
        ⟨[tChar '=', tNum 3, tChar ';'], false, tSym G_TOKEN_COLS, false, []⟩ Globals.init
        { layout_widget_new sample_build with
          wtype := G_TOKEN_TASKBAR, widget := some ⟨.flow_grid, 0⟩ } =
      .ok (config_optional_semicolon ⟨[tChar ';'], false, tNum 3, false, []⟩,
        Globals.init.emit (.flow_grid_set_cols (some ⟨.flow_grid, 0⟩) (gint_of_gdouble 3)),
        { layout_widget_new sample_build with
          wtype := G_TOKEN_TASKBAR, widget := some ⟨.flow_grid, 0⟩ }) :=
  ⟨(C28_property_legality sample_host sample_build
      ⟨[tChar '=', tString "a", tChar ',', tString "b", tChar ';'], false,
        tSym G_TOKEN_PINS, false, []⟩ Globals.init
      { layout_widget_new sample_build with wtype := G_TOKEN_LABEL }).2.2.1 rfl (by decide),
   (C28_property_legality sample_host sample_build
      ⟨[tChar '=', tString "a", tChar ',', tString "b", tChar ';'], false,
        tSym G_TOKEN_PINS, false, []⟩ Globals.init
      { layout_widget_new sample_build with wtype := G_TOKEN_PAGER }).2.2.2.2.2.2.2.1
      ["a", "b"] [tChar ';'] rfl rfl (by decide) rfl (by decide),
   (C28_property_legality sample_host sample_build
      ⟨[tChar '=', tNum 3, tChar ';'], false, tSym G_TOKEN_COLS, false, []⟩ Globals.init
      sample_grid).2.2.2.1 rfl (by decide),
   (C28_property_legality sample_host sample_build
      ⟨[tChar '=', tNum 3, tChar ';'], false, tSym G_TOKEN_COLS, false, []⟩ Globals.init
      { layout_widget_new sample_build with
        wtype := G_TOKEN_TASKBAR, widget := some ⟨.flow_grid, 0⟩ }).2.2.2.2.2.2.2.2.1
      3 [tChar ';'] (by decide!) rfl (Or.inl rfl) rfl⟩

/-! ### A value without its `=` -/

theorem get_value_missing_assign (h : Host) (d : Defines) (s : GScanner) (prop : String)
    (id : Bool) (hne : s.head.code ≠ tk '=') :
    config_get_value h d s prop true id =
      .ok (⟨s.input, true, s.token, true,
          s.messages ++ ["expecting " ++ prop ++ " = expression"]⟩, none, none) := by
  have hexp : config_expect_token { s with max_parse_errors := false } (tk '=')
      ("expecting " ++ prop ++ " = expression") =
      (⟨s.input, true, s.token, true,
        s.messages ++ ["expecting " ++ prop ++ " = expression"]⟩, false) := by
    have hnt : (g_scanner_peek_next_token { s with max_parse_errors := false }).next_token ≠
        tk '=' := hne
    simp only [config_expect_token, hnt, if_false]
    rfl
  simp only [config_get_value, if_true, hexp, Bool.not_false]

/-- C29: `config_get_value` called with `assign` set on a next token other
than `=` surfaces "expecting <prop> = expression", sets the error flag,
returns no value and leaves the input where it was.  `config_define` on an
identifier that is not followed by `=` therefore reads the identifier only
and leaves the macro table, like the rest of the state outside the scanner,
unchanged. -/
theorem C29_missing_assign (h : Host) (d : Defines) (s sd : GScanner) (prop n : String)
    (id : Bool) (g : Globals) (rest : List Token)
    (hne : s.head.code ≠ tk '=')
    (hd : sd.input = tIdent n :: rest)
    (hrest : (rest.headD eofToken).code ≠ tk '=') :
    config_get_value h d s prop true id =
      .ok (⟨s.input, true, s.token, true,
          s.messages ++ ["expecting " ++ prop ++ " = expression"]⟩, none, none) ∧
    config_define h sd g =
      .ok (⟨rest, true, tIdent n, true, sd.messages ++ ["expecting define = expression"]⟩,
        g) := by
  refine ⟨get_value_missing_assign h d s prop id hne, ?_⟩
  rw [config_define_head h sd g n rest hd,
    get_value_missing_assign h g.defines
      ⟨rest, false, tIdent n, sd.max_parse_errors, sd.messages⟩ "define" false hrest]
  rfl

/-- C29 on a value that starts with `"x"` and on `Define X "x"`. -/
theorem C29_missing_assign_witness :
    config_get_value sample_host none (g_scanner_new [tString "x"]) "style" true false =
      .ok (⟨(g_scanner_new [tString "x"]).input, true, (g_scanner_new [tString "x"]).token,
          true, (g_scanner_new [tString "x"]).messages ++
            ["expecting " ++ "style" ++ " = expression"]⟩, none, none) ∧
    config_define sample_host (g_scanner_new [tIdent "X", tString "x"]) Globals.init =
      .ok (⟨[tString "x"], true, tIdent "X", true,
          (g_scanner_new [tIdent "X", tString "x"]).messages ++
            ["expecting define = expression"]⟩, Globals.init) :=
  C29_missing_assign sample_host none (g_scanner_new [tString "x"])
    (g_scanner_new [tIdent "X", tString "x"]) "style" "X" false Globals.init [tString "x"]
    (by decide) rfl (by decide)

/-! ### Placement defaults -/

theorem opt_semicolon_step (σ : SeqState) :
    seq_step σ (seq .SEQ_OPT (tk ';') none none) =
      ⟨decide (σ.scanner.head.code = tk ';'), config_optional_semicolon σ.scanner, σ.dests⟩ := by
  by_cases hc : σ.scanner.head.code = tk ';'
  · rw [seq_step_matched σ _ hc]
    have hnt : (g_scanner_peek_next_token σ.scanner).next_token = tk ';' := hc
    simp only [config_optional_semicolon, hnt, if_true, hc, decide_True]
    rfl
  · rw [seq_step_skipped σ (seq .SEQ_OPT (tk ';') none none) rfl rfl
      ⟨hc, fun hh => absurd hh.2 (by decide)⟩]
    have hnt : (g_scanner_peek_next_token σ.scanner).next_token ≠ tk ';' := hc
    simp only [config_optional_semicolon, hnt, if_false, hc, decide_False]

theorem get_loc_steps_split :
    config_get_loc_steps =
      config_get_loc_steps.take 4 ++
        [seq .SEQ_OPT (tk ',') none none,
          seq .SEQ_CON G_TOKEN_INT (some 2) (some "missing w value in loc"),
          seq .SEQ_OPT (tk ',') none none,
          seq .SEQ_CON G_TOKEN_INT (some 3) (some "missing h value in loc"),
          seq .SEQ_REQ (tk ')') none (some "missing ')' in loc statement"),
          seq .SEQ_OPT (tk ';') none none] := by
  decide

theorem get_loc_head (s : GScanner) (x y : Rat) (rest : List Token)
    (hin : s.input = tChar '(' :: tNum x :: tChar ',' :: tNum y :: rest) :
    seq_run (config_get_loc_steps.take 4) (seq_init s) =
      ⟨true, ⟨rest, false, tNum y, false, s.messages⟩,
        [(0, .int (gint_of_gdouble x)), (1, .int (gint_of_gdouble y))]⟩ := by
  obtain ⟨input, peeked, token, flag, msgs⟩ := s
  simp only at hin
  subst hin
  rfl

/-- The call of `config_get_loc` on `(x, y)`. -/
theorem get_loc_two (s : GScanner) (x y : Rat) (rest : List Token)
    (hin : s.input = tChar '(' :: tNum x :: tChar ',' :: tNum y :: tChar ')' :: rest) :
    config_parse_sequence s config_get_loc_steps =
      (config_optional_semicolon ⟨rest, false, tChar ')', false, s.messages⟩,
        [(0, .int (gint_of_gdouble x)), (1, .int (gint_of_gdouble y))]) := by
  have h5 : seq_step ⟨true, ⟨tChar ')' :: rest, false, tNum y, false, s.messages⟩,
        [(0, .int (gint_of_gdouble x)), (1, .int (gint_of_gdouble y))]⟩
      (seq .SEQ_OPT (tk ',') none none) =
      ⟨false, ⟨tChar ')' :: rest, true, tNum y, false, s.messages⟩,
        [(0, .int (gint_of_gdouble x)), (1, .int (gint_of_gdouble y))]⟩ := rfl
  have h6 : ∀ st : Step, st.req ≠ Req.SEQ_REQ →
      (st.type = tk ',' ∨ st.type = G_TOKEN_INT) →
      seq_step ⟨false, ⟨tChar ')' :: rest, true, tNum y, false, s.messages⟩,
        [(0, .int (gint_of_gdouble x)), (1, .int (gint_of_gdouble y))]⟩ st =
      ⟨false, ⟨tChar ')' :: rest, true, tNum y, false, s.messages⟩,
        [(0, .int (gint_of_gdouble x)), (1, .int (gint_of_gdouble y))]⟩ := by
    intro st hreq htype
    obtain ⟨req, type, dest, err⟩ := st
    simp only at hreq htype
    rcases htype with ht | ht <;> subst ht <;> cases req <;>
      first | rfl | exact absurd rfl hreq
  have h9 : seq_step ⟨false, ⟨tChar ')' :: rest, true, tNum y, false, s.messages⟩,
        [(0, .int (gint_of_gdouble x)), (1, .int (gint_of_gdouble y))]⟩
      (seq .SEQ_REQ (tk ')') none (some "missing ')' in loc statement")) =
      ⟨true, ⟨rest, false, tChar ')', false, s.messages⟩,
        [(0, .int (gint_of_gdouble x)), (1, .int (gint_of_gdouble y))]⟩ := rfl
  rw [get_loc_steps_split, config_parse_sequence, seq_run_append,
    get_loc_head s x y (tChar ')' :: rest) hin]
  simp only [seq_run_cons, seq_run_nil, h5,
    h6 (seq .SEQ_CON G_TOKEN_INT (some 2) (some "missing w value in loc")) (by decide)
      (Or.inr rfl),
    h6 (seq .SEQ_OPT (tk ',') none none) (by decide) (Or.inl rfl),
    h6 (seq .SEQ_CON G_TOKEN_INT (some 3) (some "missing h value in loc")) (by decide)
      (Or.inr rfl),
    h9, opt_semicolon_step]

/-- The call of `config_get_loc` on `(x, y, w)`. -/
theorem get_loc_three (s : GScanner) (x y w : Rat) (rest : List Token)
    (hin : s.input = tChar '(' :: tNum x :: tChar ',' :: tNum y :: tChar ',' :: tNum w ::
      tChar ')' :: rest) :
    config_parse_sequence s config_get_loc_steps =
      (config_optional_semicolon ⟨rest, false, tChar ')', false, s.messages⟩,
        [(0, .int (gint_of_gdouble x)), (1, .int (gint_of_gdouble y)),
          (2, .int (gint_of_gdouble w))]) := by
  have h5 : seq_step ⟨true, ⟨tChar ',' :: tNum w :: tChar ')' :: rest, false, tNum y, false,
          s.messages⟩,
        [(0, .int (gint_of_gdouble x)), (1, .int (gint_of_gdouble y))]⟩
      (seq .SEQ_OPT (tk ',') none none) =
      ⟨true, ⟨tNum w :: tChar ')' :: rest, false, tChar ',', false, s.messages⟩,
        [(0, .int (gint_of_gdouble x)), (1, .int (gint_of_gdouble y))]⟩ := rfl
  have h6 : seq_step
      ⟨true, ⟨tNum w :: tChar ')' :: rest, false, tChar ',', false, s.messages⟩,
        [(0, .int (gint_of_gdouble x)), (1, .int (gint_of_gdouble y))]⟩
      (seq .SEQ_CON G_TOKEN_INT (some 2) (some "missing w value in loc")) =
      ⟨true, ⟨tChar ')' :: rest, false, tNum w, false, s.messages⟩,
        [(0, .int (gint_of_gdouble x)), (1, .int (gint_of_gdouble y)),
          (2, .int (gint_of_gdouble w))]⟩ := rfl
  have h7 : seq_step ⟨true, ⟨tChar ')' :: rest, false, tNum w, false, s.messages⟩,
        [(0, .int (gint_of_gdouble x)), (1, .int (gint_of_gdouble y)),
          (2, .int (gint_of_gdouble w))]⟩
      (seq .SEQ_OPT (tk ',') none none) =
      ⟨false, ⟨tChar ')' :: rest, true, tNum w, false, s.messages⟩,
        [(0, .int (gint_of_gdouble x)), (1, .int (gint_of_gdouble y)),
          (2, .int (gint_of_gdouble w))]⟩ := rfl
  have h8 : seq_step ⟨false, ⟨tChar ')' :: rest, true, tNum w, false, s.messages⟩,
        [(0, .int (gint_of_gdouble x)), (1, .int (gint_of_gdouble y)),
          (2, .int (gint_of_gdouble w))]⟩
      (seq .SEQ_CON G_TOKEN_INT (some 3) (some "missing h value in loc")) =
      ⟨false, ⟨tChar ')' :: rest, true, tNum w, false, s.messages⟩,
        [(0, .int (gint_of_gdouble x)), (1, .int (gint_of_gdouble y)),
          (2, .int (gint_of_gdouble w))]⟩ := rfl
  have h9 : seq_step ⟨false, ⟨tChar ')' :: rest, true, tNum w, false, s.messages⟩,
        [(0, .int (gint_of_gdouble x)), (1, .int (gint_of_gdouble y)),
          (2, .int (gint_of_gdouble w))]⟩
      (seq .SEQ_REQ (tk ')') none (some "missing ')' in loc statement")) =
      ⟨true, ⟨rest, false, tChar ')', false, s.messages⟩,
        [(0, .int (gint_of_gdouble x)), (1, .int (gint_of_gdouble y)),
          (2, .int (gint_of_gdouble w))]⟩ := rfl
  rw [get_loc_steps_split, config_parse_sequence, seq_run_append,
    get_loc_head s x y (tChar ',' :: tNum w :: tChar ')' :: rest) hin]
  simp only [seq_run_cons, seq_run_nil, h5, h6, h7, h8, h9, opt_semicolon_step]

/-- The call of `config_get_loc` on `(x, y, w, h)`. -/
theorem get_loc_four (s : GScanner) (x y w z : Rat) (rest : List Token)
    (hin : s.input = tChar '(' :: tNum x :: tChar ',' :: tNum y :: tChar ',' :: tNum w ::
      tChar ',' :: tNum z :: tChar ')' :: rest) :
    config_parse_sequence s config_get_loc_steps =
      (config_optional_semicolon ⟨rest, false, tChar ')', false, s.messages⟩,
        [(0, .int (gint_of_gdouble x)), (1, .int (gint_of_gdouble y)),
          (2, .int (gint_of_gdouble w)), (3, .int (gint_of_gdouble z))]) := by
  have h59 : seq_run
      [seq .SEQ_OPT (tk ',') none none,
        seq .SEQ_CON G_TOKEN_INT (some 2) (some "missing w value in loc"),
        seq .SEQ_OPT (tk ',') none none,
        seq .SEQ_CON G_TOKEN_INT (some 3) (some "missing h value in loc"),
        seq .SEQ_REQ (tk ')') none (some "missing ')' in loc statement")]
      ⟨true, ⟨tChar ',' :: tNum w :: tChar ',' :: tNum z :: tChar ')' :: rest, false, tNum y,
          false, s.messages⟩,
        [(0, .int (gint_of_gdouble x)), (1, .int (gint_of_gdouble y))]⟩ =
      ⟨true, ⟨rest, false, tChar ')', false, s.messages⟩,
        [(0, .int (gint_of_gdouble x)), (1, .int (gint_of_gdouble y)),
          (2, .int (gint_of_gdouble w)), (3, .int (gint_of_gdouble z))]⟩ := rfl
  have hsplit : config_get_loc_steps =
      config_get_loc_steps.take 4 ++
        ([seq .SEQ_OPT (tk ',') none none,
          seq .SEQ_CON G_TOKEN_INT (some 2) (some "missing w value in loc"),
          seq .SEQ_OPT (tk ',') none none,
          seq .SEQ_CON G_TOKEN_INT (some 3) (some "missing h value in loc"),
          seq .SEQ_REQ (tk ')') none (some "missing ')' in loc statement")] ++
        [seq .SEQ_OPT (tk ';') none none]) := by decide
  rw [hsplit, config_parse_sequence, seq_run_append, seq_run_append,
    get_loc_head s x y (tChar ',' :: tNum w :: tChar ',' :: tNum z :: tChar ')' :: rest) hin,
    h59]
  simp only [seq_run_cons, seq_run_nil, opt_semicolon_step]

/-- C30: `config_get_loc` on `(x, y)` returns the rectangle (x, y, 1, 1), on
`(x, y, w)` the rectangle (x, y, w, 1) and on `(x, y, w, h)` the rectangle
(x, y, w, h), each number narrowed to an integer, for numbers whose integer
parts are in the range of `gint`.  In each case the error
flag is clear afterwards, no message is written, and the input is read up to
and including the `)` and a `;` that follows it directly. -/
theorem C30_loc_defaults (s2 s3 s4 : GScanner) (x y w z : Rat) (r2 r3 r4 : List Token)
    (hin2 : s2.input = tChar '(' :: tNum x :: tChar ',' :: tNum y :: tChar ')' :: r2)
    (hin3 : s3.input = tChar '(' :: tNum x :: tChar ',' :: tNum y :: tChar ',' :: tNum w ::
      tChar ')' :: r3)
    (hin4 : s4.input = tChar '(' :: tNum x :: tChar ',' :: tNum y :: tChar ',' :: tNum w ::
      tChar ',' :: tNum z :: tChar ')' :: r4)
    (_hgint : gint_in_range x = true ∧ gint_in_range y = true ∧ gint_in_range w = true ∧
      gint_in_range z = true) :
    config_get_loc s2 =
      (config_optional_semicolon ⟨r2, false, tChar ')', false, s2.messages⟩,
        ⟨gint_of_gdouble x, gint_of_gdouble y, 1, 1⟩) ∧
    config_get_loc s3 =
      (config_optional_semicolon ⟨r3, false, tChar ')', false, s3.messages⟩,
        ⟨gint_of_gdouble x, gint_of_gdouble y, gint_of_gdouble w, 1⟩) ∧
    config_get_loc s4 =
      (config_optional_semicolon ⟨r4, false, tChar ')', false, s4.messages⟩,
        ⟨gint_of_gdouble x, gint_of_gdouble y, gint_of_gdouble w, gint_of_gdouble z⟩) := by
  refine ⟨?_, ?_, ?_⟩
  · simp only [config_get_loc, get_loc_two s2 x y r2 hin2]
    rfl
  · simp only [config_get_loc, get_loc_three s3 x y w r3 hin3]
    rfl
  · simp only [config_get_loc, get_loc_four s4 x y w z r4 hin4]
    rfl

/-- C30 on `(1, 2);`, `(1, 2, 3)` and `(1, 2, 3, 4);`. -/
theorem C30_loc_defaults_witness :
    (config_get_loc (g_scanner_new [tChar '(', tNum 1, tChar ',', tNum 2, tChar ')', tChar ';'])
      = (config_optional_semicolon ⟨[tChar ';'], false, tChar ')', false, []⟩,
        ⟨gint_of_gdouble 1, gint_of_gdouble 2, 1, 1⟩) ∧
    config_get_loc (g_scanner_new [tChar '(', tNum 1, tChar ',', tNum 2, tChar ',', tNum 3,
        tChar ')']) =
      (config_optional_semicolon ⟨[], false, tChar ')', false, []⟩,
        ⟨gint_of_gdouble 1, gint_of_gdouble 2, gint_of_gdouble 3, 1⟩) ∧
    config_get_loc (g_scanner_new [tChar '(', tNum 1, tChar ',', tNum 2, tChar ',', tNum 3,
        tChar ',', tNum 4, tChar ')', tChar ';']) =
      (config_optional_semicolon ⟨[tChar ';'], false, tChar ')', false, []⟩,
        ⟨gint_of_gdouble 1, gint_of_gdouble 2, gint_of_gdouble 3, gint_of_gdouble 4⟩)) ∧
    config_get_loc (g_scanner_new [tChar '(', tNum 1, tChar ',', tNum 2, tChar ')', tChar ';'])
      = (⟨[], false, tChar ';', false, []⟩, ⟨1, 2, 1, 1⟩) :=
  ⟨C30_loc_defaults
    (g_scanner_new [tChar '(', tNum 1, tChar ',', tNum 2, tChar ')', tChar ';'])
    (g_scanner_new [tChar '(', tNum 1, tChar ',', tNum 2, tChar ',', tNum 3, tChar ')'])
    (g_scanner_new [tChar '(', tNum 1, tChar ',', tNum 2, tChar ',', tNum 3, tChar ',', tNum 4,
      tChar ')', tChar ';'])
    1 2 3 4 [tChar ';'] [] [tChar ';'] rfl rfl rfl (by decide!), by decide!⟩

/-! ### Progress of the parsers -/

theorem lands_ok {α : Type} (s s2 : GScanner) (a : α) (h : s2.input <:+ s.input) :
    Lands s (.ok (s2, a)) := ⟨s2, a, rfl, h⟩

theorem Lands.mono {α : Type} {s s1 : GScanner} {r : Except Halt (GScanner × α)}
    (h : Lands s1 r) (hs : s1.input <:+ s.input) : Lands s r := by
  obtain ⟨s2, a, hr, h2⟩ := h
  exact ⟨s2, a, hr, h2.trans hs⟩

theorem Lands.map {α β : Type} {s : GScanner} {r : Except Halt (GScanner × α)}
    (h : Lands s r) (f : GScanner × α → GScanner × β) (hf : ∀ p, (f p).1 = p.1) :
    Lands s (r.map f) := by
  obtain ⟨s2, a, hr, h2⟩ := h
  refine ⟨s2, (f (s2, a)).2, ?_, h2⟩
  rw [hr]
  exact congrArg Except.ok (Prod.ext (hf (s2, a)) rfl)

theorem tail_suffix_of_suffix {l m : List Token} (h : l <:+ m) : l.tail <:+ m :=
  (List.tail_suffix l).trans h

theorem suffix_length_lt {l m : List Token} (h : l <:+ m.tail) (hm : m ≠ []) :
    l.length < m.length := by
  have h1 := h.length_le
  have h2 : m.tail.length < m.length := by
    cases m with
    | nil => exact absurd rfl hm
    | cons a b => simp
  omega

theorem input_ne_nil_of_head (s : GScanner) (h : s.head.code ≠ G_TOKEN_EOF) : s.input ≠ [] := by
  intro he
  apply h
  simp [GScanner.head, he, eofToken]

theorem expect_input (s : GScanner) (t : Int) (m : String) :
    (config_expect_token s t m).1.input = s.input := by
  simp only [config_expect_token]
  split_ifs <;> simp

theorem expect_true (s : GScanner) (t : Int) (m : String)
    (h : (config_expect_token s t m).2 = true) :
    s.head.code = t ∧ (config_expect_token s t m).1 = g_scanner_peek_next_token s := by
  simp only [config_expect_token] at h ⊢
  by_cases hc : (g_scanner_peek_next_token s).next_token = t
  · simp only [hc, if_true]
    exact ⟨by simpa using hc, trivial⟩
  · simp only [hc, if_false] at h
    exact absurd h (by decide)

theorem optional_semicolon_suffix (s : GScanner) :
    (config_optional_semicolon s).input <:+ s.input := by
  simp only [config_optional_semicolon]
  by_cases hc : (g_scanner_peek_next_token s).next_token = tk ';'
  · simp only [hc, if_true, get_input, peek_input]
    exact List.tail_suffix _
  · simp only [hc, if_false, peek_input]
    exact List.suffix_refl _

theorem seq_step_suffix (σ : SeqState) (st : Step) :
    (seq_step σ st).scanner.input <:+ σ.scanner.input := by
  simp only [seq_step]
  split_ifs <;> simp <;>
    first | exact List.suffix_refl _ | exact List.tail_suffix _

theorem seq_run_suffix (steps : List Step) :
    ∀ σ : SeqState, (seq_run steps σ).scanner.input <:+ σ.scanner.input := by
  induction steps with
  | nil => intro σ; exact List.suffix_refl _
  | cons st rest ih =>
    intro σ
    rw [seq_run_cons]
    exact (ih _).trans (seq_step_suffix σ st)

theorem parse_sequence_suffix (s : GScanner) (steps : List Step) :
    (config_parse_sequence s steps).1.input <:+ s.input :=
  seq_run_suffix steps (seq_init s)

theorem next_token_of_peeked (s : GScanner) (hp : s.peeked = true) :
    s.next_token = s.head.code := by
  simp [GScanner.next_token, hp]

theorem input_ne_nil_of_next (s : GScanner) (hp : s.peeked = true)
    (h : s.next_token ≠ G_TOKEN_EOF) : s.input ≠ [] :=
  input_ne_nil_of_head s (by rw [← next_token_of_peeked s hp]; exact h)

theorem assign_boolean_suffix (s : GScanner) (d : Bool) (e : String) :
    (config_assign_boolean s d e).1.input <:+ s.input := by
  simp only [config_assign_boolean]
  split_ifs <;>
    first
    | (simp only [expect_input]; exact List.suffix_refl _)
    | (refine (optional_semicolon_suffix _).trans ?_
       simp only [get_input, error_input, expect_input]
       exact tail_suffix_of_suffix (List.tail_suffix _))

theorem assign_string_suffix (s : GScanner) (e : String) :
    (config_assign_string s e).1.input <:+ s.input := by
  simp only [config_assign_string]
  split_ifs <;>
    first
    | (simp only [expect_input]; exact List.suffix_refl _)
    | (simp only [expect_input, get_input]; exact List.tail_suffix _)
    | (refine (optional_semicolon_suffix _).trans ?_
       simp only [get_input, error_input, expect_input]
       exact tail_suffix_of_suffix (List.tail_suffix _))

theorem assign_number_suffix (s : GScanner) (e : String) :
    (config_assign_number s e).1.input <:+ s.input := by
  simp only [config_assign_number]
  split_ifs <;>
    first
    | (simp only [expect_input]; exact List.suffix_refl _)
    | (simp only [expect_input, get_input]; exact List.tail_suffix _)
    | (refine (optional_semicolon_suffix _).trans ?_
       simp only [get_input, error_input, expect_input]
       exact tail_suffix_of_suffix (List.tail_suffix _))

theorem get_loc_suffix (s : GScanner) : (config_get_loc s).1.input <:+ s.input :=
  parse_sequence_suffix s config_get_loc_steps

theorem value_continues_ne_eof (c : Int) (h : value_continues c = true) : c ≠ G_TOKEN_EOF := by
  simp only [value_continues, Bool.and_eq_true, bne_iff_ne, ne_eq] at h
  exact h.2

theorem value_loop_lands (h : Host) (d : Defines) :
    ∀ (n : Nat) (s : GScanner) (v : String), s.peeked = true → s.input.length < n →
      Lands s (value_loop h d n s v) := by
  intro n
  induction n with
  | zero => intro s v _ hn; omega
  | succ n ih =>
    intro s v hp hn
    cases hc : value_continues s.next_token with
    | false =>
      rw [value_loop_stop h d n s v hc]
      exact lands_ok s s v (List.suffix_refl _)
    | true =>
      rw [value_loop_step h d n s v hc]
      have hne : s.input ≠ [] := input_ne_nil_of_next s hp (value_continues_ne_eof _ hc)
      have hlt : s.input.tail.length < s.input.length := by
        cases hs : s.input with
        | nil => exact absurd hs hne
        | cons a b => simp
      exact (ih _ _ rfl (by simp only [peek_input, get_input]; omega)).mono
        (by simp only [peek_input, get_input]; exact List.tail_suffix _)

theorem value_tail_lands (h : Host) (d : Defines) (s s5 : GScanner) (v : String)
    (k : Option String) (hp : s5.peeked = true) (hs : s5.input <:+ s.input) :
    Lands s (match value_loop h d (s5.input.length + 1) s5 v with
      | .error e => .error e
      | .ok (s6, value) => .ok (config_optional_semicolon s6, some value, k)) := by
  obtain ⟨s6, v6, hr, hsuf⟩ := value_loop_lands h d (s5.input.length + 1) s5 v hp
    (Nat.lt_succ_self _)
  rw [hr]
  exact lands_ok _ _ _ ((optional_semicolon_suffix s6).trans (hsuf.trans hs))

theorem get_value_lands (h : Host) (d : Defines) (s : GScanner) (prop : String)
    (assign id : Bool) : Lands s (config_get_value h d s prop assign id) := by
  cases assign <;> cases id <;>
    simp only [config_get_value, Bool.false_eq_true, if_false, if_true, Bool.not_true,
      Bool.false_and, Bool.true_and] <;>
    (try split_ifs) <;>
    first
    | (apply lands_ok
       simp only [expect_input]
       exact List.suffix_refl _)
    | (refine value_tail_lands h d s _ _ _ rfl ?_
       simp only [peek_input, get_input, expect_input]
       repeat (first | exact List.suffix_refl _ | apply tail_suffix_of_suffix))

theorem suffix_tail_lt {a b : List Token} (h : a <:+ b.tail) (ha : a ≠ []) :
    a.length < b.length := by
  have h1 := h.length_le
  cases b with
  | nil =>
    simp only [List.tail_nil, List.suffix_nil] at h
    exact absurd h ha
  | cons x xs =>
    simp only [List.tail_cons, List.length_cons] at h1 ⊢
    omega

theorem input_ne_nil_of_next_eq (s : GScanner) (c : Int) (hp : s.peeked = true)
    (h : s.next_token = c) (hc : c ≠ G_TOKEN_EOF) : s.input ≠ [] :=
  input_ne_nil_of_next s hp (by rw [h]; exact hc)

theorem conditions_loop_lands :
    ∀ (n : Nat) (s : GScanner) (c nc : Nat), s.input.length < n →
      Lands (g_scanner_get_next_token s) (conditions_loop n s c nc) := by
  intro n
  induction n with
  | zero => intro s c nc hn; omega
  | succ n ih =>
    intro s c nc hn
    have key : ∀ r : GScanner × Nat × Nat, r.1.input <:+ s.input.tail.tail →
        Lands (g_scanner_get_next_token s)
          (if (g_scanner_peek_next_token r.1).next_token = tk '|' then
            conditions_loop n (g_scanner_peek_next_token r.1) r.2.1 r.2.2
          else .ok (g_scanner_peek_next_token r.1, r.2.1, r.2.2)) := by
      intro r hr
      have hsuf : (g_scanner_peek_next_token r.1).input <:+ s.input.tail :=
        hr.trans (List.tail_suffix _)
      split_ifs with hbar
      · have hne : (g_scanner_peek_next_token r.1).input ≠ [] :=
          input_ne_nil_of_next_eq _ _ rfl hbar (by decide)
        have hlt := suffix_tail_lt hsuf hne
        refine (ih _ _ _ (by omega)).mono ?_
        simp only [get_input, peek_input]
        exact tail_suffix_of_suffix hsuf
      · exact lands_ok _ _ _ (by simpa using hsuf)
    simp only [conditions_loop]
    apply key
    cases condition_flag _ <;> simp only [] <;> (try split_ifs) <;>
      simp only [get_input, peek_input, error_input] <;>
      repeat (first | exact List.suffix_refl _ | apply tail_suffix_of_suffix)

/-- `config_action_conditions` returns; either it has read nothing or it has
read at least the opening bracket. -/
theorem action_conditions_lands (s : GScanner) (c nc : Nat) :
    ∃ s1 a, config_action_conditions s c nc = .ok (s1, a) ∧
      (s1.input = s.input ∨ s1.input <:+ s.input.tail) := by
  simp only [config_action_conditions]
  by_cases hb : (g_scanner_peek_next_token s).next_token ≠ tk '['
  · rw [if_pos hb]
    exact ⟨_, _, rfl, Or.inl rfl⟩
  · rw [if_neg hb]
    obtain ⟨s1, ⟨c1, nc1⟩, hr, hs⟩ := conditions_loop_lands
      ((g_scanner_peek_next_token s).input.length + 1) (g_scanner_peek_next_token s) c nc
      (Nat.lt_succ_self _)
    rw [hr]
    simp only [get_input, peek_input] at hs
    refine ⟨_, _, rfl, Or.inr ?_⟩
    split_ifs <;> simp only [get_input, error_input] <;> exact tail_suffix_of_suffix hs

theorem action_kind_lands (h : Host) (d : Defines) (s : GScanner) (a : Action) :
    Lands s (config_action_kind h d s a) := by
  simp only [config_action_kind]
  split_ifs
  all_goals first
    | exact lands_ok _ _ _ (List.suffix_refl _)
    | exact lands_ok _ _ _ (parse_sequence_suffix _ _)
    | exact lands_ok _ _ _ (by simp)
    | (obtain ⟨s1, ⟨v, k⟩, hr, hs⟩ := get_value_lands h d s "action value" false true
       rw [hr]
       exact lands_ok _ _ _ hs)
    | (obtain ⟨s1, ⟨v, k⟩, hr, hs⟩ := get_value_lands h d s "action style" false true
       rw [hr]
       exact lands_ok _ _ _ hs)
    | (obtain ⟨s1, ⟨v, k⟩, hr, hs⟩ := get_value_lands h d s "action tooltip" false true
       rw [hr]
       exact lands_ok _ _ _ hs)

/-- `config_action` returns and has read at least one token (when there is
one). -/
theorem action_lands (h : Host) (d : Defines) (s : GScanner) :
    Lands (g_scanner_get_next_token s) (config_action h d s) := by
  obtain ⟨s1, ⟨c, nc⟩, hr, hs⟩ := action_conditions_lands s 0 0
  simp only [config_action, hr]
  obtain ⟨s3, a3, hr3, hs3⟩ := action_kind_lands h d (g_scanner_get_next_token s1)
    ⟨c, nc, (g_scanner_get_next_token s1).token.code, none, none⟩
  rw [hr3]
  refine lands_ok _ _ _ (hs3.trans ?_)
  simp only [get_input]
  rcases hs with he | hsuf
  · rw [he]
  · exact tail_suffix_of_suffix hsuf

theorem action_lands_weak (h : Host) (d : Defines) (s : GScanner) :
    Lands s (config_action h d s) :=
  (action_lands h d s).mono (by simpa using List.tail_suffix _)

theorem function_loop_lands (h : Host) (d : Defines) :
    ∀ (n : Nat) (s : GScanner) (acts : List Action), s.peeked = true → s.input.length < n →
      Lands s (function_loop h d n s acts) := by
  intro n
  induction n with
  | zero => intro s acts _ hn; omega
  | succ n ih =>
    intro s acts hp hn
    simp only [function_loop]
    split_ifs with hc
    · obtain ⟨s1, a, hr, hs⟩ := action_lands h d s
      simp only [get_input] at hs
      have hne : s.input ≠ [] := input_ne_nil_of_next s hp hc.1
      have hlt : s1.input.length < s.input.length := by
        have h1 := hs.length_le
        cases hi : s.input with
        | nil => exact absurd hi hne
        | cons x xs =>
          rw [hi] at h1
          simp only [List.tail_cons, List.length_cons] at h1 ⊢
          omega
      rw [hr]
      cases a with
      | none =>
        exact (ih _ _ rfl (by simp only [peek_input, error_input]; omega)).mono
          (by simp only [peek_input, error_input]; exact hs.trans (List.tail_suffix _))
      | some a =>
        exact (ih _ _ rfl (by simp only [peek_input]; omega)).mono
          (by simp only [peek_input]; exact hs.trans (List.tail_suffix _))
    · exact lands_ok _ _ _ (List.suffix_refl _)

theorem function_lands (h : Host) (s : GScanner) (g : Globals) :
    Lands s (config_function h s g) := by
  simp only [config_function]
  split_ifs
  · exact lands_ok _ _ _ (parse_sequence_suffix _ _)
  · obtain ⟨s2, acts, hr, hs⟩ := function_loop_lands h g.defines
      ((g_scanner_peek_next_token (config_parse_sequence s function_steps_head).1).input.length
        + 1)
      (g_scanner_peek_next_token (config_parse_sequence s function_steps_head).1) [] rfl
      (Nat.lt_succ_self _)
    rw [hr]
    exact lands_ok _ _ _ ((parse_sequence_suffix _ _).trans
      (hs.trans (by simpa using parse_sequence_suffix s function_steps_head)))

theorem define_lands (h : Host) (s : GScanner) (g : Globals) :
    Lands s (config_define h s g) := by
  simp only [config_define]
  split_ifs
  · exact lands_ok _ _ _ (by simp only [expect_input]; exact List.suffix_refl _)
  · obtain ⟨s2, ⟨v, k⟩, hr, hs⟩ := get_value_lands h g.defines
      (g_scanner_get_next_token
        (config_expect_token s G_TOKEN_IDENTIFIER "Missing identifier after 'define'").1)
      "define" true false
    rw [hr]
    simp only [get_input, expect_input] at hs
    cases v <;> exact lands_ok _ _ _ (hs.trans (List.tail_suffix _))

theorem head_of_input (s : GScanner) (t : Token) (rest : List Token)
    (hin : s.input = t :: rest) : s.head = t := by
  simp [GScanner.head, hin]

theorem seq_step_dests_none (σ : SeqState) (st : Step) (hd : st.dest = none) :
    (seq_step σ st).dests = σ.dests := by
  simp only [seq_step]
  split_ifs <;> simp only [hd]

/-- The destination `trigger` of `config_trigger_action` is written exactly
when the token behind the keyword is a string literal. -/
theorem trigger_slot (s : GScanner) :
    dest_string (config_parse_sequence s trigger_action_steps).2 0 none =
      if s.head.code = G_TOKEN_STRING then some s.head.str else none := by
  have hrun : (config_parse_sequence s trigger_action_steps).2 =
      (seq_step (seq_init s)
        (seq .SEQ_REQ G_TOKEN_STRING (some 0) (some "missing trigger in TriggerAction"))).dests := by
    show (seq_step (seq_step (seq_init s) _) _).dests = _
    rw [seq_step_dests_none _ _ rfl]
  rw [hrun]
  by_cases hk : s.head.code = G_TOKEN_STRING
  · have hk2 : (seq_init s).scanner.head.code =
        (seq .SEQ_REQ G_TOKEN_STRING (some 0) (some "missing trigger in TriggerAction")).type := hk
    rw [if_pos hk, seq_step_matched (seq_init s) _ hk2]
    rfl
  · rw [if_neg hk]
    have hraise : seq_step (seq_init s)
        (seq .SEQ_REQ G_TOKEN_STRING (some 0) (some "missing trigger in TriggerAction")) =
        { seq_init s with
          scanner := g_scanner_error (g_scanner_peek_next_token (seq_init s).scanner)
            (seq_errmsg (some "missing trigger in TriggerAction")) } := by
      have hc : seq_cond (seq .SEQ_REQ G_TOKEN_STRING (some 0)
          (some "missing trigger in TriggerAction")) (seq_init s).matched
          (g_scanner_peek_next_token (seq_init s).scanner) = false := by
        have hh : (g_scanner_peek_next_token (seq_init s).scanner).next_token = s.head.code := rfl
        have hne : ¬ (G_TOKEN_STRING = G_TOKEN_FLOAT) := by decide
        simp [seq_cond, seq_wild, seq, hh, hk, hne]
      have hw : seq_wild (seq .SEQ_REQ G_TOKEN_STRING (some 0)
          (some "missing trigger in TriggerAction")) (seq_init s).matched = false := rfl
      have hs : seq_skip (seq .SEQ_REQ G_TOKEN_STRING (some 0)
          (some "missing trigger in TriggerAction")) (seq_init s).matched = false := rfl
      simp only [seq_step, hw, hc, hs, Bool.false_eq_true, if_false]
      rfl
    rw [hraise]
    rfl

theorem trigger_action_lands (h : Host) (s : GScanner) (g : Globals)
    (hk : s.head.code = G_TOKEN_STRING) : Lands s (config_trigger_action h s g) := by
  have hslot : (dest_string (config_parse_sequence s trigger_action_steps).2 0 none).isNone =
      false := by
    rw [trigger_slot, if_pos hk]
    rfl
  simp only [config_trigger_action, hslot, Bool.false_eq_true, if_false]
  split_ifs
  · exact lands_ok _ _ _ (parse_sequence_suffix _ _)
  · obtain ⟨s1, a, hr, hs⟩ := action_lands_weak h g.defines
      (config_parse_sequence s trigger_action_steps).1
    rw [hr]
    cases a with
    | none => exact lands_ok _ _ _ (hs.trans (parse_sequence_suffix _ _))
    | some a =>
      exact lands_ok _ _ _ ((optional_semicolon_suffix _).trans
        (hs.trans (parse_sequence_suffix _ _)))

/-- Without a string literal behind the keyword, `config_trigger_action` frees
the pointer it never set. -/
theorem trigger_action_wild (h : Host) (s : GScanner) (g : Globals)
    (hk : s.head.code ≠ G_TOKEN_STRING) :
    config_trigger_action h s g = .error .wild_free := by
  have hslot : (dest_string (config_parse_sequence s trigger_action_steps).2 0 none).isNone =
      true := by
    rw [trigger_slot, if_neg hk]
    rfl
  have hraise : seq_raises (seq_init s)
      (seq .SEQ_REQ G_TOKEN_STRING (some 0) (some "missing trigger in TriggerAction")) = true := by
    have hh : (g_scanner_peek_next_token (seq_init s).scanner).next_token = s.head.code := rfl
    have hne : ¬ (G_TOKEN_STRING = G_TOKEN_FLOAT) := by decide
    have hw : seq_wild (seq .SEQ_REQ G_TOKEN_STRING (some 0)
        (some "missing trigger in TriggerAction")) (seq_init s).matched = false := rfl
    have hs : seq_skip (seq .SEQ_REQ G_TOKEN_STRING (some 0)
        (some "missing trigger in TriggerAction")) (seq_init s).matched = false := rfl
    have hc : seq_cond (seq .SEQ_REQ G_TOKEN_STRING (some 0)
        (some "missing trigger in TriggerAction")) (seq_init s).matched
        (g_scanner_peek_next_token (seq_init s).scanner) = false := by
      simp [seq_cond, seq_wild, seq, hh, hk, hne]
    simp only [seq_raises, hw, hc, hs, Bool.false_eq_true, if_false, Bool.not_false,
      Bool.and_self]
  have hflag : (config_parse_sequence s trigger_action_steps).1.max_parse_errors = true :=
    (seq_run_flag trigger_action_steps (seq_init s)).mpr (Or.inr ⟨[], _, _, rfl, hraise⟩)
  simp only [config_trigger_action, hflag, hslot, if_true]

theorem trigger_named_suffix {l2 l : List Token} (hs : l2 <:+ l)
    (hl : trigger_actions_named l = true) : trigger_actions_named l2 = true := by
  obtain ⟨p, rfl⟩ := hs
  induction p with
  | nil => exact hl
  | cons x xs ih =>
    apply ih
    simp only [List.cons_append, trigger_actions_named, Bool.and_eq_true] at hl
    exact hl.2

theorem trigger_named_head (t : Token) (rest : List Token)
    (hl : trigger_actions_named (t :: rest) = true) (ht : t.code = G_TOKEN_TRIGGERACTION) :
    (rest.headD eofToken).code = G_TOKEN_STRING := by
  simp only [trigger_actions_named, Bool.and_eq_true, Bool.or_eq_true, bne_iff_ne, ne_eq,
    beq_iff_eq] at hl
  rcases hl.1 with h1 | h1
  · exact absurd ht h1
  · exact h1

theorem parse_sequence_first (s : GScanner) (st : Step) (rest : List Step)
    (hk : s.head.code = st.type) :
    (config_parse_sequence s (st :: rest)).1.input <:+ s.input.tail := by
  have h1 : seq_step (seq_init s) st =
      { matched := true
        scanner := g_scanner_get_next_token (seq_init s).scanner
        dests := match st.dest with
          | some d => (seq_init s).dests ++ [(d, seq_store st.type (seq_init s).scanner.head)]
          | none => (seq_init s).dests } := seq_step_matched (seq_init s) st hk
  show (seq_run (st :: rest) (seq_init s)).scanner.input <:+ s.input.tail
  rw [seq_run_cons, h1]
  exact seq_run_suffix rest _

theorem scanner_var_after_head (s : GScanner) (g : Globals) (file : Option Nat) :
    (config_scanner_var s g file).1.input <:+
      (config_parse_sequence s scanner_var_steps1).1.input := by
  simp only [config_scanner_var]
  split_ifs
  all_goals
    repeat (first
      | with_reducible exact List.suffix_refl _
      | with_reducible apply tail_suffix_of_suffix
      | with_reducible apply List.IsSuffix.trans (parse_sequence_suffix _ _)
      | with_reducible apply List.IsSuffix.trans (optional_semicolon_suffix _)
      | rw [get_input]
      | rw [peek_input]
      | rw [error_input]
      | rw [expect_input]
      | dsimp only)

end Sfwbar

namespace Sfwbar

theorem scanner_var_strict (s : GScanner) (g : Globals) (file : Option Nat)
    (hk : s.head.code = G_TOKEN_IDENTIFIER) :
    (config_scanner_var s g file).1.input <:+ s.input.tail :=
  (scanner_var_after_head s g file).trans (parse_sequence_first s _ _ hk)

theorem length_lt_of_suffix_tail {a b : List Token} (h : a <:+ b.tail) (hb : b ≠ []) :
    a.length < b.length := by
  have h1 := h.length_le
  cases b with
  | nil => exact absurd rfl hb
  | cons x xs =>
    simp only [List.tail_cons, List.length_cons] at h1 ⊢
    omega

theorem scanner_var_loop_lands :
    ∀ (n : Nat) (s : GScanner) (g : Globals) (file : Option Nat), s.input.length < n →
      Lands s (scanner_var_loop n s g file) := by
  intro n
  induction n with
  | zero => intro s g file hn; omega
  | succ n ih =>
    intro s g file hn
    simp only [scanner_var_loop]
    split_ifs with hc
    · have hk : (g_scanner_peek_next_token s).head.code = G_TOKEN_IDENTIFIER := by
        simpa using hc
      have hs := scanner_var_strict (g_scanner_peek_next_token s) g file hk
      rw [peek_input] at hs
      have hne : s.input ≠ [] :=
        input_ne_nil_of_head s (by rw [← peek_head, hk]; decide)
      have hlt := length_lt_of_suffix_tail hs hne
      exact (ih _ _ _ (by omega)).mono (hs.trans (List.tail_suffix _))
    · exact lands_ok _ _ _ (List.suffix_refl _)

theorem var_loop_tail_lands (s s1 : GScanner) (g1 : Globals) (file x : Option Nat)
    (hs : s1.input <:+ s.input) :
    Lands s (match scanner_var_loop (s1.input.length + 1) s1 g1 file with
      | .error e => .error e
      | .ok (s2, g2) =>
        .ok ((config_parse_sequence s2 scanner_source_steps_close).1, g2, x)) := by
  obtain ⟨s2, g2, hr, hs2⟩ := scanner_var_loop_lands (s1.input.length + 1) s1 g1 file
    (Nat.lt_succ_self _)
  rw [hr]
  exact lands_ok _ _ _ ((parse_sequence_suffix _ _).trans (hs2.trans hs))

theorem scanner_source_lands (s : GScanner) (g : Globals) (src : Source) :
    Lands s (config_scanner_source s g src) := by
  unfold config_scanner_source
  dsimp only
  split_ifs
  all_goals first
    | exact lands_ok _ _ _ (parse_sequence_suffix _ _)
    | exact var_loop_tail_lands s _ _ _ _ (parse_sequence_suffix _ _)

theorem scanner_case_lands (s : GScanner) (g : Globals) :
    Lands s (config_scanner_case s g) := by
  simp only [config_scanner_case]
  split_ifs
  all_goals first
    | exact (scanner_source_lands s g _).map _ (fun _ => rfl)
    | exact lands_ok _ _ _ (by rw [error_input])

theorem scanner_loop_lands :
    ∀ (n : Nat) (s : GScanner) (g : Globals), s.input.length < n →
      Lands s (config_scanner_loop n s g) := by
  intro n
  induction n with
  | zero => intro s g hn; omega
  | succ n ih =>
    intro s g hn
    simp only [config_scanner_loop]
    split_ifs with hc
    · have hne : s.input ≠ [] :=
        input_ne_nil_of_next (g_scanner_peek_next_token s) rfl hc.2
      obtain ⟨s2, g2, hr, hs⟩ := scanner_case_lands
        (g_scanner_get_next_token (g_scanner_peek_next_token s)) g
      rw [get_input, peek_input] at hs
      rw [hr]
      have hlt := length_lt_of_suffix_tail hs hne
      exact (ih _ _ (by omega)).mono (hs.trans (List.tail_suffix _))
    · exact lands_ok _ _ _ (List.suffix_refl _)

theorem scanner_loop_tail_lands (s s1 : GScanner) (g : Globals)
    (hs : s1.input <:+ s.input) :
    Lands s (match config_scanner_loop (s1.input.length + 1) s1 g with
      | .error e => .error e
      | .ok (s2, g2) =>
        .ok (if s2.next_token = tk '}' then g_scanner_get_next_token s2 else s2, g2)) := by
  obtain ⟨s2, g2, hr, hs2⟩ := scanner_loop_lands (s1.input.length + 1) s1 g
    (Nat.lt_succ_self _)
  rw [hr]
  refine lands_ok _ _ _ ?_
  split_ifs
  · rw [get_input]
    exact tail_suffix_of_suffix (hs2.trans hs)
  · exact hs2.trans hs

theorem scanner_lands (s : GScanner) (g : Globals) : Lands s (config_scanner s g) := by
  simp only [config_scanner]
  split_ifs
  · exact lands_ok _ _ _ (by rw [expect_input])
  · refine scanner_loop_tail_lands s _ g ?_
    repeat (first
      | with_reducible exact List.suffix_refl _
      | with_reducible apply tail_suffix_of_suffix
      | with_reducible apply List.IsSuffix.trans (parse_sequence_suffix _ _)
      | with_reducible apply List.IsSuffix.trans (optional_semicolon_suffix _)
      | rw [get_input]
      | rw [peek_input]
      | rw [error_input]
      | rw [expect_input]
      | dsimp only)

theorem pins_loop_lands :
    ∀ (n : Nat) (s : GScanner) (g : Globals), s.input.length < n →
      Lands s (pins_loop n s g) := by
  intro n
  induction n with
  | zero => intro s g hn; omega
  | succ n ih =>
    intro s g hn
    simp only [pins_loop]
    split_ifs with h1 h2
    · refine lands_ok _ _ _ ?_
      repeat (first
      | with_reducible exact List.suffix_refl _
      | with_reducible apply tail_suffix_of_suffix
      | with_reducible apply List.IsSuffix.trans (parse_sequence_suffix _ _)
      | with_reducible apply List.IsSuffix.trans (optional_semicolon_suffix _)
      | rw [get_input]
      | rw [peek_input]
      | rw [error_input]
      | rw [expect_input]
      | dsimp only)
    · have hsuf : (g_scanner_peek_next_token (g_scanner_get_next_token
          (config_expect_token (g_scanner_get_next_token s) G_TOKEN_STRING
            "expecting a string in pins = string [,string]").1)).input <:+ s.input.tail := by
        rw [peek_input, get_input, expect_input, get_input]
        exact List.tail_suffix _
      have hne := input_ne_nil_of_next_eq _ _ rfl h2 (by decide)
      have hlt := suffix_tail_lt hsuf hne
      exact (ih _ _ (by omega)).mono (hsuf.trans (List.tail_suffix _))
    · refine lands_ok _ _ _ ?_
      repeat (first
      | with_reducible exact List.suffix_refl _
      | with_reducible apply tail_suffix_of_suffix
      | with_reducible apply List.IsSuffix.trans (parse_sequence_suffix _ _)
      | with_reducible apply List.IsSuffix.trans (optional_semicolon_suffix _)
      | rw [get_input]
      | rw [peek_input]
      | rw [error_input]
      | rw [expect_input]
      | dsimp only)

theorem pins_loop_tail_lands (s s1 : GScanner) (g : Globals) (hs : s1.input <:+ s.input) :
    Lands s (match pins_loop (s1.input.length + 1) s1 g with
      | .error e => .error e
      | .ok (s2, g1) => .ok (config_optional_semicolon s2, g1)) := by
  obtain ⟨s2, g2, hr, hs2⟩ := pins_loop_lands (s1.input.length + 1) s1 g (Nat.lt_succ_self _)
  rw [hr]
  exact lands_ok _ _ _ ((optional_semicolon_suffix _).trans (hs2.trans hs))

theorem get_pins_lands (s : GScanner) (g : Globals) (lw : Widget) :
    Lands s (config_get_pins s g lw) := by
  simp only [config_get_pins]
  split_ifs
  · exact lands_ok _ _ _ (by rw [error_input])
  · exact lands_ok _ _ _ (by rw [expect_input])
  · refine pins_loop_tail_lands s _ g ?_
    repeat (first
      | with_reducible exact List.suffix_refl _
      | with_reducible apply tail_suffix_of_suffix
      | with_reducible apply List.IsSuffix.trans (parse_sequence_suffix _ _)
      | with_reducible apply List.IsSuffix.trans (optional_semicolon_suffix _)
      | rw [get_input]
      | rw [peek_input]
      | rw [error_input]
      | rw [expect_input]
      | dsimp only)

theorem widget_cols_suffix (s : GScanner) (g : Globals) (lw : Widget) :
    (config_widget_cols s g lw).1.input <:+ s.input := by
  simp only [config_widget_cols]
  split_ifs
  · rw [error_input]
  · exact assign_number_suffix _ _

theorem widget_rows_suffix (s : GScanner) (g : Globals) (lw : Widget) :
    (config_widget_rows s g lw).1.input <:+ s.input := by
  simp only [config_widget_rows]
  split_ifs
  · rw [error_input]
  · exact assign_number_suffix _ _

theorem widget_action_lands (h : Host) (b : Build) (d : Defines) (s : GScanner) (lw : Widget) :
    Lands s (config_widget_action h b d s lw) := by
  simp only [config_widget_action]
  split_ifs
  · exact lands_ok _ _ _ (parse_sequence_suffix _ _)
  · exact lands_ok _ _ _ (by rw [error_input]; exact parse_sequence_suffix _ _)
  · obtain ⟨s1, a, hr, hs⟩ := action_lands_weak h d
      (config_parse_sequence s widget_action_steps).1
    rw [hr]
    cases a with
    | none =>
      exact lands_ok _ _ _ (by rw [error_input]; exact hs.trans (parse_sequence_suffix _ _))
    | some a =>
      exact lands_ok _ _ _ ((optional_semicolon_suffix _).trans
        (hs.trans (parse_sequence_suffix _ _)))

/-- A value read into a field of the descriptor. -/
theorem get_value_prop_lands (h : Host) (s : GScanner) (g : Globals) (prop : String)
    (f : Option String → Widget) :
    Lands s (match config_get_value h g.defines s prop true false with
      | .error e => .error e
      | .ok (s1, v, _) => .ok (s1, g, f v)) := by
  obtain ⟨s1, ⟨v, k⟩, hr, hs⟩ := get_value_lands h g.defines s prop true false
  rw [hr]
  exact lands_ok _ _ _ hs

theorem widget_prop_lands (h : Host) (b : Build) (s : GScanner) (g : Globals) (lw : Widget) :
    Lands s (config_widget_prop h b s g lw) := by
  unfold config_widget_prop
  dsimp only
  by_cases h0 : s.token.code = G_TOKEN_STYLE
  · rw [if_pos h0]
    exact get_value_prop_lands h s g "style" (fun v => { lw with style := v })
  rw [if_neg h0]
  by_cases h1 : s.token.code = G_TOKEN_CSS
  · rw [if_pos h1]
    with_reducible exact lands_ok _ _ _ (assign_string_suffix _ _)
  rw [if_neg h1]
  by_cases h2 : s.token.code = G_TOKEN_INTERVAL
  · rw [if_pos h2]
    split_ifs <;> first
      | with_reducible exact lands_ok _ _ _ (by rw [error_input])
      | with_reducible exact lands_ok _ _ _ (assign_number_suffix _ _)
  rw [if_neg h2]
  by_cases h3 : s.token.code = G_TOKEN_TRIGGER
  · rw [if_pos h3]
    with_reducible exact lands_ok _ _ _ (assign_string_suffix _ _)
  rw [if_neg h3]
  by_cases h4 : s.token.code = G_TOKEN_VALUE
  · rw [if_pos h4]
    split_ifs <;> first
      | with_reducible exact lands_ok _ _ _ (by rw [error_input])
      | exact get_value_prop_lands h s g "value" (fun v => { lw with value := v })
  rw [if_neg h4]
  by_cases h5 : s.token.code = G_TOKEN_TOOLTIP
  · rw [if_pos h5]
    split_ifs <;> first
      | with_reducible exact lands_ok _ _ _ (by rw [error_input])
      | exact get_value_prop_lands h s g "tooltip" (fun v => { lw with tooltip := v })
  rw [if_neg h5]
  by_cases h6 : s.token.code = G_TOKEN_PINS
  · rw [if_pos h6]
    with_reducible exact (get_pins_lands s g lw).map _ (fun _ => rfl)
  rw [if_neg h6]
  by_cases h7 : s.token.code = G_TOKEN_PREVIEW
  · rw [if_pos h7]
    split_ifs <;> first
      | with_reducible exact lands_ok _ _ _ (by rw [error_input])
      | with_reducible exact lands_ok _ _ _ (assign_boolean_suffix _ _ _)
  rw [if_neg h7]
  by_cases h8 : s.token.code = G_TOKEN_NUMERIC
  · rw [if_pos h8]
    split_ifs <;> first
      | with_reducible exact lands_ok _ _ _ (by rw [error_input])
      | with_reducible exact lands_ok _ _ _ (assign_boolean_suffix _ _ _)
  rw [if_neg h8]
  by_cases h9 : s.token.code = G_TOKEN_PEROUTPUT
  · rw [if_pos h9]
    split_ifs <;> first
      | with_reducible exact lands_ok _ _ _ (by rw [error_input])
      | with_reducible exact lands_ok _ _ _ (assign_boolean_suffix _ _ _)
  rw [if_neg h9]
  by_cases h10 : s.token.code = G_TOKEN_TITLEWIDTH
  · rw [if_pos h10]
    split_ifs <;> first
      | with_reducible exact lands_ok _ _ _ (by rw [error_input])
      | with_reducible exact lands_ok _ _ _ (assign_number_suffix _ _)
  rw [if_neg h10]
  by_cases h11 : s.token.code = G_TOKEN_COLS
  · rw [if_pos h11]
    with_reducible exact lands_ok _ _ _ (widget_cols_suffix _ _ _)
  rw [if_neg h11]
  by_cases h12 : s.token.code = G_TOKEN_ROWS
  · rw [if_pos h12]
    with_reducible exact lands_ok _ _ _ (widget_rows_suffix _ _ _)
  rw [if_neg h12]
  by_cases h13 : s.token.code = G_TOKEN_ACTION
  · rw [if_pos h13]
    with_reducible exact (widget_action_lands h b g.defines s lw).map _ (fun _ => rfl)
  rw [if_neg h13]
  by_cases h14 : s.token.code = G_TOKEN_ICONS
  · rw [if_pos h14]
    with_reducible exact lands_ok _ _ _ (assign_boolean_suffix _ _ _)
  rw [if_neg h14]
  by_cases h15 : s.token.code = G_TOKEN_LABELS
  · rw [if_pos h15]
    with_reducible exact lands_ok _ _ _ (assign_boolean_suffix _ _ _)
  rw [if_neg h15]
  by_cases h16 : s.token.code = G_TOKEN_LOC
  · rw [if_pos h16]
    with_reducible exact lands_ok _ _ _ (get_loc_suffix _)
  rw [if_neg h16]
  exact lands_ok _ _ _ (by rw [error_input])

theorem props_continues_ne_eof (c w : Int) (h : widget_props_continues c w = true) :
    c ≠ G_TOKEN_EOF := by
  simp only [widget_props_continues, Bool.and_eq_true, bne_iff_ne, ne_eq] at h
  exact h.2

theorem widget_props_loop_lands (h : Host) (b : Build) :
    ∀ (n : Nat) (s : GScanner) (g : Globals) (lw : Widget), s.peeked = true →
      s.input.length < n → Lands s (widget_props_loop h b n s g lw) := by
  intro n
  induction n with
  | zero => intro s g lw _ hn; omega
  | succ n ih =>
    intro s g lw hp hn
    rw [widget_props_loop_succ]
    split_ifs with hc
    · have hne : s.input ≠ [] := input_ne_nil_of_next s hp (props_continues_ne_eof _ _ hc)
      obtain ⟨s1, ⟨g1, lw1⟩, hr, hs⟩ := widget_prop_lands h b (g_scanner_get_next_token s) g lw
      rw [get_input] at hs
      rw [hr]
      have hlt := length_lt_of_suffix_tail hs hne
      exact (ih _ _ _ rfl (by rw [peek_input]; omega)).mono
        (by rw [peek_input]; exact hs.trans (List.tail_suffix _))
    · exact lands_ok _ _ _ (List.suffix_refl _)

theorem props_loop_tail_lands (h : Host) (b : Build) (s s1 : GScanner) (g : Globals)
    (lw : Widget) (hp : s1.peeked = true) (hs : s1.input <:+ s.input) :
    Lands s (match widget_props_loop h b (s1.input.length + 1) s1 g lw with
      | .error e => .error e
      | .ok (s2, g2, lw2) =>
        .ok (if (g_scanner_peek_next_token s2).next_token = tk '}' ∧ lw2.wtype ≠ G_TOKEN_GRID
            then g_scanner_get_next_token (g_scanner_peek_next_token s2)
            else g_scanner_peek_next_token s2, g2, lw2, true)) := by
  obtain ⟨s2, ⟨g2, lw2⟩, hr, hs2⟩ := widget_props_loop_lands h b (s1.input.length + 1) s1 g lw
    hp (Nat.lt_succ_self _)
  rw [hr]
  refine lands_ok _ _ _ ?_
  split_ifs
  · rw [get_input, peek_input]
    exact tail_suffix_of_suffix (hs2.trans hs)
  · rw [peek_input]
    exact hs2.trans hs

theorem widget_props_lands (h : Host) (b : Build) (s : GScanner) (g : Globals) (lw : Widget) :
    Lands s (config_widget_props h b s g lw) := by
  simp only [config_widget_props]
  split_ifs
  · exact lands_ok _ _ _ (parse_sequence_suffix _ _)
  · exact props_loop_tail_lands h b s _ g _ rfl (by rw [peek_input]; exact parse_sequence_suffix _ _)

theorem switcher_loop_lands :
    ∀ (n : Nat) (s : GScanner) (v : SwitcherVars), s.input.length < n →
      Lands s (switcher_loop n s v) := by
  intro n
  induction n with
  | zero => intro s v hn; omega
  | succ n ih =>
    intro s v hn
    simp only [switcher_loop]
    by_cases hc : (g_scanner_peek_next_token s).next_token ≠ tk '}' ∧
        (g_scanner_peek_next_token s).next_token ≠ G_TOKEN_EOF
    · rw [if_pos hc]
      have hne : s.input ≠ [] := input_ne_nil_of_next (g_scanner_peek_next_token s) rfl hc.2
      have step : ∀ (s2 : GScanner) (v2 : SwitcherVars), s2.input <:+ s.input.tail →
          Lands s (switcher_loop n s2 v2) := fun s2 v2 hs =>
        (ih s2 v2 (by have := length_lt_of_suffix_tail hs hne; omega)).mono
          (hs.trans (List.tail_suffix _))
      split_ifs <;> first
        | with_reducible exact step _ _ ((assign_number_suffix _ _).trans (by rw [get_input, peek_input]))
        | with_reducible exact step _ _ ((assign_string_suffix _ _).trans (by rw [get_input, peek_input]))
        | with_reducible exact step _ _ ((assign_boolean_suffix _ _ _).trans (by rw [get_input, peek_input]))
        | with_reducible exact step _ _ (by rw [error_input, get_input, peek_input])
    · rw [if_neg hc]
      exact lands_ok _ _ _ (List.suffix_refl _)

theorem placer_loop_lands :
    ∀ (n : Nat) (s : GScanner) (v : PlacerVars), s.input.length < n →
      Lands s (placer_loop n s v) := by
  intro n
  induction n with
  | zero => intro s v hn; omega
  | succ n ih =>
    intro s v hn
    simp only [placer_loop]
    by_cases hc : (g_scanner_peek_next_token s).next_token ≠ tk '}' ∧
        (g_scanner_peek_next_token s).next_token ≠ G_TOKEN_EOF
    · rw [if_pos hc]
      have hne : s.input ≠ [] := input_ne_nil_of_next (g_scanner_peek_next_token s) rfl hc.2
      have step : ∀ (s2 : GScanner) (v2 : PlacerVars), s2.input <:+ s.input.tail →
          Lands s (placer_loop n s2 v2) := fun s2 v2 hs =>
        (ih s2 v2 (by have := length_lt_of_suffix_tail hs hne; omega)).mono
          (hs.trans (List.tail_suffix _))
      split_ifs <;> first
        | with_reducible exact step _ _ ((assign_number_suffix _ _).trans (by rw [get_input, peek_input]))
        | with_reducible exact step _ _ ((assign_boolean_suffix _ _ _).trans (by rw [get_input, peek_input]))
        | with_reducible exact step _ _ (by rw [error_input, get_input, peek_input])
    · rw [if_neg hc]
      exact lands_ok _ _ _ (List.suffix_refl _)

theorem switcher_lands (s : GScanner) (g : Globals) : Lands s (config_switcher s g) := by
  simp only [config_switcher]
  by_cases hr : (!(config_expect_token { s with max_parse_errors := false } (tk '{')
      "Missing '\x7b' after 'switcher'").2) = true
  · rw [if_pos hr]
    exact lands_ok _ _ _ (by rw [expect_input])
  · rw [if_neg hr]
    obtain ⟨s2, v, hl, hs⟩ := switcher_loop_lands
      ((g_scanner_get_next_token (config_expect_token { s with max_parse_errors := false }
        (tk '{') "Missing '\x7b' after 'switcher'").1).input.length + 1)
      (g_scanner_get_next_token (config_expect_token { s with max_parse_errors := false }
        (tk '{') "Missing '\x7b' after 'switcher'").1) ⟨none, 1, 1, -1, false, false⟩
      (Nat.lt_succ_self _)
    rw [hl]
    rw [get_input, expect_input] at hs
    refine lands_ok _ _ _ ((optional_semicolon_suffix _).trans ?_)
    split_ifs
    · rw [get_input]
      exact tail_suffix_of_suffix (hs.trans (List.tail_suffix _))
    · exact hs.trans (List.tail_suffix _)

theorem placer_lands (s : GScanner) (g : Globals) : Lands s (config_placer s g) := by
  simp only [config_placer]
  by_cases hr : (!(config_expect_token { s with max_parse_errors := false } (tk '{')
      "Missing '\x7b' after 'placer'").2) = true
  · rw [if_pos hr]
    exact lands_ok _ _ _ (by rw [expect_input])
  · rw [if_neg hr]
    obtain ⟨s2, v, hl, hs⟩ := placer_loop_lands
      ((g_scanner_get_next_token (config_expect_token { s with max_parse_errors := false }
        (tk '{') "Missing '\x7b' after 'placer'").1).input.length + 1)
      (g_scanner_get_next_token (config_expect_token { s with max_parse_errors := false }
        (tk '{') "Missing '\x7b' after 'placer'").1) ⟨10, 10, 0, 0, false⟩
      (Nat.lt_succ_self _)
    rw [hl]
    rw [get_input, expect_input] at hs
    refine lands_ok _ _ _ ((optional_semicolon_suffix _).trans ?_)
    split_ifs
    · rw [get_input]
      exact tail_suffix_of_suffix (hs.trans (List.tail_suffix _))
    · exact hs.trans (List.tail_suffix _)

theorem menu_item_lands (h : Host) (d : Defines) (s : GScanner) :
    Lands s (config_menu_item h d s) := by
  simp only [config_menu_item]
  split_ifs
  · exact lands_ok _ _ _ (parse_sequence_suffix _ _)
  · obtain ⟨s1, a, hr, hs⟩ := action_lands_weak h d (config_parse_sequence s menu_item_steps).1
    rw [hr]
    cases a with
    | none =>
      exact lands_ok _ _ _ (by rw [error_input]; exact hs.trans (parse_sequence_suffix _ _))
    | some a =>
      dsimp only
      split_ifs
      · exact lands_ok _ _ _ (by
          rw [error_input, get_input]
          exact tail_suffix_of_suffix (hs.trans (parse_sequence_suffix _ _)))
      · exact lands_ok _ _ _ ((optional_semicolon_suffix _).trans (by
          rw [get_input]
          exact tail_suffix_of_suffix (hs.trans (parse_sequence_suffix _ _))))

theorem config_menu_succ (h : Host) (n : Nat) (scanner : GScanner) (g : Globals)
    (parent : Option (List MenuEntry)) :
    config_menu h (n + 1) scanner g parent =
      if (config_parse_sequence scanner menu_steps).1.max_parse_errors then
        .ok ((config_parse_sequence scanner menu_steps).1, g, parent)
      else
        match config_menu_loop h n
            (g_scanner_peek_next_token (config_parse_sequence scanner menu_steps).1) g
            (menu_start (layout_menu_get g
              (dest_string (config_parse_sequence scanner menu_steps).2 0 none)) parent) with
        | .error e => .error e
        | .ok (s2, g2, menu2) =>
          match parent with
          | none =>
            .ok (config_optional_semicolon
                (if s2.next_token = tk '}' then g_scanner_get_next_token s2 else s2),
              layout_menu_add g2
                (dest_string (config_parse_sequence scanner menu_steps).2 0 none) menu2, none)
          | some p =>
            .ok (config_optional_semicolon
                (if s2.next_token = tk '}' then g_scanner_get_next_token s2 else s2), g2,
              some (p ++ [.submenu
                (dest_string (config_parse_sequence scanner menu_steps).2 0 none) menu2])) :=
  rfl

theorem config_menu_loop_succ (h : Host) (n : Nat) (s : GScanner) (g : Globals)
    (menu : List MenuEntry) :
    config_menu_loop h (n + 1) s g menu =
      if s.next_token ≠ G_TOKEN_EOF ∧ s.next_token ≠ tk '}' then
        if (g_scanner_get_next_token s).token.code = G_TOKEN_ITEM then
          match config_menu_item h g.defines (g_scanner_get_next_token s) with
          | .error e => .error e
          | .ok (s2, none) => config_menu_loop h n (g_scanner_peek_next_token s2) g menu
          | .ok (s2, some item) =>
            config_menu_loop h n (g_scanner_peek_next_token s2) g (menu ++ [item])
        else if (g_scanner_get_next_token s).token.code = G_TOKEN_SEPARATOR then
          config_menu_loop h n
            (g_scanner_peek_next_token (config_optional_semicolon (g_scanner_get_next_token s)))
            g (menu ++ [.separator])
        else if (g_scanner_get_next_token s).token.code = G_TOKEN_SUBMENU then
          match config_menu h n (g_scanner_get_next_token s) g (some menu) with
          | .error e => .error e
          | .ok (s2, g2, menu2) =>
            config_menu_loop h n (g_scanner_peek_next_token s2) g2 (menu2.getD menu)
        else
          config_menu_loop h n (g_scanner_peek_next_token (g_scanner_error
            (g_scanner_get_next_token s)
            "Unexpected token in menu. Expecting an item or a separator")) g menu
      else .ok (s, g, menu) := rfl

/-- A call whose first step is REQUIRED and which ends with the error flag
clear has read the token of that step. -/
theorem parse_sequence_req_progress (s : GScanner) (st : Step) (rest : List Step)
    (hreq : st.req = Req.SEQ_REQ) (ht : st.type ≠ -1) (ht0 : st.type ≠ G_TOKEN_EOF)
    (hti : st.type ≠ G_TOKEN_INT)
    (hflag : (config_parse_sequence s (st :: rest)).1.max_parse_errors = false) :
    (config_parse_sequence s (st :: rest)).1.input <:+ s.input.tail ∧ s.input ≠ [] := by
  have hr : seq_raises (seq_init s) st = false := by
    cases hq : seq_raises (seq_init s) st with
    | false => rfl
    | true =>
      have hf : (seq_run (st :: rest) (seq_init s)).scanner.max_parse_errors = true :=
        (seq_run_flag (st :: rest) (seq_init s)).mpr (Or.inr ⟨[], st, rest, rfl, hq⟩)
      have : (config_parse_sequence s (st :: rest)).1.max_parse_errors = true := hf
      rw [this] at hflag
      exact absurd hflag (by decide)
  have hk : s.head.code = st.type := by
    have hw : seq_wild st (seq_init s).matched = false := by
      simp [seq_wild, ht]
    simp only [seq_raises, hw, Bool.false_eq_true, if_false, seq_skip, hreq,
      Bool.and_eq_false_iff, Bool.not_eq_false', Bool.not_eq_true', seq_cond,
      Bool.false_or, Bool.or_eq_true, beq_iff_eq, Bool.and_eq_true, Bool.or_eq_false_iff] at hr
    rcases hr with hr | hr
    · rcases hr with hr | hr
      · simpa using hr
      · exact absurd hr.2 hti
    · simp at hr
  exact ⟨parse_sequence_first s st rest hk, input_ne_nil_of_head s (by rw [hk]; exact ht0)⟩

theorem menu_lands (h : Host) :
    ∀ (n : Nat),
      (∀ (s : GScanner) (g : Globals) (parent : Option (List MenuEntry)),
        s.input.length < n → Lands s (config_menu h n s g parent)) ∧
      (∀ (s : GScanner) (g : Globals) (menu : List MenuEntry), s.peeked = true →
        s.input.length < n → Lands s (config_menu_loop h n s g menu)) := by
  intro n
  induction n with
  | zero => exact ⟨fun s g p hn => by omega, fun s g m _ hn => by omega⟩
  | succ n ih =>
    obtain ⟨ihm, ihl⟩ := ih
    constructor
    · intro s g parent hn
      rw [config_menu_succ]
      by_cases hf : (config_parse_sequence s menu_steps).1.max_parse_errors = true
      · rw [if_pos hf]
        exact lands_ok _ _ _ (parse_sequence_suffix _ _)
      · rw [if_neg hf]
        have hf2 : (config_parse_sequence s menu_steps).1.max_parse_errors = false := by
          simpa using hf
        have hprog : (config_parse_sequence s menu_steps).1.input <:+ s.input.tail ∧
            s.input ≠ [] :=
          parse_sequence_req_progress s _ _ rfl (by decide) (by decide) (by decide) hf2
        obtain ⟨hsuf, hne⟩ := hprog
        have hlt := length_lt_of_suffix_tail hsuf hne
        obtain ⟨s2, a, hr, hs⟩ := ihl
          (g_scanner_peek_next_token (config_parse_sequence s menu_steps).1) g
          (menu_start (layout_menu_get g
            (dest_string (config_parse_sequence s menu_steps).2 0 none)) parent) rfl
          (by rw [peek_input]; omega)
        rw [hr]
        rw [peek_input] at hs
        have hs2 : s2.input <:+ s.input := hs.trans (parse_sequence_suffix _ _)
        have hfin : (config_optional_semicolon
            (if s2.next_token = tk '}' then g_scanner_get_next_token s2 else s2)).input
              <:+ s.input := by
          refine (optional_semicolon_suffix _).trans ?_
          split_ifs
          · rw [get_input]; exact tail_suffix_of_suffix hs2
          · exact hs2
        obtain ⟨g2, menu2⟩ := a
        cases parent with
        | none => exact lands_ok _ _ _ hfin
        | some p => exact lands_ok _ _ _ hfin
    · intro s g menu hp hn
      rw [config_menu_loop_succ]
      by_cases hc : s.next_token ≠ G_TOKEN_EOF ∧ s.next_token ≠ tk '}'
      · rw [if_pos hc]
        have hne : s.input ≠ [] := input_ne_nil_of_next s hp hc.1
        have htl : s.input.tail.length < n := by
          have := length_lt_of_suffix_tail (List.suffix_refl s.input.tail) hne
          omega
        by_cases h1 : (g_scanner_get_next_token s).token.code = G_TOKEN_ITEM
        · rw [if_pos h1]
          obtain ⟨s2, a, hr, hs⟩ := menu_item_lands h g.defines (g_scanner_get_next_token s)
          rw [get_input] at hs
          rw [hr]
          have hl := hs.length_le
          cases a with
          | none =>
            exact (ihl (g_scanner_peek_next_token s2) g menu rfl
              (by rw [peek_input]; omega)).mono (hs.trans (List.tail_suffix _))
          | some item =>
            exact (ihl (g_scanner_peek_next_token s2) g (menu ++ [item]) rfl
              (by rw [peek_input]; omega)).mono (hs.trans (List.tail_suffix _))
        · rw [if_neg h1]
          by_cases h2 : (g_scanner_get_next_token s).token.code = G_TOKEN_SEPARATOR
          · rw [if_pos h2]
            have hs : (config_optional_semicolon (g_scanner_get_next_token s)).input
                <:+ s.input.tail := by
              have := optional_semicolon_suffix (g_scanner_get_next_token s)
              rwa [get_input] at this
            have hl := hs.length_le
            exact (ihl (g_scanner_peek_next_token
                (config_optional_semicolon (g_scanner_get_next_token s)))
              g (menu ++ [.separator]) rfl
              (by rw [peek_input]; omega)).mono (hs.trans (List.tail_suffix _))
          · rw [if_neg h2]
            by_cases h3 : (g_scanner_get_next_token s).token.code = G_TOKEN_SUBMENU
            · rw [if_pos h3]
              obtain ⟨s2, a, hr, hs⟩ := ihm (g_scanner_get_next_token s) g (some menu)
                (by rw [get_input]; exact htl)
              rw [get_input] at hs
              rw [hr]
              have hl := hs.length_le
              obtain ⟨g2, menu2⟩ := a
              exact (ihl (g_scanner_peek_next_token s2) g2 (menu2.getD menu) rfl
                (by rw [peek_input]; omega)).mono (hs.trans (List.tail_suffix _))
            · rw [if_neg h3]
              exact (ihl (g_scanner_peek_next_token (g_scanner_error
                  (g_scanner_get_next_token s)
                  "Unexpected token in menu. Expecting an item or a separator")) g menu rfl
                (by rw [peek_input, error_input, get_input]; exact htl)).mono
                (by rw [peek_input, error_input, get_input]; exact List.tail_suffix _)
      · rw [if_neg hc]
        exact lands_ok _ _ _ (List.suffix_refl _)

theorem config_widgets_succ (h : Host) (b : Build) (n : Nat) (scanner : GScanner) (g : Globals)
    (parent : Option GtkWidget) :
    config_widgets h b (n + 1) scanner g parent =
    (let s1 := g_scanner_peek_next_token scanner
    if s1.next_token ≠ tk '}' ∧ s1.next_token ≠ G_TOKEN_EOF then
      let s2 := g_scanner_get_next_token s1
      let lw := { layout_widget_new b with wtype := s2.token.code }
      let made : Except Halt (GScanner × Globals × Option Widget) :=
        if lw.wtype = G_TOKEN_INCLUDE then
          config_include h b n s2 (g.emit (.layout_widget_free lw))
        else
          match widget_class lw.wtype with
          | some cls =>
            let r := g.new_widget cls
            let g1 := if lw.wtype = G_TOKEN_PAGER then r.2.emit (.pager_set_numeric true) else r.2
            .ok ({ s2 with max_parse_errors := false }, g1, some { lw with widget := some r.1 })
          | none =>
            .ok (g_scanner_error s2 "Unexpected token in 'layout'",
              g.emit (.layout_widget_free lw), none)
      match made with
      | .error e => .error e
      | .ok (s3, g3, none) => config_widgets h b n s3 g3 parent
      | .ok (s3, g3, some lw3) =>
        if s3.max_parse_errors ∨ lw3.widget.isNone then
          config_widgets h b n s3 (g3.emit (.layout_widget_free lw3)) parent
        else
          match config_widget_props h b s3 g3 lw3 with
          | .error e => .error e
          | .ok (s4, g4, lw4, extra) =>
            let g5 := g4.emit (.layout_widget_config lw4 parent)
            let inner : Except Halt (GScanner × Globals) :=
              if lw4.wtype = G_TOKEN_GRID ∧ extra then config_widgets h b n s4 g5 lw4.widget
              else .ok (s4, g5)
            match inner with
            | .error e => .error e
            | .ok (s6, g6) => config_widgets h b n s6 (g6.emit (.layout_widget_attach lw4)) parent
    else .ok (if s1.next_token = tk '}' then g_scanner_get_next_token s1 else s1, g)) := rfl

theorem config_layout_succ (h : Host) (b : Build) (n : Nat) (scanner : GScanner) (g : Globals)
    (lw : Option Widget) :
    config_layout h b (n + 1) scanner g lw =
    (let s0 := { scanner with max_parse_errors := false }
    let start : Widget × Globals :=
      match lw with
      | some l => (l, g)
      | none =>
        let r := g.new_widget .grid
        ({ layout_widget_new b with wtype := G_TOKEN_GRID, widget := some r.1 },
          r.2.emit (.gtk_widget_set_name (some r.1) "layout"))
    match config_widget_props h b s0 start.2 start.1 with
    | .error e => .error e
    | .ok (s1, g1, lw1, extra) =>
      let g2 := g1.emit (.layout_widget_config lw1 none)
      if lw1.widget.isSome ∧ extra then
        match config_widgets h b n s1 g2 lw1.widget with
        | .error e => .error e
        | .ok (s2, g3) => .ok (s2, g3, lw1)
      else .ok (s1, g2, lw1)) := rfl

theorem config_parse_toplevel_succ (h : Host) (b : Build) (n : Nat) (scanner : GScanner)
    (g : Globals) (toplevel : Bool) (w : Option Widget) :
    config_parse_toplevel h b (n + 1) scanner g toplevel w =
    (let s1 := g_scanner_peek_next_token scanner
    if s1.next_token ≠ G_TOKEN_EOF then
      let s2 := g_scanner_get_next_token s1
      let c := s2.token.code
      let step : Except Halt (GScanner × Globals × Option Widget) :=
        if c = G_TOKEN_SCANNER then (config_scanner s2 g).map (fun r => (r.1, r.2, w))
        else if c = G_TOKEN_LAYOUT then
          if !toplevel then
            (config_layout h b n s2 g w).map (fun r => (r.1, r.2.1, some r.2.2))
          else
            let s3 := g_scanner_peek_next_token s2
            let named := decide (s3.next_token = G_TOKEN_STRING)
            let s4 := if named then g_scanner_get_next_token s3 else s3
            let d := bar_grid_by_name b g (if named then some s4.token.str else none)
            (config_layout h b n s4 d.2 (some d.1)).map
              (fun r => (r.1, r.2.1.emit (.widget_set_css d.1.widget), w))
        else if c = G_TOKEN_PLACER then (config_placer s2 g).map (fun r => (r.1, r.2, w))
        else if c = G_TOKEN_SWITCHER then (config_switcher s2 g).map (fun r => (r.1, r.2, w))
        else if c = G_TOKEN_MENU then
          (config_menu h (s2.input.length + 1) s2 g none).map (fun r => (r.1, r.2.1, w))
        else if c = G_TOKEN_DEFINE then (config_define h s2 g).map (fun r => (r.1, r.2, w))
        else if c = G_TOKEN_TRIGGERACTION then
          (config_trigger_action h s2 g).map (fun r => (r.1, r.2, w))
        else if c = G_TOKEN_FUNCTION then (config_function h s2 g).map (fun r => (r.1, r.2, w))
        else .ok (g_scanner_error s2 "Unexpected toplevel token", g, w)
      match step with
      | .error e => .error e
      | .ok (s5, g5, w5) => config_parse_toplevel h b n s5 g5 toplevel w5
    else .ok (s1, g, w)) := rfl

theorem head_mem_input (s : GScanner) (hne : s.input ≠ []) : s.head ∈ s.input := by
  obtain ⟨input, peeked, token, flag, msgs⟩ := s
  cases input with
  | nil => exact absurd rfl hne
  | cons t ts => exact List.mem_cons_self _ _

theorem widgets_lands (h : Host) (b : Build) :
    ∀ (n : Nat) (s : GScanner) (g : Globals) (parent : Option GtkWidget),
      (∀ t ∈ s.input, t.code ≠ G_TOKEN_INCLUDE) → s.input.length < n →
      Lands s (config_widgets h b n s g parent) := by
  intro n
  induction n with
  | zero => intro s g p _ hn; omega
  | succ n ih =>
    intro s g parent hinc hn
    rw [config_widgets_succ]
    dsimp only
    by_cases hc : (g_scanner_peek_next_token s).next_token ≠ tk '}' ∧
        (g_scanner_peek_next_token s).next_token ≠ G_TOKEN_EOF
    · rw [if_pos hc]
      have hne : s.input ≠ [] := input_ne_nil_of_next (g_scanner_peek_next_token s) rfl hc.2
      have htl : s.input.tail.length < n := by
        have := length_lt_of_suffix_tail (List.suffix_refl s.input.tail) hne
        omega
      have hk : ¬ (g_scanner_get_next_token (g_scanner_peek_next_token s)).token.code =
          G_TOKEN_INCLUDE := hinc _ (head_mem_input s hne)
      rw [if_neg hk]
      have hinct : ∀ (l : List Token), l <:+ s.input.tail →
          ∀ t ∈ l, t.code ≠ G_TOKEN_INCLUDE :=
        fun l hl t ht => hinc t ((hl.trans (List.tail_suffix _)).subset ht)
      cases hw : widget_class (g_scanner_get_next_token (g_scanner_peek_next_token s)).token.code with
      | none =>
        dsimp only
        refine (ih _ _ _ (hinct _ ?_) ?_).mono ?_
        · rw [error_input, get_input, peek_input]
        · rw [error_input, get_input, peek_input]; exact htl
        · rw [error_input, get_input, peek_input]; exact List.tail_suffix _
      | some cls =>
        dsimp only
        have hcond : ¬ (false = true ∨ (some (g.new_widget cls).1).isNone = true) := by simp
        rw [if_neg hcond]
        have key : ∀ (s3 : GScanner) (g3 : Globals) (lw3 : Widget), s3.input = s.input.tail →
            Lands s (match config_widget_props h b s3 g3 lw3 with
              | .error e => .error e
              | .ok (s4, g4, lw4, extra) =>
                match
                  (if lw4.wtype = G_TOKEN_GRID ∧ extra = true then
                    config_widgets h b n s4 (g4.emit (Event.layout_widget_config lw4 parent))
                      lw4.widget
                  else Except.ok (s4, g4.emit (Event.layout_widget_config lw4 parent))) with
                | .error e => .error e
                | .ok (s6, g6) =>
                  config_widgets h b n s6 (g6.emit (Event.layout_widget_attach lw4)) parent) := by
          intro s3 g3 lw3 h3
          obtain ⟨s4, a, hr, hs⟩ := widget_props_lands h b s3 g3 lw3
          rw [h3] at hs
          obtain ⟨g4, lw4, extra⟩ := a
          rw [hr]
          dsimp only
          have hl4 := hs.length_le
          by_cases hg : lw4.wtype = G_TOKEN_GRID ∧ extra = true
          · rw [if_pos hg]
            obtain ⟨s6, g6, hr6, hs6⟩ := ih s4
              (g4.emit (Event.layout_widget_config lw4 parent)) lw4.widget (hinct _ hs)
              (by omega)
            rw [hr6]
            dsimp only
            have hl6 := hs6.length_le
            exact (ih s6 _ parent (hinct _ (hs6.trans hs)) (by omega)).mono
              ((hs6.trans hs).trans (List.tail_suffix _))
          · rw [if_neg hg]
            dsimp only
            exact (ih s4 _ parent (hinct _ hs) (by omega)).mono
              (hs.trans (List.tail_suffix _))
        exact key _ _ _ rfl
    · rw [if_neg hc]
      refine lands_ok _ _ _ ?_
      split_ifs
      · rw [get_input, peek_input]; exact List.tail_suffix _
      · rw [peek_input]

theorem layout_lands (h : Host) (b : Build) (n : Nat) (s : GScanner) (g : Globals)
    (lw : Option Widget) (hinc : ∀ t ∈ s.input, t.code ≠ G_TOKEN_INCLUDE)
    (hn : s.input.length < n) : Lands s (config_layout h b (n + 1) s g lw) := by
  rw [config_layout_succ]
  dsimp only
  have key : ∀ (s0 : GScanner) (g0 : Globals) (lw0 : Widget), s0.input = s.input →
      Lands s (match config_widget_props h b s0 g0 lw0 with
        | .error e => .error e
        | .ok (s1, g1, lw1, extra) =>
          if lw1.widget.isSome = true ∧ extra = true then
            match config_widgets h b n s1 (g1.emit (Event.layout_widget_config lw1 none))
                lw1.widget with
            | .error e => .error e
            | .ok (s2, g3) => .ok (s2, g3, lw1)
          else .ok (s1, g1.emit (Event.layout_widget_config lw1 none), lw1)) := by
    intro s0 g0 lw0 h0
    obtain ⟨s1, a, hr, hs⟩ := widget_props_lands h b s0 g0 lw0
    rw [h0] at hs
    obtain ⟨g1, lw1, extra⟩ := a
    rw [hr]
    dsimp only
    have hl := hs.length_le
    by_cases hg : lw1.widget.isSome = true ∧ extra = true
    · rw [if_pos hg]
      obtain ⟨s2, g3, hr2, hs2⟩ := widgets_lands h b n s1
        (g1.emit (Event.layout_widget_config lw1 none)) lw1.widget
        (fun t ht => hinc t (hs.subset ht)) (by omega)
      rw [hr2]
      exact lands_ok _ _ _ (hs2.trans hs)
    · rw [if_neg hg]
      exact lands_ok _ _ _ hs
  exact key _ _ _ rfl

theorem toplevel_step_lands (h : Host) (b : Build) (n : Nat) (s2 : GScanner) (g : Globals)
    (toplevel : Bool) (w : Option Widget) (hinc : ∀ t ∈ s2.input, t.code ≠ G_TOKEN_INCLUDE)
    (htrig : s2.token.code = G_TOKEN_TRIGGERACTION → s2.head.code = G_TOKEN_STRING)
    (hn : s2.input.length < n) :
    Lands s2
      (if s2.token.code = G_TOKEN_SCANNER then (config_scanner s2 g).map (fun r => (r.1, r.2, w))
        else if s2.token.code = G_TOKEN_LAYOUT then
          if (!toplevel) = true then
            (config_layout h b (n + 1) s2 g w).map (fun r => (r.1, r.2.1, some r.2.2))
          else
            (config_layout h b (n + 1)
              (if decide ((g_scanner_peek_next_token s2).next_token = G_TOKEN_STRING) = true
                then g_scanner_get_next_token (g_scanner_peek_next_token s2)
                else g_scanner_peek_next_token s2)
              (bar_grid_by_name b g
                (if decide ((g_scanner_peek_next_token s2).next_token = G_TOKEN_STRING) = true
                  then some (if decide ((g_scanner_peek_next_token s2).next_token =
                      G_TOKEN_STRING) = true
                    then g_scanner_get_next_token (g_scanner_peek_next_token s2)
                    else g_scanner_peek_next_token s2).token.str else none)).2
              (some (bar_grid_by_name b g
                (if decide ((g_scanner_peek_next_token s2).next_token = G_TOKEN_STRING) = true
                  then some (if decide ((g_scanner_peek_next_token s2).next_token =
                      G_TOKEN_STRING) = true
                    then g_scanner_get_next_token (g_scanner_peek_next_token s2)
                    else g_scanner_peek_next_token s2).token.str else none)).1)).map
              (fun r => (r.1, r.2.1.emit (.widget_set_css (bar_grid_by_name b g
                (if decide ((g_scanner_peek_next_token s2).next_token = G_TOKEN_STRING) = true
                  then some (if decide ((g_scanner_peek_next_token s2).next_token =
                      G_TOKEN_STRING) = true
                    then g_scanner_get_next_token (g_scanner_peek_next_token s2)
                    else g_scanner_peek_next_token s2).token.str else none)).1.widget), w))
        else if s2.token.code = G_TOKEN_PLACER then
          (config_placer s2 g).map (fun r => (r.1, r.2, w))
        else if s2.token.code = G_TOKEN_SWITCHER then
          (config_switcher s2 g).map (fun r => (r.1, r.2, w))
        else if s2.token.code = G_TOKEN_MENU then
          (config_menu h (s2.input.length + 1) s2 g none).map (fun r => (r.1, r.2.1, w))
        else if s2.token.code = G_TOKEN_DEFINE then
          (config_define h s2 g).map (fun r => (r.1, r.2, w))
        else if s2.token.code = G_TOKEN_TRIGGERACTION then
          (config_trigger_action h s2 g).map (fun r => (r.1, r.2, w))
        else if s2.token.code = G_TOKEN_FUNCTION then
          (config_function h s2 g).map (fun r => (r.1, r.2, w))
        else .ok (g_scanner_error s2 "Unexpected toplevel token", g, w)) := by
  by_cases h1 : s2.token.code = G_TOKEN_SCANNER
  · rw [if_pos h1]
    exact (scanner_lands s2 g).map _ (fun _ => rfl)
  rw [if_neg h1]
  by_cases h2 : s2.token.code = G_TOKEN_LAYOUT
  · rw [if_pos h2]
    by_cases ht : (!toplevel) = true
    · rw [if_pos ht]
      exact (layout_lands h b n s2 g w hinc hn).map _ (fun _ => rfl)
    · rw [if_neg ht]
      by_cases hs : decide ((g_scanner_peek_next_token s2).next_token = G_TOKEN_STRING) = true
      · simp only [hs, if_true]
        have hsub : (g_scanner_get_next_token (g_scanner_peek_next_token s2)).input <:+
            s2.input := by
          rw [get_input, peek_input]; exact List.tail_suffix _
        apply Lands.mono _ hsub
        refine Lands.map ?_ _ ?_
        · exact layout_lands h b n _ _ _ (fun t ht => hinc t (hsub.subset ht))
            (by have := hsub.length_le; omega)
        · intro p; rfl
      · simp only [hs, if_false, Bool.false_eq_true]
        have hsub : (g_scanner_peek_next_token s2).input <:+ s2.input := List.suffix_refl _
        apply Lands.mono _ hsub
        refine Lands.map ?_ _ ?_
        · exact layout_lands h b n (g_scanner_peek_next_token s2) _ _ hinc hn
        · intro p; rfl
  rw [if_neg h2]
  by_cases h3 : s2.token.code = G_TOKEN_PLACER
  · rw [if_pos h3]
    exact (placer_lands s2 g).map _ (fun _ => rfl)
  rw [if_neg h3]
  by_cases h4 : s2.token.code = G_TOKEN_SWITCHER
  · rw [if_pos h4]
    exact (switcher_lands s2 g).map _ (fun _ => rfl)
  rw [if_neg h4]
  by_cases h5 : s2.token.code = G_TOKEN_MENU
  · rw [if_pos h5]
    exact ((menu_lands h (s2.input.length + 1)).1 s2 g none (Nat.lt_succ_self _)).map _
      (fun _ => rfl)
  rw [if_neg h5]
  by_cases h6 : s2.token.code = G_TOKEN_DEFINE
  · rw [if_pos h6]
    exact (define_lands h s2 g).map _ (fun _ => rfl)
  rw [if_neg h6]
  by_cases h7 : s2.token.code = G_TOKEN_TRIGGERACTION
  · rw [if_pos h7]
    exact (trigger_action_lands h s2 g (htrig h7)).map _ (fun _ => rfl)
  rw [if_neg h7]
  by_cases h8 : s2.token.code = G_TOKEN_FUNCTION
  · rw [if_pos h8]
    exact (function_lands h s2 g).map _ (fun _ => rfl)
  rw [if_neg h8]
  exact lands_ok _ _ _ (by rw [error_input])

theorem toplevel_lands (h : Host) (b : Build) (toplevel : Bool) :
    ∀ (n : Nat) (s : GScanner) (g : Globals) (w : Option Widget),
      (∀ t ∈ s.input, t.code ≠ G_TOKEN_INCLUDE) → trigger_actions_named s.input = true →
      s.input.length + 2 < n →
      ∃ s2 g2 w2, config_parse_toplevel h b n s g toplevel w = .ok (s2, g2, w2) ∧
        s2.next_token = G_TOKEN_EOF ∧ s2.input <:+ s.input := by
  intro n
  induction n with
  | zero => intro s g w _ _ hn; omega
  | succ n ih =>
    intro s g w hinc hnamed hn
    rw [config_parse_toplevel_succ]
    dsimp only
    by_cases hc : (g_scanner_peek_next_token s).next_token ≠ G_TOKEN_EOF
    · rw [if_pos hc]
      have hne : s.input ≠ [] := input_ne_nil_of_next (g_scanner_peek_next_token s) rfl hc
      have hlt := length_lt_of_suffix_tail (List.suffix_refl s.input.tail) hne
      have htrig : (g_scanner_get_next_token (g_scanner_peek_next_token s)).token.code =
          G_TOKEN_TRIGGERACTION →
          (g_scanner_get_next_token (g_scanner_peek_next_token s)).head.code =
            G_TOKEN_STRING := by
        intro ht
        obtain ⟨x, xs, hx⟩ := List.exists_cons_of_ne_nil hne
        have hh : (g_scanner_get_next_token (g_scanner_peek_next_token s)).head =
            xs.headD eofToken := by
          simp [GScanner.head, get_input, peek_input, hx]
        have hx2 : (g_scanner_get_next_token (g_scanner_peek_next_token s)).token = x := by
          rw [get_peek, get_token, head_of_input s x xs hx]
        rw [hh]
        rw [hx2] at ht
        rw [hx] at hnamed
        exact trigger_named_head x xs hnamed ht
      cases n with
      | zero => omega
      | succ m =>
        have hm : ∀ (step : Except Halt (GScanner × Globals × Option Widget))
            (s5 : GScanner) (g5 : Globals) (w5 : Option Widget),
            step = Except.ok (s5, g5, w5) →
            (match step with
              | Except.error e => Except.error e
              | Except.ok (s5, g5, w5) =>
                config_parse_toplevel h b (m + 1) s5 g5 toplevel w5) =
              config_parse_toplevel h b (m + 1) s5 g5 toplevel w5 := by
          intro step s5 g5 w5 hstep
          rw [hstep]
        obtain ⟨s5, a, hr, hs⟩ := toplevel_step_lands h b m
          (g_scanner_get_next_token (g_scanner_peek_next_token s)) g toplevel w
          (fun t ht => hinc t ((List.tail_suffix _).subset ht)) htrig
          (by rw [get_input, peek_input]; omega)
        rw [get_input, peek_input] at hs
        obtain ⟨g5, w5⟩ := a
        have hl5 := hs.length_le
        obtain ⟨s6, g6, w6, hr6, he, hs6⟩ := ih s5 g5 w5
          (fun t ht => hinc t ((hs.trans (List.tail_suffix _)).subset ht))
          (trigger_named_suffix (hs.trans (List.tail_suffix _)) hnamed) (by omega)
        exact ⟨s6, g6, w6, (hm _ s5 g5 w5 hr).trans hr6, he,
          (hs6.trans hs).trans (List.tail_suffix _)⟩
    · rw [if_neg hc]
      exact ⟨_, _, _, rfl, not_not.mp hc, List.suffix_refl _⟩

/-- C31: a null or empty input is not an error.  `config_parse_data` on a null
text returns no widget and leaves the message log and the state outside the
scanner (macro table, menus, calls into other units, widget count) as they
were; `config_string` on a null string leaves both as they were; and on the
empty text, for which the lexer delivers no token, `config_parse_data` returns
no widget, adds no message and leaves the state outside the scanner as it was. -/
theorem C31_null_or_empty_input (h : Host) (b : Build) (n : Nat) (toplevel : Bool)
    (log : List String) (g : Globals) (hlex : h.lex "" = []) :
    config_parse_data h b (n + 1) none toplevel log g = .ok (log, g, none) ∧
    config_string h b n none log g = .ok (log, g) ∧
    config_parse_data h b (n + 2) (some "") toplevel log g = .ok (log, g, none) := by
  refine ⟨rfl, rfl, ?_⟩
  have hunf : config_parse_data h b (n + 2) (some "") toplevel log g =
      match config_parse_toplevel h b (n + 1)
        { g_scanner_new (h.lex "") with messages := log } g toplevel none with
      | .error e => .error e
      | .ok (s, g1, w) => .ok (s.messages, g1, w) := rfl
  rw [hunf, toplevel_at_end h b n _ g toplevel none (by rw [hlex]; rfl)]
  rfl

/-- C31 on the sample host, whose lexer delivers no token, with an empty log
and the state at program start. -/
theorem C31_null_or_empty_input_witness :
    config_parse_data sample_host sample_build 1 none true [] Globals.init =
      .ok ([], Globals.init, none) ∧
    config_string sample_host sample_build 0 none [] Globals.init = .ok ([], Globals.init) ∧
    config_parse_data sample_host sample_build 2 (some "") true [] Globals.init =
      .ok ([], Globals.init, none) :=
  C31_null_or_empty_input sample_host sample_build 0 true [] Globals.init rfl

theorem count_quotes_eq (cs : List Char) (i j : Nat) :
    count_quotes cs (i, j) = (i + cs.length, j + cs.count '"') := by
  induction cs generalizing i j with
  | nil => simp [count_quotes]
  | cons c cs ih =>
    by_cases hc : c = '"'
    · subst hc
      simp only [count_quotes, if_true, ih, List.length_cons, List.count_cons_self]
      congr 1 <;> omega
    · have hc2 : ¬ ('"' = c) := fun h => hc h.symm
      simp only [count_quotes, if_neg hc, ih, List.length_cons, List.count_cons, beq_iff_eq,
        hc, if_false, Nat.add_zero]
      congr 1; omega

theorem backslash_quotes_length (cs : List Char) :
    (backslash_quotes cs).length = cs.length + cs.count '"' := by
  have h1 := count_quotes_sum cs 0 0
  rw [count_quotes_eq] at h1
  simp only at h1
  omega

/-- C32: for C strings `dest` and `string` (no NUL before the terminator) whose
sizes stay in the range of the `gint` counters, with `l` and `n` their lengths
and `q` the number of double quotes in `string`:
`config_value_string` allocates `l + n + q + 3` cells, no store falls outside
the block, every cell is written, the last cell holds NUL, the returned string
has length `l + n + q + 2`, its first `l` characters are `dest`, and the rest is
a double quote, `string` with a backslash before each double quote, and a
double quote. -/
theorem C32_value_string_buffer (dest string : String)
    (hd : Char.ofNat 0 ∉ dest.data) (hs : Char.ofNat 0 ∉ string.data)
    (_hrange : dest.length + string.length + string.data.count '"' + 3 < 2 ^ 31) :
    (g_malloc (dest.length + (count_quotes string.data (0, 0)).1 +
        (count_quotes string.data (0, 0)).2 + 3)).cells.length =
      dest.length + string.length + string.data.count '"' + 3 ∧
    (config_value_string_block dest string).fault = false ∧
    (config_value_string_block dest string).cells.length =
      dest.length + string.length + string.data.count '"' + 3 ∧
    (config_value_string_block dest string).cells =
      (dest.data ++ '"' :: backslash_quotes string.data ++ ['"']).map some ++
        [some (Char.ofNat 0)] ∧
    (config_value_string dest string).length =
      dest.length + string.length + string.data.count '"' + 2 ∧
    (config_value_string dest string).data.take dest.length = dest.data ∧
    (config_value_string dest string).data.drop dest.length =
      '"' :: backslash_quotes string.data ++ ['"'] := by
  have hb := config_value_string_block_eq dest string
  have he := config_value_string_eq dest string hd hs
  have hl := backslash_quotes_length string.data
  refine ⟨?_, ?_, ?_, ?_, ?_, ?_, ?_⟩
  · rw [count_quotes_eq]
    simp only [g_malloc, List.length_replicate, Nat.zero_add, String.length]
  · rw [hb]; rfl
  · rw [hb]
    simp only [Block.written, List.replicate_zero, List.append_nil, List.length_map,
      List.length_append, List.length_cons, List.length_nil, hl, strlen_eq]
    omega
  · rw [hb]
    simp [Block.written]
  · rw [he]
    simp only [String.length, List.length_append, List.length_cons, List.length_nil, hl]
    omega
  · rw [he]
    show List.take dest.data.length _ = _
    rw [List.append_assoc, List.take_left]
  · rw [he]
    show List.drop dest.data.length _ = _
    rw [List.append_assoc, List.drop_left]

/-- C32 on `dest = "a="` and `string = say "hi"`. -/
theorem C32_value_string_buffer_witness :
    (g_malloc ("a=".length + (count_quotes "say \"hi\"".data (0, 0)).1 +
        (count_quotes "say \"hi\"".data (0, 0)).2 + 3)).cells.length =
      "a=".length + "say \"hi\"".length + "say \"hi\"".data.count '"' + 3 ∧
    (config_value_string_block "a=" "say \"hi\"").fault = false ∧
    (config_value_string_block "a=" "say \"hi\"").cells.length =
      "a=".length + "say \"hi\"".length + "say \"hi\"".data.count '"' + 3 ∧
    (config_value_string_block "a=" "say \"hi\"").cells =
      ("a=".data ++ '"' :: backslash_quotes "say \"hi\"".data ++ ['"']).map some ++
        [some (Char.ofNat 0)] ∧
    (config_value_string "a=" "say \"hi\"").length =
      "a=".length + "say \"hi\"".length + "say \"hi\"".data.count '"' + 2 ∧
    (config_value_string "a=" "say \"hi\"").data.take "a=".length = "a=".data ∧
    (config_value_string "a=" "say \"hi\"").data.drop "a=".length =
      '"' :: backslash_quotes "say \"hi\"".data ++ ['"'] :=
  C32_value_string_buffer "a=" "say \"hi\"" (by decide) (by decide) (by decide)

theorem toplevel_succ_pass (h : Host) (b : Build) (n : Nat) (s : GScanner) (g : Globals)
    (toplevel : Bool) (w : Option Widget) :
    config_parse_toplevel h b (n + 1) s g toplevel w =
      if (g_scanner_peek_next_token s).next_token ≠ G_TOKEN_EOF then
        match toplevel_pass h b n (g_scanner_get_next_token (g_scanner_peek_next_token s)) g
            toplevel w with
        | .error e => .error e
        | .ok (s5, g5, w5) => config_parse_toplevel h b n s5 g5 toplevel w5
      else .ok (g_scanner_peek_next_token s, g, w) := rfl

theorem toplevel_dispatched_succ (h : Host) (b : Build) (n : Nat) (s : GScanner) (g : Globals)
    (toplevel : Bool) (w : Option Widget) :
    toplevel_dispatched h b (n + 1) s g toplevel w =
      if (g_scanner_peek_next_token s).next_token ≠ G_TOKEN_EOF then
        match toplevel_pass h b n (g_scanner_get_next_token (g_scanner_peek_next_token s)) g
            toplevel w with
        | .error e => .error e
        | .ok (s5, g5, w5) =>
          (toplevel_dispatched h b n s5 g5 toplevel w5).map
            (fun cs => (g_scanner_get_next_token (g_scanner_peek_next_token s)).token.code :: cs)
      else .ok [] := rfl

theorem parse_data_start_eq (h : Host) (b : Build) (n : Nat) (data : String) (toplevel : Bool)
    (log : List String) (g : Globals) :
    config_parse_data h b (n + 1) (some data) toplevel log g =
      match config_parse_toplevel h b n (parse_data_start h data log g).1
          (parse_data_start h data log g).2 toplevel none with
      | .error e => .error e
      | .ok (s, g1, w) => .ok (s.messages, g1, w) := rfl

theorem map_ok_inv {α β : Type} (r : Except Halt α) (f : α → β) (x : β)
    (hr : r.map f = .ok x) : ∃ y, r = .ok y ∧ f y = x := by
  cases r with
  | error e => exact absurd hr (by simp [Except.map])
  | ok y =>
    refine ⟨y, rfl, ?_⟩
    simpa [Except.map] using hr

theorem map_ok_prop {α β : Type} (P : β → Prop) (r : Except Halt α) (f : α → β) (x : β)
    (hf : ∀ y, P (f y)) (hr : r.map f = .ok x) : P x := by
  obtain ⟨y, _, hy⟩ := map_ok_inv r f x hr
  rw [← hy]
  exact hf y

/-- At top level a statement leaves the descriptor variable as it is. -/
theorem pass_toplevel_keeps (h : Host) (b : Build) (n : Nat) (s2 : GScanner) (g : Globals)
    (w : Option Widget) (x : GScanner × Globals × Option Widget)
    (hr : toplevel_pass h b n s2 g true w = .ok x) : x.2.2 = w := by
  unfold toplevel_pass at hr
  dsimp only at hr
  have hnt : (!true) = false := rfl
  rw [hnt] at hr
  simp only [Bool.false_eq_true, if_false] at hr
  split_ifs at hr
  all_goals first
    | exact map_ok_prop (fun x => x.2.2 = w) _ _ x (fun _ => rfl) hr
    | (cases hr; rfl)

/-- A statement other than a layout leaves the descriptor variable as it is. -/
theorem pass_other_keeps (h : Host) (b : Build) (n : Nat) (s2 : GScanner) (g : Globals)
    (toplevel : Bool) (w : Option Widget) (x : GScanner × Globals × Option Widget)
    (hc : s2.token.code ≠ G_TOKEN_LAYOUT)
    (hr : toplevel_pass h b n s2 g toplevel w = .ok x) : x.2.2 = w := by
  unfold toplevel_pass at hr
  dsimp only at hr
  rw [if_neg hc] at hr
  split_ifs at hr
  all_goals first
    | exact map_ok_prop (fun x => x.2.2 = w) _ _ x (fun _ => rfl) hr
    | (cases hr; rfl)

/-- In a nested parse a layout statement sets the descriptor variable. -/
theorem pass_nested_layout (h : Host) (b : Build) (n : Nat) (s2 : GScanner) (g : Globals)
    (w : Option Widget) (x : GScanner × Globals × Option Widget)
    (hc : s2.token.code = G_TOKEN_LAYOUT)
    (hr : toplevel_pass h b n s2 g false w = .ok x) :
    ∃ r, config_layout h b n s2 g w = .ok r ∧ x = (r.1, r.2.1, some r.2.2) := by
  unfold toplevel_pass at hr
  dsimp only at hr
  have h1 : ¬ (G_TOKEN_LAYOUT = G_TOKEN_SCANNER) := by decide
  rw [hc, if_neg h1] at hr
  have h2 : (!false) = true := rfl
  rw [if_pos rfl, if_pos h2] at hr
  obtain ⟨y, hy, hx⟩ := map_ok_inv _ _ x hr
  exact ⟨y, hy, hx.symm⟩

theorem toplevel_result_top (h : Host) (b : Build) :
    ∀ (n : Nat) (s : GScanner) (g : Globals) (w : Option Widget)
      (x : GScanner × Globals × Option Widget),
      config_parse_toplevel h b n s g true w = .ok x → x.2.2 = w := by
  intro n
  induction n with
  | zero =>
    intro s g w x hr
    have h0 : config_parse_toplevel h b 0 s g true w = .error .fuel := rfl
    rw [h0] at hr
    cases hr
  | succ n ih =>
    intro s g w x hr
    rw [toplevel_succ_pass] at hr
    by_cases hc : (g_scanner_peek_next_token s).next_token ≠ G_TOKEN_EOF
    · rw [if_pos hc] at hr
      cases hp : toplevel_pass h b n (g_scanner_get_next_token (g_scanner_peek_next_token s)) g
          true w with
      | error e => rw [hp] at hr; cases hr
      | ok y =>
        obtain ⟨s5, g5, w5⟩ := y
        rw [hp] at hr
        have h5 : w5 = w := pass_toplevel_keeps h b n _ g w _ hp
        rw [← h5]
        exact ih s5 g5 w5 x hr
    · rw [if_neg hc] at hr
      cases hr
      rfl

theorem toplevel_result_nested (h : Host) (b : Build) :
    ∀ (n : Nat) (s : GScanner) (g : Globals) (w : Option Widget)
      (x : GScanner × Globals × Option Widget),
      config_parse_toplevel h b n s g false w = .ok x →
      ∃ codes, toplevel_dispatched h b n s g false w = .ok codes ∧
        (x.2.2.isSome = true ↔ (w.isSome = true ∨ G_TOKEN_LAYOUT ∈ codes)) := by
  intro n
  induction n with
  | zero =>
    intro s g w x hr
    have h0 : config_parse_toplevel h b 0 s g false w = .error .fuel := rfl
    rw [h0] at hr
    cases hr
  | succ n ih =>
    intro s g w x hr
    rw [toplevel_succ_pass] at hr
    rw [toplevel_dispatched_succ]
    by_cases hc : (g_scanner_peek_next_token s).next_token ≠ G_TOKEN_EOF
    · rw [if_pos hc] at hr
      rw [if_pos hc]
      cases hp : toplevel_pass h b n (g_scanner_get_next_token (g_scanner_peek_next_token s)) g
          false w with
      | error e => rw [hp] at hr; cases hr
      | ok y =>
        obtain ⟨s5, g5, w5⟩ := y
        rw [hp] at hr
        obtain ⟨codes, hd, hiff⟩ := ih s5 g5 w5 x hr
        refine ⟨(g_scanner_get_next_token (g_scanner_peek_next_token s)).token.code :: codes,
          ?_, ?_⟩
        · dsimp only
          rw [hd]
          rfl
        · rw [hiff, List.mem_cons]
          by_cases hl : (g_scanner_get_next_token (g_scanner_peek_next_token s)).token.code =
              G_TOKEN_LAYOUT
          · obtain ⟨r, _, hx⟩ := pass_nested_layout h b n _ g w _ hl hp
            have h5 : w5 = some r.2.2 := congrArg (fun p => p.2.2) hx
            rw [h5]
            constructor
            · intro _; exact Or.inr (Or.inl hl.symm)
            · intro _; exact Or.inl rfl
          · have h5 : w5 = w := pass_other_keeps h b n _ g false w _ hl hp
            rw [h5]
            constructor
            · rintro (hw | hm)
              · exact Or.inl hw
              · exact Or.inr (Or.inr hm)
            · rintro (hw | hm | hm)
              · exact Or.inl hw
              · exact absurd hm.symm hl
              · exact Or.inr hm
    · rw [if_neg hc] at hr
      rw [if_neg hc]
      cases hr
      exact ⟨[], rfl, by simp⟩

theorem widget_action_keeps (h : Host) (b : Build) (d : Defines) (s : GScanner) (lw : Widget)
    (y : GScanner × Widget) (hr : config_widget_action h b d s lw = .ok y) :
    y.2.widget = lw.widget ∧ y.2.wtype = lw.wtype := by
  simp only [config_widget_action] at hr
  split_ifs at hr
  · cases hr; exact ⟨rfl, rfl⟩
  · cases hr; exact ⟨rfl, rfl⟩
  · split at hr
    · cases hr
    · cases hr; exact ⟨rfl, rfl⟩
    · cases hr; exact ⟨rfl, rfl⟩

theorem widget_prop_keeps (h : Host) (b : Build) (s : GScanner) (g : Globals) (lw : Widget)
    (x : GScanner × Globals × Widget) (hr : config_widget_prop h b s g lw = .ok x) :
    x.2.2.widget = lw.widget ∧ x.2.2.wtype = lw.wtype := by
  unfold config_widget_prop at hr
  dsimp only at hr
  by_cases h0 : s.token.code = G_TOKEN_STYLE
  · rw [if_pos h0] at hr
    split at hr
    · cases hr
    · cases hr; exact ⟨rfl, rfl⟩
  rw [if_neg h0] at hr
  by_cases h1 : s.token.code = G_TOKEN_CSS
  · rw [if_pos h1] at hr
    cases hr; exact ⟨rfl, rfl⟩
  rw [if_neg h1] at hr
  by_cases h2 : s.token.code = G_TOKEN_INTERVAL
  · rw [if_pos h2] at hr
    split_ifs at hr <;> (cases hr; exact ⟨rfl, rfl⟩)
  rw [if_neg h2] at hr
  by_cases h3 : s.token.code = G_TOKEN_TRIGGER
  · rw [if_pos h3] at hr
    cases hr; exact ⟨rfl, rfl⟩
  rw [if_neg h3] at hr
  by_cases h4 : s.token.code = G_TOKEN_VALUE
  · rw [if_pos h4] at hr
    split_ifs at hr
    · cases hr; exact ⟨rfl, rfl⟩
    · split at hr
      · cases hr
      · cases hr; exact ⟨rfl, rfl⟩
  rw [if_neg h4] at hr
  by_cases h5 : s.token.code = G_TOKEN_TOOLTIP
  · rw [if_pos h5] at hr
    split_ifs at hr
    · cases hr; exact ⟨rfl, rfl⟩
    · split at hr
      · cases hr
      · cases hr; exact ⟨rfl, rfl⟩
  rw [if_neg h5] at hr
  by_cases h6 : s.token.code = G_TOKEN_PINS
  · rw [if_pos h6] at hr
    exact map_ok_prop (fun x => x.2.2.widget = lw.widget ∧ x.2.2.wtype = lw.wtype)
      _ _ x (fun _ => ⟨rfl, rfl⟩) hr
  rw [if_neg h6] at hr
  by_cases h7 : s.token.code = G_TOKEN_PREVIEW
  · rw [if_pos h7] at hr
    split_ifs at hr <;> (cases hr; exact ⟨rfl, rfl⟩)
  rw [if_neg h7] at hr
  by_cases h8 : s.token.code = G_TOKEN_NUMERIC
  · rw [if_pos h8] at hr
    split_ifs at hr <;> (cases hr; exact ⟨rfl, rfl⟩)
  rw [if_neg h8] at hr
  by_cases h9 : s.token.code = G_TOKEN_PEROUTPUT
  · rw [if_pos h9] at hr
    split_ifs at hr <;> (cases hr; exact ⟨rfl, rfl⟩)
  rw [if_neg h9] at hr
  by_cases h10 : s.token.code = G_TOKEN_TITLEWIDTH
  · rw [if_pos h10] at hr
    split_ifs at hr <;> (cases hr; exact ⟨rfl, rfl⟩)
  rw [if_neg h10] at hr
  by_cases h11 : s.token.code = G_TOKEN_COLS
  · rw [if_pos h11] at hr
    cases hr; exact ⟨rfl, rfl⟩
  rw [if_neg h11] at hr
  by_cases h12 : s.token.code = G_TOKEN_ROWS
  · rw [if_pos h12] at hr
    cases hr; exact ⟨rfl, rfl⟩
  rw [if_neg h12] at hr
  by_cases h13 : s.token.code = G_TOKEN_ACTION
  · rw [if_pos h13] at hr
    obtain ⟨y, hy, hx⟩ := map_ok_inv _ _ x hr
    rw [← hx]
    exact widget_action_keeps h b g.defines s lw y hy
  rw [if_neg h13] at hr
  by_cases h14 : s.token.code = G_TOKEN_ICONS
  · rw [if_pos h14] at hr
    cases hr; exact ⟨rfl, rfl⟩
  rw [if_neg h14] at hr
  by_cases h15 : s.token.code = G_TOKEN_LABELS
  · rw [if_pos h15] at hr
    cases hr; exact ⟨rfl, rfl⟩
  rw [if_neg h15] at hr
  by_cases h16 : s.token.code = G_TOKEN_LOC
  · rw [if_pos h16] at hr
    cases hr; exact ⟨rfl, rfl⟩
  rw [if_neg h16] at hr
  cases hr
  exact ⟨rfl, rfl⟩

theorem widget_props_loop_keeps (h : Host) (b : Build) :
    ∀ (n : Nat) (s : GScanner) (g : Globals) (lw : Widget) (x : GScanner × Globals × Widget),
      widget_props_loop h b n s g lw = .ok x →
      x.2.2.widget = lw.widget ∧ x.2.2.wtype = lw.wtype := by
  intro n
  induction n with
  | zero => intro s g lw x hr; exact absurd hr (by simp [widget_props_loop])
  | succ n ih =>
    intro s g lw x hr
    rw [widget_props_loop_succ] at hr
    split_ifs at hr with hc
    · cases hp : config_widget_prop h b (g_scanner_get_next_token s) g lw with
      | error e => rw [hp] at hr; cases hr
      | ok y =>
        obtain ⟨s1, g1, lw1⟩ := y
        rw [hp] at hr
        have h1 := widget_prop_keeps h b _ g lw _ hp
        have h2 := ih _ g1 lw1 x hr
        exact ⟨h2.1.trans h1.1, h2.2.trans h1.2⟩
    · cases hr
      exact ⟨rfl, rfl⟩

theorem widget_props_keeps (h : Host) (b : Build) (s : GScanner) (g : Globals) (lw : Widget)
    (x : GScanner × Globals × Widget × Bool) (hr : config_widget_props h b s g lw = .ok x) :
    x.2.2.1.widget = lw.widget ∧ x.2.2.1.wtype = lw.wtype := by
  simp only [config_widget_props] at hr
  split_ifs at hr
  · cases hr
    exact ⟨rfl, rfl⟩
  · split at hr
    · cases hr
    · rename_i s2 g2 lw2 hl
      cases hr
      exact widget_props_loop_keeps h b _ _ g _ _ hl

/-- `config_layout` on a descriptor it is handed returns that descriptor: the
widget object and the kind are the ones it came with. -/
theorem layout_keeps (h : Host) (b : Build) (n : Nat) (s : GScanner) (g : Globals)
    (l : Widget) (x : GScanner × Globals × Widget)
    (hr : config_layout h b n s g (some l) = .ok x) :
    x.2.2.widget = l.widget ∧ x.2.2.wtype = l.wtype := by
  cases n with
  | zero =>
    have h0 : config_layout h b 0 s g (some l) = .error .fuel := rfl
    rw [h0] at hr
    cases hr
  | succ n =>
    rw [config_layout_succ] at hr
    dsimp only at hr
    cases hp : config_widget_props h b { s with max_parse_errors := false } g l with
    | error e => rw [hp] at hr; cases hr
    | ok y =>
      obtain ⟨s1, g1, lw1, extra⟩ := y
      rw [hp] at hr
      dsimp only at hr
      have hk := widget_props_keeps h b _ g l _ hp
      split_ifs at hr
      · split at hr
        · cases hr
        · cases hr
          exact hk
      · cases hr
        exact hk

theorem config_include_succ (h : Host) (b : Build) (n : Nat) (scanner : GScanner) (g : Globals) :
    config_include h b (n + 1) scanner g =
      if (!(config_parse_sequence scanner include_steps).1.max_parse_errors) = true then
        match config_parse h b n
            ((dest_string (config_parse_sequence scanner include_steps).2 0 none).getD "") false
            (config_parse_sequence scanner include_steps).1.messages g with
        | .error e => .error e
        | .ok (_, _, none) => .error .null_deref
        | .ok (log, g1, some lw) =>
          .ok ({ (config_parse_sequence scanner include_steps).1 with messages := log }, g1,
            some { lw with wtype := G_TOKEN_INCLUDE })
      else .ok ((config_parse_sequence scanner include_steps).1, g, none) := rfl

theorem config_parse_succ (h : Host) (b : Build) (n : Nat) (file : String) (toplevel : Bool)
    (log : List String) (g : Globals) :
    config_parse h b (n + 1) file toplevel log g =
      match h.read_file file with
      | none => .error .exit
      | some conf => config_parse_data h b n (some conf) toplevel log g := rfl

/-- An inclusion whose arguments parse, whose file is read and whose unit is
parsed to the end: what `config_include` returns, by the descriptor the nested
dispatcher returns. -/
theorem include_result (h : Host) (b : Build) (n : Nat) (s : GScanner) (g : Globals)
    (conf : String) (x : GScanner × Globals × Option Widget)
    (hflag : (config_parse_sequence s include_steps).1.max_parse_errors = false)
    (hfile : h.read_file
      ((dest_string (config_parse_sequence s include_steps).2 0 none).getD "") = some conf)
    (hx : config_parse_toplevel h b n
      (parse_data_start h conf (config_parse_sequence s include_steps).1.messages g).1
      (parse_data_start h conf (config_parse_sequence s include_steps).1.messages g).2
      false none = .ok x) :
    config_include h b (n + 3) s g =
      match x.2.2 with
      | none => .error .null_deref
      | some lw =>
        .ok ({ (config_parse_sequence s include_steps).1 with messages := x.1.messages },
          x.2.1, some { lw with wtype := G_TOKEN_INCLUDE }) := by
  have hc : (!(config_parse_sequence s include_steps).1.max_parse_errors) = true := by
    rw [hflag]; rfl
  rw [config_include_succ, if_pos hc, config_parse_succ, hfile]
  dsimp only
  rw [parse_data_start_eq, hx]
  obtain ⟨s1, g1, w1⟩ := x
  cases w1 with
  | none => rfl
  | some lw => rfl

/-- C33: the descriptor `config_parse_toplevel` returns (its local `w` starts
as NULL).  (1) With `toplevel = TRUE` every returned result is NULL.  (2) With
`toplevel = FALSE` the result is non-NULL exactly when `Layout` is among the
keywords the dispatcher dispatched on.  (3) On a stream without the keyword
`Include`, in which every `TriggerAction` keyword is followed by a string
literal, and with fuel above its length plus two the function does return.
(4) A `Layout` statement of a nested parse that finds a descriptor `l` in `w`
runs `config_widget_props` on `l` and leaves in `w` the descriptor that call
returns, which has the widget object and the kind of `l`: no new descriptor is
made.  (5) `config_include` whose arguments parse, whose file is read and whose
unit is parsed to the end stops in its NULL dereference exactly when `Layout`
is not among the keywords dispatched in the unit, and otherwise returns the
unit's descriptor with kind `Include`. -/
theorem C33_nested_parse_descriptor (h : Host) (b : Build) :
    (∀ (n : Nat) (s : GScanner) (g : Globals) (x : GScanner × Globals × Option Widget),
      config_parse_toplevel h b n s g true none = .ok x → x.2.2 = none) ∧
    (∀ (n : Nat) (s : GScanner) (g : Globals) (x : GScanner × Globals × Option Widget),
      config_parse_toplevel h b n s g false none = .ok x →
      ∃ codes, toplevel_dispatched h b n s g false none = .ok codes ∧
        (x.2.2.isSome = true ↔ G_TOKEN_LAYOUT ∈ codes)) ∧
    (∀ (n : Nat) (s : GScanner) (g : Globals) (toplevel : Bool),
      (∀ t ∈ s.input, t.code ≠ G_TOKEN_INCLUDE) → trigger_actions_named s.input = true →
      s.input.length + 3 ≤ n →
      ∃ x, config_parse_toplevel h b n s g toplevel none = .ok x) ∧
    (∀ (n : Nat) (s2 : GScanner) (g : Globals) (l : Widget)
      (x : GScanner × Globals × Option Widget),
      s2.token.code = G_TOKEN_LAYOUT →
      toplevel_pass h b (n + 1) s2 g false (some l) = .ok x →
      ∃ r l2, config_widget_props h b { s2 with max_parse_errors := false } g l = .ok r ∧
        r.2.2.1 = l2 ∧ x.2.2 = some l2 ∧ l2.widget = l.widget ∧ l2.wtype = l.wtype) ∧
    (∀ (n : Nat) (s : GScanner) (g : Globals) (conf : String)
      (x : GScanner × Globals × Option Widget),
      (config_parse_sequence s include_steps).1.max_parse_errors = false →
      h.read_file ((dest_string (config_parse_sequence s include_steps).2 0 none).getD "") =
        some conf →
      config_parse_toplevel h b n
        (parse_data_start h conf (config_parse_sequence s include_steps).1.messages g).1
        (parse_data_start h conf (config_parse_sequence s include_steps).1.messages g).2
        false none = .ok x →
      ∃ codes, toplevel_dispatched h b n
          (parse_data_start h conf (config_parse_sequence s include_steps).1.messages g).1
          (parse_data_start h conf (config_parse_sequence s include_steps).1.messages g).2
          false none = .ok codes ∧
        (config_include h b (n + 3) s g = .error .null_deref ↔ G_TOKEN_LAYOUT ∉ codes) ∧
        (G_TOKEN_LAYOUT ∈ codes → ∃ lw, x.2.2 = some lw ∧
          config_include h b (n + 3) s g =
            .ok ({ (config_parse_sequence s include_steps).1 with messages := x.1.messages },
              x.2.1, some { lw with wtype := G_TOKEN_INCLUDE }))) := by
  refine ⟨?_, ?_, ?_, ?_, ?_⟩
  · intro n s g x hx
    exact toplevel_result_top h b n s g none x hx
  · intro n s g x hx
    obtain ⟨codes, hd, hiff⟩ := toplevel_result_nested h b n s g none x hx
    refine ⟨codes, hd, ?_⟩
    rw [hiff]
    simp
  · intro n s g toplevel hinc hnamed hn
    obtain ⟨s2, g2, w2, hr, _, _⟩ := toplevel_lands h b toplevel n s g none hinc hnamed
      (by omega)
    exact ⟨_, hr⟩
  · intro n s2 g l x hc hx
    obtain ⟨r, hr, hxr⟩ := pass_nested_layout h b (n + 1) s2 g (some l) x hc hx
    have hk := layout_keeps h b (n + 1) s2 g l r hr
    rw [config_layout_succ] at hr
    dsimp only at hr
    cases hp : config_widget_props h b { s2 with max_parse_errors := false } g l with
    | error e => rw [hp] at hr; cases hr
    | ok y =>
      obtain ⟨s1, g1, lw1, extra⟩ := y
      rw [hp] at hr
      dsimp only at hr
      have hl : r.2.2 = lw1 := by
        split_ifs at hr
        · split at hr
          · cases hr
          · cases hr; rfl
        · cases hr; rfl
      refine ⟨_, lw1, rfl, rfl, ?_, ?_, ?_⟩
      · rw [hxr, hl]
      · rw [← hl]; exact hk.1
      · rw [← hl]; exact hk.2
  · intro n s g conf x hflag hfile hx
    obtain ⟨codes, hd, hiff⟩ := toplevel_result_nested h b n _ _ none x hx
    have hinc := include_result h b n s g conf x hflag hfile hx
    have hiff2 : x.2.2.isSome = true ↔ G_TOKEN_LAYOUT ∈ codes := by
      rw [hiff]; simp
    refine ⟨codes, hd, ?_, ?_⟩
    · rw [hinc, ← hiff2]
      cases hw : x.2.2 with
      | none => simp
      | some lw => simp
    · intro hm
      have hs := hiff2.mpr hm
      cases hw : x.2.2 with
      | none => rw [hw] at hs; cases hs
      | some lw =>
        rw [hw] at hinc
        exact ⟨lw, rfl, hinc⟩

/-- C33 on two units of the sample host: the file `plain` holds a `Define`
statement only and including it stops in the NULL dereference; the file
`nested` holds a layout and including it returns a descriptor of kind
`Include`. -/
theorem C33_nested_parse_descriptor_witness :
    (∃ x codes,
      config_parse_toplevel include_host sample_build 9
        (parse_data_start include_host "P" [] Globals.init).1
        (parse_data_start include_host "P" [] Globals.init).2 false none = .ok x ∧
      toplevel_dispatched include_host sample_build 9
        (parse_data_start include_host "P" [] Globals.init).1
        (parse_data_start include_host "P" [] Globals.init).2 false none = .ok codes ∧
      (x.2.2.isSome = true ↔ G_TOKEN_LAYOUT ∈ codes)) ∧
    toplevel_dispatched include_host sample_build 9
      (parse_data_start include_host "P" [] Globals.init).1
      (parse_data_start include_host "P" [] Globals.init).2 false none =
        .ok [G_TOKEN_DEFINE] ∧
    config_include include_host sample_build 12 (g_scanner_new (include_args "plain"))
      Globals.init = .error .null_deref ∧
    toplevel_dispatched include_host sample_build 9
      (parse_data_start include_host "N" [] Globals.init).1
      (parse_data_start include_host "N" [] Globals.init).2 false none =
        .ok [G_TOKEN_LAYOUT] ∧
    (match config_include include_host sample_build 12 (g_scanner_new (include_args "nested"))
        Globals.init with
      | .ok (_, _, some lw) => decide (lw.wtype = G_TOKEN_INCLUDE ∧ lw.style = some "\"s\"")
      | _ => false) = true := by
  refine ⟨?_, by decide!, by decide!, by decide!, by decide!⟩
  · obtain ⟨x, hx⟩ := (C33_nested_parse_descriptor include_host sample_build).2.2.1 9
      (parse_data_start include_host "P" [] Globals.init).1
      (parse_data_start include_host "P" [] Globals.init).2 false (by decide) (by decide)
      (by decide)
    obtain ⟨codes, hd, hiff⟩ := (C33_nested_parse_descriptor include_host sample_build).2.1 9
      (parse_data_start include_host "P" [] Globals.init).1
      (parse_data_start include_host "P" [] Globals.init).2 x hx
    exact ⟨x, codes, hx, hd, hiff⟩

theorem widget_action_plain_parse (s : GScanner) (rest : List Token)
    (hin : s.input = tChar '=' :: rest) :
    config_parse_sequence s widget_action_steps =
      (⟨rest, false, tChar '=', false, s.messages⟩, []) := by
  obtain ⟨input, peeked, token, flag, msgs⟩ := s
  simp only at hin
  subst hin
  rfl

theorem config_action_none_flag (h : Host) (d : Defines) (s s1 : GScanner)
    (hr : config_action h d s = .ok (s1, none)) : s1.max_parse_errors = true := by
  simp only [config_action] at hr
  split at hr
  · cases hr
  · split at hr
    · cases hr
    · rename_i s3 a3 _
      by_cases hf : s3.max_parse_errors = true
      · rw [if_pos hf] at hr
        cases hr
        exact hf
      · rw [if_neg hf] at hr
        cases hr

/-- The body of `config_widget_action` behind a header that parsed with a
valid index, when the action fails. -/
theorem widget_action_failed (h : Host) (b : Build) (d : Defines) (s sh s1 : GScanner)
    (lw : Widget) (log : List (Nat × DestVal)) (i : Int)
    (hhead : config_parse_sequence s widget_action_steps = (sh, log))
    (hflag : sh.max_parse_errors = false) (hbutton : dest_int log 0 1 = i)
    (hi : ¬ (i < 0 ∨ i ≥ b.MAX_BUTTON))
    (hfail : config_action h d sh = .ok (s1, none)) :
    config_widget_action h b d s lw =
      .ok (g_scanner_error s1 "invalid action",
        { lw with actions := lw.actions.set i.toNat none }) := by
  simp only [config_widget_action, hhead, hflag, hbutton, Bool.false_eq_true, if_false, hi,
    hfail]

/-- C34: `action[<i>] = ...` with `0 ≤ i < MAX_BUTTON`, or `action = ...` (then
`i` is 1), whose action text `config_action` refuses (it returns NULL, the
error flag being set): `config_widget_action` returns with the error flag set,
slot `i` of the action table holds NULL whatever it held before, every other
slot and every other field of the descriptor are as before, and no message is
added behind those of `config_action`. -/
theorem C34_failed_action_clears_slot (h : Host) (b : Build) (d : Defines) (s s1 : GScanner)
    (lw : Widget) (q : Rat) (i : Int) (rest : List Token)
    (hin : (s.input = tChar '[' :: tNum q :: tChar ']' :: tChar '=' :: rest ∧
        i = gint_of_gdouble q) ∨ (s.input = tChar '=' :: rest ∧ i = 1))
    (hi : 0 ≤ i ∧ i < b.MAX_BUTTON)
    (hfail : config_action h d ⟨rest, false, tChar '=', false, s.messages⟩ = .ok (s1, none)) :
    ∃ s2 lw2, config_widget_action h b d s lw = .ok (s2, lw2) ∧
      s2.max_parse_errors = true ∧ s2.messages = s1.messages ∧ s2.input = s1.input ∧
      lw2.actions = lw.actions.set i.toNat none ∧
      (i.toNat < lw.actions.length → lw2.actions[i.toNat]? = some none) ∧
      (∀ j, j ≠ i.toNat → lw2.actions[j]? = lw.actions[j]?) ∧
      lw2.actions.length = lw.actions.length ∧
      { lw2 with actions := lw.actions } = lw := by
  have hi2 : ¬ (i < 0 ∨ i ≥ b.MAX_BUTTON) := by omega
  have hf1 := config_action_none_flag h d _ s1 hfail
  have hrun : config_widget_action h b d s lw =
      .ok (g_scanner_error s1 "invalid action",
        { lw with actions := lw.actions.set i.toNat none }) := by
    rcases hin with ⟨hin, hq⟩ | ⟨hin, hq⟩
    · exact widget_action_failed h b d s _ s1 lw _ i (widget_action_index_parse s q rest hin)
        rfl (by rw [hq]; rfl) hi2 hfail
    · exact widget_action_failed h b d s _ s1 lw _ i (widget_action_plain_parse s rest hin)
        rfl (by rw [hq]; rfl) hi2 hfail
  refine ⟨_, _, hrun, ?_, ?_, ?_, rfl, ?_, ?_, ?_, rfl⟩
  · rw [error_flag]
  · rw [error_messages, hf1]; rfl
  · rw [error_input]
  · intro hlt
    simp [List.getElem?_set_self, hlt]
  · intro j hj
    exact List.getElem?_set_ne (Ne.symm hj)
  · simp

/-- C34 on `action[2] = Exec` (the argument of `Exec` is missing) for a
descriptor whose slot 2 holds a `Focus` action: slot 2 ends up empty. -/
theorem C34_failed_action_clears_slot_witness :
    (∃ s2 lw2,
      config_widget_action sample_host sample_build none
        (g_scanner_new [tChar '[', tNum 2, tChar ']', tChar '=', tSym G_TOKEN_EXEC])
        sample_widget_with_action = .ok (s2, lw2) ∧
      s2.max_parse_errors = true ∧
      s2.messages = (GScanner.mk [] true (tSym G_TOKEN_EXEC) true
        ["Missing argument in action"]).messages ∧
      s2.input = (GScanner.mk [] true (tSym G_TOKEN_EXEC) true
        ["Missing argument in action"]).input ∧
      lw2.actions = sample_widget_with_action.actions.set (2 : Int).toNat none ∧
      ((2 : Int).toNat < sample_widget_with_action.actions.length →
        lw2.actions[(2 : Int).toNat]? = some none) ∧
      (∀ j, j ≠ (2 : Int).toNat → lw2.actions[j]? = sample_widget_with_action.actions[j]?) ∧
      lw2.actions.length = sample_widget_with_action.actions.length ∧
      { lw2 with actions := sample_widget_with_action.actions } = sample_widget_with_action) ∧
    sample_widget_with_action.actions[2]? = some (some ⟨0, 0, G_TOKEN_FOCUS, none, none⟩) ∧
    config_widget_action sample_host sample_build none
        (g_scanner_new [tChar '[', tNum 2, tChar ']', tChar '=', tSym G_TOKEN_EXEC])
        sample_widget_with_action =
      .ok (⟨[], true, tSym G_TOKEN_EXEC, true, ["Missing argument in action"]⟩,
        { sample_widget_with_action with actions := List.replicate 8 none }) :=
  ⟨C34_failed_action_clears_slot sample_host sample_build none
    (g_scanner_new [tChar '[', tNum 2, tChar ']', tChar '=', tSym G_TOKEN_EXEC])
    ⟨[], true, tSym G_TOKEN_EXEC, true, ["Missing argument in action"]⟩
    sample_widget_with_action 2 2 [tSym G_TOKEN_EXEC] (Or.inl ⟨rfl, by decide!⟩)
    (by decide) (by decide!), by decide!, by decide!⟩

theorem conditions_loop_flag :
    ∀ (n : Nat) (s : GScanner) (c nc : Nat) (x : GScanner × Nat × Nat),
      conditions_loop n s c nc = .ok x → s.max_parse_errors = true →
      x.1.max_parse_errors = true := by
  intro n
  induction n with
  | zero => intro s c nc x hr; simp [conditions_loop] at hr
  | succ n ih =>
    intro s c nc x hr hf
    have key : ∀ r : GScanner × Nat × Nat, r.1.max_parse_errors = true →
        (if (g_scanner_peek_next_token r.1).next_token = tk '|' then
            conditions_loop n (g_scanner_peek_next_token r.1) r.2.1 r.2.2
          else .ok (g_scanner_peek_next_token r.1, r.2.1, r.2.2)) = .ok x →
        x.1.max_parse_errors = true := by
      intro r hrf hx
      split_ifs at hx
      · exact ih _ _ _ x hx (by rw [peek_flag]; exact hrf)
      · cases hx
        exact hrf
    simp only [conditions_loop] at hr
    refine key _ ?_ hr
    cases condition_flag _ <;> simp only [] <;> (try split_ifs) <;>
      simp only [get_flag, peek_flag, error_flag, hf]

/-- The condition list never clears the error flag. -/
theorem action_conditions_flag (s : GScanner) (c nc : Nat) (x : GScanner × Nat × Nat)
    (hr : config_action_conditions s c nc = .ok x) (hf : s.max_parse_errors = true) :
    x.1.max_parse_errors = true := by
  simp only [config_action_conditions] at hr
  split_ifs at hr
  · cases hr
    exact hf
  · split at hr
    · cases hr
    · rename_i s1 c1 nc1 hl
      have h1 := conditions_loop_flag _ _ c nc _ hl (by rw [peek_flag]; exact hf)
      cases hr
      dsimp only
      split_ifs
      · rw [error_flag]
      · rw [get_flag]; exact h1

/-- Without a bracket the condition list reads nothing and leaves the flag. -/
theorem action_conditions_absent (s : GScanner) (c nc : Nat)
    (hb : s.head.code ≠ tk '[') :
    config_action_conditions s c nc = .ok (g_scanner_peek_next_token s, c, nc) := by
  simp only [config_action_conditions, peek_next_token, ne_eq, hb, not_false_eq_true, if_true]

theorem conditions_loop_invalid (n : Nat) (s : GScanner) (c nc : Nat) (a x : Token)
    (rest : List Token) (hin : s.input = a :: x :: rest)
    (hbang : x.code ≠ tk '!') (hkw : condition_flag x.code = none)
    (hbar : (rest.headD eofToken).code ≠ tk '|') :
    conditions_loop (n + 1) s c nc =
      .ok (g_scanner_peek_next_token (g_scanner_error
        (g_scanner_get_next_token (g_scanner_get_next_token s))
        "invalid condition in action"), c, nc) := by
  have hin1 : (g_scanner_get_next_token s).input = x :: rest := by rw [get_input, hin]; rfl
  have h1 : (g_scanner_peek_next_token (g_scanner_get_next_token s)).next_token = x.code := by
    rw [peek_next_token, head_of_input _ x rest hin1]
  have h2 : (g_scanner_get_next_token (g_scanner_peek_next_token
      (g_scanner_get_next_token s))).token = x := by
    rw [get_peek, get_token, head_of_input _ x rest hin1]
  have h3 : (g_scanner_peek_next_token (g_scanner_error
      (g_scanner_get_next_token (g_scanner_peek_next_token (g_scanner_get_next_token s)))
      "invalid condition in action")).next_token = (rest.headD eofToken).code := by
    rw [peek_next_token, error_head, get_peek]
    have : (g_scanner_get_next_token (g_scanner_get_next_token s)).input = rest := by
      rw [get_input, hin1]; rfl
    simp only [GScanner.head, this]
  simp only [conditions_loop]
  rw [h1, decide_eq_false hbang]
  simp only [Bool.false_eq_true, if_false]
  rw [h2, hkw]
  dsimp only
  rw [h3, if_neg hbar]
  rfl

/-- A condition list `[X]` whose entry is no condition keyword raises an error
and leaves both masks. -/
theorem action_conditions_invalid (s : GScanner) (c nc : Nat) (x : Token) (rest : List Token)
    (hin : s.input = tChar '[' :: x :: tChar ']' :: rest)
    (hbang : x.code ≠ tk '!') (hkw : condition_flag x.code = none) :
    config_action_conditions s c nc =
      .ok (⟨rest, false, tChar ']', true,
          if s.max_parse_errors then s.messages
          else s.messages ++ ["invalid condition in action"]⟩, c, nc) := by
  have hnt : ¬ (g_scanner_peek_next_token s).next_token ≠ tk '[' := by
    rw [peek_next_token, head_of_input s _ _ hin]
    decide
  have hloop := conditions_loop_invalid (g_scanner_peek_next_token s).input.length
    (g_scanner_peek_next_token s) c nc (tChar '[') x (tChar ']' :: rest) hin hbang hkw
    (by simp only [List.headD_cons]; decide)
  simp only [config_action_conditions]
  rw [if_neg hnt, hloop]
  obtain ⟨input, peeked, token, flag, msgs⟩ := s
  simp only at hin
  subst hin
  cases flag <;> rfl

theorem plain_kind_codes (c : Int) (hk : c ∈ action_kinds_plain) : c ≠ G_TOKEN_STRING := by
  simp only [action_kinds_plain, List.mem_cons, List.mem_singleton, List.not_mem_nil,
    or_false] at hk
  rcases hk with hk | hk | hk | hk | hk | hk <;> subst hk <;> decide

theorem action_kind_plain (h : Host) (d : Defines) (s : GScanner) (a : Action)
    (hk : s.token.code ∈ action_kinds_plain) : config_action_kind h d s a = .ok (s, a) := by
  have hc := plain_kind_codes _ hk
  simp only [config_action_kind, hc, hk, if_true, if_false]

theorem action_kind_literal (h : Host) (d : Defines) (s : GScanner) (a : Action)
    (hk : s.token.code = G_TOKEN_STRING) :
    config_action_kind h d s a =
      .ok (s, { a with command := some s.token.str, type := G_TOKEN_EXEC }) := by
  simp only [config_action_kind, hk, if_true]

/-- Kinds whose arguments are read by `config_parse_sequence` or by
`config_get_value`. -/
theorem action_kind_forgets (h : Host) (d : Defines) (s : GScanner) (a : Action)
    (hk : s.token.code ∈ action_kinds_string ∨ s.token.code = G_TOKEN_CLIENTSEND ∨
      s.token.code = G_TOKEN_SETVALUE ∨ s.token.code = G_TOKEN_SETSTYLE ∨
      s.token.code = G_TOKEN_SETTOOLTIP) :
    config_action_kind h d s a =
      config_action_kind h d { s with max_parse_errors := false } a := by
  have hseq : ∀ steps, config_parse_sequence { s with max_parse_errors := false } steps =
      config_parse_sequence s steps := fun _ => rfl
  have hval : ∀ prop, config_get_value h d { s with max_parse_errors := false } prop false true =
      config_get_value h d s prop false true := fun _ => rfl
  have hside : s.token.code ≠ G_TOKEN_STRING ∧ s.token.code ∉ action_kinds_plain := by
    rcases hk with hk | hk | hk | hk | hk
    · exact string_kind_codes _ hk
    all_goals (rw [hk]; exact ⟨by decide, by decide⟩)
  simp only [config_action_kind, hside.1, hside.2, if_false, hseq, hval]
  split_ifs <;> first
    | rfl
    | (exfalso; tauto)

/-- C35: `config_action` behind its condition list (`s1`, `c`, `nc` are the
scanner and the masks that `config_action_conditions` leaves).  The condition
list does not clear the error flag: a flag set on entry is still set, and a
list `[X]` whose entry is no condition keyword sets it.  For an argument-less
kind and for a bare string literal nothing clears it afterwards, so the result
is NULL exactly when the flag is set behind the condition list.  For the kinds
whose arguments are read by `config_parse_sequence` or `config_get_value` the
result is the one obtained with the flag cleared behind the condition list.  So
`[X] Exec "x"` gives an `Exec` action with command `x` and empty masks, while
`[X] Focus` and `[X] "x"` give NULL. -/
theorem C35_action_discard_depends_on_flag (h : Host) (d : Defines) (s s1 : GScanner)
    (c nc : Nat) (hc : config_action_conditions s 0 0 = .ok (s1, c, nc)) :
    (s.max_parse_errors = true → s1.max_parse_errors = true) ∧
    (∀ k ∈ action_kinds_plain, s1.head.code = k →
      config_action h d s =
        .ok (g_scanner_get_next_token s1,
          if s1.max_parse_errors then none else some ⟨c, nc, k, none, none⟩) ∧
      ∃ s3 r, config_action h d s = .ok (s3, r) ∧ (r = none ↔ s1.max_parse_errors = true)) ∧
    (s1.head.code = G_TOKEN_STRING →
      config_action h d s =
        .ok (g_scanner_get_next_token s1,
          if s1.max_parse_errors then none
          else some ⟨c, nc, G_TOKEN_EXEC, none, some s1.head.str⟩) ∧
      ∃ s3 r, config_action h d s = .ok (s3, r) ∧ (r = none ↔ s1.max_parse_errors = true)) ∧
    (s1.head.code ∈ action_kinds_string ∨ s1.head.code = G_TOKEN_CLIENTSEND ∨
        s1.head.code = G_TOKEN_SETVALUE ∨ s1.head.code = G_TOKEN_SETSTYLE ∨
        s1.head.code = G_TOKEN_SETTOOLTIP →
      config_action h d s =
        match config_action_kind h d
            { g_scanner_get_next_token s1 with max_parse_errors := false }
            ⟨c, nc, s1.head.code, none, none⟩ with
        | .error e => .error e
        | .ok (s3, a3) => .ok (s3, if s3.max_parse_errors then none else some a3)) ∧
    (∀ (t : GScanner) (x : Token) (cmd : String) (rest : List Token),
      x.code ≠ tk '!' → condition_flag x.code = none →
      (rest.headD eofToken).code ≠ tk ',' → (rest.headD eofToken).code ≠ G_TOKEN_STRING →
      (t.input = tChar '[' :: x :: tChar ']' :: tSym G_TOKEN_EXEC :: tString cmd :: rest →
        config_action h d t =
          .ok (⟨rest, true, tString cmd, false,
              if t.max_parse_errors then t.messages
              else t.messages ++ ["invalid condition in action"]⟩,
            some ⟨0, 0, G_TOKEN_EXEC, none, some cmd⟩)) ∧
      (t.input = tChar '[' :: x :: tChar ']' :: tSym G_TOKEN_FOCUS :: rest →
        config_action h d t =
          .ok (⟨rest, false, tSym G_TOKEN_FOCUS, true,
              if t.max_parse_errors then t.messages
              else t.messages ++ ["invalid condition in action"]⟩, none)) ∧
      (t.input = tChar '[' :: x :: tChar ']' :: tString cmd :: rest →
        config_action h d t =
          .ok (⟨rest, false, tString cmd, true,
              if t.max_parse_errors then t.messages
              else t.messages ++ ["invalid condition in action"]⟩, none))) := by
  have hafter := config_action_after_conditions h d s s1 c nc hc
  have hiff : ∀ (a : Action), ((if s1.max_parse_errors = true then none else some a) = none ↔
      s1.max_parse_errors = true) := by
    intro a
    cases s1.max_parse_errors <;> simp
  refine ⟨?_, ?_, ?_, ?_, ?_⟩
  · exact action_conditions_flag s 0 0 _ hc
  · intro k hk hhead
    have hk2 : (g_scanner_get_next_token s1).token.code ∈ action_kinds_plain := by
      rw [get_token, hhead]; exact hk
    have hrun : config_action h d s =
        .ok (g_scanner_get_next_token s1,
          if s1.max_parse_errors then none else some ⟨c, nc, k, none, none⟩) := by
      rw [hafter, action_kind_plain h d _ _ hk2, get_token, hhead]
      rfl
    exact ⟨hrun, _, _, hrun, hiff _⟩
  · intro hhead
    have hk2 : (g_scanner_get_next_token s1).token.code = G_TOKEN_STRING := by
      rw [get_token]; exact hhead
    have hrun : config_action h d s =
        .ok (g_scanner_get_next_token s1,
          if s1.max_parse_errors then none
          else some ⟨c, nc, G_TOKEN_EXEC, none, some s1.head.str⟩) := by
      rw [hafter, action_kind_literal h d _ _ hk2]
      rfl
    exact ⟨hrun, _, _, hrun, hiff _⟩
  · intro hk
    rw [hafter, action_kind_forgets h d (g_scanner_get_next_token s1) _ (by rw [get_token]; exact hk)]
    rfl
  · intro t x cmd rest hbang hkw hcomma hstr
    refine ⟨?_, ?_, ?_⟩
    · intro hin
      have hcond := action_conditions_invalid t 0 0 x _ hin hbang hkw
      rw [config_action_after_conditions h d t _ 0 0 hcond]
      have hk2 : (g_scanner_get_next_token
          (⟨tSym G_TOKEN_EXEC :: tString cmd :: rest, false, tChar ']', true,
            if t.max_parse_errors then t.messages
            else t.messages ++ ["invalid condition in action"]⟩ : GScanner)).token.code ∈
          action_kinds_string := by
        show G_TOKEN_EXEC ∈ action_kinds_string
        decide
      rw [action_kind_string h d _ _ hk2, string_args_single _ cmd rest rfl hcomma hstr]
      rfl
    · intro hin
      have hcond := action_conditions_invalid t 0 0 x _ hin hbang hkw
      rw [config_action_after_conditions h d t _ 0 0 hcond]
      rfl
    · intro hin
      have hcond := action_conditions_invalid t 0 0 x _ hin hbang hkw
      rw [config_action_after_conditions h d t _ 0 0 hcond]
      rfl

/-- C35 on `[bogus] Focus` (NULL: the flag set by the condition list is still
set), `[bogus] Exec "x"` (an `Exec` action with command `x` and empty masks)
and `[bogus] "x"` (NULL). -/
theorem C35_action_discard_depends_on_flag_witness :
    (config_action sample_host none
        (g_scanner_new [tChar '[', tIdent "bogus", tChar ']', tSym G_TOKEN_FOCUS]) =
      .ok (g_scanner_get_next_token
          ⟨[tSym G_TOKEN_FOCUS], false, tChar ']', true, ["invalid condition in action"]⟩,
        if (GScanner.mk [tSym G_TOKEN_FOCUS] false (tChar ']') true
            ["invalid condition in action"]).max_parse_errors
        then none else some ⟨0, 0, G_TOKEN_FOCUS, none, none⟩) ∧
      ∃ s3 r, config_action sample_host none
          (g_scanner_new [tChar '[', tIdent "bogus", tChar ']', tSym G_TOKEN_FOCUS]) =
            .ok (s3, r) ∧
        (r = none ↔ (GScanner.mk [tSym G_TOKEN_FOCUS] false (tChar ']') true
          ["invalid condition in action"]).max_parse_errors = true)) ∧
    config_action sample_host none
        (g_scanner_new [tChar '[', tIdent "bogus", tChar ']', tSym G_TOKEN_FOCUS]) =
      .ok (⟨[], false, tSym G_TOKEN_FOCUS, true, ["invalid condition in action"]⟩, none) ∧
    config_action sample_host none
        (g_scanner_new [tChar '[', tIdent "bogus", tChar ']', tSym G_TOKEN_EXEC, tString "x"]) =
      .ok (⟨[], true, tString "x", false, ["invalid condition in action"]⟩,
        some ⟨0, 0, G_TOKEN_EXEC, none, some "x"⟩) ∧
    config_action sample_host none
        (g_scanner_new [tChar '[', tIdent "bogus", tChar ']', tString "x"]) =
      .ok (⟨[], false, tString "x", true, ["invalid condition in action"]⟩, none) ∧
    config_action sample_host none (g_scanner_new [tSym G_TOKEN_FOCUS]) =
      .ok (⟨[], false, tSym G_TOKEN_FOCUS, false, []⟩,
        some ⟨0, 0, G_TOKEN_FOCUS, none, none⟩) :=
  ⟨(C35_action_discard_depends_on_flag sample_host none
      (g_scanner_new [tChar '[', tIdent "bogus", tChar ']', tSym G_TOKEN_FOCUS])
      ⟨[tSym G_TOKEN_FOCUS], false, tChar ']', true, ["invalid condition in action"]⟩ 0 0
      (by decide!)).2.1 G_TOKEN_FOCUS (by decide) (by decide!),
    by decide!, by decide!, by decide!, by decide!⟩

/-- C22 (code defect): `config_trigger_action` declares `trigger` without a
value and frees it on its error return (config.c:1166, 1174).  When the token
behind a dispatched `TriggerAction` keyword is not a string literal, the first
step of the sequence does not write `trigger`, the error flag is set and
`g_free` receives the pointer that was never set: with any fuel
`config_parse_toplevel` stops there, and with no fuel at all does it come back
with end-of-input as the next token. -/
theorem C22_trigger_action_frees_uninitialised (h : Host) (b : Build) (n : Nat) (s : GScanner)
    (g : Globals) (toplevel : Bool) (w : Option Widget) (rest : List Token)
    (hin : s.input = tSym G_TOKEN_TRIGGERACTION :: rest)
    (hstr : (rest.headD eofToken).code ≠ G_TOKEN_STRING) :
    config_parse_toplevel h b (n + 1) s g toplevel w = .error .wild_free ∧
    (∀ m r, config_parse_toplevel h b m s g toplevel w ≠ .ok r) := by
  have hrun : ∀ k, config_parse_toplevel h b (k + 1) s g toplevel w = .error .wild_free := by
    intro k
    have hc : (g_scanner_peek_next_token s).next_token ≠ G_TOKEN_EOF := by
      rw [peek_next_token, head_of_input s _ _ hin]
      decide
    have htok : (g_scanner_get_next_token (g_scanner_peek_next_token s)).token.code =
        G_TOKEN_TRIGGERACTION := by
      rw [get_peek, get_token, head_of_input s _ _ hin]
      rfl
    have hhead : (g_scanner_get_next_token (g_scanner_peek_next_token s)).head.code ≠
        G_TOKEN_STRING := by
      have hh : (g_scanner_get_next_token (g_scanner_peek_next_token s)).head =
          rest.headD eofToken := by
        simp [GScanner.head, get_input, peek_input, hin]
      rw [hh]
      exact hstr
    have hpass : toplevel_pass h b k (g_scanner_get_next_token (g_scanner_peek_next_token s)) g
        toplevel w = .error .wild_free := by
      unfold toplevel_pass
      dsimp only
      rw [htok, trigger_action_wild h _ g hhead]
      rfl
    rw [toplevel_succ_pass, if_pos hc, hpass]
  refine ⟨hrun n, ?_⟩
  intro m r hr
  cases m with
  | zero =>
    have h0 : config_parse_toplevel h b 0 s g toplevel w = .error .fuel := rfl
    rw [h0] at hr
    cases hr
  | succ k =>
    rw [hrun k] at hr
    cases hr

/-- C22 on `TriggerAction Focus`, a stream without `Include`. -/
theorem C22_trigger_action_frees_uninitialised_witness :
    (config_parse_toplevel sample_host sample_build (3 + 1)
        (g_scanner_new [tSym G_TOKEN_TRIGGERACTION, tSym G_TOKEN_FOCUS]) Globals.init true none =
      .error .wild_free ∧
      (∀ m r, config_parse_toplevel sample_host sample_build m
        (g_scanner_new [tSym G_TOKEN_TRIGGERACTION, tSym G_TOKEN_FOCUS]) Globals.init true none ≠
          .ok r)) ∧
    [tSym G_TOKEN_TRIGGERACTION, tSym G_TOKEN_FOCUS].all
      (fun t => decide (t.code ≠ G_TOKEN_INCLUDE)) = true :=
  ⟨C22_trigger_action_frees_uninitialised sample_host sample_build 3
    (g_scanner_new [tSym G_TOKEN_TRIGGERACTION, tSym G_TOKEN_FOCUS]) Globals.init true none
    [tSym G_TOKEN_FOCUS] rfl (by decide), by decide⟩

end Sfwbar
